import Mathlib

/-!
# DFE Mixer driver (`xdfemix.c`): carrier / NCO allocation engine

A shallow embedding of the sequence algebra, the NCO sub-block capacity
checks, the carrier configuration builders and the register-level commit and
carrier operations of `XilinxProcessorIPLib/drivers/dfemix/src/xdfemix.c`,
followed by the properties established about them.

Conventions of the embedding:

* `u32` values are natural numbers, reduced modulo `2 ^ 32` wherever the C
  arithmetic can wrap; `s32` values are integers.
* C arrays are lists, read with `List.getD` and written with `List.set`.
* A `for` loop without an early exit is a left fold over `List.range n`
  whose state holds the loop-carried variables; a loop that can `return`
  or `break` is a recursive function on the number of remaining iterations.
* A function that mutates an object through a pointer returns the object's
  final value next to its status code.
* The registers behind `InstancePtr->Io` are a function from register addresses
  to values; a function that accesses registers takes them as an argument and,
  when it writes, returns them. The constants of `xdfemix_hw.h` are an
  argument `Hw`.
* A function of the register-level API whose assertions can fail returns
  `none` when one does.
-/

namespace DfeMix

/-! ## Constants and types -/

/-- Status codes returned by the driver functions (`XST_SUCCESS`, `XST_FAILURE`). -/
inductive XStatus where
  | XST_SUCCESS
  | XST_FAILURE
deriving DecidableEq, Repr

export XStatus (XST_SUCCESS XST_FAILURE)

/-- Modelled from the spec: `XDFEMIX_CC_NUM` is declared in `xdfemix.h`, which is
not among the sources; the spec fixes 16 carrier IDs and 16 sequence slots. -/
def XDFEMIX_CC_NUM : Nat := 16

/-- Modelled from the spec: `XDFEMIX_AUX_NCO_MAX` (declared in `xdfemix.h`); the
auxiliary NCOs are the four slots 16..19. -/
def XDFEMIX_AUX_NCO_MAX : Nat := 4

/-- Modelled from the spec: `XDFEMIX_NCO_MAX` (declared in `xdfemix.h`), the carrier
NCOs followed by the auxiliary ones. -/
def XDFEMIX_NCO_MAX : Nat := XDFEMIX_CC_NUM + XDFEMIX_AUX_NCO_MAX

/-- Modelled from the spec: `XDFEMIX_ANT_NUM_MAX` (declared in `xdfemix.h`), antenna
IDs range over 0..7. -/
def XDFEMIX_ANT_NUM_MAX : Nat := 8

/-- Null sequence entry flag, `#define XDFEMIX_SEQUENCE_ENTRY_NULL (-1)`. -/
def XDFEMIX_SEQUENCE_ENTRY_NULL : Int := -1

/-- NCO low sub-block size, `#define XDFEMIX_NCO_LOW_SUB_BLOCK_SIZE (4U)`. -/
def XDFEMIX_NCO_LOW_SUB_BLOCK_SIZE : Nat := 4

/-- Modelled from the spec: `XDFEMIX_CC_CONFIG_DISABLED` (declared in `xdfemix_hw.h`),
the rate code of a disabled carrier. -/
def XDFEMIX_CC_CONFIG_DISABLED : Nat := 0

/-- Modelled from the spec: `XDFEMIX_CC_CONFIG_RATE_1X` (declared in `xdfemix_hw.h`). -/
def XDFEMIX_CC_CONFIG_RATE_1X : Nat := 1

/-- Modelled from the spec: `XDFEMIX_CC_CONFIG_RATE_2X` (declared in `xdfemix_hw.h`). -/
def XDFEMIX_CC_CONFIG_RATE_2X : Nat := 2

/-- Modelled from the spec: `XDFEMIX_CC_CONFIG_RATE_4X` (declared in `xdfemix_hw.h`). -/
def XDFEMIX_CC_CONFIG_RATE_4X : Nat := 3

/-- Modelled from the spec: `XDFEMIX_CC_CONFIG_RATE_8X` (declared in `xdfemix_hw.h`). -/
def XDFEMIX_CC_CONFIG_RATE_8X : Nat := 4

/-- Modelled from the spec: `XDFEMIX_CC_CONFIG_RATE_16X` (declared in `xdfemix_hw.h`). -/
def XDFEMIX_CC_CONFIG_RATE_16X : Nat := 5

/-- Reduction of a natural number to the range of a C `u32`. -/
def u32 (n : Nat) : Nat := n % 2 ^ 32

/-- C `a - b` on `u32` operands. -/
def u32_sub (a b : Nat) : Nat := (u32 a + (2 ^ 32 - u32 b)) % 2 ^ 32

/-- C `~a` on a `u32` operand. -/
def u32_not (a : Nat) : Nat := 2 ^ 32 - 1 - u32 a

/-- Modelled from the spec: `XDfeMix_CCSequence` (declared in `xdfemix.h`): the
sequence length, the 16 slots (`-1` for an unused slot) and the smallest carrier
ID that is not in the sequence. -/
structure XDfeMix_CCSequence where
  Length : Nat
  CCID : List Int
  NotUsedCCID : Int
deriving DecidableEq, Repr, Inhabited

/-- Modelled from the spec: `XDfeMix_DUCDDCCfg` (declared in `xdfemix.h`): the NCO
index, rate code and gain of one carrier. -/
structure XDfeMix_DUCDDCCfg where
  NCOIdx : Nat
  Rate : Nat
  CCGain : Nat
deriving DecidableEq, Repr, Inhabited

/-- Modelled from the spec: `XDfeMix_CarrierCfg` (declared in `xdfemix.h`). -/
structure XDfeMix_CarrierCfg where
  DUCDDCCfg : XDfeMix_DUCDDCCfg
deriving DecidableEq, Repr, Inhabited

/-- Modelled from the spec: `XDfeMix_PhaseOffset` (declared in `xdfemix.h`). -/
structure XDfeMix_PhaseOffset where
  PhaseOffset : Nat
deriving DecidableEq, Repr, Inhabited

/-- Modelled from the spec: `XDfeMix_Frequency` (declared in `xdfemix.h`), with the
fields the source reads and writes. -/
structure XDfeMix_Frequency where
  FrequencyControlWord : Nat
  SingleModCount : Nat
  DualModCount : Nat
  PhaseOffset : XDfeMix_PhaseOffset
  TriggerUpdateFlag : Nat
deriving DecidableEq, Repr, Inhabited

/-- Modelled from the spec: `XDfeMix_Phase` (declared in `xdfemix.h`), with the
fields the source reads and writes. -/
structure XDfeMix_Phase where
  PhaseAcc : Nat
  DualModCount : Nat
  DualModSel : Nat
  TriggerUpdateFlag : Nat
deriving DecidableEq, Repr, Inhabited

/-- Modelled from the spec: `XDfeMix_NCO` (declared in `xdfemix.h`). -/
structure XDfeMix_NCO where
  FrequencyCfg : XDfeMix_Frequency
  PhaseCfg : XDfeMix_Phase
  NCOGain : Nat
deriving DecidableEq, Repr, Inhabited

/-- Modelled from the spec: `XDfeMix_AuxiliaryCfg` (declared in `xdfemix.h`). -/
structure XDfeMix_AuxiliaryCfg where
  Enable : Nat
  AuxGain : Nat
deriving DecidableEq, Repr, Inhabited

/-- Modelled from the spec: `XDfeMix_AntennaCfg` (declared in `xdfemix.h`). -/
structure XDfeMix_AntennaCfg where
  Gain : List Nat
deriving DecidableEq, Repr, Inhabited

/-- Modelled from the spec: `XDfeMix_CCCfg` (declared in `xdfemix.h`), the full
configuration snapshot. -/
structure XDfeMix_CCCfg where
  Sequence : XDfeMix_CCSequence
  DUCDDCCfg : List XDfeMix_DUCDDCCfg
  NCO : List XDfeMix_NCO
  AntennaCfg : XDfeMix_AntennaCfg
  AuxiliaryCfg : List XDfeMix_AuxiliaryCfg
deriving DecidableEq, Repr, Inhabited

/-- Modelled from the spec: `XDfeMix_ModelParameters` (declared in `xdfemix.h`), the
fixed hardware model parameters read by `XDfeMix_Configure`. -/
structure XDfeMix_ModelParameters where
  Mode : Nat
  NumAntenna : Nat
  MaxUseableCcids : Nat
  Lanes : Nat
  AntennaInterleave : Nat
  MixerCps : Nat
  NumAuxiliary : Nat
  DataIWidth : Nat
  DataOWidth : Nat
  TUserWidth : Nat
deriving DecidableEq, Repr, Inhabited

/-- Instance states of the driver (`XDfeMix_StateId`, declared in `xdfemix.h`). -/
inductive XDfeMix_StateId where
  | XDFEMIX_STATE_NOT_READY
  | XDFEMIX_STATE_READY
  | XDFEMIX_STATE_RESET
  | XDFEMIX_STATE_CONFIGURED
  | XDFEMIX_STATE_INITIALISED
  | XDFEMIX_STATE_OPERATIONAL
deriving DecidableEq, Repr, Inhabited

/-- Modelled from the spec: the driver instance `XDfeMix` (declared in `xdfemix.h`),
with the fields the allocation engine reads and writes. -/
structure XDfeMix where
  Config : XDfeMix_ModelParameters
  StateId : XDfeMix_StateId
  NotUsedCCID : Int
  NotUsedCCID_UL : Int
  SequenceLength : Nat
deriving DecidableEq, Repr, Inhabited

/-- `XDFEMIX_IS_ARCH4_MODE`: `MaxUseableCcids == 8U && Lanes > 1U`. -/
def XDFEMIX_IS_ARCH4_MODE (InstancePtr : XDfeMix) : Bool :=
  InstancePtr.Config.MaxUseableCcids == 8 && decide (InstancePtr.Config.Lanes > 1)

/-- `XDFEMIX_IS_ARCH5_MODE`: `MaxUseableCcids == 16U`. -/
def XDFEMIX_IS_ARCH5_MODE (InstancePtr : XDfeMix) : Bool :=
  InstancePtr.Config.MaxUseableCcids == 16

/-! ## Mixer common functions -/

/-- Inner loop of `XDfeMix_GetNotUsedCCID`: scans `Index` upwards and stops
(`break`) at the first entry equal to `NotUsedCCID`; yields the value of `Index`
when the loop is left. -/
def XDfeMix_GetNotUsedCCID_inner (CCID : List Int) (NotUsedCCID : Int) : Nat → Nat → Nat
  | 0, Index => Index
  | fuel + 1, Index =>
    if CCID.getD Index 0 = NotUsedCCID then Index
    else XDfeMix_GetNotUsedCCID_inner CCID NotUsedCCID fuel (Index + 1)

/-- Outer loop of `XDfeMix_GetNotUsedCCID`: tries the candidates upwards and stops
(`break`) at the first one for which the inner loop ran to `XDFEMIX_CC_NUM`. -/
def XDfeMix_GetNotUsedCCID_outer (CCID : List Int) : Nat → Int → Int
  | 0, NotUsedCCID => NotUsedCCID
  | fuel + 1, NotUsedCCID =>
    if XDfeMix_GetNotUsedCCID_inner CCID NotUsedCCID XDFEMIX_CC_NUM 0 = XDFEMIX_CC_NUM then
      NotUsedCCID
    else XDfeMix_GetNotUsedCCID_outer CCID fuel (NotUsedCCID + 1)

/-- `XDfeMix_GetNotUsedCCID`: finds the unused CCID. -/
def XDfeMix_GetNotUsedCCID (Sequence : XDfeMix_CCSequence) : Int :=
  XDfeMix_GetNotUsedCCID_outer Sequence.CCID XDFEMIX_CC_NUM 0

/-- Body of the loop of `XDfeMix_CountOnesInBitmap`; the state is
`(Mask, OnesCounter)`. -/
def XDfeMix_CountOnesInBitmap_step (CCSeqBitmap : Nat) (st : Nat × Nat) (_Index : Nat) :
    Nat × Nat :=
  (u32 (st.1 <<< 1), if CCSeqBitmap &&& st.1 ≠ 0 then st.2 + 1 else st.2)

/-- `XDfeMix_CountOnesInBitmap`: counts the ones of the bitmap in the first
`SequenceLength` bit positions. -/
def XDfeMix_CountOnesInBitmap (InstancePtr : XDfeMix) (CCSeqBitmap : Nat) : Nat :=
  ((List.range InstancePtr.SequenceLength).foldl
    (XDfeMix_CountOnesInBitmap_step CCSeqBitmap) (1, 0)).2

/-- Body of the bitmap loop of `XDfeMix_GetCarrierCfgAndNCO`; the state is
`(Mask, CCSeqBitmap)`. -/
def XDfeMix_GetCarrierCfgAndNCO_step (CCCfg : XDfeMix_CCCfg) (CCID : Int) (st : Nat × Nat)
    (Index : Nat) : Nat × Nat :=
  (u32 (st.1 <<< 1), if CCCfg.Sequence.CCID.getD Index 0 = CCID then st.2 ||| st.1 else st.2)

/-- `XDfeMix_GetCarrierCfgAndNCO`: returns the sequence bitmap of `CCID`, its
carrier configuration and its NCO. The argument `CarrierCfg` is the content of the
output container before the call (only its `NCOIdx` and `CCGain` are written). The
asserted preconditions (non-null pointers, `CCID < XDFEMIX_CC_NUM`) are assumed. -/
def XDfeMix_GetCarrierCfgAndNCO (_InstancePtr : XDfeMix) (CCCfg : XDfeMix_CCCfg) (CCID : Int)
    (CarrierCfg : XDfeMix_CarrierCfg) : Nat × XDfeMix_CarrierCfg × XDfeMix_NCO :=
  let Src := CCCfg.DUCDDCCfg.getD CCID.toNat default
  let CarrierCfg1 : XDfeMix_CarrierCfg :=
    { DUCDDCCfg := { CarrierCfg.DUCDDCCfg with NCOIdx := Src.NCOIdx, CCGain := Src.CCGain } }
  let NCO := CCCfg.NCO.getD Src.NCOIdx default
  let CCSeqBitmap := ((List.range CCCfg.Sequence.Length).foldl
    (XDfeMix_GetCarrierCfgAndNCO_step CCCfg CCID) (1, 0)).2
  (CCSeqBitmap, CarrierCfg1, NCO)

/-- Body of the loop of `XDfeMix_NCOArch4Mode` over the carrier IDs; the state is
`(NCOLowSubBlockUsage, NCOHighSubBlockUsage)`. -/
def XDfeMix_NCOArch4Mode_step (InstancePtr : XDfeMix) (CCCfg : XDfeMix_CCCfg) (st : Nat × Nat)
    (Index : Nat) : Nat × Nat :=
  if (CCCfg.DUCDDCCfg.getD Index default).Rate = 0 then st
  else
    let CCSeqBitmapTmp := (XDfeMix_GetCarrierCfgAndNCO InstancePtr CCCfg Index default).1
    if (CCCfg.DUCDDCCfg.getD Index default).NCOIdx < XDFEMIX_NCO_LOW_SUB_BLOCK_SIZE then
      (u32 (st.1 + XDfeMix_CountOnesInBitmap InstancePtr CCSeqBitmapTmp), st.2)
    else
      (st.1, u32 (st.2 + XDfeMix_CountOnesInBitmap InstancePtr CCSeqBitmapTmp))

/-- `XDfeMix_NCOArch4Mode`: basic calculation for the NCO sub-blocks in ARCH4 mode.
The two usage counters are passed in and returned (they are accumulated through
pointers). -/
def XDfeMix_NCOArch4Mode (InstancePtr : XDfeMix) (CCCfg : XDfeMix_CCCfg)
    (NCOLowSubBlockUsage NCOHighSubBlockUsage : Nat) : XStatus × Nat × Nat :=
  let r := (List.range XDFEMIX_CC_NUM).foldl (XDfeMix_NCOArch4Mode_step InstancePtr CCCfg)
    (NCOLowSubBlockUsage, NCOHighSubBlockUsage)
  (XST_SUCCESS, r.1, r.2)

/-- `XDfeMix_NCOArch4ModeInAddCC`: checks whether the NCO usage is over 50% of the
maximum for the NCO sub-block. -/
def XDfeMix_NCOArch4ModeInAddCC (InstancePtr : XDfeMix) (CCCfg : XDfeMix_CCCfg) (_CCID : Int)
    (CCSeqBitmap NCOIdx : Nat) : XStatus :=
  let r := XDfeMix_NCOArch4Mode InstancePtr CCCfg 0 0
  if r.1 = XST_FAILURE then XST_FAILURE
  else
    let NCOLowSubBlockUsage := r.2.1
    let NCOHighSubBlockUsage := r.2.2
    let NCOSubBlockUsage :=
      if NCOIdx < XDFEMIX_NCO_LOW_SUB_BLOCK_SIZE then
        u32 (NCOLowSubBlockUsage + XDfeMix_CountOnesInBitmap InstancePtr CCSeqBitmap)
      else
        u32 (NCOHighSubBlockUsage + XDfeMix_CountOnesInBitmap InstancePtr CCSeqBitmap)
    if u32 (NCOSubBlockUsage * 2) > InstancePtr.SequenceLength then XST_FAILURE
    else XST_SUCCESS

/-- `XDfeMix_NCOArch4ModeInMoveOrUpdateCC`: checks whether the NCO usage is over 50%
of the maximum for the NCO sub-block when a carrier changes its NCO. -/
def XDfeMix_NCOArch4ModeInMoveOrUpdateCC (InstancePtr : XDfeMix) (CCCfg : XDfeMix_CCCfg)
    (CCID : Int) (NCOIdx : Nat) : XStatus :=
  let r := XDfeMix_NCOArch4Mode InstancePtr CCCfg 0 0
  if r.1 = XST_FAILURE then XST_FAILURE
  else
    let NCOLowSubBlockUsage := r.2.1
    let NCOHighSubBlockUsage := r.2.2
    let CCSeqBitmapTmp := (XDfeMix_GetCarrierCfgAndNCO InstancePtr CCCfg CCID default).1
    let Old := (CCCfg.DUCDDCCfg.getD CCID.toNat default).NCOIdx
    if NCOIdx < XDFEMIX_NCO_LOW_SUB_BLOCK_SIZE ∧ Old ≥ XDFEMIX_NCO_LOW_SUB_BLOCK_SIZE then
      let NCOSubBlockUsage :=
        u32 (NCOLowSubBlockUsage + XDfeMix_CountOnesInBitmap InstancePtr CCSeqBitmapTmp)
      if u32 (NCOSubBlockUsage * 2) > InstancePtr.SequenceLength then XST_FAILURE
      else XST_SUCCESS
    else if NCOIdx ≥ XDFEMIX_NCO_LOW_SUB_BLOCK_SIZE ∧ Old < XDFEMIX_NCO_LOW_SUB_BLOCK_SIZE then
      let NCOSubBlockUsage :=
        u32 (NCOHighSubBlockUsage + XDfeMix_CountOnesInBitmap InstancePtr CCSeqBitmapTmp)
      if u32 (NCOSubBlockUsage * 2) > InstancePtr.SequenceLength then XST_FAILURE
      else XST_SUCCESS
    else XST_SUCCESS

/-- The four usage counters of `XDfeMix_NCOArch5Mode` (banks 0-3, 4-7, 8-11, 12-15). -/
structure Arch5Usage where
  NCOBank0SubBlockUsage : Nat
  NCOBank1SubBlockUsage : Nat
  NCOBank2SubBlockUsage : Nat
  NCOBank3SubBlockUsage : Nat
deriving DecidableEq, Repr, Inhabited

/-- Body of the loop of `XDfeMix_NCOArch5Mode` over the carrier IDs. -/
def XDfeMix_NCOArch5Mode_step (InstancePtr : XDfeMix) (CCCfg : XDfeMix_CCCfg) (st : Arch5Usage)
    (Index : Nat) : Arch5Usage :=
  if (CCCfg.DUCDDCCfg.getD Index default).Rate = 0 then st
  else
    let CCSeqBitmapTmp := (XDfeMix_GetCarrierCfgAndNCO InstancePtr CCCfg Index default).1
    let Ones := XDfeMix_CountOnesInBitmap InstancePtr CCSeqBitmapTmp
    let Idx := (CCCfg.DUCDDCCfg.getD Index default).NCOIdx
    if Idx < 1 * XDFEMIX_NCO_LOW_SUB_BLOCK_SIZE then
      { st with NCOBank0SubBlockUsage := u32 (st.NCOBank0SubBlockUsage + Ones) }
    else if Idx < 2 * XDFEMIX_NCO_LOW_SUB_BLOCK_SIZE then
      { st with NCOBank1SubBlockUsage := u32 (st.NCOBank1SubBlockUsage + Ones) }
    else if Idx < 3 * XDFEMIX_NCO_LOW_SUB_BLOCK_SIZE then
      { st with NCOBank2SubBlockUsage := u32 (st.NCOBank2SubBlockUsage + Ones) }
    else
      { st with NCOBank3SubBlockUsage := u32 (st.NCOBank3SubBlockUsage + Ones) }

/-- `XDfeMix_NCOArch5Mode`: basic calculation for the NCO sub-blocks in ARCH5 mode.
The usage counters are passed in and returned (they are accumulated through
pointers). -/
def XDfeMix_NCOArch5Mode (InstancePtr : XDfeMix) (CCCfg : XDfeMix_CCCfg) (Usage : Arch5Usage) :
    XStatus × Arch5Usage :=
  (XST_SUCCESS,
    (List.range XDFEMIX_CC_NUM).foldl (XDfeMix_NCOArch5Mode_step InstancePtr CCCfg) Usage)

/-- `XDfeMix_NCOArch5ModeInAddCC`: ARCH5 check whether the NCO usage is over 25% of
the maximum for the NCO sub-block. -/
def XDfeMix_NCOArch5ModeInAddCC (InstancePtr : XDfeMix) (CCCfg : XDfeMix_CCCfg) (_CCID : Int)
    (CCSeqBitmap NCOIdx : Nat) : XStatus :=
  let r := XDfeMix_NCOArch5Mode InstancePtr CCCfg ⟨0, 0, 0, 0⟩
  if r.1 = XST_FAILURE then XST_FAILURE
  else
    let Ones := XDfeMix_CountOnesInBitmap InstancePtr CCSeqBitmap
    let NCOSubBlockUsage :=
      if NCOIdx < 1 * XDFEMIX_NCO_LOW_SUB_BLOCK_SIZE then
        u32 (r.2.NCOBank0SubBlockUsage + Ones)
      else if NCOIdx < 2 * XDFEMIX_NCO_LOW_SUB_BLOCK_SIZE then
        u32 (r.2.NCOBank1SubBlockUsage + Ones)
      else if NCOIdx < 3 * XDFEMIX_NCO_LOW_SUB_BLOCK_SIZE then
        u32 (r.2.NCOBank2SubBlockUsage + Ones)
      else
        u32 (r.2.NCOBank3SubBlockUsage + Ones)
    if u32 (NCOSubBlockUsage * 4) > InstancePtr.SequenceLength then XST_FAILURE
    else XST_SUCCESS

/-- `XDfeMix_NCOArch5ModeInMoveOrUpdateCC`: ARCH5 check whether the NCO usage is over
25% of the maximum for the NCO sub-block when a carrier changes its NCO. -/
def XDfeMix_NCOArch5ModeInMoveOrUpdateCC (InstancePtr : XDfeMix) (CCCfg : XDfeMix_CCCfg)
    (CCID : Int) (NCOIdx : Nat) : XStatus :=
  let r := XDfeMix_NCOArch5Mode InstancePtr CCCfg ⟨0, 0, 0, 0⟩
  if r.1 = XST_FAILURE then XST_FAILURE
  else
    let CCSeqBitmapTmp := (XDfeMix_GetCarrierCfgAndNCO InstancePtr CCCfg CCID default).1
    let Ones := XDfeMix_CountOnesInBitmap InstancePtr CCSeqBitmapTmp
    let Old := (CCCfg.DUCDDCCfg.getD CCID.toNat default).NCOIdx
    if NCOIdx < 1 * XDFEMIX_NCO_LOW_SUB_BLOCK_SIZE ∧
        Old ≥ 1 * XDFEMIX_NCO_LOW_SUB_BLOCK_SIZE then
      if u32 (u32 (r.2.NCOBank0SubBlockUsage + Ones) * 4) > InstancePtr.SequenceLength then
        XST_FAILURE
      else XST_SUCCESS
    else if NCOIdx < 2 * XDFEMIX_NCO_LOW_SUB_BLOCK_SIZE ∧
        Old ≥ 2 * XDFEMIX_NCO_LOW_SUB_BLOCK_SIZE then
      if u32 (u32 (r.2.NCOBank1SubBlockUsage + Ones) * 4) > InstancePtr.SequenceLength then
        XST_FAILURE
      else XST_SUCCESS
    else if NCOIdx < 3 * XDFEMIX_NCO_LOW_SUB_BLOCK_SIZE ∧
        Old ≥ 3 * XDFEMIX_NCO_LOW_SUB_BLOCK_SIZE then
      if u32 (u32 (r.2.NCOBank2SubBlockUsage + Ones) * 4) > InstancePtr.SequenceLength then
        XST_FAILURE
      else XST_SUCCESS
    else if NCOIdx < 4 * XDFEMIX_NCO_LOW_SUB_BLOCK_SIZE then
      if u32 (u32 (r.2.NCOBank3SubBlockUsage + Ones) * 4) > InstancePtr.SequenceLength then
        XST_FAILURE
      else XST_SUCCESS
    else XST_SUCCESS

/-- Availability loop of `XDfeMix_AddCCIDAndTranslateSeq`: `false` when it returns
`XST_FAILURE` at a slot selected by the bitmap that is not `-1`, `true` when it runs
to the end. -/
def XDfeMix_AddCCIDAndTranslateSeq_fits (CCSeqBitmap : Nat) (CCID : List Int) :
    Nat → Nat → Nat → Bool
  | 0, _, _ => true
  | fuel + 1, Index, Mask =>
    if 0 ≠ CCSeqBitmap &&& Mask ∧ CCID.getD Index 0 ≠ XDFEMIX_SEQUENCE_ENTRY_NULL then false
    else XDfeMix_AddCCIDAndTranslateSeq_fits CCSeqBitmap CCID fuel (Index + 1) (u32 (Mask <<< 1))

/-- Body of the write loop of `XDfeMix_AddCCIDAndTranslateSeq`; the state is
`(Mask, CCID array)`. -/
def XDfeMix_AddCCIDAndTranslateSeq_write (CCID : Int) (CCSeqBitmap : Nat) (st : Nat × List Int)
    (Index : Nat) : Nat × List Int :=
  (u32 (st.1 <<< 1), if 0 ≠ CCSeqBitmap &&& st.1 then st.2.set Index CCID else st.2)

/-- `XDfeMix_AddCCIDAndTranslateSeq`: adds the specified CCID to the CC sequence at
the slots given by `CCSeqBitmap` and saves the smallest not used CC ID. Returns the
status and the sequence as the call leaves it. -/
def XDfeMix_AddCCIDAndTranslateSeq (InstancePtr : XDfeMix) (CCID : Int) (CCSeqBitmap : Nat)
    (CCIDSequence : XDfeMix_CCSequence) : XStatus × XDfeMix_CCSequence :=
  let Mask := u32_sub (u32 (1 <<< CCIDSequence.Length)) 1
  if 0 ≠ CCSeqBitmap &&& u32_not Mask then (XST_FAILURE, CCIDSequence)
  else
    let OnesCounter := XDfeMix_CountOnesInBitmap InstancePtr CCSeqBitmap
    if OnesCounter ≠ 0 ∧ OnesCounter ≠ 1 ∧ OnesCounter ≠ 2 ∧ OnesCounter ≠ 4 ∧
        OnesCounter ≠ 8 ∧ OnesCounter ≠ 16 then (XST_FAILURE, CCIDSequence)
    else if XDfeMix_AddCCIDAndTranslateSeq_fits CCSeqBitmap CCIDSequence.CCID
        CCIDSequence.Length 0 1 = false then (XST_FAILURE, CCIDSequence)
    else
      let Written : XDfeMix_CCSequence :=
        { CCIDSequence with
          CCID := ((List.range CCIDSequence.Length).foldl
            (XDfeMix_AddCCIDAndTranslateSeq_write CCID CCSeqBitmap)
            (1, CCIDSequence.CCID)).2 }
      (XST_SUCCESS, { Written with NotUsedCCID := XDfeMix_GetNotUsedCCID Written })

/-- Body of the loop of `XDfeMix_RemoveCCID`. -/
def XDfeMix_RemoveCCID_step (CCID : Int) (Slots : List Int) (Index : Nat) : List Int :=
  if Slots.getD Index 0 = CCID then Slots.set Index XDFEMIX_SEQUENCE_ENTRY_NULL else Slots

/-- `XDfeMix_RemoveCCID`: removes the specified CCID from the CC sequence, replaces
its entries with null and saves the smallest not used CC ID. -/
def XDfeMix_RemoveCCID (CCID : Int) (CCIDSequence : XDfeMix_CCSequence) : XDfeMix_CCSequence :=
  let Cleared : XDfeMix_CCSequence :=
    { CCIDSequence with
      CCID := (List.range CCIDSequence.Length).foldl (XDfeMix_RemoveCCID_step CCID)
        CCIDSequence.CCID }
  { Cleared with NotUsedCCID := XDfeMix_GetNotUsedCCID Cleared }

/-! ## Low level functions -/

/-- `XDfeMix_FindRate`: detects the rate code from the sequence bitmap. Returns the
status and the value of `*Rate` as the call leaves it (`Rate` is its value before
the call). A zero `MixerCps` (a division by zero in C) is outside the model. -/
def XDfeMix_FindRate (InstancePtr : XDfeMix) (CCSeqBitmap : Nat) (Rate : Nat) : XStatus × Nat :=
  if CCSeqBitmap &&& u32_sub (u32 (1 <<< InstancePtr.SequenceLength)) 1 ≠ CCSeqBitmap then
    (XST_FAILURE, Rate)
  else
    let OnesCounter := ((List.range InstancePtr.SequenceLength).foldl
      (XDfeMix_CountOnesInBitmap_step CCSeqBitmap) (1, 0)).2
    if OnesCounter ≠ 0 ∧ OnesCounter ≠ 1 ∧ OnesCounter ≠ 2 ∧ OnesCounter ≠ 4 ∧
        OnesCounter ≠ 8 ∧ OnesCounter ≠ 16 then (XST_FAILURE, Rate)
    else if OnesCounter = 0 then (XST_SUCCESS, 0)
    else
      let ConversionRatio :=
        u32 (InstancePtr.Config.AntennaInterleave * (InstancePtr.SequenceLength / OnesCounter)) /
          InstancePtr.Config.MixerCps
      if ConversionRatio = 1 then (XST_SUCCESS, XDFEMIX_CC_CONFIG_RATE_1X)
      else if ConversionRatio = 2 then (XST_SUCCESS, XDFEMIX_CC_CONFIG_RATE_2X)
      else if ConversionRatio = 4 then (XST_SUCCESS, XDFEMIX_CC_CONFIG_RATE_4X)
      else if ConversionRatio = 8 then (XST_SUCCESS, XDFEMIX_CC_CONFIG_RATE_8X)
      else if ConversionRatio = 16 then (XST_SUCCESS, XDFEMIX_CC_CONFIG_RATE_16X)
      else (XST_FAILURE, Rate)

/-- `XDfeMix_SetCCDDC`: sets rate and NCO in the DUC-DDC configuration for CCID. -/
def XDfeMix_SetCCDDC (InstancePtr : XDfeMix) (CCCfg : XDfeMix_CCCfg) (CCID : Int)
    (CCSeqBitmap : Nat) (DUCDDCCfg : XDfeMix_DUCDDCCfg) : XStatus × XDfeMix_CCCfg :=
  if DUCDDCCfg.NCOIdx ≥ InstancePtr.Config.MaxUseableCcids then (XST_FAILURE, CCCfg)
  else
    let r := XDfeMix_FindRate InstancePtr CCSeqBitmap 0
    if r.1 = XST_FAILURE then (XST_FAILURE, CCCfg)
    else
      (XST_SUCCESS,
        { CCCfg with
          DUCDDCCfg := CCCfg.DUCDDCCfg.set CCID.toNat
            { NCOIdx := DUCDDCCfg.NCOIdx, Rate := r.2, CCGain := DUCDDCCfg.CCGain } })

/-- `XDfeMix_UpdateCCDDC`: updates the NCO in the DUC-DDC configuration for CCID. -/
def XDfeMix_UpdateCCDDC (InstancePtr : XDfeMix) (CCCfg : XDfeMix_CCCfg) (CCID : Int)
    (DUCDDCCfg : XDfeMix_DUCDDCCfg) : XStatus × XDfeMix_CCCfg :=
  if DUCDDCCfg.NCOIdx ≥ InstancePtr.Config.MaxUseableCcids then (XST_FAILURE, CCCfg)
  else
    (XST_SUCCESS,
      { CCCfg with
        DUCDDCCfg := CCCfg.DUCDDCCfg.set CCID.toNat
          { CCCfg.DUCDDCCfg.getD CCID.toNat default with
            NCOIdx := DUCDDCCfg.NCOIdx, CCGain := DUCDDCCfg.CCGain } })

/-- The "is NCOId already used" loop of `XDfeMix_CheckCarrierCfg`, over the values of
`Index` still to be visited: `XST_FAILURE` at the first enabled carrier that has the
NCO index. -/
def XDfeMix_CheckCarrierCfg_loop (CCCfg : XDfeMix_CCCfg) (NCOIdx : Nat) : List Nat → XStatus
  | [] => XST_SUCCESS
  | Index :: rest =>
    if (CCCfg.DUCDDCCfg.getD Index default).NCOIdx = NCOIdx ∧
        (CCCfg.DUCDDCCfg.getD Index default).Rate ≠ XDFEMIX_CC_CONFIG_DISABLED then XST_FAILURE
    else XDfeMix_CheckCarrierCfg_loop CCCfg NCOIdx rest

/-- `XDfeMix_CheckCarrierCfg`: checks whether the NCO index is valid and whether it
is already used. -/
def XDfeMix_CheckCarrierCfg (InstancePtr : XDfeMix) (CCCfg : XDfeMix_CCCfg) (NCOIdx : Nat) :
    XStatus :=
  if NCOIdx ≥ InstancePtr.Config.MaxUseableCcids then XST_FAILURE
  else XDfeMix_CheckCarrierCfg_loop CCCfg NCOIdx (List.range InstancePtr.SequenceLength)

/-- `XDfeMix_CheckCarrierCfginAddCC`: checks whether CCID and NCOIdx are already used
when adding a CC, and the ARCH4 and ARCH5 mode validity. -/
def XDfeMix_CheckCarrierCfginAddCC (InstancePtr : XDfeMix) (CCCfg : XDfeMix_CCCfg) (CCID : Int)
    (CCSeqBitmap NCOIdx : Nat) : XStatus :=
  if (CCCfg.DUCDDCCfg.getD CCID.toNat default).Rate ≠ XDFEMIX_CC_CONFIG_DISABLED then XST_FAILURE
  else if XDfeMix_CheckCarrierCfg InstancePtr CCCfg NCOIdx = XST_FAILURE then XST_FAILURE
  else if XDFEMIX_IS_ARCH4_MODE InstancePtr then
    if XDfeMix_NCOArch4ModeInAddCC InstancePtr CCCfg CCID CCSeqBitmap NCOIdx = XST_FAILURE then
      XST_FAILURE
    else XST_SUCCESS
  else if XDFEMIX_IS_ARCH5_MODE InstancePtr then
    if XDfeMix_NCOArch5ModeInAddCC InstancePtr CCCfg CCID CCSeqBitmap NCOIdx = XST_FAILURE then
      XST_FAILURE
    else XST_SUCCESS
  else XST_SUCCESS

/-- `XDfeMix_CheckCarrierCfgInUpdateCC`: checks whether CCID and NCOIdx are already
used when updating a CC, and the ARCH4 and ARCH5 mode validity. -/
def XDfeMix_CheckCarrierCfgInUpdateCC (InstancePtr : XDfeMix) (CCCfg : XDfeMix_CCCfg)
    (CCID : Int) (NCOIdx : Nat) : XStatus :=
  if XDfeMix_CheckCarrierCfg InstancePtr CCCfg NCOIdx = XST_FAILURE then XST_FAILURE
  else if XDFEMIX_IS_ARCH4_MODE InstancePtr then
    if XDfeMix_NCOArch4ModeInMoveOrUpdateCC InstancePtr CCCfg CCID NCOIdx = XST_FAILURE then
      XST_FAILURE
    else XST_SUCCESS
  else if XDFEMIX_IS_ARCH5_MODE InstancePtr then
    if XDfeMix_NCOArch5ModeInMoveOrUpdateCC InstancePtr CCCfg CCID NCOIdx = XST_FAILURE then
      XST_FAILURE
    else XST_SUCCESS
  else XST_SUCCESS

/-! ## Carrier configuration builders -/

/-- `XDfeMix_GetEmptyCCCfg`: a configuration with the instance's sequence length,
every slot not used (`-1`) and every other member zero. -/
def XDfeMix_GetEmptyCCCfg (InstancePtr : XDfeMix) : XDfeMix_CCCfg :=
  { Sequence :=
      { Length := InstancePtr.SequenceLength
        CCID := List.replicate XDFEMIX_CC_NUM XDFEMIX_SEQUENCE_ENTRY_NULL
        NotUsedCCID := 0 }
    DUCDDCCfg := List.replicate XDFEMIX_CC_NUM ⟨0, 0, 0⟩
    NCO := List.replicate XDFEMIX_NCO_MAX ⟨⟨0, 0, 0, ⟨0⟩, 0⟩, ⟨0, 0, 0, 0⟩, 0⟩
    AntennaCfg := ⟨List.replicate XDFEMIX_ANT_NUM_MAX 0⟩
    AuxiliaryCfg := List.replicate XDFEMIX_AUX_NCO_MAX ⟨0, 0⟩ }

/-- `XDfeMix_AddCCtoCCCfg`: adds the specified CCID, with the specified
configuration, to a local CC configuration structure. Returns the status and the
configuration as the call leaves it. The asserted preconditions (non-null pointers,
`CCID < XDFEMIX_CC_NUM`) are assumed. -/
def XDfeMix_AddCCtoCCCfg (InstancePtr : XDfeMix) (CCCfg : XDfeMix_CCCfg) (CCID : Int)
    (CCSeqBitmap : Nat) (CarrierCfg : XDfeMix_CarrierCfg) (NCO : XDfeMix_NCO) :
    XStatus × XDfeMix_CCCfg :=
  if XDfeMix_CheckCarrierCfginAddCC InstancePtr CCCfg CCID CCSeqBitmap
      CarrierCfg.DUCDDCCfg.NCOIdx = XST_FAILURE then (XST_FAILURE, CCCfg)
  else
    let a := XDfeMix_AddCCIDAndTranslateSeq InstancePtr CCID CCSeqBitmap CCCfg.Sequence
    let CCCfg1 : XDfeMix_CCCfg := { CCCfg with Sequence := a.2 }
    if a.1 = XST_FAILURE then (XST_FAILURE, CCCfg1)
    else
      let s := XDfeMix_SetCCDDC InstancePtr CCCfg1 CCID CCSeqBitmap CarrierCfg.DUCDDCCfg
      if s.1 = XST_FAILURE then (XST_FAILURE, s.2)
      else
        (XST_SUCCESS,
          { s.2 with
            NCO := s.2.NCO.set (s.2.DUCDDCCfg.getD CCID.toNat default).NCOIdx NCO })

/-- `XDfeMix_RemoveCCfromCCCfg`: removes the specified CCID from a local CC
configuration structure; its slots in the sequence are set to `-1`. -/
def XDfeMix_RemoveCCfromCCCfg (_InstancePtr : XDfeMix) (CCCfg : XDfeMix_CCCfg) (CCID : Int) :
    XDfeMix_CCCfg :=
  let CCCfg1 : XDfeMix_CCCfg := { CCCfg with Sequence := XDfeMix_RemoveCCID CCID CCCfg.Sequence }
  { CCCfg1 with
    DUCDDCCfg := CCCfg1.DUCDDCCfg.set CCID.toNat
      { CCCfg1.DUCDDCCfg.getD CCID.toNat default with Rate := 0 } }

/-- `XDfeMix_UpdateCCinCCCfg`: updates the specified CCID, with the specified
configuration, in a local CC configuration structure. -/
def XDfeMix_UpdateCCinCCCfg (InstancePtr : XDfeMix) (CCCfg : XDfeMix_CCCfg) (CCID : Int)
    (CarrierCfg : XDfeMix_CarrierCfg) : XStatus × XDfeMix_CCCfg :=
  if XDfeMix_CheckCarrierCfgInUpdateCC InstancePtr CCCfg CCID
      CarrierCfg.DUCDDCCfg.NCOIdx = XST_FAILURE then (XST_FAILURE, CCCfg)
  else
    let s := XDfeMix_UpdateCCDDC InstancePtr CCCfg CCID CarrierCfg.DUCDDCCfg
    if s.1 = XST_FAILURE then (XST_FAILURE, s.2) else (XST_SUCCESS, s.2)

/-! ## Specification-level definitions

The quantities the properties below are stated with. -/

/-- Bit `i` of a bitmap as a `Mask` loop sees it: the mask is zero from the 32nd
iteration on. -/
def maskBit (B i : Nat) : Bool := decide (i < 32) && B.testBit i

/-- Slot `i` of the snapshot holds a carrier ID in `0..n-1` whose descriptor
satisfies `P`. -/
def heldBelow (CCCfg : XDfeMix_CCCfg) (P : XDfeMix_DUCDDCCfg → Bool) (n i : Nat) : Bool :=
  decide (0 ≤ CCCfg.Sequence.CCID.getD i 0) && decide ((CCCfg.Sequence.CCID.getD i 0).toNat < n)
    && P (CCCfg.DUCDDCCfg.getD (CCCfg.Sequence.CCID.getD i 0).toNat default)

/-- The number of sequence slots, below the sequence length, that are held by a
carrier (an ID in 0..15) whose descriptor satisfies `P`. -/
def slotsHeldBy (CCCfg : XDfeMix_CCCfg) (P : XDfeMix_DUCDDCCfg → Bool) : Nat :=
  (List.range CCCfg.Sequence.Length).countP (heldBelow CCCfg P XDFEMIX_CC_NUM)

/-- An enabled carrier on an NCO of the low ARCH4 sub-block (0-3). -/
def arch4Low (d : XDfeMix_DUCDDCCfg) : Bool := decide (d.Rate ≠ 0) && decide (d.NCOIdx < 4)

/-- An enabled carrier on an NCO of the high ARCH4 sub-block (4 and above). -/
def arch4High (d : XDfeMix_DUCDDCCfg) : Bool := decide (d.Rate ≠ 0) && decide (4 ≤ d.NCOIdx)

/-- The number of set bits of a 32-bit bitmap. -/
def popcount32 (B : Nat) : Nat := (List.range 32).countP (fun i => B.testBit i)

/-- The number of sequence slots, below the sequence length, that hold the carrier
ID `CCID`. -/
def carrierSlots (CCCfg : XDfeMix_CCCfg) (CCID : Int) : Nat :=
  (List.range CCCfg.Sequence.Length).countP
    (fun i => decide (CCCfg.Sequence.CCID.getD i 0 = CCID))

/-- Usage of an ARCH4 sub-block in a snapshot: the number of sequence slots held by
active carriers (`Rate ≠ 0`) whose NCO index lies in the same sub-block as `n`, the
sub-blocks being the indices 0-3 and the indices 4 and above. -/
def arch4Usage (CCCfg : XDfeMix_CCCfg) (n : Nat) : Nat :=
  slotsHeldBy CCCfg (fun d => decide (d.Rate ≠ 0) && decide (d.NCOIdx < 4 ↔ n < 4))

/-- Usage of an ARCH5 sub-block in a snapshot: the number of sequence slots held by
active carriers (`Rate ≠ 0`) whose NCO index lies in the same 4-wide sub-block
(0-3, 4-7, 8-11, 12-15) as `n`. -/
def arch5Usage (CCCfg : XDfeMix_CCCfg) (n : Nat) : Nat :=
  slotsHeldBy CCCfg (fun d => decide (d.Rate ≠ 0) && decide (d.NCOIdx / 4 = n / 4))

/-- An enabled carrier that `XDfeMix_NCOArch5Mode` books on bank `k`: banks 0, 1, 2
take the NCO indices below 4, 8, 12 and bank 3 takes every other index. -/
def arch5Bank (k : Nat) (d : XDfeMix_DUCDDCCfg) : Bool :=
  decide (d.Rate ≠ 0) && decide (min (d.NCOIdx / 4) 3 = k)

/-- Every enabled carrier of the snapshot has an NCO index below 16. -/
def ncoIdxInRange (CCCfg : XDfeMix_CCCfg) : Prop :=
  ∀ c, c < XDFEMIX_CC_NUM → (CCCfg.DUCDDCCfg.getD c default).Rate ≠ 0 →
    (CCCfg.DUCDDCCfg.getD c default).NCOIdx < 16

instance (CCCfg : XDfeMix_CCCfg) : Decidable (ncoIdxInRange CCCfg) := by
  unfold ncoIdxInRange
  infer_instance

/-- The number of set bits of a bitmap within its low `L` bit positions. -/
def popcountLow (B L : Nat) : Nat := (List.range L).countP (fun i => B.testBit i)

/-- The conversion ratio `XDfeMix_FindRate` computes for an occupancy of `n` slots:
`AntennaInterleave * (SequenceLength / n) / MixerCps` in `u32` arithmetic, both
divisions discarding the remainder. -/
def conversionRatio (InstancePtr : XDfeMix) (n : Nat) : Nat :=
  u32 (InstancePtr.Config.AntennaInterleave * (InstancePtr.SequenceLength / n)) /
    InstancePtr.Config.MixerCps

/-- The conversion ratios `XDfeMix_FindRate` maps to a rate code. -/
def ratioHasCode (r : Nat) : Prop := r = 1 ∨ r = 2 ∨ r = 4 ∨ r = 8 ∨ r = 16

instance (r : Nat) : Decidable (ratioHasCode r) := by
  unfold ratioHasCode
  infer_instance

/-- The occupancies (numbers of ones) the driver accepts. -/
def occupancyOk (k : Nat) : Prop := k = 0 ∨ k = 1 ∨ k = 2 ∨ k = 4 ∨ k = 8 ∨ k = 16

instance (k : Nat) : Decidable (occupancyOk k) := by
  unfold occupancyOk
  infer_instance

/-! ### Example instances and snapshots -/

/-- An instance in ARCH4 mode (8 usable CCIDs, 2 lanes) with sequence length 16. -/
def arch4Instance : XDfeMix :=
  { Config :=
      { Mode := 0, NumAntenna := 2, MaxUseableCcids := 8, Lanes := 2, AntennaInterleave := 1,
        MixerCps := 1, NumAuxiliary := 0, DataIWidth := 16, DataOWidth := 16, TUserWidth := 8 }
    StateId := .XDFEMIX_STATE_OPERATIONAL
    NotUsedCCID := 0
    NotUsedCCID_UL := 0
    SequenceLength := 16 }

/-- An instance in ARCH5 mode (16 usable CCIDs) with sequence length 16. -/
def arch5Instance : XDfeMix :=
  { arch4Instance with Config := { arch4Instance.Config with MaxUseableCcids := 16 } }

/-- The ARCH4 snapshot in which carrier 0, on NCO 0, holds the slots 0..7. -/
def arch4Snapshot8 : XDfeMix_CCCfg :=
  (XDfeMix_AddCCtoCCCfg arch4Instance (XDfeMix_GetEmptyCCCfg arch4Instance) 0 0xFF
    ⟨⟨0, 0, 0⟩⟩ default).2

/-- The ARCH5 snapshot in which carrier 0, on NCO 0, holds the slots 0..3. -/
def arch5Snapshot4 : XDfeMix_CCCfg :=
  (XDfeMix_AddCCtoCCCfg arch5Instance (XDfeMix_GetEmptyCCCfg arch5Instance) 0 0xF
    ⟨⟨0, 0, 0⟩⟩ default).2

/-- The ARCH4 snapshot in which carrier 0, on NCO 0, holds the slots 0..7 and
carrier 1, on NCO 4, holds slot 8. -/
def arch4Snapshot81 : XDfeMix_CCCfg :=
  (XDfeMix_AddCCtoCCCfg arch4Instance arch4Snapshot8 1 0x100 ⟨⟨4, 0, 0⟩⟩ default).2

/-- An instance in ARCH5 mode (16 usable CCIDs) with sequence length 8. -/
def arch5Instance8 : XDfeMix :=
  { arch5Instance with SequenceLength := 8 }

/-- The snapshot of `arch5Instance8` in which carrier 10, on NCO 2, holds slot 0. -/
def arch5Snapshot8Carrier10 : XDfeMix_CCCfg :=
  (XDfeMix_AddCCtoCCCfg arch5Instance8 (XDfeMix_GetEmptyCCCfg arch5Instance8) 10 0x1
    ⟨⟨2, 0, 0⟩⟩ default).2

/-- The ARCH5 snapshot in which carrier 1, on NCO 12, holds the slots 4..7 and
carrier 0, on NCO 0, holds slot 0. -/
def arch5SnapshotBank3Full : XDfeMix_CCCfg :=
  (XDfeMix_AddCCtoCCCfg arch5Instance
    (XDfeMix_AddCCtoCCCfg arch5Instance (XDfeMix_GetEmptyCCCfg arch5Instance) 1 0xF0
      ⟨⟨12, 0, 0⟩⟩ default).2
    0 0x1 ⟨⟨0, 0, 0⟩⟩ default).2

/-- The ARCH5 snapshot in which carrier 1, on NCO 5, holds the slots 4..7 and
carrier 0, on NCO 0, holds slot 0. -/
def arch5SnapshotBank1Full : XDfeMix_CCCfg :=
  (XDfeMix_AddCCtoCCCfg arch5Instance
    (XDfeMix_AddCCtoCCCfg arch5Instance (XDfeMix_GetEmptyCCCfg arch5Instance) 1 0xF0
      ⟨⟨5, 0, 0⟩⟩ default).2
    0 0x1 ⟨⟨0, 0, 0⟩⟩ default).2

/-- The sequence of the ARCH4 example instance in which carrier 5 holds slot 0. -/
def sequenceCarrier5 : XDfeMix_CCSequence :=
  (XDfeMix_AddCCIDAndTranslateSeq arch4Instance 5 0x1
    (XDfeMix_GetEmptyCCCfg arch4Instance).Sequence).2

/-- An instance with sequence length 12, antenna interleave 1 and one mixer clock
per sample. -/
def rateInstance12 : XDfeMix :=
  { arch5Instance with SequenceLength := 12 }

/-- An instance with sequence length 16, antenna interleave 1 and three mixer clocks
per sample. -/
def rateInstanceCps3 : XDfeMix :=
  { arch5Instance with Config := { arch5Instance.Config with MixerCps := 3 } }

/-- A sequence of length 4 whose slot 0 and whose slot 10, beyond the length, hold
carrier 5. -/
def sequenceBeyondLength : XDfeMix_CCSequence :=
  { Length := 4
    CCID := [5, -1, -1, -1, -1, -1, -1, -1, -1, -1, 5, -1, -1, -1, -1, -1]
    NotUsedCCID := 0 }

/-! ## Phase offset of a carrier move -/

/-- `XDFEMIX_PHASE_OFFSET_ROUNDING_BITS`: number of rounding bits. -/
def XDFEMIX_PHASE_OFFSET_ROUNDING_BITS : Nat := 14

/-- `XDfeMix_DerivePhaseOffset`: the phase offset between two captured phases. The
difference of the two accumulators is taken in `u32`, shifted right by the rounding
bits, and 1 is added when the bit just below the rounding boundary is set. -/
def XDfeMix_DerivePhaseOffset (PhaseA PhaseB : XDfeMix_Phase)
    (_PhaseOffset : XDfeMix_PhaseOffset) : XDfeMix_PhaseOffset :=
  let PhaseAccDiff := u32_sub PhaseB.PhaseAcc PhaseA.PhaseAcc
  let PhaseOffset : XDfeMix_PhaseOffset :=
    { PhaseOffset := PhaseAccDiff >>> XDFEMIX_PHASE_OFFSET_ROUNDING_BITS }
  if 0 ≠ PhaseAccDiff &&& u32 (1 <<< (XDFEMIX_PHASE_OFFSET_ROUNDING_BITS - 1)) then
    { PhaseOffset := u32 (PhaseOffset.PhaseOffset + 1) }
  else PhaseOffset

/-- `XDfeMix_SetPhaseOffset`: sets the phase offset component of a frequency. -/
def XDfeMix_SetPhaseOffset (Frequency : XDfeMix_Frequency) (PhaseOffset : XDfeMix_PhaseOffset) :
    XDfeMix_Frequency :=
  { Frequency with PhaseOffset := PhaseOffset }

/-- An instance with 4 usable carrier IDs and one lane: neither ARCH4 nor ARCH5. -/
def plainInstance : XDfeMix :=
  { arch4Instance with Config := { arch4Instance.Config with MaxUseableCcids := 4, Lanes := 1 } }

/-! ## Register access -/

/-- Modelled from the spec: the register names of `xdfemix_hw.h` that the source
passes to its register access functions. The header is not among the sources, so the
numeric offsets are not known; a register is identified by its name and a byte offset
from it, and different names denote different registers. -/
inductive XDfeMix_RegName where
  | XDFEMIX_VERSION_OFFSET
  | XDFEMIX_MODEL_PARAM_1_OFFSET
  | XDFEMIX_MODEL_PARAM_2_OFFSET
  | XDFEMIX_RESET_OFFSET
  | XDFEMIX_STATE_OPERATIONAL_OFFSET
  | XDFEMIX_STATE_FIR_ENABLE_OFFSET
  | XDFEMIX_STATE_MIXER_ENABLE_OFFSET
  | XDFEMIX_TRIGGERS_ACTIVATE_OFFSET
  | XDFEMIX_TRIGGERS_LOW_POWER_OFFSET
  | XDFEMIX_TRIGGERS_SWITCH_OFFSET
  | XDFEMIX_DELAY_OFFSET
  | XDFEMIX_LATENCY_OFFSET
  | XDFEMIX_PL_MIXER_DELAY
  | XDFEMIX_MIXER_STATUS_OVERFLOW
  | XDFEMIX_ISR
  | XDFEMIX_TRIGGERS_CC_UPDATE_OFFSET
  | XDFEMIX_SWITCHABLE_CONTROL
  | XDFEMIX_SEQUENCE_LENGTH_NEXT
  | XDFEMIX_SEQUENCE_NEXT
  | XDFEMIX_SEQUENCE_CURRENT
  | XDFEMIX_CC_CONFIG_NEXT
  | XDFEMIX_CC_CONFIG_CURRENT
  | XDFEMIX_AUXILIARY_ENABLE_NEXT
  | XDFEMIX_AUXILIARY_ENABLE_CURRENT
  | XDFEMIX_ANTENNA_GAIN_NEXT
  | XDFEMIX_ANTENNA_GAIN_CURRENT
  | XDFEMIX_FREQ_CONTROL_WORD
  | XDFEMIX_FREQ_SINGLE_MOD_COUNT
  | XDFEMIX_FREQ_DUAL_MOD_COUNT
  | XDFEMIX_FREQ_PHASE_OFFSET
  | XDFEMIX_FREQ_UPDATE
  | XDFEMIX_PHASE_UPDATE_ACC
  | XDFEMIX_PHASE_UPDATE_DUAL_MOD_COUNT
  | XDFEMIX_PHASE_UPDATE_DUAL_MOD_SEL
  | XDFEMIX_PHASE_UPDATE
  | XDFEMIX_PHASE_CAPTURE_ACC
  | XDFEMIX_PHASE_CAPTURE_DUAL_MOD_COUNT
  | XDFEMIX_PHASE_CAPTURE_DUAL_MOD_SEL
  | XDFEMIX_PHASE_ACC_ENABLE
  | XDFEMIX_MIXER_PHASE_CAPTURE
  | XDFEMIX_NCO_GAIN
deriving DecidableEq, Repr, Inhabited

/-- A register address `Name + Offset`, the `AddrOffset` argument of
`XDfeMix_ReadReg` and `XDfeMix_WriteReg`. -/
structure XDfeMix_Addr where
  Name : XDfeMix_RegName
  Offset : Nat
deriving DecidableEq, Repr, Inhabited

/-- The registers behind `InstancePtr->Io`: the value held at each address. A register
holds what was last written to it; what the hardware itself does to a register is
not part of the embedding. -/
abbrev XDfeMix_Regs := XDfeMix_Addr → Nat

/-- Modelled from the spec: the field widths, field offsets and field values of
`xdfemix_hw.h` and the limits of `xdfemix.h` that the embedded functions use. The
headers are not among the sources and the spec does not give the values, so they
are a parameter of every function that uses one. -/
structure XDfeMix_Hw where
  XDFEMIX_CC_UPDATE_TRIGGERED_WIDTH : Nat
  XDFEMIX_CC_UPDATE_TRIGGERED_OFFSET : Nat
  XDFEMIX_CC_UPDATE_TRIGGERED_HIGH : Nat
  XDFEMIX_TRIGGERS_TRIGGER_ENABLE_WIDTH : Nat
  XDFEMIX_TRIGGERS_TRIGGER_ENABLE_OFFSET : Nat
  XDFEMIX_TRIGGERS_TRIGGER_ENABLE_ENABLED : Nat
  XDFEMIX_SWITCHABLE_CONTROL_REG_BANK_WIDTH : Nat
  XDFEMIX_SWITCHABLE_CONTROL_REG_BANK_OFFSET : Nat
  XDFEMIX_SWITCHABLE_DOWNLINK : Nat
  XDFEMIX_SWITCHABLE_UPLINK : Nat
  XDFEMIX_CC_CONFIG_NCO_WIDTH : Nat
  XDFEMIX_CC_CONFIG_NCO_OFFSET : Nat
  XDFEMIX_CC_CONFIG_RATE_WIDTH : Nat
  XDFEMIX_CC_CONFIG_RATE_OFFSET : Nat
  XDFEMIX_CC_CONFIG_CC_GAIN_WIDTH : Nat
  XDFEMIX_CC_CONFIG_CC_GAIN_OFFSET : Nat
  XDFEMIX_AUXILIARY_ENABLE_ENABLE_WIDTH : Nat
  XDFEMIX_AUXILIARY_ENABLE_ENABLE_OFFSET : Nat
  XDFEMIX_AUXILIARY_ENABLE_GAIN_WIDTH : Nat
  XDFEMIX_AUXILIARY_ENABLE_GAIN_OFFSET : Nat
  XDFEMIX_AUXILIARY_ENABLE_DISABLED : Nat
  XDFEMIX_PHAC_CCID_ADDR_STEP : Nat
  XDFEMIX_MODEL_PARAM_1_SWITCHABLE : Nat
  XDFEMIX_ONE_ANTENNA_GAIN_ZERODB : Nat
  XDFEMIX_MIXER_PHASE_CAPTURE_ON : Nat
  XDFEMIX_RATE_MAX : Nat
  XDFEMIX_CC_GAIN_MAX : Nat
  XDFEMIX_TRIGGERS_TRIGGER_ENABLE_DISABLED : Nat
  XDFEMIX_TRIGGERS_STATE_OUTPUT_WIDTH : Nat
  XDFEMIX_TRIGGERS_STATE_OUTPUT_OFFSET : Nat
  XDFEMIX_TRIGGERS_STATE_OUTPUT_ENABLED : Nat
  XDFEMIX_TRIGGERS_STATE_OUTPUT_DISABLED : Nat
  XDFEMIX_STATE_OPERATIONAL_FIELD_WIDTH : Nat
  XDFEMIX_STATE_OPERATIONAL_FIELD_OFFSET : Nat
  XDFEMIX_STATE_OPERATIONAL_YES : Nat
  XDFEMIX_STATE_OPERATIONAL_NO : Nat
  XDFEMIX_RESET_ON : Nat
  XDFEMIX_RESET_OFF : Nat
  XDFEMIX_STATE_FIR_ENABLED : Nat
  XDFEMIX_STATE_MIXER_ENABLED : Nat
  XDFEMIX_PL_MIXER_DELAY_VALUE : Nat
  XDFEMIX_SWITCHABLE_CONTROL_TUSER_SEL_WIDTH : Nat
  XDFEMIX_SWITCHABLE_CONTROL_TUSER_SEL_OFFSET : Nat
  XDFEMIX_SWITCHABLE_CONTROL_TUSER_SEL_UPLINK : Nat
  XDFEMIX_VERSION_PATCH_WIDTH : Nat
  XDFEMIX_VERSION_PATCH_OFFSET : Nat
  XDFEMIX_VERSION_REVISION_WIDTH : Nat
  XDFEMIX_VERSION_REVISION_OFFSET : Nat
  XDFEMIX_VERSION_MINOR_WIDTH : Nat
  XDFEMIX_VERSION_MINOR_OFFSET : Nat
  XDFEMIX_VERSION_MAJOR_WIDTH : Nat
  XDFEMIX_VERSION_MAJOR_OFFSET : Nat
  XDFEMIX_MODEL_PARAM_1_MODE_WIDTH : Nat
  XDFEMIX_MODEL_PARAM_1_MODE_OFFSET : Nat
  XDFEMIX_MODEL_PARAM_1_NUM_ANTENNA_WIDTH : Nat
  XDFEMIX_MODEL_PARAM_1_NUM_ANTENNA_OFFSET : Nat
  XDFEMIX_MODEL_PARAM_1_MAX_USEABLE_CCIDS_WIDTH : Nat
  XDFEMIX_MODEL_PARAM_1_MAX_USEABLE_CCIDS_OFFSET : Nat
  XDFEMIX_MODEL_PARAM_1_LANES_WIDTH : Nat
  XDFEMIX_MODEL_PARAM_1_LANES_OFFSET : Nat
  XDFEMIX_MODEL_PARAM_1_ANTENNA_INTERLEAVE_WIDTH : Nat
  XDFEMIX_MODEL_PARAM_1_ANTENNA_INTERLEAVE_OFFSET : Nat
  XDFEMIX_MODEL_PARAM_1_MIXER_CPS_WIDTH : Nat
  XDFEMIX_MODEL_PARAM_1_MIXER_CPS_OFFSET : Nat
  XDFEMIX_MODEL_PARAM_1_NUM_AUXILIARY_WIDTH : Nat
  XDFEMIX_MODEL_PARAM_1_NUM_AUXILIARY_OFFSET : Nat
  XDFEMIX_MODEL_PARAM_2_DATA_IWIDTH_WIDTH : Nat
  XDFEMIX_MODEL_PARAM_2_DATA_IWIDTH_OFFSET : Nat
  XDFEMIX_MODEL_PARAM_2_DATA_OWIDTH_WIDTH : Nat
  XDFEMIX_MODEL_PARAM_2_DATA_OWIDTH_OFFSET : Nat
  XDFEMIX_MODEL_PARAM_2_TUSER_WIDTH_WIDTH : Nat
  XDFEMIX_MODEL_PARAM_2_TUSER_WIDTH_OFFSET : Nat
deriving DecidableEq, Repr, Inhabited

/-- Conversion of an `s32` value to `u32`, as in the assignment of a carrier ID to a
register. -/
def s32_to_u32 (v : Int) : Nat := (v % 2 ^ 32).toNat

/-- Conversion of a `u32` value to `s32`, as in the assignment of a register value to
a sequence slot. -/
def u32_to_s32 (n : Nat) : Int := if u32 n < 2 ^ 31 then (u32 n : Int) else (u32 n : Int) - 2 ^ 32

/-- `XDfeMix_WriteReg`: writes a value to the register at `AddrOffset`. -/
def XDfeMix_WriteReg (Regs : XDfeMix_Regs) (AddrOffset : XDfeMix_Addr) (Data : Nat) : XDfeMix_Regs :=
  fun a => if a = AddrOffset then u32 Data else Regs a

/-- `XDfeMix_ReadReg`: reads the register at `AddrOffset`. -/
def XDfeMix_ReadReg (Regs : XDfeMix_Regs) (AddrOffset : XDfeMix_Addr) : Nat :=
  u32 (Regs AddrOffset)

/-- `XDfeMix_WrRegBitField`: writes a bit field value to a register. -/
def XDfeMix_WrRegBitField (Regs : XDfeMix_Regs) (Offset : XDfeMix_Addr)
    (FieldWidth FieldOffset FieldData : Nat) : XDfeMix_Regs :=
  let Data := XDfeMix_ReadReg Regs Offset
  let Val := u32 ((FieldData &&& u32_sub (u32 (1 <<< FieldWidth)) 1) <<< FieldOffset)
  let Tmp := u32_not (u32 (u32_sub (u32 (1 <<< FieldWidth)) 1 <<< FieldOffset))
  XDfeMix_WriteReg Regs Offset ((Data &&& Tmp) ||| Val)

/-- `XDfeMix_RdRegBitField`: reads a bit field value from a register. -/
def XDfeMix_RdRegBitField (Regs : XDfeMix_Regs) (Offset : XDfeMix_Addr)
    (FieldWidth FieldOffset : Nat) : Nat :=
  let Data := XDfeMix_ReadReg Regs Offset
  (Data >>> FieldOffset) &&& u32_sub (u32 (1 <<< FieldWidth)) 1

/-- `XDfeMix_RdBitField`: reads a bit field value from a `u32` variable. -/
def XDfeMix_RdBitField (FieldWidth FieldOffset Data : Nat) : Nat :=
  (Data >>> FieldOffset) &&& u32_sub (u32 (1 <<< FieldWidth)) 1

/-- `XDfeMix_WrBitField`: writes a bit field value to a `u32` variable. -/
def XDfeMix_WrBitField (FieldWidth FieldOffset Data Val : Nat) : Nat :=
  let BitFieldSet := u32 ((Val &&& u32_sub (u32 (1 <<< FieldWidth)) 1) <<< FieldOffset)
  let BitFieldClear :=
    Data &&& u32_not (u32 (u32_sub (u32 (1 <<< FieldWidth)) 1 <<< FieldOffset))
  BitFieldSet ||| BitFieldClear

/-- `XDfeMix_SetAuxiliaryCfg`: writes the enable and gain settings of auxiliary NCO
`AuxId` to its NEXT register. -/
def XDfeMix_SetAuxiliaryCfg (Hw : XDfeMix_Hw) (Regs : XDfeMix_Regs) (AuxId : Nat)
    (AuxCfg : XDfeMix_AuxiliaryCfg) : XDfeMix_Regs :=
  let Data := 0
  let Data := XDfeMix_WrBitField Hw.XDFEMIX_AUXILIARY_ENABLE_ENABLE_WIDTH
    Hw.XDFEMIX_AUXILIARY_ENABLE_ENABLE_OFFSET Data AuxCfg.Enable
  let Data := XDfeMix_WrBitField Hw.XDFEMIX_AUXILIARY_ENABLE_GAIN_WIDTH
    Hw.XDFEMIX_AUXILIARY_ENABLE_GAIN_OFFSET Data AuxCfg.AuxGain
  XDfeMix_WriteReg Regs ⟨.XDFEMIX_AUXILIARY_ENABLE_NEXT, AuxId * 4⟩ Data

/-- `XDfeMix_GetAuxiliaryGain`: reads the enable and gain settings of auxiliary NCO
`AuxId` from its CURRENT register. -/
def XDfeMix_GetAuxiliaryGain (Hw : XDfeMix_Hw) (Regs : XDfeMix_Regs) (AuxId : Nat)
    (_AuxCfg : XDfeMix_AuxiliaryCfg) : XDfeMix_AuxiliaryCfg :=
  let Data := XDfeMix_ReadReg Regs ⟨.XDFEMIX_AUXILIARY_ENABLE_CURRENT, AuxId * 4⟩
  { Enable := XDfeMix_RdBitField Hw.XDFEMIX_AUXILIARY_ENABLE_ENABLE_WIDTH
      Hw.XDFEMIX_AUXILIARY_ENABLE_ENABLE_OFFSET Data
    AuxGain := XDfeMix_RdBitField Hw.XDFEMIX_AUXILIARY_ENABLE_GAIN_WIDTH
      Hw.XDFEMIX_AUXILIARY_ENABLE_GAIN_OFFSET Data }

/-- The first loop of `XDfeMix_SetNextCCCfg`: the array `NextCCID` prepared for the
registers. A slot that is null or lies at or beyond the instance's sequence length
takes the not used CCID, every other slot keeps its carrier ID. -/
def XDfeMix_SetNextCCCfg_NextCCID (InstancePtr : XDfeMix) (NextCCCfg : XDfeMix_CCCfg) :
    List Int :=
  (List.range XDFEMIX_CC_NUM).map (fun Index =>
    if NextCCCfg.Sequence.CCID.getD Index 0 = XDFEMIX_SEQUENCE_ENTRY_NULL ∨
        Index ≥ InstancePtr.SequenceLength then
      NextCCCfg.Sequence.NotUsedCCID
    else NextCCCfg.Sequence.CCID.getD Index 0)

/-- Body of the loop of `XDfeMix_SetNextCCCfg` that writes the CCID sequence and the
carrier configurations. -/
def XDfeMix_SetNextCCCfg_step (Hw : XDfeMix_Hw) (NextCCCfg : XDfeMix_CCCfg)
    (NextCCID : List Int) (Regs : XDfeMix_Regs) (Index : Nat) : XDfeMix_Regs :=
  let Regs := XDfeMix_WriteReg Regs ⟨.XDFEMIX_SEQUENCE_NEXT, 4 * Index⟩
    (s32_to_u32 (NextCCID.getD Index 0))
  let DucDdcConfig := XDfeMix_ReadReg Regs ⟨.XDFEMIX_CC_CONFIG_NEXT, Index * 4⟩
  let DucDdcConfig := XDfeMix_WrBitField Hw.XDFEMIX_CC_CONFIG_NCO_WIDTH
    Hw.XDFEMIX_CC_CONFIG_NCO_OFFSET DucDdcConfig (NextCCCfg.DUCDDCCfg.getD Index default).NCOIdx
  let DucDdcConfig := XDfeMix_WrBitField Hw.XDFEMIX_CC_CONFIG_RATE_WIDTH
    Hw.XDFEMIX_CC_CONFIG_RATE_OFFSET DucDdcConfig (NextCCCfg.DUCDDCCfg.getD Index default).Rate
  let DucDdcConfig := XDfeMix_WrBitField Hw.XDFEMIX_CC_CONFIG_CC_GAIN_WIDTH
    Hw.XDFEMIX_CC_CONFIG_CC_GAIN_OFFSET DucDdcConfig
    (NextCCCfg.DUCDDCCfg.getD Index default).CCGain
  XDfeMix_WriteReg Regs ⟨.XDFEMIX_CC_CONFIG_NEXT, Index * 4⟩ DucDdcConfig

/-- `XDfeMix_SetNextCCCfg`: writes the sequence length, the translated CCID sequence,
the carrier configurations and the auxiliary configurations to the NEXT registers,
and the antenna configuration unless the instance is switchable and the uplink
register bank is selected. -/
def XDfeMix_SetNextCCCfg (Hw : XDfeMix_Hw) (InstancePtr : XDfeMix) (Regs : XDfeMix_Regs)
    (NextCCCfg : XDfeMix_CCCfg) : XDfeMix_Regs :=
  let NextCCID := XDfeMix_SetNextCCCfg_NextCCID InstancePtr NextCCCfg
  let SeqLength :=
    if InstancePtr.SequenceLength = 0 then 0 else u32_sub InstancePtr.SequenceLength 1
  let Regs := XDfeMix_WriteReg Regs ⟨.XDFEMIX_SEQUENCE_LENGTH_NEXT, 0⟩ SeqLength
  let Regs := (List.range XDFEMIX_CC_NUM).foldl
    (XDfeMix_SetNextCCCfg_step Hw NextCCCfg NextCCID) Regs
  let Regs := (List.range XDFEMIX_AUX_NCO_MAX).foldl
    (fun Regs Index =>
      XDfeMix_SetAuxiliaryCfg Hw Regs Index (NextCCCfg.AuxiliaryCfg.getD Index default)) Regs
  if InstancePtr.Config.Mode = Hw.XDFEMIX_MODEL_PARAM_1_SWITCHABLE ∧
      XDfeMix_RdRegBitField Regs ⟨.XDFEMIX_SWITCHABLE_CONTROL, 0⟩
        Hw.XDFEMIX_SWITCHABLE_CONTROL_REG_BANK_WIDTH
        Hw.XDFEMIX_SWITCHABLE_CONTROL_REG_BANK_OFFSET = Hw.XDFEMIX_SWITCHABLE_UPLINK then
    Regs
  else
    let AntennaCfg := (List.range XDFEMIX_ANT_NUM_MAX).foldl
      (fun AntennaCfg Index =>
        u32 (AntennaCfg + u32 (NextCCCfg.AntennaCfg.Gain.getD Index 0 <<< Index))) 0
    XDfeMix_WriteReg Regs ⟨.XDFEMIX_ANTENNA_GAIN_NEXT, 0⟩ AntennaCfg

/-- The "convert not used CC to -1" loop of `XDfeMix_GetCurrentCCCfgLocal`: a slot
that holds the not used CCID or lies at or beyond the instance's sequence length
becomes null. -/
def XDfeMix_GetCurrentCCCfgLocal_convert (InstancePtr : XDfeMix) (NotUsedCCID : Int)
    (CCID : List Int) : List Int :=
  (List.range XDFEMIX_CC_NUM).foldl
    (fun CCID Index =>
      if CCID.getD Index 0 = NotUsedCCID ∨ Index ≥ InstancePtr.SequenceLength then
        CCID.set Index XDFEMIX_SEQUENCE_ENTRY_NULL
      else CCID) CCID

/-- `XDfeMix_GetCurrentCCCfgLocal`: reads the current configuration from the CURRENT
registers into the container `CurrCCCfg`, whose `Sequence.NotUsedCCID` the caller has
set. A loop that assigns entry `Index` of an array in iteration `Index` is the list of
the assigned values. The two trigger update flags of each NCO are not read and keep
the value the container had. -/
def XDfeMix_GetCurrentCCCfgLocal (Hw : XDfeMix_Hw) (InstancePtr : XDfeMix) (Regs : XDfeMix_Regs)
    (CurrCCCfg : XDfeMix_CCCfg) : XDfeMix_CCCfg :=
  let CCID := (List.range XDFEMIX_CC_NUM).map (fun Index =>
    u32_to_s32 (XDfeMix_ReadReg Regs ⟨.XDFEMIX_SEQUENCE_CURRENT, 4 * Index⟩))
  let AntennaCfg := XDfeMix_ReadReg Regs ⟨.XDFEMIX_ANTENNA_GAIN_CURRENT, 0⟩
  { Sequence :=
      { Length := InstancePtr.SequenceLength
        CCID := XDfeMix_GetCurrentCCCfgLocal_convert InstancePtr
          CurrCCCfg.Sequence.NotUsedCCID CCID
        NotUsedCCID := CurrCCCfg.Sequence.NotUsedCCID }
    DUCDDCCfg := (List.range XDFEMIX_CC_NUM).map (fun Index =>
      let Data := XDfeMix_ReadReg Regs ⟨.XDFEMIX_CC_CONFIG_CURRENT, Index * 4⟩
      { NCOIdx := XDfeMix_RdBitField Hw.XDFEMIX_CC_CONFIG_NCO_WIDTH
          Hw.XDFEMIX_CC_CONFIG_NCO_OFFSET Data
        Rate := XDfeMix_RdBitField Hw.XDFEMIX_CC_CONFIG_RATE_WIDTH
          Hw.XDFEMIX_CC_CONFIG_RATE_OFFSET Data
        CCGain := XDfeMix_RdBitField Hw.XDFEMIX_CC_CONFIG_CC_GAIN_WIDTH
          Hw.XDFEMIX_CC_CONFIG_CC_GAIN_OFFSET Data })
    AuxiliaryCfg := (List.range XDFEMIX_AUX_NCO_MAX).map (fun Index =>
      XDfeMix_GetAuxiliaryGain Hw Regs Index (CurrCCCfg.AuxiliaryCfg.getD Index default))
    NCO := (List.range XDFEMIX_NCO_MAX).map (fun Index =>
      let Step := Index * Hw.XDFEMIX_PHAC_CCID_ADDR_STEP
      { FrequencyCfg :=
          { FrequencyControlWord := XDfeMix_ReadReg Regs ⟨.XDFEMIX_FREQ_CONTROL_WORD, Step⟩
            SingleModCount := XDfeMix_ReadReg Regs ⟨.XDFEMIX_FREQ_SINGLE_MOD_COUNT, Step⟩
            DualModCount := XDfeMix_ReadReg Regs ⟨.XDFEMIX_FREQ_DUAL_MOD_COUNT, Step⟩
            PhaseOffset := ⟨XDfeMix_ReadReg Regs ⟨.XDFEMIX_FREQ_PHASE_OFFSET, Step⟩⟩
            TriggerUpdateFlag :=
              (CurrCCCfg.NCO.getD Index default).FrequencyCfg.TriggerUpdateFlag }
        PhaseCfg :=
          { PhaseAcc := XDfeMix_ReadReg Regs ⟨.XDFEMIX_PHASE_UPDATE_ACC, Step⟩
            DualModCount := XDfeMix_ReadReg Regs ⟨.XDFEMIX_PHASE_UPDATE_DUAL_MOD_COUNT, Step⟩
            DualModSel := XDfeMix_ReadReg Regs ⟨.XDFEMIX_PHASE_UPDATE_DUAL_MOD_SEL, Step⟩
            TriggerUpdateFlag := (CurrCCCfg.NCO.getD Index default).PhaseCfg.TriggerUpdateFlag }
        NCOGain := XDfeMix_ReadReg Regs ⟨.XDFEMIX_NCO_GAIN, Step⟩ })
    AntennaCfg :=
      ⟨(List.range XDFEMIX_ANT_NUM_MAX).map (fun Index =>
        (AntennaCfg >>> Index) &&& Hw.XDFEMIX_ONE_ANTENNA_GAIN_ZERODB)⟩ }

/-- `XDfeMix_GetCurrentCCCfg`: reads the current CC configuration, translating the
sequence under the instance's cached not used CCID. -/
def XDfeMix_GetCurrentCCCfg (Hw : XDfeMix_Hw) (InstancePtr : XDfeMix) (Regs : XDfeMix_Regs)
    (CurrCCCfg : XDfeMix_CCCfg) : XDfeMix_CCCfg :=
  XDfeMix_GetCurrentCCCfgLocal Hw InstancePtr Regs
    { CurrCCCfg with
      Sequence := { CurrCCCfg.Sequence with NotUsedCCID := InstancePtr.NotUsedCCID } }

/-! ## NCO registers and the CC update trigger -/

/-- Selects the CURRENT registers, `#define XDFEMIXER_CURRENT false`. -/
abbrev XDFEMIXER_CURRENT : Bool := false

/-- Selects the NEXT registers, `#define XDFEMIXER_NEXT true`. -/
abbrev XDFEMIXER_NEXT : Bool := true

/-- Phase accumulator enable, `#define XDFEMIXER_PHACC_ENABLE true`. -/
abbrev XDFEMIXER_PHACC_ENABLE : Bool := true

/-- `XDfeMix_GetPhaccIndex`: the register offset of the phase accumulator of the NCO
that the NEXT or CURRENT carrier configuration register of `CCID` names. -/
def XDfeMix_GetPhaccIndex (Hw : XDfeMix_Hw) (Regs : XDfeMix_Regs) (Next : Bool) (CCID : Int) :
    Nat :=
  let Offset : XDfeMix_Addr :=
    ⟨if Next = XDFEMIXER_NEXT then .XDFEMIX_CC_CONFIG_NEXT else .XDFEMIX_CC_CONFIG_CURRENT,
      CCID.toNat * 4⟩
  let Nco := XDfeMix_RdRegBitField Regs Offset Hw.XDFEMIX_CC_CONFIG_NCO_WIDTH
    Hw.XDFEMIX_CC_CONFIG_NCO_OFFSET
  u32 (Nco * Hw.XDFEMIX_PHAC_CCID_ADDR_STEP)

/-- The `Index` computed at the head of the NCO access functions
(`XDfeMix_SetNCOFrequency`, `XDfeMix_GetNCOFrequency`, `XDfeMix_SetNCOPhase`,
`XDfeMix_GetNCOPhase`, `XDfeMix_SetNCOGain`, `XDfeMix_GetNCOGain`): through the carrier
configuration for a carrier ID, direct for an auxiliary NCO. -/
def XDfeMix_NCOIdIndex (Hw : XDfeMix_Hw) (Regs : XDfeMix_Regs) (Next : Bool) (NCOId : Int) :
    Nat :=
  if NCOId < XDFEMIX_CC_NUM then XDfeMix_GetPhaccIndex Hw Regs Next NCOId
  else u32 (NCOId.toNat * Hw.XDFEMIX_PHAC_CCID_ADDR_STEP)

/-- `XDfeMix_SetNCOFrequency`: writes the frequency registers of an NCO. -/
def XDfeMix_SetNCOFrequency (Hw : XDfeMix_Hw) (Regs : XDfeMix_Regs) (Next : Bool) (NCOId : Int)
    (Freq : XDfeMix_Frequency) : XDfeMix_Regs :=
  let Index := XDfeMix_NCOIdIndex Hw Regs Next NCOId
  let Regs := XDfeMix_WriteReg Regs ⟨.XDFEMIX_FREQ_CONTROL_WORD, Index⟩ Freq.FrequencyControlWord
  let Regs := XDfeMix_WriteReg Regs ⟨.XDFEMIX_FREQ_SINGLE_MOD_COUNT, Index⟩ Freq.SingleModCount
  let Regs := XDfeMix_WriteReg Regs ⟨.XDFEMIX_FREQ_DUAL_MOD_COUNT, Index⟩ Freq.DualModCount
  let Regs := XDfeMix_WriteReg Regs ⟨.XDFEMIX_FREQ_PHASE_OFFSET, Index⟩
    Freq.PhaseOffset.PhaseOffset
  XDfeMix_WriteReg Regs ⟨.XDFEMIX_FREQ_UPDATE, Index⟩ Freq.TriggerUpdateFlag

/-- `XDfeMix_GetNCOFrequency`: reads the frequency registers of an NCO. -/
def XDfeMix_GetNCOFrequency (Hw : XDfeMix_Hw) (Regs : XDfeMix_Regs) (Next : Bool) (NCOId : Int)
    (_Freq : XDfeMix_Frequency) : XDfeMix_Frequency :=
  let Index := XDfeMix_NCOIdIndex Hw Regs Next NCOId
  { FrequencyControlWord := XDfeMix_ReadReg Regs ⟨.XDFEMIX_FREQ_CONTROL_WORD, Index⟩
    SingleModCount := XDfeMix_ReadReg Regs ⟨.XDFEMIX_FREQ_SINGLE_MOD_COUNT, Index⟩
    DualModCount := XDfeMix_ReadReg Regs ⟨.XDFEMIX_FREQ_DUAL_MOD_COUNT, Index⟩
    PhaseOffset := ⟨XDfeMix_ReadReg Regs ⟨.XDFEMIX_FREQ_PHASE_OFFSET, Index⟩⟩
    TriggerUpdateFlag := XDfeMix_ReadReg Regs ⟨.XDFEMIX_FREQ_UPDATE, Index⟩ }

/-- `XDfeMix_SetNCOPhase`: writes the phase update registers of an NCO. -/
def XDfeMix_SetNCOPhase (Hw : XDfeMix_Hw) (Regs : XDfeMix_Regs) (Next : Bool) (NCOId : Int)
    (Phase : XDfeMix_Phase) : XDfeMix_Regs :=
  let Index := XDfeMix_NCOIdIndex Hw Regs Next NCOId
  let Regs := XDfeMix_WriteReg Regs ⟨.XDFEMIX_PHASE_UPDATE_ACC, Index⟩ Phase.PhaseAcc
  let Regs := XDfeMix_WriteReg Regs ⟨.XDFEMIX_PHASE_UPDATE_DUAL_MOD_COUNT, Index⟩
    Phase.DualModCount
  let Regs := XDfeMix_WriteReg Regs ⟨.XDFEMIX_PHASE_UPDATE_DUAL_MOD_SEL, Index⟩ Phase.DualModSel
  XDfeMix_WriteReg Regs ⟨.XDFEMIX_PHASE_UPDATE, Index⟩ Phase.TriggerUpdateFlag

/-- `XDfeMix_GetNCOPhase`: reads the phase capture registers of an NCO. -/
def XDfeMix_GetNCOPhase (Hw : XDfeMix_Hw) (Regs : XDfeMix_Regs) (Next : Bool) (NCOId : Int)
    (_Phase : XDfeMix_Phase) : XDfeMix_Phase :=
  let Index := XDfeMix_NCOIdIndex Hw Regs Next NCOId
  { PhaseAcc := XDfeMix_ReadReg Regs ⟨.XDFEMIX_PHASE_CAPTURE_ACC, Index⟩
    DualModCount := XDfeMix_ReadReg Regs ⟨.XDFEMIX_PHASE_CAPTURE_DUAL_MOD_COUNT, Index⟩
    DualModSel := XDfeMix_ReadReg Regs ⟨.XDFEMIX_PHASE_CAPTURE_DUAL_MOD_SEL, Index⟩
    TriggerUpdateFlag := XDfeMix_ReadReg Regs ⟨.XDFEMIX_PHASE_UPDATE, Index⟩ }

/-- `XDfeMix_SetNCOPhaseAccumEnable`: enables or disables the phase accumulator of the
NCO of a carrier. -/
def XDfeMix_SetNCOPhaseAccumEnable (Hw : XDfeMix_Hw) (Regs : XDfeMix_Regs) (Next : Bool)
    (CCID : Int) (Enable : Bool) : XDfeMix_Regs :=
  let Data := if Enable = XDFEMIXER_PHACC_ENABLE then 1 else 0
  let Index := XDfeMix_GetPhaccIndex Hw Regs Next CCID
  XDfeMix_WriteReg Regs ⟨.XDFEMIX_PHASE_ACC_ENABLE, Index⟩ Data

/-- `XDfeMix_CapturePhase`: requests the capture of the phase of all phase
accumulators. -/
def XDfeMix_CapturePhase (Hw : XDfeMix_Hw) (Regs : XDfeMix_Regs) : XDfeMix_Regs :=
  XDfeMix_WriteReg Regs ⟨.XDFEMIX_MIXER_PHASE_CAPTURE, 0⟩ Hw.XDFEMIX_MIXER_PHASE_CAPTURE_ON

/-- `XDfeMix_SetNCOGain`: writes the gain register of an NCO. -/
def XDfeMix_SetNCOGain (Hw : XDfeMix_Hw) (Regs : XDfeMix_Regs) (Next : Bool) (NCOId : Int)
    (NCOGain : Nat) : XDfeMix_Regs :=
  let Index := XDfeMix_NCOIdIndex Hw Regs Next NCOId
  XDfeMix_WriteReg Regs ⟨.XDFEMIX_NCO_GAIN, Index⟩ NCOGain

/-- `XDfeMix_GetNCOGain`: reads the gain register of an NCO. -/
def XDfeMix_GetNCOGain (Hw : XDfeMix_Hw) (Regs : XDfeMix_Regs) (Next : Bool) (NCOId : Int) :
    Nat :=
  let Index := XDfeMix_NCOIdIndex Hw Regs Next NCOId
  XDfeMix_ReadReg Regs ⟨.XDFEMIX_NCO_GAIN, Index⟩

/-- `XDfeMix_EnableCCUpdateTrigger`: fails, writing nothing, when the CC update
triggered status is high; else sets the enable field of the CC update trigger. -/
def XDfeMix_EnableCCUpdateTrigger (Hw : XDfeMix_Hw) (Regs : XDfeMix_Regs) :
    XStatus × XDfeMix_Regs :=
  if Hw.XDFEMIX_CC_UPDATE_TRIGGERED_HIGH =
      XDfeMix_RdRegBitField Regs ⟨.XDFEMIX_ISR, 0⟩ Hw.XDFEMIX_CC_UPDATE_TRIGGERED_WIDTH
        Hw.XDFEMIX_CC_UPDATE_TRIGGERED_OFFSET then
    (XST_FAILURE, Regs)
  else
    let Data := XDfeMix_ReadReg Regs ⟨.XDFEMIX_TRIGGERS_CC_UPDATE_OFFSET, 0⟩
    let Data := XDfeMix_WrBitField Hw.XDFEMIX_TRIGGERS_TRIGGER_ENABLE_WIDTH
      Hw.XDFEMIX_TRIGGERS_TRIGGER_ENABLE_OFFSET Data Hw.XDFEMIX_TRIGGERS_TRIGGER_ENABLE_ENABLED
    (XST_SUCCESS, XDfeMix_WriteReg Regs ⟨.XDFEMIX_TRIGGERS_CC_UPDATE_OFFSET, 0⟩ Data)

/-! ## Commit of a configuration -/

/-- The three NCO writes that end an iteration of the loop of `XDfeMix_SetNCORegisters`
when no `continue` was taken. -/
def XDfeMix_SetNCORegisters_write (Hw : XDfeMix_Hw) (CCCfg : XDfeMix_CCCfg)
    (Regs : XDfeMix_Regs) (Index NCOIdx : Nat) : XDfeMix_Regs :=
  let Regs := XDfeMix_SetNCOFrequency Hw Regs XDFEMIXER_NEXT Index
    (CCCfg.NCO.getD NCOIdx default).FrequencyCfg
  let Regs := XDfeMix_SetNCOPhase Hw Regs XDFEMIXER_NEXT Index (CCCfg.NCO.getD NCOIdx default).PhaseCfg
  XDfeMix_SetNCOGain Hw Regs XDFEMIXER_NEXT Index (CCCfg.NCO.getD NCOIdx default).NCOGain

/-- Body of the loop of `XDfeMix_SetNCORegisters`; the state holds the registers and
the local `Data`. -/
def XDfeMix_SetNCORegisters_step (Hw : XDfeMix_Hw) (InstancePtr : XDfeMix)
    (CCCfg : XDfeMix_CCCfg) (st : XDfeMix_Regs × Nat) (Index : Nat) : XDfeMix_Regs × Nat :=
  if Index < XDFEMIX_CC_NUM then
    if (CCCfg.DUCDDCCfg.getD Index default).Rate = XDFEMIX_CC_CONFIG_DISABLED then st
    else
      let NCOIdx := (CCCfg.DUCDDCCfg.getD Index default).NCOIdx
      if NCOIdx ≥ InstancePtr.Config.MaxUseableCcids then st
      else (XDfeMix_SetNCORegisters_write Hw CCCfg st.1 Index NCOIdx, st.2)
  else
    let Aux := CCCfg.AuxiliaryCfg.getD (Index - XDFEMIX_CC_NUM) default
    let Data := XDfeMix_WrBitField Hw.XDFEMIX_AUXILIARY_ENABLE_ENABLE_WIDTH
      Hw.XDFEMIX_AUXILIARY_ENABLE_ENABLE_OFFSET st.2 Aux.Enable
    let Data := XDfeMix_WrBitField Hw.XDFEMIX_AUXILIARY_ENABLE_GAIN_WIDTH
      Hw.XDFEMIX_AUXILIARY_ENABLE_GAIN_OFFSET Data Aux.AuxGain
    let Regs := XDfeMix_WriteReg st.1 ⟨.XDFEMIX_AUXILIARY_ENABLE_NEXT, 0⟩ Data
    if Aux.Enable = Hw.XDFEMIX_AUXILIARY_ENABLE_DISABLED then (Regs, Data)
    else (XDfeMix_SetNCORegisters_write Hw CCCfg Regs Index Index, Data)

/-- `XDfeMix_SetNCORegisters`: writes the NCO registers of every enabled carrier and
auxiliary NCO. The local `Data` is declared without a value; `Data` is the value it
happens to hold when the function starts. -/
def XDfeMix_SetNCORegisters (Hw : XDfeMix_Hw) (InstancePtr : XDfeMix) (Regs : XDfeMix_Regs)
    (CCCfg : XDfeMix_CCCfg) (Data : Nat) : XDfeMix_Regs :=
  ((List.range XDFEMIX_NCO_MAX).foldl (XDfeMix_SetNCORegisters_step Hw InstancePtr CCCfg)
    (Regs, Data)).1

/-- `XDfeMix_SetNextCCCfgAndTrigger`: writes the configuration to the NEXT registers
and arms the CC update trigger; on success the instance's not used CCID becomes the
configuration's. `Data` is the initial value of the local of
`XDfeMix_SetNCORegisters`. -/
def XDfeMix_SetNextCCCfgAndTrigger (Hw : XDfeMix_Hw) (InstancePtr : XDfeMix)
    (Regs : XDfeMix_Regs) (CCCfg : XDfeMix_CCCfg) (Data : Nat) :
    XStatus × XDfeMix × XDfeMix_Regs :=
  let Regs := XDfeMix_SetNextCCCfg Hw InstancePtr Regs CCCfg
  let Regs := XDfeMix_SetNCORegisters Hw InstancePtr Regs CCCfg Data
  let Trigger := XDfeMix_EnableCCUpdateTrigger Hw Regs
  if XST_SUCCESS = Trigger.1 then
    (XST_SUCCESS, { InstancePtr with NotUsedCCID := CCCfg.Sequence.NotUsedCCID }, Trigger.2)
  else (XST_FAILURE, InstancePtr, Trigger.2)

/-- `XDfeMix_SetRegBank`: selects the register bank; `none` when the assertion
`RegBank <= XDFEMIX_SWITCHABLE_UPLINK` fails, in which case nothing is written. -/
def XDfeMix_SetRegBank (Hw : XDfeMix_Hw) (Regs : XDfeMix_Regs) (RegBank : Nat) :
    Option XDfeMix_Regs :=
  if RegBank ≤ Hw.XDFEMIX_SWITCHABLE_UPLINK then
    some (XDfeMix_WrRegBitField Regs ⟨.XDFEMIX_SWITCHABLE_CONTROL, 0⟩
      Hw.XDFEMIX_SWITCHABLE_CONTROL_REG_BANK_WIDTH Hw.XDFEMIX_SWITCHABLE_CONTROL_REG_BANK_OFFSET
      RegBank)
  else none

/-- `XDfeMix_SetNextCCCfgAndTriggerSwitchable`: writes the downlink configuration with
the downlink bank selected, the uplink configuration with the uplink bank selected,
arms the CC update trigger and selects the bank that was selected at the start.
`none` when the assertion that the instance is switchable fails. A call of
`XDfeMix_SetRegBank` whose assertion fails leaves the registers as they are.
`DataDownlink` and `DataUplink` are the initial values of the local of the two calls
of `XDfeMix_SetNCORegisters`. -/
def XDfeMix_SetNextCCCfgAndTriggerSwitchable (Hw : XDfeMix_Hw) (InstancePtr : XDfeMix)
    (Regs : XDfeMix_Regs) (CCCfgDownlink CCCfgUplink : XDfeMix_CCCfg)
    (DataDownlink DataUplink : Nat) : Option (XStatus × XDfeMix × XDfeMix_Regs) :=
  if InstancePtr.Config.Mode ≠ Hw.XDFEMIX_MODEL_PARAM_1_SWITCHABLE then none
  else
    let RegBank := XDfeMix_RdRegBitField Regs ⟨.XDFEMIX_SWITCHABLE_CONTROL, 0⟩
      Hw.XDFEMIX_SWITCHABLE_CONTROL_REG_BANK_WIDTH Hw.XDFEMIX_SWITCHABLE_CONTROL_REG_BANK_OFFSET
    let Regs := (XDfeMix_SetRegBank Hw Regs Hw.XDFEMIX_SWITCHABLE_DOWNLINK).getD Regs
    let Regs := XDfeMix_SetNextCCCfg Hw InstancePtr Regs CCCfgDownlink
    let Regs := XDfeMix_SetNCORegisters Hw InstancePtr Regs CCCfgDownlink DataDownlink
    let Regs := (XDfeMix_SetRegBank Hw Regs Hw.XDFEMIX_SWITCHABLE_UPLINK).getD Regs
    let Regs := XDfeMix_SetNextCCCfg Hw InstancePtr Regs CCCfgUplink
    let Regs := XDfeMix_SetNCORegisters Hw InstancePtr Regs CCCfgUplink DataUplink
    let Trigger := XDfeMix_EnableCCUpdateTrigger Hw Regs
    let Regs := (XDfeMix_SetRegBank Hw Trigger.2 RegBank).getD Trigger.2
    if XST_SUCCESS = Trigger.1 then
      some (XST_SUCCESS,
        { InstancePtr with
          NotUsedCCID := CCCfgDownlink.Sequence.NotUsedCCID
          NotUsedCCID_UL := CCCfgUplink.Sequence.NotUsedCCID }, Regs)
    else some (XST_FAILURE, InstancePtr, Regs)

/-! ## Carrier operations on the registers -/

/-- The assertions of `XDfeMix_AddCC` other than the ones on pointers. -/
def XDfeMix_AddCC_Assert (Hw : XDfeMix_Hw) (InstancePtr : XDfeMix) (CCID : Int)
    (CarrierCfg : XDfeMix_CarrierCfg) : Prop :=
  InstancePtr.StateId = .XDFEMIX_STATE_OPERATIONAL ∧ CCID < XDFEMIX_CC_NUM ∧
  CarrierCfg.DUCDDCCfg.NCOIdx < XDFEMIX_NCO_MAX ∧
  CarrierCfg.DUCDDCCfg.CCGain ≤ Hw.XDFEMIX_CC_GAIN_MAX

instance (Hw : XDfeMix_Hw) (InstancePtr : XDfeMix) (CCID : Int)
    (CarrierCfg : XDfeMix_CarrierCfg) :
    Decidable (XDfeMix_AddCC_Assert Hw InstancePtr CCID CarrierCfg) := by
  unfold XDfeMix_AddCC_Assert
  infer_instance

/-- The assertions of `XDfeMix_RemoveCC` other than the one on the pointer. -/
def XDfeMix_RemoveCC_Assert (InstancePtr : XDfeMix) (CCID : Int) : Prop :=
  InstancePtr.StateId = .XDFEMIX_STATE_OPERATIONAL ∧ CCID < XDFEMIX_CC_NUM

instance (InstancePtr : XDfeMix) (CCID : Int) :
    Decidable (XDfeMix_RemoveCC_Assert InstancePtr CCID) := by
  unfold XDfeMix_RemoveCC_Assert
  infer_instance

/-- The assertions of `XDfeMix_MoveCC` other than the one on the pointer. -/
def XDfeMix_MoveCC_Assert (Hw : XDfeMix_Hw) (InstancePtr : XDfeMix) (CCID : Int)
    (Rate FromNCO ToNCO : Nat) : Prop :=
  InstancePtr.StateId = .XDFEMIX_STATE_OPERATIONAL ∧ CCID < XDFEMIX_CC_NUM ∧
  Rate ≤ Hw.XDFEMIX_RATE_MAX ∧ FromNCO < XDFEMIX_NCO_MAX ∧ ToNCO < XDFEMIX_NCO_MAX

instance (Hw : XDfeMix_Hw) (InstancePtr : XDfeMix) (CCID : Int) (Rate FromNCO ToNCO : Nat) :
    Decidable (XDfeMix_MoveCC_Assert Hw InstancePtr CCID Rate FromNCO ToNCO) := by
  unfold XDfeMix_MoveCC_Assert
  infer_instance

/-- The assertions of `XDfeMix_UpdateCC` other than the ones on pointers. -/
def XDfeMix_UpdateCC_Assert (InstancePtr : XDfeMix) (CCID : Int) : Prop :=
  InstancePtr.StateId = .XDFEMIX_STATE_OPERATIONAL ∧ CCID < XDFEMIX_CC_NUM ∧
  InstancePtr.StateId = .XDFEMIX_STATE_OPERATIONAL

instance (InstancePtr : XDfeMix) (CCID : Int) :
    Decidable (XDfeMix_UpdateCC_Assert InstancePtr CCID) := by
  unfold XDfeMix_UpdateCC_Assert
  infer_instance

/-- The assertions of `XDfeMix_AddCCtoCCCfg` other than the ones on pointers. -/
def XDfeMix_AddCCtoCCCfg_Assert (_InstancePtr : XDfeMix) (CCID : Int) : Prop :=
  CCID < XDFEMIX_CC_NUM

/-- The assertions of `XDfeMix_RemoveCCfromCCCfg` other than the ones on pointers. -/
def XDfeMix_RemoveCCfromCCCfg_Assert (_InstancePtr : XDfeMix) (CCID : Int) : Prop :=
  CCID < XDFEMIX_CC_NUM

/-- The assertions of `XDfeMix_UpdateCCinCCCfg` other than the ones on pointers. -/
def XDfeMix_UpdateCCinCCCfg_Assert (_InstancePtr : XDfeMix) (CCID : Int) : Prop :=
  CCID < XDFEMIX_CC_NUM

/-- The end shared by the carrier operations: arm the CC update trigger and, on
success, store the configuration's not used CCID in the instance. -/
def XDfeMix_TriggerAndStore (Hw : XDfeMix_Hw) (InstancePtr : XDfeMix) (Regs : XDfeMix_Regs)
    (CCCfg : XDfeMix_CCCfg) : XStatus × XDfeMix × XDfeMix_Regs :=
  let Trigger := XDfeMix_EnableCCUpdateTrigger Hw Regs
  if XST_SUCCESS = Trigger.1 then
    (XST_SUCCESS, { InstancePtr with NotUsedCCID := CCCfg.Sequence.NotUsedCCID }, Trigger.2)
  else (XST_FAILURE, InstancePtr, Trigger.2)

/-- `XDfeMix_AddCC`: adds a carrier to the current configuration read from the
registers and triggers the update; `none` when an assertion fails. The local `CCCfg`
is declared without a value; the members that the read-back leaves alone are not read
and are zero here. -/
def XDfeMix_AddCC (Hw : XDfeMix_Hw) (InstancePtr : XDfeMix) (Regs : XDfeMix_Regs) (CCID : Int)
    (CCSeqBitmap : Nat) (CarrierCfg : XDfeMix_CarrierCfg) (NCO : XDfeMix_NCO) :
    Option (XStatus × XDfeMix × XDfeMix_Regs) :=
  if ¬ XDfeMix_AddCC_Assert Hw InstancePtr CCID CarrierCfg then none
  else
    let CCCfg := XDfeMix_GetCurrentCCCfg Hw InstancePtr Regs default
    if XST_FAILURE = XDfeMix_CheckCarrierCfginAddCC InstancePtr CCCfg CCID CCSeqBitmap
        CarrierCfg.DUCDDCCfg.NCOIdx then some (XST_FAILURE, InstancePtr, Regs)
    else
      let AddSuccess := XDfeMix_AddCCIDAndTranslateSeq InstancePtr CCID CCSeqBitmap CCCfg.Sequence
      let CCCfg := { CCCfg with Sequence := AddSuccess.2 }
      if AddSuccess.1 = XST_FAILURE then some (XST_FAILURE, InstancePtr, Regs)
      else
        let Set := XDfeMix_SetCCDDC InstancePtr CCCfg CCID CCSeqBitmap CarrierCfg.DUCDDCCfg
        if XST_FAILURE = Set.1 then some (XST_FAILURE, InstancePtr, Regs)
        else
          let CCCfg := Set.2
          let Regs := XDfeMix_SetNextCCCfg Hw InstancePtr Regs CCCfg
          let Regs := XDfeMix_SetNCOFrequency Hw Regs XDFEMIXER_NEXT CCID NCO.FrequencyCfg
          let Regs := XDfeMix_SetNCOPhase Hw Regs XDFEMIXER_NEXT CCID NCO.PhaseCfg
          let Regs := XDfeMix_SetNCOGain Hw Regs XDFEMIXER_NEXT CCID NCO.NCOGain
          some (XDfeMix_TriggerAndStore Hw InstancePtr Regs CCCfg)

/-- `XDfeMix_RemoveCC`: removes a carrier from the current configuration read from the
registers and triggers the update; `none` when an assertion fails. The local `CCCfg`
starts as in `XDfeMix_AddCC`. -/
def XDfeMix_RemoveCC (Hw : XDfeMix_Hw) (InstancePtr : XDfeMix) (Regs : XDfeMix_Regs)
    (CCID : Int) : Option (XStatus × XDfeMix × XDfeMix_Regs) :=
  if ¬ XDfeMix_RemoveCC_Assert InstancePtr CCID then none
  else
    let CCCfg := XDfeMix_GetCurrentCCCfg Hw InstancePtr Regs default
    let CCCfg := { CCCfg with Sequence := XDfeMix_RemoveCCID CCID CCCfg.Sequence }
    let CCCfg := { CCCfg with
      DUCDDCCfg := CCCfg.DUCDDCCfg.set CCID.toNat
        { CCCfg.DUCDDCCfg.getD CCID.toNat default with Rate := 0 } }
    let Regs := XDfeMix_SetNextCCCfg Hw InstancePtr Regs CCCfg
    some (XDfeMix_TriggerAndStore Hw InstancePtr Regs CCCfg)

/-- `XDfeMix_UpdateCC`: updates the NCO index and gain of a carrier in the current
configuration read from the registers and triggers the update; `none` when an
assertion fails. The local `CCCfg` starts as in `XDfeMix_AddCC`. -/
def XDfeMix_UpdateCC (Hw : XDfeMix_Hw) (InstancePtr : XDfeMix) (Regs : XDfeMix_Regs)
    (CCID : Int) (CarrierCfg : XDfeMix_CarrierCfg) :
    Option (XStatus × XDfeMix × XDfeMix_Regs) :=
  if ¬ XDfeMix_UpdateCC_Assert InstancePtr CCID then none
  else
    let CCCfg := XDfeMix_GetCurrentCCCfg Hw InstancePtr Regs default
    if XST_FAILURE = XDfeMix_CheckCarrierCfgInUpdateCC InstancePtr CCCfg CCID
        CarrierCfg.DUCDDCCfg.NCOIdx then some (XST_FAILURE, InstancePtr, Regs)
    else
      let CCCfg := { CCCfg with
        DUCDDCCfg := CCCfg.DUCDDCCfg.set CCID.toNat
          { CCCfg.DUCDDCCfg.getD CCID.toNat default with
            NCOIdx := CarrierCfg.DUCDDCCfg.NCOIdx, CCGain := CarrierCfg.DUCDDCCfg.CCGain } }
      let Regs := XDfeMix_SetNextCCCfg Hw InstancePtr Regs CCCfg
      some (XDfeMix_TriggerAndStore Hw InstancePtr Regs CCCfg)

/-- `XDfeMix_MoveCC`: moves a carrier from one NCO to another; `none` when an assertion
fails. The configuration read from the registers is written to the NEXT registers as
it was read, the NCO gain and frequency of the carrier are copied from CURRENT to NEXT,
the phases are captured and the offset between them derived into `PhaseOffset`; the
frequency is then given the phase offset `PhaseDiff`, which is `{ 0 }`, and written.
The local `CCCfg` starts as in `XDfeMix_AddCC`; the locals `Freq`, `PhaseCurrent` and
`PhaseNext` are assigned in full before they are read. -/
def XDfeMix_MoveCC (Hw : XDfeMix_Hw) (InstancePtr : XDfeMix) (Regs : XDfeMix_Regs) (CCID : Int)
    (Rate FromNCO ToNCO : Nat) : Option (XStatus × XDfeMix × XDfeMix_Regs) :=
  let PhaseDiff : XDfeMix_PhaseOffset := ⟨0⟩
  if ¬ XDfeMix_MoveCC_Assert Hw InstancePtr CCID Rate FromNCO ToNCO then none
  else if FromNCO ≥ InstancePtr.Config.MaxUseableCcids then some (XST_FAILURE, InstancePtr, Regs)
  else if ToNCO ≥ InstancePtr.Config.MaxUseableCcids then some (XST_FAILURE, InstancePtr, Regs)
  else
    let CCCfg := XDfeMix_GetCurrentCCCfg Hw InstancePtr Regs default
    if XDFEMIX_IS_ARCH4_MODE InstancePtr ∧
        XST_FAILURE = XDfeMix_NCOArch4ModeInMoveOrUpdateCC InstancePtr CCCfg CCID ToNCO then
      some (XST_FAILURE, InstancePtr, Regs)
    else if ¬ XDFEMIX_IS_ARCH4_MODE InstancePtr ∧ XDFEMIX_IS_ARCH5_MODE InstancePtr ∧
        XST_FAILURE = XDfeMix_NCOArch5ModeInMoveOrUpdateCC InstancePtr CCCfg CCID ToNCO then
      some (XST_FAILURE, InstancePtr, Regs)
    else
      let Regs := XDfeMix_SetNextCCCfg Hw InstancePtr Regs CCCfg
      let NCOGain := XDfeMix_GetNCOGain Hw Regs XDFEMIXER_CURRENT CCID
      let Regs := XDfeMix_SetNCOGain Hw Regs XDFEMIXER_NEXT CCID NCOGain
      let Freq := XDfeMix_GetNCOFrequency Hw Regs XDFEMIXER_CURRENT CCID default
      let Regs := XDfeMix_SetNCOFrequency Hw Regs XDFEMIXER_NEXT CCID Freq
      let Regs := XDfeMix_SetNCOPhaseAccumEnable Hw Regs XDFEMIXER_NEXT CCID
        XDFEMIXER_PHACC_ENABLE
      let Regs := XDfeMix_CapturePhase Hw Regs
      let PhaseCurrent := XDfeMix_GetNCOPhase Hw Regs XDFEMIXER_CURRENT CCID default
      let PhaseNext := XDfeMix_GetNCOPhase Hw Regs XDFEMIXER_NEXT CCID default
      let _PhaseOffset := XDfeMix_DerivePhaseOffset PhaseCurrent PhaseNext default
      let Freq := XDfeMix_SetPhaseOffset Freq PhaseDiff
      let Regs := XDfeMix_SetNCOFrequency Hw Regs XDFEMIXER_NEXT CCID Freq
      some (XDfeMix_TriggerAndStore Hw InstancePtr Regs CCCfg)

/-- The phases that `XDfeMix_MoveCC` captures for a carrier: the registers at the
point where the function reads them, and the two phases read there. -/
def XDfeMix_MoveCC_captured (Hw : XDfeMix_Hw) (InstancePtr : XDfeMix) (Regs : XDfeMix_Regs)
    (CCID : Int) : XDfeMix_Regs × XDfeMix_Phase × XDfeMix_Phase :=
  let CCCfg := XDfeMix_GetCurrentCCCfg Hw InstancePtr Regs default
  let Regs := XDfeMix_SetNextCCCfg Hw InstancePtr Regs CCCfg
  let NCOGain := XDfeMix_GetNCOGain Hw Regs XDFEMIXER_CURRENT CCID
  let Regs := XDfeMix_SetNCOGain Hw Regs XDFEMIXER_NEXT CCID NCOGain
  let Freq := XDfeMix_GetNCOFrequency Hw Regs XDFEMIXER_CURRENT CCID default
  let Regs := XDfeMix_SetNCOFrequency Hw Regs XDFEMIXER_NEXT CCID Freq
  let Regs := XDfeMix_SetNCOPhaseAccumEnable Hw Regs XDFEMIXER_NEXT CCID
        XDFEMIXER_PHACC_ENABLE
  let Regs := XDfeMix_CapturePhase Hw Regs
  (Regs, XDfeMix_GetNCOPhase Hw Regs XDFEMIXER_CURRENT CCID default,
    XDfeMix_GetNCOPhase Hw Regs XDFEMIXER_NEXT CCID default)

/-! ### Example register layout and register contents -/

/-- A register layout for the examples: one-bit flags at bit 0, the NCO index in bits
0..3, the rate in bits 4..6 and the gain in bits 7..8 of a carrier configuration
register, a step of `0x20` between the registers of two NCOs, the state output flag in
bit 5 of a trigger register, and the version and model parameters in fields that do
not overlap. -/
def exampleHw : XDfeMix_Hw :=
  { XDFEMIX_CC_UPDATE_TRIGGERED_WIDTH := 1
    XDFEMIX_CC_UPDATE_TRIGGERED_OFFSET := 0
    XDFEMIX_CC_UPDATE_TRIGGERED_HIGH := 1
    XDFEMIX_TRIGGERS_TRIGGER_ENABLE_WIDTH := 1
    XDFEMIX_TRIGGERS_TRIGGER_ENABLE_OFFSET := 0
    XDFEMIX_TRIGGERS_TRIGGER_ENABLE_ENABLED := 1
    XDFEMIX_SWITCHABLE_CONTROL_REG_BANK_WIDTH := 1
    XDFEMIX_SWITCHABLE_CONTROL_REG_BANK_OFFSET := 0
    XDFEMIX_SWITCHABLE_DOWNLINK := 0
    XDFEMIX_SWITCHABLE_UPLINK := 1
    XDFEMIX_CC_CONFIG_NCO_WIDTH := 4
    XDFEMIX_CC_CONFIG_NCO_OFFSET := 0
    XDFEMIX_CC_CONFIG_RATE_WIDTH := 3
    XDFEMIX_CC_CONFIG_RATE_OFFSET := 4
    XDFEMIX_CC_CONFIG_CC_GAIN_WIDTH := 2
    XDFEMIX_CC_CONFIG_CC_GAIN_OFFSET := 7
    XDFEMIX_AUXILIARY_ENABLE_ENABLE_WIDTH := 1
    XDFEMIX_AUXILIARY_ENABLE_ENABLE_OFFSET := 0
    XDFEMIX_AUXILIARY_ENABLE_GAIN_WIDTH := 2
    XDFEMIX_AUXILIARY_ENABLE_GAIN_OFFSET := 4
    XDFEMIX_AUXILIARY_ENABLE_DISABLED := 0
    XDFEMIX_PHAC_CCID_ADDR_STEP := 0x20
    XDFEMIX_MODEL_PARAM_1_SWITCHABLE := 1
    XDFEMIX_ONE_ANTENNA_GAIN_ZERODB := 1
    XDFEMIX_MIXER_PHASE_CAPTURE_ON := 1
    XDFEMIX_RATE_MAX := 5
    XDFEMIX_CC_GAIN_MAX := 3
    XDFEMIX_TRIGGERS_TRIGGER_ENABLE_DISABLED := 0
    XDFEMIX_TRIGGERS_STATE_OUTPUT_WIDTH := 1
    XDFEMIX_TRIGGERS_STATE_OUTPUT_OFFSET := 5
    XDFEMIX_TRIGGERS_STATE_OUTPUT_ENABLED := 1
    XDFEMIX_TRIGGERS_STATE_OUTPUT_DISABLED := 0
    XDFEMIX_STATE_OPERATIONAL_FIELD_WIDTH := 1
    XDFEMIX_STATE_OPERATIONAL_FIELD_OFFSET := 0
    XDFEMIX_STATE_OPERATIONAL_YES := 1
    XDFEMIX_STATE_OPERATIONAL_NO := 0
    XDFEMIX_RESET_ON := 1
    XDFEMIX_RESET_OFF := 0
    XDFEMIX_STATE_FIR_ENABLED := 1
    XDFEMIX_STATE_MIXER_ENABLED := 1
    XDFEMIX_PL_MIXER_DELAY_VALUE := 2
    XDFEMIX_SWITCHABLE_CONTROL_TUSER_SEL_WIDTH := 1
    XDFEMIX_SWITCHABLE_CONTROL_TUSER_SEL_OFFSET := 8
    XDFEMIX_SWITCHABLE_CONTROL_TUSER_SEL_UPLINK := 1
    XDFEMIX_VERSION_PATCH_WIDTH := 8
    XDFEMIX_VERSION_PATCH_OFFSET := 0
    XDFEMIX_VERSION_REVISION_WIDTH := 8
    XDFEMIX_VERSION_REVISION_OFFSET := 8
    XDFEMIX_VERSION_MINOR_WIDTH := 8
    XDFEMIX_VERSION_MINOR_OFFSET := 16
    XDFEMIX_VERSION_MAJOR_WIDTH := 8
    XDFEMIX_VERSION_MAJOR_OFFSET := 24
    XDFEMIX_MODEL_PARAM_1_MODE_WIDTH := 1
    XDFEMIX_MODEL_PARAM_1_MODE_OFFSET := 0
    XDFEMIX_MODEL_PARAM_1_NUM_ANTENNA_WIDTH := 4
    XDFEMIX_MODEL_PARAM_1_NUM_ANTENNA_OFFSET := 4
    XDFEMIX_MODEL_PARAM_1_MAX_USEABLE_CCIDS_WIDTH := 5
    XDFEMIX_MODEL_PARAM_1_MAX_USEABLE_CCIDS_OFFSET := 8
    XDFEMIX_MODEL_PARAM_1_LANES_WIDTH := 3
    XDFEMIX_MODEL_PARAM_1_LANES_OFFSET := 13
    XDFEMIX_MODEL_PARAM_1_ANTENNA_INTERLEAVE_WIDTH := 4
    XDFEMIX_MODEL_PARAM_1_ANTENNA_INTERLEAVE_OFFSET := 16
    XDFEMIX_MODEL_PARAM_1_MIXER_CPS_WIDTH := 3
    XDFEMIX_MODEL_PARAM_1_MIXER_CPS_OFFSET := 20
    XDFEMIX_MODEL_PARAM_1_NUM_AUXILIARY_WIDTH := 3
    XDFEMIX_MODEL_PARAM_1_NUM_AUXILIARY_OFFSET := 24
    XDFEMIX_MODEL_PARAM_2_DATA_IWIDTH_WIDTH := 7
    XDFEMIX_MODEL_PARAM_2_DATA_IWIDTH_OFFSET := 0
    XDFEMIX_MODEL_PARAM_2_DATA_OWIDTH_WIDTH := 7
    XDFEMIX_MODEL_PARAM_2_DATA_OWIDTH_OFFSET := 8
    XDFEMIX_MODEL_PARAM_2_TUSER_WIDTH_WIDTH := 7
    XDFEMIX_MODEL_PARAM_2_TUSER_WIDTH_OFFSET := 16 }

/-- Register contents in which carrier 0 occupies every slot of the 16-slot sequence
at rate code 1 on NCO 2, the phase offset register of NCO 2 holds 5, the captured phase
accumulator of NCO 2 holds 0 and the one of NCO 1 holds `1 << 14`; every other register
holds 0. -/
def moveRegs : XDfeMix_Regs := fun a =>
  if a = ⟨.XDFEMIX_CC_CONFIG_CURRENT, 0⟩ then 0x12
  else if a = ⟨.XDFEMIX_FREQ_PHASE_OFFSET, 0x40⟩ then 5
  else if a = ⟨.XDFEMIX_PHASE_CAPTURE_ACC, 0x20⟩ then 1 <<< 14
  else 0

/-- An operational instance with 4 usable carrier IDs, one lane and sequence length
16, whose cached not used CCID is 1. -/
def moveInstance : XDfeMix :=
  { plainInstance with NotUsedCCID := 1 }

/-! ### Register states inside the commit functions -/

/-- The registers at the moment `XDfeMix_SetNextCCCfgAndTrigger` arms the trigger:
after `XDfeMix_SetNextCCCfg` and `XDfeMix_SetNCORegisters`. -/
def commitWritten (Hw : XDfeMix_Hw) (InstancePtr : XDfeMix) (Regs : XDfeMix_Regs)
    (CCCfg : XDfeMix_CCCfg) (Data : Nat) : XDfeMix_Regs :=
  XDfeMix_SetNCORegisters Hw InstancePtr (XDfeMix_SetNextCCCfg Hw InstancePtr Regs CCCfg) CCCfg
    Data

/-- Register contents in which every register holds 0. -/
def zeroRegs : XDfeMix_Regs := fun _ => 0

/-- Register contents in which the CC update triggered flag of the status register
is high and every other register holds 0. -/
def triggeredRegs : XDfeMix_Regs := fun a => if a = ⟨.XDFEMIX_ISR, 0⟩ then 1 else 0

/-- The register names that neither `XDfeMix_SetNextCCCfg` nor `XDfeMix_SetNCORegisters`
writes to: every name but the NEXT configuration registers, the frequency registers,
the phase update registers and the gain register. -/
def notConfigRegister (n : XDfeMix_RegName) : Prop :=
  n ≠ .XDFEMIX_SEQUENCE_LENGTH_NEXT ∧ n ≠ .XDFEMIX_SEQUENCE_NEXT ∧ n ≠ .XDFEMIX_CC_CONFIG_NEXT ∧
  n ≠ .XDFEMIX_AUXILIARY_ENABLE_NEXT ∧ n ≠ .XDFEMIX_ANTENNA_GAIN_NEXT ∧
  n ≠ .XDFEMIX_FREQ_CONTROL_WORD ∧ n ≠ .XDFEMIX_FREQ_SINGLE_MOD_COUNT ∧
  n ≠ .XDFEMIX_FREQ_DUAL_MOD_COUNT ∧ n ≠ .XDFEMIX_FREQ_PHASE_OFFSET ∧ n ≠ .XDFEMIX_FREQ_UPDATE ∧
  n ≠ .XDFEMIX_PHASE_UPDATE_ACC ∧ n ≠ .XDFEMIX_PHASE_UPDATE_DUAL_MOD_COUNT ∧
  n ≠ .XDFEMIX_PHASE_UPDATE_DUAL_MOD_SEL ∧ n ≠ .XDFEMIX_PHASE_UPDATE ∧ n ≠ .XDFEMIX_NCO_GAIN

instance (n : XDfeMix_RegName) : Decidable (notConfigRegister n) := by
  unfold notConfigRegister
  infer_instance

/-- The value of the register bank select field of the switchable control register. -/
def regBank (Hw : XDfeMix_Hw) (Regs : XDfeMix_Regs) : Nat :=
  XDfeMix_RdRegBitField Regs ⟨.XDFEMIX_SWITCHABLE_CONTROL, 0⟩
    Hw.XDFEMIX_SWITCHABLE_CONTROL_REG_BANK_WIDTH Hw.XDFEMIX_SWITCHABLE_CONTROL_REG_BANK_OFFSET

/-- The registers when `XDfeMix_SetNextCCCfgAndTriggerSwitchable` starts to write the
downlink configuration: after the first `XDfeMix_SetRegBank`. -/
def switchableDownlinkStart (Hw : XDfeMix_Hw) (Regs : XDfeMix_Regs) : XDfeMix_Regs :=
  (XDfeMix_SetRegBank Hw Regs Hw.XDFEMIX_SWITCHABLE_DOWNLINK).getD Regs

/-- The registers when `XDfeMix_SetNextCCCfgAndTriggerSwitchable` has written the
downlink configuration. -/
def switchableDownlinkEnd (Hw : XDfeMix_Hw) (InstancePtr : XDfeMix) (Regs : XDfeMix_Regs)
    (CCCfgDownlink : XDfeMix_CCCfg) (DataDownlink : Nat) : XDfeMix_Regs :=
  XDfeMix_SetNCORegisters Hw InstancePtr
    (XDfeMix_SetNextCCCfg Hw InstancePtr (switchableDownlinkStart Hw Regs) CCCfgDownlink)
    CCCfgDownlink DataDownlink

/-- The registers when `XDfeMix_SetNextCCCfgAndTriggerSwitchable` starts to write the
uplink configuration: after the second `XDfeMix_SetRegBank`. -/
def switchableUplinkStart (Hw : XDfeMix_Hw) (InstancePtr : XDfeMix) (Regs : XDfeMix_Regs)
    (CCCfgDownlink : XDfeMix_CCCfg) (DataDownlink : Nat) : XDfeMix_Regs :=
  (XDfeMix_SetRegBank Hw (switchableDownlinkEnd Hw InstancePtr Regs CCCfgDownlink DataDownlink)
    Hw.XDFEMIX_SWITCHABLE_UPLINK).getD
    (switchableDownlinkEnd Hw InstancePtr Regs CCCfgDownlink DataDownlink)

/-- The registers when `XDfeMix_SetNextCCCfgAndTriggerSwitchable` has written the uplink
configuration and is about to arm the trigger. -/
def switchableUplinkEnd (Hw : XDfeMix_Hw) (InstancePtr : XDfeMix) (Regs : XDfeMix_Regs)
    (CCCfgDownlink CCCfgUplink : XDfeMix_CCCfg) (DataDownlink DataUplink : Nat) :
    XDfeMix_Regs :=
  XDfeMix_SetNCORegisters Hw InstancePtr
    (XDfeMix_SetNextCCCfg Hw InstancePtr
      (switchableUplinkStart Hw InstancePtr Regs CCCfgDownlink DataDownlink) CCCfgUplink)
    CCCfgUplink DataUplink

/-- A switchable instance: mode 1, 4 usable carrier IDs, sequence length 16. -/
def switchableInstance : XDfeMix :=
  { moveInstance with Config := { moveInstance.Config with Mode := 1 } }

/-- Register contents in which the uplink bank is selected and every other register
holds 0. -/
def uplinkRegs : XDfeMix_Regs := fun a => if a = ⟨.XDFEMIX_SWITCHABLE_CONTROL, 0⟩ then 1 else 0

/-- An instance in state Initialised, with 4 usable carrier IDs and sequence length
16. -/
def initialisedInstance : XDfeMix :=
  { plainInstance with StateId := .XDFEMIX_STATE_INITIALISED }

/-! ## Auxiliary NCOs in a configuration container -/

/-- The assertion of `XDfeMix_AddAuxNCOtoCCCfg` and of `XDfeMix_RemoveAuxNCOfromCCCfg`
other than the ones on pointers: `AuxId < XDFEMIX_AUX_NCO_MAX`. -/
def XDfeMix_AuxNCO_Assert (AuxId : Int) : Prop := AuxId < XDFEMIX_AUX_NCO_MAX

instance (AuxId : Int) : Decidable (XDfeMix_AuxNCO_Assert AuxId) := by
  unfold XDfeMix_AuxNCO_Assert
  infer_instance

/-- `XDfeMix_AddAuxNCOtoCCCfg`: stores the NCO at index `XDFEMIX_CC_NUM + AuxId` and
the auxiliary configuration at index `AuxId` of a local CC configuration structure.
The function returns no status. The asserted precondition is assumed, and `AuxId` is
not negative. -/
def XDfeMix_AddAuxNCOtoCCCfg (_InstancePtr : XDfeMix) (CCCfg : XDfeMix_CCCfg) (AuxId : Int)
    (NCO : XDfeMix_NCO) (AuxCfg : XDfeMix_AuxiliaryCfg) : XDfeMix_CCCfg :=
  let CCCfg1 : XDfeMix_CCCfg :=
    { CCCfg with NCO := CCCfg.NCO.set (XDFEMIX_CC_NUM + AuxId.toNat) NCO }
  { CCCfg1 with AuxiliaryCfg := CCCfg1.AuxiliaryCfg.set AuxId.toNat AuxCfg }

/-- `XDfeMix_RemoveAuxNCOfromCCCfg`: disables the auxiliary NCO `AuxId` in a local CC
configuration structure. The function returns no status. The asserted precondition
is assumed, and `AuxId` is not negative. -/
def XDfeMix_RemoveAuxNCOfromCCCfg (Hw : XDfeMix_Hw) (_InstancePtr : XDfeMix)
    (CCCfg : XDfeMix_CCCfg) (AuxId : Int) : XDfeMix_CCCfg :=
  { CCCfg with
    AuxiliaryCfg := CCCfg.AuxiliaryCfg.set AuxId.toNat
      { CCCfg.AuxiliaryCfg.getD AuxId.toNat default with
        Enable := Hw.XDFEMIX_AUXILIARY_ENABLE_DISABLED } }

/-! ## Antenna gains -/

/-- `XDfeMix_GetCurrentCCCfgSwitchable`: reads the current configuration of the
downlink and of the uplink register bank, each translated under the instance's cached
not used CCID of that bank, and selects the bank that was selected at the start;
`none` when the assertion that the instance is switchable fails. A call of
`XDfeMix_SetRegBank` whose assertion fails leaves the registers as they are. -/
def XDfeMix_GetCurrentCCCfgSwitchable (Hw : XDfeMix_Hw) (InstancePtr : XDfeMix)
    (Regs : XDfeMix_Regs) (CCCfgDownlink CCCfgUplink : XDfeMix_CCCfg) :
    Option (XDfeMix_CCCfg × XDfeMix_CCCfg × XDfeMix_Regs) :=
  if InstancePtr.Config.Mode ≠ Hw.XDFEMIX_MODEL_PARAM_1_SWITCHABLE then none
  else
    let RegBank := XDfeMix_RdRegBitField Regs ⟨.XDFEMIX_SWITCHABLE_CONTROL, 0⟩
      Hw.XDFEMIX_SWITCHABLE_CONTROL_REG_BANK_WIDTH Hw.XDFEMIX_SWITCHABLE_CONTROL_REG_BANK_OFFSET
    let Regs := (XDfeMix_SetRegBank Hw Regs Hw.XDFEMIX_SWITCHABLE_DOWNLINK).getD Regs
    let CCCfgDownlink : XDfeMix_CCCfg :=
      { CCCfgDownlink with
        Sequence := { CCCfgDownlink.Sequence with NotUsedCCID := InstancePtr.NotUsedCCID } }
    let CCCfgDownlink := XDfeMix_GetCurrentCCCfgLocal Hw InstancePtr Regs CCCfgDownlink
    let Regs := (XDfeMix_SetRegBank Hw Regs Hw.XDFEMIX_SWITCHABLE_UPLINK).getD Regs
    let CCCfgUplink : XDfeMix_CCCfg :=
      { CCCfgUplink with
        Sequence := { CCCfgUplink.Sequence with NotUsedCCID := InstancePtr.NotUsedCCID_UL } }
    let CCCfgUplink := XDfeMix_GetCurrentCCCfgLocal Hw InstancePtr Regs CCCfgUplink
    let Regs := (XDfeMix_SetRegBank Hw Regs RegBank).getD Regs
    some (CCCfgDownlink, CCCfgUplink, Regs)

/-- The assertions of `XDfeMix_SetAntennaGain` other than the one on the pointer:
`AntennaGain <= 1U` and `AntennaId <= XDFEMIX_ANT_NUM_MAX`. -/
def XDfeMix_SetAntennaGain_Assert (AntennaId AntennaGain : Nat) : Prop :=
  AntennaGain ≤ 1 ∧ AntennaId ≤ XDFEMIX_ANT_NUM_MAX

instance (AntennaId AntennaGain : Nat) :
    Decidable (XDfeMix_SetAntennaGain_Assert AntennaId AntennaGain) := by
  unfold XDfeMix_SetAntennaGain_Assert
  infer_instance

/-- The switchable branch of `XDfeMix_SetAntennaGain` up to the commit: the two
configurations it passes to `XDfeMix_SetNextCCCfgAndTriggerSwitchable`, and the
registers at that point. The locals `CCCfg` and `CCCfgUL` are declared without a value;
the members that the read-back leaves alone are not read and are zero here. The
store `Gain[AntennaId]` is the store into the 8-entry gain array; for `AntennaId = 8`,
which the assertion admits, the C store lands behind the array and is not modelled. -/
def XDfeMix_SetAntennaGain_switchable (Hw : XDfeMix_Hw) (InstancePtr : XDfeMix)
    (Regs : XDfeMix_Regs) (AntennaId AntennaGain : Nat) :
    Option (XDfeMix_CCCfg × XDfeMix_CCCfg × XDfeMix_Regs) :=
  match XDfeMix_GetCurrentCCCfgSwitchable Hw InstancePtr Regs default default with
  | none => none
  | some (CCCfg, CCCfgUL, Regs) =>
    let CCCfg : XDfeMix_CCCfg :=
      { CCCfg with AntennaCfg := ⟨CCCfg.AntennaCfg.Gain.set AntennaId AntennaGain⟩ }
    some (CCCfg, CCCfgUL, Regs)

/-- `XDfeMix_SetAntennaGain`: sets the gain of one antenna in the current configuration
and triggers the update; `none` when an assertion fails. In the other than switchable
mode the configuration is written with `XDfeMix_SetNextCCCfg` and the trigger armed;
in switchable mode the two configurations are committed with
`XDfeMix_SetNextCCCfgAndTriggerSwitchable`, whose two uninitialised locals start as
`DataDownlink` and `DataUplink`. -/
def XDfeMix_SetAntennaGain (Hw : XDfeMix_Hw) (InstancePtr : XDfeMix) (Regs : XDfeMix_Regs)
    (AntennaId AntennaGain : Nat) (DataDownlink DataUplink : Nat) :
    Option (XStatus × XDfeMix × XDfeMix_Regs) :=
  if ¬ XDfeMix_SetAntennaGain_Assert AntennaId AntennaGain then none
  else if InstancePtr.Config.Mode ≠ Hw.XDFEMIX_MODEL_PARAM_1_SWITCHABLE then
    let CCCfg := XDfeMix_GetCurrentCCCfg Hw InstancePtr Regs default
    let CCCfg : XDfeMix_CCCfg :=
      { CCCfg with AntennaCfg := ⟨CCCfg.AntennaCfg.Gain.set AntennaId AntennaGain⟩ }
    let Regs := XDfeMix_SetNextCCCfg Hw InstancePtr Regs CCCfg
    let Trigger := XDfeMix_EnableCCUpdateTrigger Hw Regs
    some (Trigger.1, InstancePtr, Trigger.2)
  else
    match XDfeMix_SetAntennaGain_switchable Hw InstancePtr Regs AntennaId AntennaGain with
    | none => none
    | some (CCCfg, CCCfgUL, Regs) =>
      XDfeMix_SetNextCCCfgAndTriggerSwitchable Hw InstancePtr Regs CCCfg CCCfgUL
        DataDownlink DataUplink

/-- The switchable branch of `XDfeMix_UpdateAntennaCfg` up to the commit: the two
configurations it passes to `XDfeMix_SetNextCCCfgAndTriggerSwitchable`, and the
registers at that point. The locals start as in `XDfeMix_SetAntennaGain_switchable`. -/
def XDfeMix_UpdateAntennaCfg_switchable (Hw : XDfeMix_Hw) (InstancePtr : XDfeMix)
    (Regs : XDfeMix_Regs) (AntennaCfg : XDfeMix_AntennaCfg) :
    Option (XDfeMix_CCCfg × XDfeMix_CCCfg × XDfeMix_Regs) :=
  match XDfeMix_GetCurrentCCCfgSwitchable Hw InstancePtr Regs default default with
  | none => none
  | some (CCCfg, CCCfgUL, Regs) =>
    let CCCfg : XDfeMix_CCCfg := { CCCfg with AntennaCfg := AntennaCfg }
    let CCCfgUL : XDfeMix_CCCfg := { CCCfgUL with AntennaCfg := AntennaCfg }
    some (CCCfg, CCCfgUL, Regs)

/-- `XDfeMix_UpdateAntennaCfg`: replaces the antenna configuration in the current
configuration and triggers the update; the only assertions are on pointers. The two
modes are handled as in `XDfeMix_SetAntennaGain`. -/
def XDfeMix_UpdateAntennaCfg (Hw : XDfeMix_Hw) (InstancePtr : XDfeMix) (Regs : XDfeMix_Regs)
    (AntennaCfg : XDfeMix_AntennaCfg) (DataDownlink DataUplink : Nat) :
    Option (XStatus × XDfeMix × XDfeMix_Regs) :=
  if InstancePtr.Config.Mode ≠ Hw.XDFEMIX_MODEL_PARAM_1_SWITCHABLE then
    let CCCfg := XDfeMix_GetCurrentCCCfg Hw InstancePtr Regs default
    let CCCfg : XDfeMix_CCCfg := { CCCfg with AntennaCfg := AntennaCfg }
    let Regs := XDfeMix_SetNextCCCfg Hw InstancePtr Regs CCCfg
    let Trigger := XDfeMix_EnableCCUpdateTrigger Hw Regs
    some (Trigger.1, InstancePtr, Trigger.2)
  else
    match XDfeMix_UpdateAntennaCfg_switchable Hw InstancePtr Regs AntennaCfg with
    | none => none
    | some (CCCfg, CCCfgUL, Regs) =>
      XDfeMix_SetNextCCCfgAndTriggerSwitchable Hw InstancePtr Regs CCCfg CCCfgUL
        DataDownlink DataUplink

/-- The empty snapshot of the instance with 4 usable carrier IDs after
`XDfeMix_AddAuxNCOtoCCCfg` for auxiliary NCO 0 with enable 1 and gain 2 and for
auxiliary NCO 1 with enable 1 and gain 1; the auxiliary NCOs 2 and 3 are disabled with
gain 0. -/
def auxSnapshot : XDfeMix_CCCfg :=
  XDfeMix_AddAuxNCOtoCCCfg plainInstance
    (XDfeMix_AddAuxNCOtoCCCfg plainInstance (XDfeMix_GetEmptyCCCfg plainInstance) 0
      ⟨⟨0, 0, 0, ⟨0⟩, 0⟩, ⟨0, 0, 0, 0⟩, 0⟩ ⟨1, 2⟩)
    1 ⟨⟨0, 0, 0, ⟨0⟩, 0⟩, ⟨0, 0, 0, 0⟩, 0⟩ ⟨1, 1⟩

/-! ## Life cycle of an instance -/

/-- Modelled from the spec: the version numbers `XDfeMix_Configure` reads (the
structure is declared in `xdfemix.h`). -/
structure XDfeMix_Version where
  Major : Nat
  Minor : Nat
  Revision : Nat
  Patch : Nat
deriving DecidableEq, Repr, Inhabited

/-- Modelled from the spec: the configuration container of `XDfeMix_Configure`, with
the members the source assigns. -/
structure XDfeMix_Cfg where
  Version : XDfeMix_Version
  ModelParams : XDfeMix_ModelParameters
deriving DecidableEq, Repr, Inhabited

/-- Modelled from the spec: the initialisation container of `XDfeMix_Initialize`, with
the members the source reads or assigns. -/
structure XDfeMix_Init where
  Sequence : XDfeMix_CCSequence
  TuserSelect : Nat
deriving DecidableEq, Repr, Inhabited

/-- `XDfeMix_SetPLMixerDelay`: writes the register `PL_MIXER_DELAY`. -/
def XDfeMix_SetPLMixerDelay (Hw : XDfeMix_Hw) (Regs : XDfeMix_Regs) : XDfeMix_Regs :=
  XDfeMix_WriteReg Regs ⟨.XDFEMIX_PL_MIXER_DELAY, 0⟩ Hw.XDFEMIX_PL_MIXER_DELAY_VALUE

/-- `XDfeMix_EnableLowPowerTrigger`: sets the enable bit of the LowPower trigger. -/
def XDfeMix_EnableLowPowerTrigger (Hw : XDfeMix_Hw) (Regs : XDfeMix_Regs) : XDfeMix_Regs :=
  let Data := XDfeMix_ReadReg Regs ⟨.XDFEMIX_TRIGGERS_LOW_POWER_OFFSET, 0⟩
  let Data := XDfeMix_WrBitField Hw.XDFEMIX_TRIGGERS_TRIGGER_ENABLE_WIDTH
    Hw.XDFEMIX_TRIGGERS_TRIGGER_ENABLE_OFFSET Data Hw.XDFEMIX_TRIGGERS_TRIGGER_ENABLE_ENABLED
  XDfeMix_WriteReg Regs ⟨.XDFEMIX_TRIGGERS_LOW_POWER_OFFSET, 0⟩ Data

/-- `XDfeMix_EnableActivateTrigger`: sets the enable bit of the Activate trigger and
its state output to enabled. -/
def XDfeMix_EnableActivateTrigger (Hw : XDfeMix_Hw) (Regs : XDfeMix_Regs) : XDfeMix_Regs :=
  let Data := XDfeMix_ReadReg Regs ⟨.XDFEMIX_TRIGGERS_ACTIVATE_OFFSET, 0⟩
  let Data := XDfeMix_WrBitField Hw.XDFEMIX_TRIGGERS_TRIGGER_ENABLE_WIDTH
    Hw.XDFEMIX_TRIGGERS_TRIGGER_ENABLE_OFFSET Data Hw.XDFEMIX_TRIGGERS_TRIGGER_ENABLE_ENABLED
  let Data := XDfeMix_WrBitField Hw.XDFEMIX_TRIGGERS_STATE_OUTPUT_WIDTH
    Hw.XDFEMIX_TRIGGERS_STATE_OUTPUT_OFFSET Data Hw.XDFEMIX_TRIGGERS_STATE_OUTPUT_ENABLED
  XDfeMix_WriteReg Regs ⟨.XDFEMIX_TRIGGERS_ACTIVATE_OFFSET, 0⟩ Data

/-- `XDfeMix_EnableDeactivateTrigger`: sets the enable bit of the Activate trigger and
its state output to disabled. -/
def XDfeMix_EnableDeactivateTrigger (Hw : XDfeMix_Hw) (Regs : XDfeMix_Regs) : XDfeMix_Regs :=
  let Data := XDfeMix_ReadReg Regs ⟨.XDFEMIX_TRIGGERS_ACTIVATE_OFFSET, 0⟩
  let Data := XDfeMix_WrBitField Hw.XDFEMIX_TRIGGERS_TRIGGER_ENABLE_WIDTH
    Hw.XDFEMIX_TRIGGERS_TRIGGER_ENABLE_OFFSET Data Hw.XDFEMIX_TRIGGERS_TRIGGER_ENABLE_ENABLED
  let Data := XDfeMix_WrBitField Hw.XDFEMIX_TRIGGERS_STATE_OUTPUT_WIDTH
    Hw.XDFEMIX_TRIGGERS_STATE_OUTPUT_OFFSET Data Hw.XDFEMIX_TRIGGERS_STATE_OUTPUT_DISABLED
  XDfeMix_WriteReg Regs ⟨.XDFEMIX_TRIGGERS_ACTIVATE_OFFSET, 0⟩ Data

/-- `XDfeMix_DisableLowPowerTrigger`: clears the enable bit of the LowPower trigger. -/
def XDfeMix_DisableLowPowerTrigger (Hw : XDfeMix_Hw) (Regs : XDfeMix_Regs) : XDfeMix_Regs :=
  let Data := XDfeMix_ReadReg Regs ⟨.XDFEMIX_TRIGGERS_LOW_POWER_OFFSET, 0⟩
  let Data := XDfeMix_WrBitField Hw.XDFEMIX_TRIGGERS_TRIGGER_ENABLE_WIDTH
    Hw.XDFEMIX_TRIGGERS_TRIGGER_ENABLE_OFFSET Data Hw.XDFEMIX_TRIGGERS_TRIGGER_ENABLE_DISABLED
  XDfeMix_WriteReg Regs ⟨.XDFEMIX_TRIGGERS_LOW_POWER_OFFSET, 0⟩ Data

/-- `XDfeMix_EnableSwitchTrigger`: sets the enable bit of the Switch trigger. -/
def XDfeMix_EnableSwitchTrigger (Hw : XDfeMix_Hw) (Regs : XDfeMix_Regs) : XDfeMix_Regs :=
  let Data := XDfeMix_ReadReg Regs ⟨.XDFEMIX_TRIGGERS_SWITCH_OFFSET, 0⟩
  let Data := XDfeMix_WrBitField Hw.XDFEMIX_TRIGGERS_TRIGGER_ENABLE_WIDTH
    Hw.XDFEMIX_TRIGGERS_TRIGGER_ENABLE_OFFSET Data Hw.XDFEMIX_TRIGGERS_TRIGGER_ENABLE_ENABLED
  XDfeMix_WriteReg Regs ⟨.XDFEMIX_TRIGGERS_SWITCH_OFFSET, 0⟩ Data

/-- `XDfeMix_DisableSwitchTrigger`: clears the enable bit of the Switch trigger. -/
def XDfeMix_DisableSwitchTrigger (Hw : XDfeMix_Hw) (Regs : XDfeMix_Regs) : XDfeMix_Regs :=
  let Data := XDfeMix_ReadReg Regs ⟨.XDFEMIX_TRIGGERS_SWITCH_OFFSET, 0⟩
  let Data := XDfeMix_WrBitField Hw.XDFEMIX_TRIGGERS_TRIGGER_ENABLE_WIDTH
    Hw.XDFEMIX_TRIGGERS_TRIGGER_ENABLE_OFFSET Data Hw.XDFEMIX_TRIGGERS_TRIGGER_ENABLE_DISABLED
  XDfeMix_WriteReg Regs ⟨.XDFEMIX_TRIGGERS_SWITCH_OFFSET, 0⟩ Data

/-- `XDfeMix_Reset`: puts the block into reset; `none` when the assertion
`StateId != XDFEMIX_STATE_NOT_READY` fails. -/
def XDfeMix_Reset (Hw : XDfeMix_Hw) (InstancePtr : XDfeMix) (Regs : XDfeMix_Regs) :
    Option (XDfeMix × XDfeMix_Regs) :=
  if InstancePtr.StateId = .XDFEMIX_STATE_NOT_READY then none
  else
    let Regs := XDfeMix_WriteReg Regs ⟨.XDFEMIX_RESET_OFFSET, 0⟩ Hw.XDFEMIX_RESET_ON
    some ({ InstancePtr with StateId := .XDFEMIX_STATE_RESET }, Regs)

/-- `XDfeMix_Configure`: reads the version and the model parameters from the
registers, releases the reset and moves the instance to the Configured state; `none`
when the assertion `StateId == XDFEMIX_STATE_RESET` fails. The members of `Cfg` that
the function does not assign keep their values. -/
def XDfeMix_Configure (Hw : XDfeMix_Hw) (InstancePtr : XDfeMix) (Regs : XDfeMix_Regs)
    (Cfg : XDfeMix_Cfg) : Option (XDfeMix × XDfeMix_Cfg × XDfeMix_Regs) :=
  if InstancePtr.StateId ≠ .XDFEMIX_STATE_RESET then none
  else
    let Version := XDfeMix_ReadReg Regs ⟨.XDFEMIX_VERSION_OFFSET, 0⟩
    let CfgVersion : XDfeMix_Version :=
      { Patch := XDfeMix_RdBitField Hw.XDFEMIX_VERSION_PATCH_WIDTH
          Hw.XDFEMIX_VERSION_PATCH_OFFSET Version
        Revision := XDfeMix_RdBitField Hw.XDFEMIX_VERSION_REVISION_WIDTH
          Hw.XDFEMIX_VERSION_REVISION_OFFSET Version
        Minor := XDfeMix_RdBitField Hw.XDFEMIX_VERSION_MINOR_WIDTH
          Hw.XDFEMIX_VERSION_MINOR_OFFSET Version
        Major := XDfeMix_RdBitField Hw.XDFEMIX_VERSION_MAJOR_WIDTH
          Hw.XDFEMIX_VERSION_MAJOR_OFFSET Version }
    let ModelParam := XDfeMix_ReadReg Regs ⟨.XDFEMIX_MODEL_PARAM_1_OFFSET, 0⟩
    let ModelParam2 := XDfeMix_ReadReg Regs ⟨.XDFEMIX_MODEL_PARAM_2_OFFSET, 0⟩
    let Config : XDfeMix_ModelParameters :=
      { Mode := XDfeMix_RdBitField Hw.XDFEMIX_MODEL_PARAM_1_MODE_WIDTH
          Hw.XDFEMIX_MODEL_PARAM_1_MODE_OFFSET ModelParam
        NumAntenna := XDfeMix_RdBitField Hw.XDFEMIX_MODEL_PARAM_1_NUM_ANTENNA_WIDTH
          Hw.XDFEMIX_MODEL_PARAM_1_NUM_ANTENNA_OFFSET ModelParam
        MaxUseableCcids := XDfeMix_RdBitField Hw.XDFEMIX_MODEL_PARAM_1_MAX_USEABLE_CCIDS_WIDTH
          Hw.XDFEMIX_MODEL_PARAM_1_MAX_USEABLE_CCIDS_OFFSET ModelParam
        Lanes := XDfeMix_RdBitField Hw.XDFEMIX_MODEL_PARAM_1_LANES_WIDTH
          Hw.XDFEMIX_MODEL_PARAM_1_LANES_OFFSET ModelParam
        AntennaInterleave :=
          XDfeMix_RdBitField Hw.XDFEMIX_MODEL_PARAM_1_ANTENNA_INTERLEAVE_WIDTH
            Hw.XDFEMIX_MODEL_PARAM_1_ANTENNA_INTERLEAVE_OFFSET ModelParam
        MixerCps := XDfeMix_RdBitField Hw.XDFEMIX_MODEL_PARAM_1_MIXER_CPS_WIDTH
          Hw.XDFEMIX_MODEL_PARAM_1_MIXER_CPS_OFFSET ModelParam
        NumAuxiliary := XDfeMix_RdBitField Hw.XDFEMIX_MODEL_PARAM_1_NUM_AUXILIARY_WIDTH
          Hw.XDFEMIX_MODEL_PARAM_1_NUM_AUXILIARY_OFFSET ModelParam
        DataIWidth := XDfeMix_RdBitField Hw.XDFEMIX_MODEL_PARAM_2_DATA_IWIDTH_WIDTH
          Hw.XDFEMIX_MODEL_PARAM_2_DATA_IWIDTH_OFFSET ModelParam2
        DataOWidth := XDfeMix_RdBitField Hw.XDFEMIX_MODEL_PARAM_2_DATA_OWIDTH_WIDTH
          Hw.XDFEMIX_MODEL_PARAM_2_DATA_OWIDTH_OFFSET ModelParam2
        TUserWidth := XDfeMix_RdBitField Hw.XDFEMIX_MODEL_PARAM_2_TUSER_WIDTH_WIDTH
          Hw.XDFEMIX_MODEL_PARAM_2_TUSER_WIDTH_OFFSET ModelParam2 }
    let Regs := XDfeMix_WriteReg Regs ⟨.XDFEMIX_RESET_OFFSET, 0⟩ Hw.XDFEMIX_RESET_OFF
    some ({ InstancePtr with Config := Config, StateId := .XDFEMIX_STATE_CONFIGURED },
      { Cfg with Version := CfgVersion, ModelParams := Config }, Regs)

/-- `XDfeMix_Initialize`: enables the FIR and the mixer, writes the one-time
parameters, zeroes the two not used CCIDs, caches the sequence length and moves the
instance to the Initialised state; `none` when an assertion fails: the one on the
state, which stands before any write, or, in switchable mode, the one on
`Init->TuserSelect`, which stands after the first three writes. -/
def XDfeMix_Initialize (Hw : XDfeMix_Hw) (InstancePtr : XDfeMix) (Regs : XDfeMix_Regs)
    (Init : XDfeMix_Init) : Option (XDfeMix × XDfeMix_Init × XDfeMix_Regs) :=
  if InstancePtr.StateId ≠ .XDFEMIX_STATE_CONFIGURED then none
  else
    let Regs := XDfeMix_WriteReg Regs ⟨.XDFEMIX_STATE_FIR_ENABLE_OFFSET, 0⟩
      Hw.XDFEMIX_STATE_FIR_ENABLED
    let Regs := XDfeMix_WriteReg Regs ⟨.XDFEMIX_STATE_MIXER_ENABLE_OFFSET, 0⟩
      Hw.XDFEMIX_STATE_MIXER_ENABLED
    let Regs := XDfeMix_SetPLMixerDelay Hw Regs
    let Done (Init : XDfeMix_Init) (Regs : XDfeMix_Regs) :
        Option (XDfeMix × XDfeMix_Init × XDfeMix_Regs) :=
      some ({ InstancePtr with
              NotUsedCCID := 0
              NotUsedCCID_UL := 0
              SequenceLength := Init.Sequence.Length
              StateId := .XDFEMIX_STATE_INITIALISED }, Init, Regs)
    if InstancePtr.Config.Mode = Hw.XDFEMIX_MODEL_PARAM_1_SWITCHABLE then
      if ¬ Init.TuserSelect ≤ Hw.XDFEMIX_SWITCHABLE_CONTROL_TUSER_SEL_UPLINK then none
      else
        let Regs := XDfeMix_WrRegBitField Regs ⟨.XDFEMIX_SWITCHABLE_CONTROL, 0⟩
          Hw.XDFEMIX_SWITCHABLE_CONTROL_TUSER_SEL_WIDTH
          Hw.XDFEMIX_SWITCHABLE_CONTROL_TUSER_SEL_OFFSET Init.TuserSelect
        let Regs := (XDfeMix_SetRegBank Hw Regs Hw.XDFEMIX_SWITCHABLE_DOWNLINK).getD Regs
        Done Init Regs
    else Done { Init with TuserSelect := 0 } Regs

/-- The assertion of `XDfeMix_Activate` and of `XDfeMix_Deactivate` other than the one
on the pointer: the state is Initialised or Operational. -/
def XDfeMix_Activate_Assert (InstancePtr : XDfeMix) : Prop :=
  InstancePtr.StateId = .XDFEMIX_STATE_INITIALISED ∨
  InstancePtr.StateId = .XDFEMIX_STATE_OPERATIONAL

instance (InstancePtr : XDfeMix) : Decidable (XDfeMix_Activate_Assert InstancePtr) := by
  unfold XDfeMix_Activate_Assert
  infer_instance

/-- `XDfeMix_Activate`: does nothing when the operational field of the state register
reads yes; else arms the Activate trigger, the LowPower trigger when `EnableLowPower`
is set and the Switch trigger of a switchable instance, and moves the instance to the
Operational state. `none` when the assertion fails. -/
def XDfeMix_Activate (Hw : XDfeMix_Hw) (InstancePtr : XDfeMix) (Regs : XDfeMix_Regs)
    (EnableLowPower : Bool) : Option (XDfeMix × XDfeMix_Regs) :=
  if ¬ XDfeMix_Activate_Assert InstancePtr then none
  else
    let IsOperational := XDfeMix_RdRegBitField Regs ⟨.XDFEMIX_STATE_OPERATIONAL_OFFSET, 0⟩
      Hw.XDFEMIX_STATE_OPERATIONAL_FIELD_WIDTH Hw.XDFEMIX_STATE_OPERATIONAL_FIELD_OFFSET
    if IsOperational = Hw.XDFEMIX_STATE_OPERATIONAL_YES then some (InstancePtr, Regs)
    else
      let Regs := XDfeMix_EnableActivateTrigger Hw Regs
      let Regs := if EnableLowPower = true then XDfeMix_EnableLowPowerTrigger Hw Regs else Regs
      let Regs :=
        if InstancePtr.Config.Mode = Hw.XDFEMIX_MODEL_PARAM_1_SWITCHABLE then
          XDfeMix_EnableSwitchTrigger Hw Regs
        else Regs
      some ({ InstancePtr with StateId := .XDFEMIX_STATE_OPERATIONAL }, Regs)

/-- `XDfeMix_Deactivate`: does nothing when the operational field of the state
register reads no; else disarms the LowPower trigger, arms the Deactivate trigger,
disarms the Switch trigger of a switchable instance, and moves the instance to the
Initialised state. `none` when the assertion fails. -/
def XDfeMix_Deactivate (Hw : XDfeMix_Hw) (InstancePtr : XDfeMix) (Regs : XDfeMix_Regs) :
    Option (XDfeMix × XDfeMix_Regs) :=
  if ¬ XDfeMix_Activate_Assert InstancePtr then none
  else
    let IsOperational := XDfeMix_RdRegBitField Regs ⟨.XDFEMIX_STATE_OPERATIONAL_OFFSET, 0⟩
      Hw.XDFEMIX_STATE_OPERATIONAL_FIELD_WIDTH Hw.XDFEMIX_STATE_OPERATIONAL_FIELD_OFFSET
    if IsOperational = Hw.XDFEMIX_STATE_OPERATIONAL_NO then some (InstancePtr, Regs)
    else
      let Regs := XDfeMix_DisableLowPowerTrigger Hw Regs
      let Regs := XDfeMix_EnableDeactivateTrigger Hw Regs
      let Regs :=
        if InstancePtr.Config.Mode = Hw.XDFEMIX_MODEL_PARAM_1_SWITCHABLE then
          XDfeMix_DisableSwitchTrigger Hw Regs
        else Regs
      some ({ InstancePtr with StateId := .XDFEMIX_STATE_INITIALISED }, Regs)

/-- The life cycle calls of the driver, with their arguments. -/
inductive XDfeMix_Call where
  | Reset
  | Configure (Cfg : XDfeMix_Cfg)
  | Initialize (Init : XDfeMix_Init)
  | Activate (EnableLowPower : Bool)
  | Deactivate
deriving DecidableEq, Repr, Inhabited

/-- One life cycle call on an instance and its registers: the instance and the
registers the call leaves, `none` when an assertion of the call fails. -/
def runCall (Hw : XDfeMix_Hw) (InstancePtr : XDfeMix) (Regs : XDfeMix_Regs) :
    XDfeMix_Call → Option (XDfeMix × XDfeMix_Regs)
  | .Reset => XDfeMix_Reset Hw InstancePtr Regs
  | .Configure Cfg => (XDfeMix_Configure Hw InstancePtr Regs Cfg).map (fun r => (r.1, r.2.2))
  | .Initialize Init => (XDfeMix_Initialize Hw InstancePtr Regs Init).map (fun r => (r.1, r.2.2))
  | .Activate EnableLowPower => XDfeMix_Activate Hw InstancePtr Regs EnableLowPower
  | .Deactivate => XDfeMix_Deactivate Hw InstancePtr Regs

/-- One step of the life cycle: some life cycle call whose assertions hold takes the
instance `a`, on some register contents, to the instance `b`. The registers are not
carried from one step to the next, so between two calls the hardware may change
them in any way. -/
def lifeCycleStep (Hw : XDfeMix_Hw) (a b : XDfeMix) : Prop :=
  ∃ (Regs : XDfeMix_Regs) (Call : XDfeMix_Call),
    (runCall Hw a Regs Call).map (fun r => r.1) = some b

/-- The states an instance in state `s` still has to pass, in this order, before it
can be Operational. -/
def statesAhead : XDfeMix_StateId → List XDfeMix_StateId
  | .XDFEMIX_STATE_NOT_READY | .XDFEMIX_STATE_READY =>
    [.XDFEMIX_STATE_RESET, .XDFEMIX_STATE_CONFIGURED, .XDFEMIX_STATE_INITIALISED]
  | .XDFEMIX_STATE_RESET => [.XDFEMIX_STATE_CONFIGURED, .XDFEMIX_STATE_INITIALISED]
  | .XDFEMIX_STATE_CONFIGURED => [.XDFEMIX_STATE_INITIALISED]
  | .XDFEMIX_STATE_INITIALISED | .XDFEMIX_STATE_OPERATIONAL => []

/-- An instance in state Ready, as `XDfeMix_InstanceInit` leaves it, with parameters
not read yet. -/
def readyInstance : XDfeMix :=
  { Config := ⟨0, 0, 0, 0, 0, 0, 0, 0, 0, 0⟩, StateId := .XDFEMIX_STATE_READY, NotUsedCCID := 0,
    NotUsedCCID_UL := 0, SequenceLength := 0 }

/-- Register contents of a block with 4 usable carrier IDs, one lane, antenna
interleave 1 and one mixer clock per sample that is not operational: the first model
parameter register holds `0x112410`, every other register 0. -/
def resetRegs : XDfeMix_Regs := fun a =>
  if a = ⟨.XDFEMIX_MODEL_PARAM_1_OFFSET, 0⟩ then 0x112410 else 0

/-- The instances after `XDfeMix_Reset`, `XDfeMix_Configure`, `XDfeMix_Initialize` with
sequence length 16 and `XDfeMix_Activate`, called in this order on the Ready example
instance with the registers `resetRegs`. -/
def exampleRun : List XDfeMix :=
  [{ readyInstance with StateId := .XDFEMIX_STATE_RESET },
   { readyInstance with
     Config := ⟨0, 1, 4, 1, 1, 1, 0, 0, 0, 0⟩, StateId := .XDFEMIX_STATE_CONFIGURED },
   { readyInstance with
     Config := ⟨0, 1, 4, 1, 1, 1, 0, 0, 0, 0⟩, StateId := .XDFEMIX_STATE_INITIALISED,
     SequenceLength := 16 },
   { readyInstance with
     Config := ⟨0, 1, 4, 1, 1, 1, 0, 0, 0, 0⟩, StateId := .XDFEMIX_STATE_OPERATIONAL,
     SequenceLength := 16 }]

/-! ## Sequences of builder calls -/

/-- A call of one of the three carrier builders, with its arguments; the carrier ID
is a natural number. -/
inductive XDfeMix_BuilderCall where
  | AddCC (CCID : Nat) (CCSeqBitmap : Nat) (CarrierCfg : XDfeMix_CarrierCfg) (NCO : XDfeMix_NCO)
  | UpdateCC (CCID : Nat) (CarrierCfg : XDfeMix_CarrierCfg)
  | RemoveCC (CCID : Nat)
deriving DecidableEq, Repr, Inhabited

/-- One successful builder call on a snapshot: the snapshot the call leaves. `none`
when `XDfeMix_AddCCtoCCCfg` or `XDfeMix_UpdateCCinCCCfg` returns failure, when the
carrier ID fails the assertion `CCID < XDFEMIX_CC_NUM`, or when the bitmap is not a
32-bit value. -/
def runBuilder (InstancePtr : XDfeMix) (CCCfg : XDfeMix_CCCfg) :
    XDfeMix_BuilderCall → Option XDfeMix_CCCfg
  | .AddCC CCID CCSeqBitmap CarrierCfg NCO =>
    if CCID < XDFEMIX_CC_NUM ∧ CCSeqBitmap < 2 ^ 32 ∧
        (XDfeMix_AddCCtoCCCfg InstancePtr CCCfg (CCID : Int) CCSeqBitmap CarrierCfg NCO).1
          = XST_SUCCESS then
      some (XDfeMix_AddCCtoCCCfg InstancePtr CCCfg (CCID : Int) CCSeqBitmap CarrierCfg NCO).2
    else none
  | .UpdateCC CCID CarrierCfg =>
    if CCID < XDFEMIX_CC_NUM ∧
        (XDfeMix_UpdateCCinCCCfg InstancePtr CCCfg (CCID : Int) CarrierCfg).1 = XST_SUCCESS then
      some (XDfeMix_UpdateCCinCCCfg InstancePtr CCCfg (CCID : Int) CarrierCfg).2
    else none
  | .RemoveCC CCID =>
    if CCID < XDFEMIX_CC_NUM then some (XDfeMix_RemoveCCfromCCCfg InstancePtr CCCfg (CCID : Int))
    else none

/-- A sequence of successful builder calls on one instance, each applied to the
snapshot the previous one left: the final snapshot, `none` when one of the calls is
not successful. -/
def runBuilders (InstancePtr : XDfeMix) : XDfeMix_CCCfg → List XDfeMix_BuilderCall →
    Option XDfeMix_CCCfg
  | CCCfg, [] => some CCCfg
  | CCCfg, Call :: Calls =>
    match runBuilder InstancePtr CCCfg Call with
    | none => none
    | some CCCfg1 => runBuilders InstancePtr CCCfg1 Calls

/-- The number of slots of the whole 16-entry sequence array that hold the carrier ID
`c`. -/
def allocatedSlots (CCCfg : XDfeMix_CCCfg) (c : Nat) : Nat :=
  (List.range XDFEMIX_CC_NUM).countP (fun i => decide (CCCfg.Sequence.CCID.getD i 0 = (c : Int)))

/-- The properties of a snapshot that every successful builder call keeps: the
sequence length is the instance's, the two carrier arrays have 16 entries, every slot
at or beyond the sequence length is null, and each carrier ID holds 0, 1, 2, 4, 8 or
16 of the slots below the sequence length and has a non-zero rate code exactly when
it holds a slot. -/
def snapshotOk (InstancePtr : XDfeMix) (CCCfg : XDfeMix_CCCfg) : Prop :=
  CCCfg.Sequence.Length = InstancePtr.SequenceLength ∧
  CCCfg.Sequence.CCID.length = XDFEMIX_CC_NUM ∧
  CCCfg.DUCDDCCfg.length = XDFEMIX_CC_NUM ∧
  (∀ i, CCCfg.Sequence.Length ≤ i → i < XDFEMIX_CC_NUM →
    CCCfg.Sequence.CCID.getD i 0 = XDFEMIX_SEQUENCE_ENTRY_NULL) ∧
  ∀ c, c < XDFEMIX_CC_NUM →
    occupancyOk (carrierSlots CCCfg (c : Int)) ∧
    ((CCCfg.DUCDDCCfg.getD c default).Rate ≠ 0 ↔ 0 < carrierSlots CCCfg (c : Int))

/-- The ARCH4 capacity bound of a snapshot: the slots of the active carriers on the
NCOs 0-3 are at most half of the sequence, and so are the slots of the active
carriers on the NCOs 4 and above; and every active carrier is on an NCO below 8. -/
def arch4CapacityOk (InstancePtr : XDfeMix) (CCCfg : XDfeMix_CCCfg) : Prop :=
  2 * arch4Usage CCCfg 0 ≤ InstancePtr.SequenceLength ∧
  2 * arch4Usage CCCfg 4 ≤ InstancePtr.SequenceLength ∧
  ∀ c, c < XDFEMIX_CC_NUM → (CCCfg.DUCDDCCfg.getD c default).Rate ≠ 0 →
    (CCCfg.DUCDDCCfg.getD c default).NCOIdx < 8

/-- A sequence of builder calls on the ARCH4 example instance: carrier 0 is added on
the slots 0-7 and NCO 0, carrier 1 on slot 8 and NCO 4, carrier 1 is moved to NCO 5,
and carrier 0 is removed. -/
def exampleCalls : List XDfeMix_BuilderCall :=
  [.AddCC 0 0xFF ⟨⟨0, 0, 0⟩⟩ ⟨⟨0, 0, 0, ⟨0⟩, 0⟩, ⟨0, 0, 0, 0⟩, 0⟩,
   .AddCC 1 0x100 ⟨⟨4, 0, 0⟩⟩ ⟨⟨0, 0, 0, ⟨0⟩, 0⟩, ⟨0, 0, 0, 0⟩, 0⟩,
   .UpdateCC 1 ⟨⟨5, 0, 1⟩⟩,
   .RemoveCC 0]

/-- The number of sequence slots, below the sequence length, that are held by a
carrier other than `c` whose descriptor satisfies `P`. -/
def slotsHeldByOthers (CCCfg : XDfeMix_CCCfg) (P : XDfeMix_DUCDDCCfg → Bool) (c : Nat) : Nat :=
  (List.range CCCfg.Sequence.Length).countP
    (fun i => heldBelow CCCfg P XDFEMIX_CC_NUM i &&
      !decide (CCCfg.Sequence.CCID.getD i 0 = (c : Int)))

/-! ## Loop invariants and auxiliary lemmas -/

/-! ### Bit-level facts about the `Mask` loops -/

theorem and_two_pow_ne_zero (B n : Nat) : B &&& 2 ^ n ≠ 0 ↔ B.testBit n = true := by
  constructor
  · intro h
    by_contra hb
    apply h
    apply Nat.eq_of_testBit_eq
    intro i
    rw [Nat.testBit_and, Nat.testBit_two_pow, Nat.zero_testBit]
    by_cases hi : n = i
    · subst hi; simp [hb]
    · simp [hi]
  · intro h h0
    have := Nat.testBit_and B (2 ^ n) n
    rw [h0, Nat.zero_testBit, h, Nat.testBit_two_pow_self] at this
    simp at this

theorem u32_two_pow (n : Nat) : u32 (2 ^ n) = if n < 32 then 2 ^ n else 0 := by
  unfold u32
  split
  · next h => exact Nat.mod_eq_of_lt (Nat.pow_lt_pow_right (by omega) h)
  · next h =>
    exact Nat.mod_eq_zero_of_dvd (Nat.pow_dvd_pow 2 (by omega))

theorem u32_mask_shift (n : Nat) : u32 (u32 (2 ^ n) <<< 1) = u32 (2 ^ (n + 1)) := by
  unfold u32
  rw [Nat.shiftLeft_eq, @Nat.pow_succ 2 n]
  generalize 2 ^ n = x
  omega

theorem and_u32_mask_ne_zero (B n : Nat) :
    B &&& u32 (2 ^ n) ≠ 0 ↔ (n < 32 ∧ B.testBit n = true) := by
  rw [u32_two_pow]
  split
  · next h => simp [and_two_pow_ne_zero, h]
  · next h => simp [h]

theorem countOnes_fold (B n : Nat) :
    (List.range n).foldl (XDfeMix_CountOnesInBitmap_step B) (1, 0)
      = (u32 (2 ^ n), (List.range n).countP (maskBit B)) := by
  induction n with
  | zero => simp [u32]
  | succ n ih =>
    rw [List.range_succ, List.foldl_append, ih]
    simp only [List.foldl_cons, List.foldl_nil, XDfeMix_CountOnesInBitmap_step,
      u32_mask_shift, List.countP_append, List.countP_cons, List.countP_nil]
    congr 1
    by_cases h : B &&& u32 (2 ^ n) ≠ 0
    · have h2 := (and_u32_mask_ne_zero B n).1 h
      simp [h, maskBit, h2.1, h2.2]
    · have h2 : maskBit B n = false := by
        by_contra hc
        apply h
        rw [and_u32_mask_ne_zero]
        simpa [maskBit] using hc
      simp [h, h2]

theorem countOnes_eq (InstancePtr : XDfeMix) (B : Nat) :
    XDfeMix_CountOnesInBitmap InstancePtr B
      = (List.range InstancePtr.SequenceLength).countP (maskBit B) := by
  unfold XDfeMix_CountOnesInBitmap
  rw [countOnes_fold]


theorem testBit_u32_two_pow (n i : Nat) :
    (u32 (2 ^ n)).testBit i = (decide (n < 32) && decide (n = i)) := by
  rw [u32_two_pow]
  split
  · next h => simp [Nat.testBit_two_pow, h]
  · next h => simp [h]

theorem bitmap_fold (CCCfg : XDfeMix_CCCfg) (CCID : Int) (n : Nat) :
    ∃ bm, (List.range n).foldl (XDfeMix_GetCarrierCfgAndNCO_step CCCfg CCID) (1, 0)
        = (u32 (2 ^ n), bm) ∧
      ∀ i, bm.testBit i
        = (decide (i < n) && decide (i < 32) && decide (CCCfg.Sequence.CCID.getD i 0 = CCID)) := by
  induction n with
  | zero => exact ⟨0, by simp [u32], by simp⟩
  | succ n ih =>
    obtain ⟨bm, hfold, hbit⟩ := ih
    rw [List.range_succ, List.foldl_append, hfold]
    simp only [List.foldl_cons, List.foldl_nil, XDfeMix_GetCarrierCfgAndNCO_step, u32_mask_shift]
    refine ⟨_, rfl, ?_⟩
    intro i
    by_cases hc : CCCfg.Sequence.CCID.getD n 0 = CCID
    · rw [if_pos hc, Nat.testBit_or, hbit, testBit_u32_two_pow]
      by_cases hin : n = i
      · subst hin
        rw [List.getD_eq_getElem?_getD] at hc
        simp [hc]
      · have : (i < n + 1) ↔ (i < n) := by omega
        simp [hin, this]
    · rw [if_neg hc, hbit]
      by_cases hin : n = i
      · subst hin
        rw [List.getD_eq_getElem?_getD] at hc
        simp [hc]
      · have : (i < n + 1) ↔ (i < n) := by omega
        simp [this]

/-- Bit `i` of the sequence bitmap that `XDfeMix_GetCarrierCfgAndNCO` returns for a
carrier: set exactly when slot `i`, below the sequence length (and below the width of
the mask), holds the carrier ID. -/
theorem testBit_GetCarrierCfgAndNCO (InstancePtr : XDfeMix) (CCCfg : XDfeMix_CCCfg) (CCID : Int)
    (CarrierCfg : XDfeMix_CarrierCfg) (i : Nat) :
    (XDfeMix_GetCarrierCfgAndNCO InstancePtr CCCfg CCID CarrierCfg).1.testBit i
      = (decide (i < CCCfg.Sequence.Length) && decide (i < 32)
          && decide (CCCfg.Sequence.CCID.getD i 0 = CCID)) := by
  obtain ⟨bm, hfold, hbit⟩ := bitmap_fold CCCfg CCID CCCfg.Sequence.Length
  simp only [XDfeMix_GetCarrierCfgAndNCO, hfold]
  exact hbit i

/-- The number of ones the driver counts in a carrier's sequence bitmap is the
number of slots below the sequence length that hold the carrier ID. -/
theorem countOnes_GetCarrierCfgAndNCO (InstancePtr : XDfeMix) (CCCfg : XDfeMix_CCCfg)
    (CCID : Int) (CarrierCfg : XDfeMix_CarrierCfg)
    (hL : CCCfg.Sequence.Length = InstancePtr.SequenceLength)
    (h32 : InstancePtr.SequenceLength ≤ 32) :
    XDfeMix_CountOnesInBitmap InstancePtr
        (XDfeMix_GetCarrierCfgAndNCO InstancePtr CCCfg CCID CarrierCfg).1
      = (List.range InstancePtr.SequenceLength).countP
          (fun i => decide (CCCfg.Sequence.CCID.getD i 0 = CCID)) := by
  rw [countOnes_eq]
  apply List.countP_congr
  intro i hi
  have hi2 : i < InstancePtr.SequenceLength := List.mem_range.1 hi
  have hi3 : i < 32 := by omega
  simp [maskBit, testBit_GetCarrierCfgAndNCO, hL, hi2, hi3]

theorem countP_maskBit_le (B n : Nat) : (List.range n).countP (maskBit B) ≤ 32 := by
  induction n with
  | zero => simp
  | succ n ih =>
    rw [List.range_succ, List.countP_append]
    by_cases h : n < 32
    · have := List.countP_le_length (maskBit B) (l := List.range n)
      have h1 : List.countP (maskBit B) [n] ≤ 1 := by
        simpa using List.countP_le_length (maskBit B) (l := [n])
      simp at this
      omega
    · have : maskBit B n = false := by simp [maskBit, h]
      simp [List.countP_cons, this]
      exact ih

theorem countOnes_le (InstancePtr : XDfeMix) (B : Nat) :
    XDfeMix_CountOnesInBitmap InstancePtr B ≤ 32 := by
  rw [countOnes_eq]; exact countP_maskBit_le _ _


/-! ### Sub-block usage: the driver's carrier-wise sums count slots -/

/-! The driver adds, carrier by carrier, the ones of each enabled carrier's sequence
bitmap; the lemmas below show that these sums count sequence slots. -/

theorem countP_split {α : Type} (R : List α) (r p q : α → Bool)
    (h : ∀ x ∈ R, r x = (p x || q x) ∧ ¬(p x = true ∧ q x = true)) :
    R.countP r = R.countP p + R.countP q := by
  induction R with
  | nil => simp
  | cons x R ih =>
    have hx := h x (List.mem_cons_self x R)
    have ih2 := ih (fun y hy => h y (List.mem_cons_of_mem x hy))
    rw [List.countP_cons, List.countP_cons, List.countP_cons, ih2, hx.1]
    cases hp : p x <;> cases hq : q x <;> simp_all <;> omega

theorem countP_heldBelow_succ (CCCfg : XDfeMix_CCCfg) (P : XDfeMix_DUCDDCCfg → Bool)
    (n : Nat) (R : List Nat) :
    R.countP (heldBelow CCCfg P (n + 1))
      = R.countP (heldBelow CCCfg P n)
        + (if P (CCCfg.DUCDDCCfg.getD n default) = true then
            R.countP (fun i => decide (CCCfg.Sequence.CCID.getD i 0 = (n : Int))) else 0) := by
  rw [countP_split R (heldBelow CCCfg P (n + 1)) (heldBelow CCCfg P n)
    (fun i => P (CCCfg.DUCDDCCfg.getD n default)
      && decide (CCCfg.Sequence.CCID.getD i 0 = (n : Int)))]
  · congr 1
    cases P (CCCfg.DUCDDCCfg.getD n default) <;> simp
  · intro i _
    unfold heldBelow
    generalize CCCfg.Sequence.CCID.getD i 0 = v
    by_cases hv : v = (n : Int)
    · subst hv
      simp
    · have h1 : (0 ≤ v ∧ v.toNat < n + 1) ↔ (0 ≤ v ∧ v.toNat < n) := by omega
      by_cases h0 : 0 ≤ v
      · have h2 : (v.toNat < n + 1) ↔ (v.toNat < n) := by omega
        simp [hv, h0, h2]
      · simp [hv, h0]


theorem u32_eq_self {x : Nat} (h : x < 4294967296) : u32 x = x := by
  unfold u32; omega

theorem countP_range_le (p : Nat → Bool) (L : Nat) : (List.range L).countP p ≤ L := by
  simpa using List.countP_le_length p (l := List.range L)

theorem heldBelow_zero (CCCfg : XDfeMix_CCCfg) (P : XDfeMix_DUCDDCCfg → Bool) (R : List Nat) :
    R.countP (heldBelow CCCfg P 0) = 0 := by
  rw [List.countP_eq_zero]
  intro i _
  simp [heldBelow]

theorem arch4_fold (InstancePtr : XDfeMix) (CCCfg : XDfeMix_CCCfg)
    (hL : CCCfg.Sequence.Length = InstancePtr.SequenceLength)
    (h32 : InstancePtr.SequenceLength ≤ 32) (n : Nat) :
    (List.range n).foldl (XDfeMix_NCOArch4Mode_step InstancePtr CCCfg) (0, 0)
      = ((List.range InstancePtr.SequenceLength).countP (heldBelow CCCfg arch4Low n),
         (List.range InstancePtr.SequenceLength).countP (heldBelow CCCfg arch4High n)) := by
  induction n with
  | zero => simp [heldBelow_zero]
  | succ n ih =>
    rw [List.range_succ, List.foldl_append, ih, countP_heldBelow_succ, countP_heldBelow_succ]
    simp only [List.foldl_cons, List.foldl_nil, XDfeMix_NCOArch4Mode_step,
      XDFEMIX_NCO_LOW_SUB_BLOCK_SIZE]
    have hk := countOnes_GetCarrierCfgAndNCO InstancePtr CCCfg (n : Int) default hL h32
    have ha := countP_range_le (heldBelow CCCfg arch4Low n) InstancePtr.SequenceLength
    have hb := countP_range_le (heldBelow CCCfg arch4High n) InstancePtr.SequenceLength
    have hc := countP_range_le (fun i => decide (CCCfg.Sequence.CCID.getD i 0 = (n : Int)))
      InstancePtr.SequenceLength
    rw [hk]
    generalize (List.range InstancePtr.SequenceLength).countP
      (fun i => decide (CCCfg.Sequence.CCID.getD i 0 = (n : Int))) = k at hc ⊢
    generalize (List.range InstancePtr.SequenceLength).countP (heldBelow CCCfg arch4Low n) = a
      at ha ⊢
    generalize (List.range InstancePtr.SequenceLength).countP (heldBelow CCCfg arch4High n) = b
      at hb ⊢
    generalize CCCfg.DUCDDCCfg.getD n default = d
    by_cases hr : d.Rate = 0
    · simp [hr, arch4Low, arch4High]
    · by_cases hi : d.NCOIdx < 4
      · have hi2 : ¬ 4 ≤ d.NCOIdx := by omega
        rw [if_neg hr, if_pos hi, u32_eq_self (by omega)]
        simp [arch4Low, arch4High, hr, hi, hi2]
      · have hi2 : 4 ≤ d.NCOIdx := by omega
        rw [if_neg hr, if_neg hi, u32_eq_self (by omega)]
        simp [arch4Low, arch4High, hr, hi, hi2]

theorem arch4Usage_eq (CCCfg : XDfeMix_CCCfg) (n : Nat) :
    arch4Usage CCCfg n
      = if n < 4 then slotsHeldBy CCCfg arch4Low else slotsHeldBy CCCfg arch4High := by
  unfold arch4Usage
  split
  · next h =>
    congr 1
    funext d
    simp [arch4Low, h]
  · next h =>
    congr 1
    funext d
    simp [arch4High, h]

/-- The two counters `XDfeMix_NCOArch4Mode` returns for a snapshot whose sequence
length is the instance's: the usage of the low and of the high sub-block. -/
theorem NCOArch4Mode_eq (InstancePtr : XDfeMix) (CCCfg : XDfeMix_CCCfg)
    (hL : CCCfg.Sequence.Length = InstancePtr.SequenceLength)
    (h32 : InstancePtr.SequenceLength ≤ 32) :
    XDfeMix_NCOArch4Mode InstancePtr CCCfg 0 0
      = (XST_SUCCESS, slotsHeldBy CCCfg arch4Low, slotsHeldBy CCCfg arch4High) := by
  unfold XDfeMix_NCOArch4Mode
  rw [arch4_fold InstancePtr CCCfg hL h32]
  simp [slotsHeldBy, hL]

theorem slotsHeldBy_le (CCCfg : XDfeMix_CCCfg) (P : XDfeMix_DUCDDCCfg → Bool) :
    slotsHeldBy CCCfg P ≤ CCCfg.Sequence.Length :=
  countP_range_le _ _

theorem u32_usage_mul (a k m : Nat) (ha : a ≤ 32) (hk : k ≤ 32) (hm : m ≤ 4) :
    u32 (u32 (a + k) * m) = m * (a + k) := by
  have h1 : u32 (a + k) = a + k := u32_eq_self (by omega)
  have h2 : (a + k) * m ≤ 64 * 4 := Nat.mul_le_mul (by omega) hm
  rw [h1, u32_eq_self (by omega), Nat.mul_comm]

theorem failure_ite (a : Prop) [Decidable a] :
    (if a then XST_FAILURE else XST_SUCCESS) = XST_FAILURE ↔ a := by
  by_cases ha : a <;> simp [ha]

theorem arch5_fold (InstancePtr : XDfeMix) (CCCfg : XDfeMix_CCCfg)
    (hL : CCCfg.Sequence.Length = InstancePtr.SequenceLength)
    (h32 : InstancePtr.SequenceLength ≤ 32) (n : Nat) :
    (List.range n).foldl (XDfeMix_NCOArch5Mode_step InstancePtr CCCfg) ⟨0, 0, 0, 0⟩
      = ⟨(List.range InstancePtr.SequenceLength).countP (heldBelow CCCfg (arch5Bank 0) n),
         (List.range InstancePtr.SequenceLength).countP (heldBelow CCCfg (arch5Bank 1) n),
         (List.range InstancePtr.SequenceLength).countP (heldBelow CCCfg (arch5Bank 2) n),
         (List.range InstancePtr.SequenceLength).countP (heldBelow CCCfg (arch5Bank 3) n)⟩ := by
  induction n with
  | zero => simp [heldBelow_zero]
  | succ n ih =>
    rw [List.range_succ, List.foldl_append, ih, countP_heldBelow_succ, countP_heldBelow_succ,
      countP_heldBelow_succ, countP_heldBelow_succ]
    simp only [List.foldl_cons, List.foldl_nil, XDfeMix_NCOArch5Mode_step,
      XDFEMIX_NCO_LOW_SUB_BLOCK_SIZE]
    have hk := countOnes_GetCarrierCfgAndNCO InstancePtr CCCfg (n : Int) default hL h32
    have h0 := countP_range_le (heldBelow CCCfg (arch5Bank 0) n) InstancePtr.SequenceLength
    have h1 := countP_range_le (heldBelow CCCfg (arch5Bank 1) n) InstancePtr.SequenceLength
    have h2 := countP_range_le (heldBelow CCCfg (arch5Bank 2) n) InstancePtr.SequenceLength
    have h3 := countP_range_le (heldBelow CCCfg (arch5Bank 3) n) InstancePtr.SequenceLength
    have hc := countP_range_le (fun i => decide (CCCfg.Sequence.CCID.getD i 0 = (n : Int)))
      InstancePtr.SequenceLength
    rw [hk]
    generalize (List.range InstancePtr.SequenceLength).countP
      (fun i => decide (CCCfg.Sequence.CCID.getD i 0 = (n : Int))) = k at hc ⊢
    generalize (List.range InstancePtr.SequenceLength).countP
      (heldBelow CCCfg (arch5Bank 0) n) = a0 at h0 ⊢
    generalize (List.range InstancePtr.SequenceLength).countP
      (heldBelow CCCfg (arch5Bank 1) n) = a1 at h1 ⊢
    generalize (List.range InstancePtr.SequenceLength).countP
      (heldBelow CCCfg (arch5Bank 2) n) = a2 at h2 ⊢
    generalize (List.range InstancePtr.SequenceLength).countP
      (heldBelow CCCfg (arch5Bank 3) n) = a3 at h3 ⊢
    generalize CCCfg.DUCDDCCfg.getD n default = d
    by_cases hr : d.Rate = 0
    · simp [hr, arch5Bank]
    · rw [if_neg hr]
      by_cases hi0 : d.NCOIdx < 1 * 4
      · have e : min (d.NCOIdx / 4) 3 = 0 := by omega
        rw [if_pos hi0, u32_eq_self (by omega)]
        simp [arch5Bank, hr, e]
      · rw [if_neg hi0]
        by_cases hi1 : d.NCOIdx < 2 * 4
        · have e : min (d.NCOIdx / 4) 3 = 1 := by omega
          rw [if_pos hi1, u32_eq_self (by omega)]
          simp [arch5Bank, hr, e]
        · rw [if_neg hi1]
          by_cases hi2 : d.NCOIdx < 3 * 4
          · have e : min (d.NCOIdx / 4) 3 = 2 := by omega
            rw [if_pos hi2, u32_eq_self (by omega)]
            simp [arch5Bank, hr, e]
          · have e : min (d.NCOIdx / 4) 3 = 3 := by omega
            rw [if_neg hi2, u32_eq_self (by omega)]
            simp [arch5Bank, hr, e]

/-- The counters `XDfeMix_NCOArch5Mode` returns for a snapshot whose sequence length
is the instance's: the slots booked on each of the four banks. -/
theorem NCOArch5Mode_eq (InstancePtr : XDfeMix) (CCCfg : XDfeMix_CCCfg)
    (hL : CCCfg.Sequence.Length = InstancePtr.SequenceLength)
    (h32 : InstancePtr.SequenceLength ≤ 32) :
    XDfeMix_NCOArch5Mode InstancePtr CCCfg ⟨0, 0, 0, 0⟩
      = (XST_SUCCESS, ⟨slotsHeldBy CCCfg (arch5Bank 0), slotsHeldBy CCCfg (arch5Bank 1),
          slotsHeldBy CCCfg (arch5Bank 2), slotsHeldBy CCCfg (arch5Bank 3)⟩) := by
  unfold XDfeMix_NCOArch5Mode
  rw [arch5_fold InstancePtr CCCfg hL h32]
  simp [slotsHeldBy, hL]

/-- On a snapshot whose enabled carriers have NCO indices below 16, the slots booked
on the bank of an index `n < 16` are the usage of the 4-wide sub-block of `n`. -/
theorem arch5Bank_usage (CCCfg : XDfeMix_CCCfg) (n : Nat) (hn : n < 16)
    (hv : ncoIdxInRange CCCfg) :
    slotsHeldBy CCCfg (arch5Bank (n / 4)) = arch5Usage CCCfg n := by
  unfold arch5Usage slotsHeldBy
  apply List.countP_congr
  intro i _
  unfold heldBelow
  generalize CCCfg.Sequence.CCID.getD i 0 = v
  by_cases h0 : 0 ≤ v
  · by_cases h1 : v.toNat < XDFEMIX_CC_NUM
    · have hv2 := hv v.toNat h1
      generalize CCCfg.DUCDDCCfg.getD v.toNat default = d at hv2
      by_cases hr : d.Rate = 0
      · simp [arch5Bank, hr]
      · have hd := hv2 hr
        have e : (min (d.NCOIdx / 4) 3 = n / 4) ↔ (d.NCOIdx / 4 = n / 4) := by omega
        simp [arch5Bank, hr, e]
    · simp [h1]
  · simp [h0]

/-! ## NCO capacity checker: the claims -/

/-- C1: the ARCH4 sub-block check of AddCarrier rejects exactly when twice the usage
of the candidate's sub-block, plus the ones of the new bitmap, exceeds the sequence
length; in ARCH4 mode it is the sub-block check AddCarrier runs; with a sequence
length of 16 an occupancy of 8 passes and one of 9 fails. -/
theorem C1_arch4_add_check (InstancePtr : XDfeMix) (CCCfg : XDfeMix_CCCfg) (CCID : Int)
    (CCSeqBitmap NCOIdx : Nat)
    (hL : CCCfg.Sequence.Length = InstancePtr.SequenceLength)
    (h16 : InstancePtr.SequenceLength ≤ 16) :
    (XDfeMix_NCOArch4ModeInAddCC InstancePtr CCCfg CCID CCSeqBitmap NCOIdx = XST_FAILURE ↔
      2 * (arch4Usage CCCfg NCOIdx + XDfeMix_CountOnesInBitmap InstancePtr CCSeqBitmap)
        > InstancePtr.SequenceLength) ∧
    (XDFEMIX_IS_ARCH4_MODE InstancePtr = true →
      (XDfeMix_CheckCarrierCfginAddCC InstancePtr CCCfg CCID CCSeqBitmap NCOIdx = XST_FAILURE ↔
        ((CCCfg.DUCDDCCfg.getD CCID.toNat default).Rate ≠ XDFEMIX_CC_CONFIG_DISABLED ∨
          XDfeMix_CheckCarrierCfg InstancePtr CCCfg NCOIdx = XST_FAILURE ∨
          XDfeMix_NCOArch4ModeInAddCC InstancePtr CCCfg CCID CCSeqBitmap NCOIdx
            = XST_FAILURE))) ∧
    (InstancePtr.SequenceLength = 16 →
      arch4Usage CCCfg NCOIdx + XDfeMix_CountOnesInBitmap InstancePtr CCSeqBitmap = 8 →
      XDfeMix_NCOArch4ModeInAddCC InstancePtr CCCfg CCID CCSeqBitmap NCOIdx = XST_SUCCESS) ∧
    (InstancePtr.SequenceLength = 16 →
      arch4Usage CCCfg NCOIdx + XDfeMix_CountOnesInBitmap InstancePtr CCSeqBitmap = 9 →
      XDfeMix_NCOArch4ModeInAddCC InstancePtr CCCfg CCID CCSeqBitmap NCOIdx = XST_FAILURE) := by
  have hmain : XDfeMix_NCOArch4ModeInAddCC InstancePtr CCCfg CCID CCSeqBitmap NCOIdx
      = if 2 * (arch4Usage CCCfg NCOIdx + XDfeMix_CountOnesInBitmap InstancePtr CCSeqBitmap)
          > InstancePtr.SequenceLength then XST_FAILURE else XST_SUCCESS := by
    have hk := countOnes_le InstancePtr CCSeqBitmap
    have hlo := slotsHeldBy_le CCCfg arch4Low
    have hhi := slotsHeldBy_le CCCfg arch4High
    unfold XDfeMix_NCOArch4ModeInAddCC
    rw [NCOArch4Mode_eq InstancePtr CCCfg hL (by omega), arch4Usage_eq]
    simp only [XDFEMIX_NCO_LOW_SUB_BLOCK_SIZE, if_neg (show ¬ (XST_SUCCESS = XST_FAILURE) by decide)]
    by_cases hn : NCOIdx < 4
    · simp only [if_pos hn]
      rw [u32_usage_mul _ _ 2 (by omega) hk (by omega)]
    · simp only [if_neg hn]
      rw [u32_usage_mul _ _ 2 (by omega) hk (by omega)]
  refine ⟨?_, ?_, ?_, ?_⟩
  · rw [hmain]
    exact failure_ite _
  · intro h4
    unfold XDfeMix_CheckCarrierCfginAddCC
    rw [if_pos h4]
    have h5 : ∀ s : XStatus, (if s = XST_FAILURE then XST_FAILURE else XST_SUCCESS) = s := by
      intro s; cases s <;> rfl
    rw [h5]
    generalize XDfeMix_NCOArch4ModeInAddCC InstancePtr CCCfg CCID CCSeqBitmap NCOIdx = s
    generalize XDfeMix_CheckCarrierCfg InstancePtr CCCfg NCOIdx = s1
    generalize (CCCfg.DUCDDCCfg.getD CCID.toNat default).Rate = r
    by_cases hr : r = XDFEMIX_CC_CONFIG_DISABLED <;> cases s1 <;> cases s <;> simp [hr]
  · intro hl h8
    rw [hmain, h8, hl]
    decide
  · intro hl h9
    rw [hmain, h9, hl]
    decide

/-- Witness for C1 on the ARCH4 example instance: a first carrier of 8 slots on the
empty snapshot passes (occupancy 8 of 16) and one more slot in the same sub-block
fails (occupancy 9). -/
theorem C1_arch4_add_check_witness :
    (XDfeMix_GetEmptyCCCfg arch4Instance).Sequence.Length = arch4Instance.SequenceLength ∧
    XDfeMix_NCOArch4ModeInAddCC arch4Instance (XDfeMix_GetEmptyCCCfg arch4Instance) 0 0xFF 0
      = XST_SUCCESS ∧
    XDfeMix_NCOArch4ModeInAddCC arch4Instance arch4Snapshot8 1 0x100 1 = XST_FAILURE :=
  ⟨by decide,
   (C1_arch4_add_check arch4Instance (XDfeMix_GetEmptyCCCfg arch4Instance) 0 0xFF 0
      (by decide) (by decide)).2.2.1 (by decide) (by decide),
   (C1_arch4_add_check arch4Instance arch4Snapshot8 1 0x100 1
      (by decide) (by decide)).2.2.2 (by decide) (by decide)⟩

/-- C2: the ARCH5 sub-block check of AddCarrier rejects exactly when four times the
usage of the candidate's 4-wide sub-block, plus the ones of the new bitmap, exceeds
the sequence length; in ARCH5 mode it is the sub-block check AddCarrier runs; with a
sequence length of 16 an occupancy of 4 passes and one of 5 fails. -/
theorem C2_arch5_add_check (InstancePtr : XDfeMix) (CCCfg : XDfeMix_CCCfg) (CCID : Int)
    (CCSeqBitmap NCOIdx : Nat)
    (hL : CCCfg.Sequence.Length = InstancePtr.SequenceLength)
    (h16 : InstancePtr.SequenceLength ≤ 16)
    (hn : NCOIdx < 16)
    (hv : ncoIdxInRange CCCfg) :
    (XDfeMix_NCOArch5ModeInAddCC InstancePtr CCCfg CCID CCSeqBitmap NCOIdx = XST_FAILURE ↔
      4 * (arch5Usage CCCfg NCOIdx + XDfeMix_CountOnesInBitmap InstancePtr CCSeqBitmap)
        > InstancePtr.SequenceLength) ∧
    (XDFEMIX_IS_ARCH5_MODE InstancePtr = true →
      (XDfeMix_CheckCarrierCfginAddCC InstancePtr CCCfg CCID CCSeqBitmap NCOIdx = XST_FAILURE ↔
        ((CCCfg.DUCDDCCfg.getD CCID.toNat default).Rate ≠ XDFEMIX_CC_CONFIG_DISABLED ∨
          XDfeMix_CheckCarrierCfg InstancePtr CCCfg NCOIdx = XST_FAILURE ∨
          XDfeMix_NCOArch5ModeInAddCC InstancePtr CCCfg CCID CCSeqBitmap NCOIdx
            = XST_FAILURE))) ∧
    (InstancePtr.SequenceLength = 16 →
      arch5Usage CCCfg NCOIdx + XDfeMix_CountOnesInBitmap InstancePtr CCSeqBitmap = 4 →
      XDfeMix_NCOArch5ModeInAddCC InstancePtr CCCfg CCID CCSeqBitmap NCOIdx = XST_SUCCESS) ∧
    (InstancePtr.SequenceLength = 16 →
      arch5Usage CCCfg NCOIdx + XDfeMix_CountOnesInBitmap InstancePtr CCSeqBitmap = 5 →
      XDfeMix_NCOArch5ModeInAddCC InstancePtr CCCfg CCID CCSeqBitmap NCOIdx = XST_FAILURE) := by
  have hmain : XDfeMix_NCOArch5ModeInAddCC InstancePtr CCCfg CCID CCSeqBitmap NCOIdx
      = if 4 * (arch5Usage CCCfg NCOIdx + XDfeMix_CountOnesInBitmap InstancePtr CCSeqBitmap)
          > InstancePtr.SequenceLength then XST_FAILURE else XST_SUCCESS := by
    have hk := countOnes_le InstancePtr CCSeqBitmap
    have hb := slotsHeldBy_le CCCfg (arch5Bank (NCOIdx / 4))
    unfold XDfeMix_NCOArch5ModeInAddCC
    rw [NCOArch5Mode_eq InstancePtr CCCfg hL (by omega), ← arch5Bank_usage CCCfg NCOIdx hn hv]
    simp only [XDFEMIX_NCO_LOW_SUB_BLOCK_SIZE,
      if_neg (show ¬ (XST_SUCCESS = XST_FAILURE) by decide)]
    by_cases h0 : NCOIdx < 1 * 4
    · have e : NCOIdx / 4 = 0 := by omega
      rw [e] at hb ⊢
      simp only [if_pos h0]
      rw [u32_usage_mul _ _ 4 (by omega) hk (by omega)]
    · simp only [if_neg h0]
      by_cases h1 : NCOIdx < 2 * 4
      · have e : NCOIdx / 4 = 1 := by omega
        rw [e] at hb ⊢
        simp only [if_pos h1]
        rw [u32_usage_mul _ _ 4 (by omega) hk (by omega)]
      · simp only [if_neg h1]
        by_cases h2 : NCOIdx < 3 * 4
        · have e : NCOIdx / 4 = 2 := by omega
          rw [e] at hb ⊢
          simp only [if_pos h2]
          rw [u32_usage_mul _ _ 4 (by omega) hk (by omega)]
        · have e : NCOIdx / 4 = 3 := by omega
          rw [e] at hb ⊢
          simp only [if_neg h2]
          rw [u32_usage_mul _ _ 4 (by omega) hk (by omega)]
  refine ⟨?_, ?_, ?_, ?_⟩
  · rw [hmain]
    exact failure_ite _
  · intro h5
    have h4 : XDFEMIX_IS_ARCH4_MODE InstancePtr = false := by
      simp only [XDFEMIX_IS_ARCH5_MODE, beq_iff_eq] at h5
      simp [XDFEMIX_IS_ARCH4_MODE, h5]
    unfold XDfeMix_CheckCarrierCfginAddCC
    rw [h4, h5]
    simp only [Bool.false_eq_true, if_false, if_true]
    have h6 : ∀ s : XStatus, (if s = XST_FAILURE then XST_FAILURE else XST_SUCCESS) = s := by
      intro s; cases s <;> rfl
    rw [h6]
    generalize XDfeMix_NCOArch5ModeInAddCC InstancePtr CCCfg CCID CCSeqBitmap NCOIdx = s
    generalize XDfeMix_CheckCarrierCfg InstancePtr CCCfg NCOIdx = s1
    generalize (CCCfg.DUCDDCCfg.getD CCID.toNat default).Rate = r
    by_cases hr : r = XDFEMIX_CC_CONFIG_DISABLED <;> cases s1 <;> cases s <;> simp [hr]
  · intro hl h8
    rw [hmain, h8, hl]
    decide
  · intro hl h9
    rw [hmain, h9, hl]
    decide

/-- Witness for C2 on the ARCH5 example instance: a first carrier of 4 slots on the
empty snapshot passes (occupancy 4 of 16) and one more slot in the same sub-block
fails (occupancy 5). -/
theorem C2_arch5_add_check_witness :
    ncoIdxInRange arch5Snapshot4 ∧
    XDfeMix_NCOArch5ModeInAddCC arch5Instance (XDfeMix_GetEmptyCCCfg arch5Instance) 0 0xF 0
      = XST_SUCCESS ∧
    XDfeMix_NCOArch5ModeInAddCC arch5Instance arch5Snapshot4 1 0x10 1 = XST_FAILURE :=
  ⟨by decide,
   (C2_arch5_add_check arch5Instance (XDfeMix_GetEmptyCCCfg arch5Instance) 0 0xF 0
      (by decide) (by decide) (by decide) (by decide)).2.2.1 (by decide) (by decide),
   (C2_arch5_add_check arch5Instance arch5Snapshot4 1 0x10 1
      (by decide) (by decide) (by decide) (by decide)).2.2.2 (by decide) (by decide)⟩

theorem countOnes_carrierSlots (InstancePtr : XDfeMix) (CCCfg : XDfeMix_CCCfg)
    (CCID : Int) (CarrierCfg : XDfeMix_CarrierCfg)
    (hL : CCCfg.Sequence.Length = InstancePtr.SequenceLength)
    (h32 : InstancePtr.SequenceLength ≤ 32) :
    XDfeMix_CountOnesInBitmap InstancePtr
        (XDfeMix_GetCarrierCfgAndNCO InstancePtr CCCfg CCID CarrierCfg).1
      = carrierSlots CCCfg CCID := by
  rw [countOnes_GetCarrierCfgAndNCO InstancePtr CCCfg CCID CarrierCfg hL h32, carrierSlots, hL]

theorem carrierSlots_le (CCCfg : XDfeMix_CCCfg) (CCID : Int) :
    carrierSlots CCCfg CCID ≤ CCCfg.Sequence.Length :=
  countP_range_le _ _

/-- The value of the ARCH4 update/move check on a snapshot whose sequence length is
the instance's. -/
theorem arch4_move_eq (InstancePtr : XDfeMix) (CCCfg : XDfeMix_CCCfg) (c NCOIdx : Nat)
    (hL : CCCfg.Sequence.Length = InstancePtr.SequenceLength)
    (h16 : InstancePtr.SequenceLength ≤ 16) :
    XDfeMix_NCOArch4ModeInMoveOrUpdateCC InstancePtr CCCfg (c : Int) NCOIdx
      = if ((CCCfg.DUCDDCCfg.getD c default).NCOIdx < 4 ↔ NCOIdx < 4) then XST_SUCCESS
        else if 2 * (arch4Usage CCCfg NCOIdx + carrierSlots CCCfg (c : Int))
            > InstancePtr.SequenceLength then XST_FAILURE
        else XST_SUCCESS := by
  have hk := carrierSlots_le CCCfg (c : Int)
  have hlo := slotsHeldBy_le CCCfg arch4Low
  have hhi := slotsHeldBy_le CCCfg arch4High
  unfold XDfeMix_NCOArch4ModeInMoveOrUpdateCC
  rw [NCOArch4Mode_eq InstancePtr CCCfg hL (by omega), arch4Usage_eq]
  simp only [XDFEMIX_NCO_LOW_SUB_BLOCK_SIZE, Int.toNat_ofNat,
    if_neg (show ¬ (XST_SUCCESS = XST_FAILURE) by decide)]
  rw [countOnes_carrierSlots InstancePtr CCCfg (c : Int) default hL (by omega)]
  generalize (CCCfg.DUCDDCCfg.getD c default).NCOIdx = o
  by_cases hn : NCOIdx < 4
  · by_cases ho : o < 4
    · have e : (o < 4 ↔ NCOIdx < 4) := by omega
      rw [if_neg (by omega), if_neg (by omega), if_pos e]
    · have e : ¬ (o < 4 ↔ NCOIdx < 4) := by omega
      rw [if_pos (by omega), if_neg e, if_pos hn,
        u32_usage_mul _ _ 2 (by omega) (by omega) (by omega)]
  · by_cases ho : o < 4
    · have e : ¬ (o < 4 ↔ NCOIdx < 4) := by omega
      rw [if_neg (by omega), if_pos (by omega), if_neg e, if_neg hn,
        u32_usage_mul _ _ 2 (by omega) (by omega) (by omega)]
    · have e : (o < 4 ↔ NCOIdx < 4) := by omega
      rw [if_neg (by omega), if_neg (by omega), if_pos e]

/-- C5: the ARCH4 update/move sub-block check succeeds, with no usage comparison,
when the new NCO index is in the sub-block (0-3, or 4 and above) of the carrier's
current one; otherwise it rejects exactly when twice the usage of the destination
sub-block plus the carrier's own slots exceeds the sequence length. The result is a
function of the destination usage and the carrier's slots alone, so the usage of the
source sub-block does not influence it. In ARCH4 mode it is the sub-block check
UpdateCarrier runs. -/
theorem C5_arch4_move_check (InstancePtr : XDfeMix) (CCCfg : XDfeMix_CCCfg) (c NCOIdx : Nat)
    (hL : CCCfg.Sequence.Length = InstancePtr.SequenceLength)
    (h16 : InstancePtr.SequenceLength ≤ 16) :
    (((CCCfg.DUCDDCCfg.getD c default).NCOIdx < 4 ↔ NCOIdx < 4) →
      XDfeMix_NCOArch4ModeInMoveOrUpdateCC InstancePtr CCCfg (c : Int) NCOIdx = XST_SUCCESS) ∧
    (¬ ((CCCfg.DUCDDCCfg.getD c default).NCOIdx < 4 ↔ NCOIdx < 4) →
      (XDfeMix_NCOArch4ModeInMoveOrUpdateCC InstancePtr CCCfg (c : Int) NCOIdx = XST_FAILURE ↔
        2 * (arch4Usage CCCfg NCOIdx + carrierSlots CCCfg (c : Int))
          > InstancePtr.SequenceLength)) ∧
    (∀ CCCfg2 : XDfeMix_CCCfg, CCCfg2.Sequence.Length = InstancePtr.SequenceLength →
      (((CCCfg2.DUCDDCCfg.getD c default).NCOIdx < 4 ↔ NCOIdx < 4) ↔
        ((CCCfg.DUCDDCCfg.getD c default).NCOIdx < 4 ↔ NCOIdx < 4)) →
      arch4Usage CCCfg2 NCOIdx = arch4Usage CCCfg NCOIdx →
      carrierSlots CCCfg2 (c : Int) = carrierSlots CCCfg (c : Int) →
      XDfeMix_NCOArch4ModeInMoveOrUpdateCC InstancePtr CCCfg2 (c : Int) NCOIdx
        = XDfeMix_NCOArch4ModeInMoveOrUpdateCC InstancePtr CCCfg (c : Int) NCOIdx) ∧
    (XDFEMIX_IS_ARCH4_MODE InstancePtr = true →
      (XDfeMix_CheckCarrierCfgInUpdateCC InstancePtr CCCfg (c : Int) NCOIdx = XST_FAILURE ↔
        (XDfeMix_CheckCarrierCfg InstancePtr CCCfg NCOIdx = XST_FAILURE ∨
          XDfeMix_NCOArch4ModeInMoveOrUpdateCC InstancePtr CCCfg (c : Int) NCOIdx
            = XST_FAILURE))) := by
  refine ⟨?_, ?_, ?_, ?_⟩
  · intro h
    rw [arch4_move_eq InstancePtr CCCfg c NCOIdx hL h16, if_pos h]
  · intro h
    rw [arch4_move_eq InstancePtr CCCfg c NCOIdx hL h16, if_neg h]
    exact failure_ite _
  · intro CCCfg2 hL2 hb hu hk
    rw [arch4_move_eq InstancePtr CCCfg c NCOIdx hL h16,
      arch4_move_eq InstancePtr CCCfg2 c NCOIdx hL2 h16, hu, hk]
    by_cases h : ((CCCfg.DUCDDCCfg.getD c default).NCOIdx < 4 ↔ NCOIdx < 4)
    · rw [if_pos h, if_pos (hb.2 h)]
    · rw [if_neg h, if_neg (fun h2 => h (hb.1 h2))]
  · intro h4
    unfold XDfeMix_CheckCarrierCfgInUpdateCC
    rw [if_pos h4]
    generalize XDfeMix_NCOArch4ModeInMoveOrUpdateCC InstancePtr CCCfg (c : Int) NCOIdx = s
    generalize XDfeMix_CheckCarrierCfg InstancePtr CCCfg NCOIdx = s1
    cases s1 <;> cases s <;> simp

/-- Witness for C5 on the ARCH4 example instance: with carrier 0 (8 slots) on NCO 0
and carrier 1 (1 slot) on NCO 4, moving carrier 0 to NCO 5 is rejected (9 of 16 in
the high sub-block) while moving it to NCO 1 passes. -/
theorem C5_arch4_move_check_witness :
    arch4Snapshot81.Sequence.Length = arch4Instance.SequenceLength ∧
    XDfeMix_NCOArch4ModeInMoveOrUpdateCC arch4Instance arch4Snapshot81 0 5 = XST_FAILURE ∧
    XDfeMix_NCOArch4ModeInMoveOrUpdateCC arch4Instance arch4Snapshot81 0 1 = XST_SUCCESS :=
  ⟨by decide,
   ((C5_arch4_move_check arch4Instance arch4Snapshot81 0 5 (by decide) (by decide)).2.1
      (by decide)).2 (by decide),
   (C5_arch4_move_check arch4Instance arch4Snapshot81 0 1 (by decide) (by decide)).1
      (by decide)⟩

/-! ## The "NCO index already used" check -/

theorem CheckCarrierCfg_loop_failure (CCCfg : XDfeMix_CCCfg) (NCOIdx : Nat) (l : List Nat) :
    XDfeMix_CheckCarrierCfg_loop CCCfg NCOIdx l = XST_FAILURE ↔
      ∃ Index ∈ l, (CCCfg.DUCDDCCfg.getD Index default).NCOIdx = NCOIdx ∧
        (CCCfg.DUCDDCCfg.getD Index default).Rate ≠ XDFEMIX_CC_CONFIG_DISABLED := by
  induction l with
  | nil => simp [XDfeMix_CheckCarrierCfg_loop]
  | cons a l ih =>
    unfold XDfeMix_CheckCarrierCfg_loop
    by_cases h : (CCCfg.DUCDDCCfg.getD a default).NCOIdx = NCOIdx ∧
        (CCCfg.DUCDDCCfg.getD a default).Rate ≠ XDFEMIX_CC_CONFIG_DISABLED
    · rw [if_pos h]
      exact ⟨fun _ => ⟨a, List.mem_cons_self a l, h⟩, fun _ => rfl⟩
    · rw [if_neg h, ih]
      constructor
      · rintro ⟨i, hi, hp⟩
        exact ⟨i, List.mem_cons_of_mem a hi, hp⟩
      · rintro ⟨i, hi, hp⟩
        rcases List.mem_cons.1 hi with rfl | hi'
        · exact absurd hp h
        · exact ⟨i, hi', hp⟩

/-- What `XDfeMix_CheckCarrierCfg` decides: it fails exactly for an NCO index that
is not below `MaxUseableCcids`, or that is the NCO index of an enabled carrier among
the descriptors `0 .. SequenceLength - 1`. -/
theorem CheckCarrierCfg_failure (InstancePtr : XDfeMix) (CCCfg : XDfeMix_CCCfg) (NCOIdx : Nat) :
    XDfeMix_CheckCarrierCfg InstancePtr CCCfg NCOIdx = XST_FAILURE ↔
      (NCOIdx ≥ InstancePtr.Config.MaxUseableCcids ∨
        ∃ Index, Index < InstancePtr.SequenceLength ∧
          (CCCfg.DUCDDCCfg.getD Index default).NCOIdx = NCOIdx ∧
          (CCCfg.DUCDDCCfg.getD Index default).Rate ≠ XDFEMIX_CC_CONFIG_DISABLED) := by
  unfold XDfeMix_CheckCarrierCfg
  by_cases h : NCOIdx ≥ InstancePtr.Config.MaxUseableCcids
  · rw [if_pos h]
    exact ⟨fun _ => Or.inl h, fun _ => rfl⟩
  · rw [if_neg h, CheckCarrierCfg_loop_failure]
    simp only [List.mem_range, h, false_or]

/-- C3 (evaluation at the failing input): on an ARCH5 instance with sequence length
8, carrier 10 is added on NCO 2 and is active; adding carrier 0 on the same NCO 2
then returns success and leaves both carriers enabled on NCO 2. -/
theorem C3_add_accepts_used_nco :
    (XDfeMix_AddCCtoCCCfg arch5Instance8 (XDfeMix_GetEmptyCCCfg arch5Instance8) 10 0x1
        ⟨⟨2, 0, 0⟩⟩ default).1 = XST_SUCCESS ∧
    (arch5Snapshot8Carrier10.DUCDDCCfg.getD 10 default).Rate ≠ XDFEMIX_CC_CONFIG_DISABLED ∧
    (arch5Snapshot8Carrier10.DUCDDCCfg.getD 10 default).NCOIdx = 2 ∧
    (XDfeMix_AddCCtoCCCfg arch5Instance8 arch5Snapshot8Carrier10 0 0x2
        ⟨⟨2, 0, 0⟩⟩ default).1 = XST_SUCCESS ∧
    ((XDfeMix_AddCCtoCCCfg arch5Instance8 arch5Snapshot8Carrier10 0 0x2
        ⟨⟨2, 0, 0⟩⟩ default).2.DUCDDCCfg.getD 0 default)
      = ⟨2, XDFEMIX_CC_CONFIG_RATE_8X, 0⟩ ∧
    ((XDfeMix_AddCCtoCCCfg arch5Instance8 arch5Snapshot8Carrier10 0 0x2
        ⟨⟨2, 0, 0⟩⟩ default).2.DUCDDCCfg.getD 10 default)
      = ⟨2, XDFEMIX_CC_CONFIG_RATE_8X, 0⟩ := by
  decide

/-- C4 (counterexample): in the ARCH4 example snapshot carrier 0 is active on NCO 0
and no other carrier is active, yet the "NCO index already used" check rejects NCO 0
and an update of carrier 0 that keeps NCO 0 and changes only the gain fails. -/
theorem C4_update_same_nco_counterexample :
    (arch4Snapshot8.DUCDDCCfg.getD 0 default).Rate ≠ XDFEMIX_CC_CONFIG_DISABLED ∧
    (arch4Snapshot8.DUCDDCCfg.getD 0 default).NCOIdx = 0 ∧
    (∀ c, c < XDFEMIX_CC_NUM → c ≠ 0 →
      (arch4Snapshot8.DUCDDCCfg.getD c default).Rate = XDFEMIX_CC_CONFIG_DISABLED) ∧
    XDfeMix_CheckCarrierCfg arch4Instance arch4Snapshot8 0 = XST_FAILURE ∧
    (XDfeMix_UpdateCCinCCCfg arch4Instance arch4Snapshot8 0 ⟨⟨0, 0, 5⟩⟩).1 = XST_FAILURE := by
  decide

/-- C4 (amended): the "NCO index already used" check of UpdateCarrier does not
exempt the carrier being updated. For every snapshot in which a carrier with an ID
below the sequence length is enabled on NCO index `n`, the check rejects `n`, so an
update of that carrier that keeps its NCO index fails and leaves the snapshot
unchanged. -/
theorem C4_update_same_nco_rejected (InstancePtr : XDfeMix) (CCCfg : XDfeMix_CCCfg)
    (c n : Nat) (CarrierCfg : XDfeMix_CarrierCfg)
    (hc : c < InstancePtr.SequenceLength)
    (hr : (CCCfg.DUCDDCCfg.getD c default).Rate ≠ XDFEMIX_CC_CONFIG_DISABLED)
    (hn : (CCCfg.DUCDDCCfg.getD c default).NCOIdx = n)
    (hcfg : CarrierCfg.DUCDDCCfg.NCOIdx = n) :
    XDfeMix_CheckCarrierCfg InstancePtr CCCfg n = XST_FAILURE ∧
    XDfeMix_CheckCarrierCfgInUpdateCC InstancePtr CCCfg (c : Int) n = XST_FAILURE ∧
    XDfeMix_UpdateCCinCCCfg InstancePtr CCCfg (c : Int) CarrierCfg = (XST_FAILURE, CCCfg) := by
  have h1 : XDfeMix_CheckCarrierCfg InstancePtr CCCfg n = XST_FAILURE :=
    (CheckCarrierCfg_failure InstancePtr CCCfg n).2 (Or.inr ⟨c, hc, hn, hr⟩)
  have h2 : XDfeMix_CheckCarrierCfgInUpdateCC InstancePtr CCCfg (c : Int) n = XST_FAILURE := by
    unfold XDfeMix_CheckCarrierCfgInUpdateCC
    rw [if_pos h1]
  refine ⟨h1, h2, ?_⟩
  unfold XDfeMix_UpdateCCinCCCfg
  rw [hcfg, if_pos h2]

/-- Witness for C4 (amended) on the ARCH4 example snapshot: carrier 0 is enabled on
NCO 0 and an update that keeps NCO 0 fails. -/
theorem C4_update_same_nco_rejected_witness :
    (arch4Snapshot8.DUCDDCCfg.getD 0 default).Rate ≠ XDFEMIX_CC_CONFIG_DISABLED ∧
    XDfeMix_UpdateCCinCCCfg arch4Instance arch4Snapshot8 0 ⟨⟨0, 0, 5⟩⟩
      = (XST_FAILURE, arch4Snapshot8) :=
  ⟨by decide,
   (C4_update_same_nco_rejected arch4Instance arch4Snapshot8 0 0 ⟨⟨0, 0, 5⟩⟩
      (by decide) (by decide) (by decide) (by decide)).2.2⟩

/-- C6 (evaluation at the failing inputs): on the ARCH5 example instance, (1) with
bank 3 at its limit, moving carrier 0 from NCO 0 to NCO 1, inside sub-block 0-3, is
rejected although old and new index share a sub-block; (2) with sub-block 4-7 at its
limit (4 of 16 slots), moving carrier 0 (1 slot) from NCO 0 to NCO 4 is accepted
although 4 * (4 + 1) exceeds 16. -/
theorem C6_arch5_move_check_diverges :
    ((arch5SnapshotBank3Full.DUCDDCCfg.getD 0 default).NCOIdx / 4 = 1 / 4 ∧
      XDfeMix_NCOArch5ModeInMoveOrUpdateCC arch5Instance arch5SnapshotBank3Full 0 1
        = XST_FAILURE ∧
      (XDfeMix_UpdateCCinCCCfg arch5Instance arch5SnapshotBank3Full 0 ⟨⟨1, 0, 0⟩⟩).1
        = XST_FAILURE) ∧
    ((arch5SnapshotBank1Full.DUCDDCCfg.getD 0 default).NCOIdx / 4 ≠ 4 / 4 ∧
      4 * (arch5Usage arch5SnapshotBank1Full 4 + carrierSlots arch5SnapshotBank1Full 0)
        > arch5Instance.SequenceLength ∧
      XDfeMix_NCOArch5ModeInMoveOrUpdateCC arch5Instance arch5SnapshotBank1Full 0 4
        = XST_SUCCESS ∧
      (XDfeMix_UpdateCCinCCCfg arch5Instance arch5SnapshotBank1Full 0 ⟨⟨4, 0, 0⟩⟩).1
        = XST_SUCCESS) := by
  decide

/-! ## `XDfeMix_AddCCIDAndTranslateSeq` and `XDfeMix_RemoveCCID` -/

theorem seqMask_eq (L : Nat) (hL : L < 32) : u32_sub (u32 (1 <<< L)) 1 = 2 ^ L - 1 := by
  rw [Nat.one_shiftLeft, u32_two_pow, if_pos hL]
  have h1 : 2 ^ L < 2 ^ 32 := Nat.pow_lt_pow_right (by omega) hL
  have h2 : 0 < 2 ^ L := Nat.pow_pos (by omega)
  unfold u32_sub u32
  generalize 2 ^ L = x at h1 h2
  omega

theorem testBit_u32_not_seqMask (L i : Nat) (hL : L < 32) :
    (u32_not (2 ^ L - 1)).testBit i = (decide (i < 32) && !decide (i < L)) := by
  have h1 : 2 ^ L < 2 ^ 32 := Nat.pow_lt_pow_right (by omega) hL
  have h2 : 0 < 2 ^ L := Nat.pow_pos (by omega)
  have h3 : 2 ^ L - 1 < 2 ^ 32 := by omega
  have e : u32_not (2 ^ L - 1) = 2 ^ 32 - ((2 ^ L - 1) + 1) := by
    unfold u32_not u32
    rw [Nat.mod_eq_of_lt h3]
    omega
  rw [e, Nat.testBit_two_pow_sub_succ h3, Nat.testBit_two_pow_sub_one]

theorem testBit_false_of_lt {B i : Nat} (hB : B < 2 ^ 32) (hi : 32 ≤ i) :
    B.testBit i = false :=
  Nat.testBit_lt_two_pow (Nat.lt_of_lt_of_le hB (Nat.pow_le_pow_right (by omega) hi))

/-- The sequence-map overflow test of `XDfeMix_AddCCIDAndTranslateSeq` fires exactly
when the 32-bit bitmap has a bit set at a position not below the sequence length. -/
theorem overflow_check_iff (B L : Nat) (hL : L < 32) (hB : B < 2 ^ 32) :
    0 ≠ B &&& u32_not (u32_sub (u32 (1 <<< L)) 1) ↔ ∃ i, L ≤ i ∧ B.testBit i = true := by
  rw [seqMask_eq L hL]
  constructor
  · intro h
    obtain ⟨i, hi⟩ := Nat.ne_zero_implies_bit_true (Ne.symm h)
    rw [Nat.testBit_and, testBit_u32_not_seqMask L i hL] at hi
    simp only [Bool.and_eq_true, decide_eq_true_eq, Bool.not_eq_true', decide_eq_false_iff_not]
      at hi
    exact ⟨i, by omega, hi.1⟩
  · rintro ⟨i, hi, hb⟩ h0
    have h32 : i < 32 := by
      by_contra hc
      rw [testBit_false_of_lt hB (by omega)] at hb
      exact Bool.false_ne_true hb
    have := Nat.testBit_and B (u32_not (2 ^ L - 1)) i
    rw [← h0, Nat.zero_testBit, hb, testBit_u32_not_seqMask L i hL] at this
    have h2 : ¬ i < L := by omega
    simp [h32, h2] at this

theorem fits_iff (B : Nat) (slots : List Int) (fuel Index : Nat) :
    XDfeMix_AddCCIDAndTranslateSeq_fits B slots fuel Index (u32 (2 ^ Index)) = true ↔
      ∀ i, Index ≤ i → i < Index + fuel → maskBit B i = true →
        slots.getD i 0 = XDFEMIX_SEQUENCE_ENTRY_NULL := by
  induction fuel generalizing Index with
  | zero =>
    simp only [XDfeMix_AddCCIDAndTranslateSeq_fits, true_iff]
    intro i h1 h2
    omega
  | succ fuel ih =>
    unfold XDfeMix_AddCCIDAndTranslateSeq_fits
    rw [u32_mask_shift]
    have hm : (0 ≠ B &&& u32 (2 ^ Index)) ↔ maskBit B Index = true := by
      rw [ne_comm, and_u32_mask_ne_zero]
      simp [maskBit]
    by_cases hc : 0 ≠ B &&& u32 (2 ^ Index) ∧ slots.getD Index 0 ≠ XDFEMIX_SEQUENCE_ENTRY_NULL
    · rw [if_pos hc]
      constructor
      · intro h
        exact absurd h (by decide)
      · intro h
        exact absurd (h Index (Nat.le_refl _) (by omega) (hm.1 hc.1)) hc.2
    · rw [if_neg hc, ih]
      constructor
      · intro h i h1 h2 h3
        by_cases hi : i = Index
        · subst hi
          by_contra hne
          exact hc ⟨hm.2 h3, hne⟩
        · exact h i (by omega) (by omega) h3
      · intro h i h1 h2 h3
        exact h i (by omega) (by omega) h3

theorem write_fold (CCID : Int) (B : Nat) (slots : List Int) (n : Nat) :
    ∃ s, (List.range n).foldl (XDfeMix_AddCCIDAndTranslateSeq_write CCID B) (1, slots)
        = (u32 (2 ^ n), s) ∧ s.length = slots.length ∧
      ∀ i, s[i]? = if i < n ∧ maskBit B i = true ∧ i < slots.length then some CCID
        else slots[i]? := by
  induction n with
  | zero => exact ⟨slots, by simp [u32], rfl, by simp⟩
  | succ n ih =>
    obtain ⟨s, hfold, hlen, hget⟩ := ih
    rw [List.range_succ, List.foldl_append, hfold]
    simp only [List.foldl_cons, List.foldl_nil, XDfeMix_AddCCIDAndTranslateSeq_write,
      u32_mask_shift]
    have hm : (0 ≠ B &&& u32 (2 ^ n)) ↔ maskBit B n = true := by
      rw [ne_comm, and_u32_mask_ne_zero]
      simp [maskBit]
    refine ⟨_, rfl, ?_, ?_⟩
    · split <;> simp [hlen]
    · intro i
      by_cases hb : 0 ≠ B &&& u32 (2 ^ n)
      · rw [if_pos hb, List.getElem?_set, hlen, hget]
        have hb2 := hm.1 hb
        by_cases hi : n = i
        · subst hi
          by_cases hl : n < slots.length
          · simp [hl, hb2]
          · have : slots[n]? = none := List.getElem?_eq_none (by omega)
            simp [hl, this]
        · have e : (i < n + 1) ↔ (i < n) := by omega
          simp [hi, e]
      · rw [if_neg hb, hget]
        have hb2 : ¬ maskBit B n = true := fun h => hb (hm.2 h)
        by_cases hi : n = i
        · subst hi
          simp [hb2]
        · have e : (i < n + 1) ↔ (i < n) := by omega
          simp [e]

theorem remove_fold (CCID : Int) (slots : List Int) (n : Nat) :
    ∃ s, (List.range n).foldl (XDfeMix_RemoveCCID_step CCID) slots = s ∧
      s.length = slots.length ∧
      ∀ i, s[i]? = if i < n ∧ slots[i]? = some CCID then some XDFEMIX_SEQUENCE_ENTRY_NULL
        else slots[i]? := by
  induction n with
  | zero => exact ⟨slots, rfl, rfl, by simp⟩
  | succ n ih =>
    obtain ⟨s, hfold, hlen, hget⟩ := ih
    rw [List.range_succ, List.foldl_append, hfold]
    simp only [List.foldl_cons, List.foldl_nil, XDfeMix_RemoveCCID_step]
    refine ⟨_, rfl, ?_, ?_⟩
    · split <;> simp [hlen]
    · intro i
      have hn : s[n]? = slots[n]? := by
        rw [hget]; simp
      rw [List.getD_eq_getElem?_getD, hn]
      by_cases hc : (slots[n]?).getD 0 = CCID
      · rw [if_pos hc, List.getElem?_set, hlen, hget]
        by_cases hi : n = i
        · subst hi
          by_cases hl : n < slots.length
          · have : slots[n]? = some CCID := by
              rw [List.getElem?_eq_getElem hl] at hc ⊢
              simpa using hc
            simp [hl, this]
          · have : slots[n]? = none := List.getElem?_eq_none (by omega)
            simp [hl, this]
        · have e : (i < n + 1) ↔ (i < n) := by omega
          simp [hi, e]
      · rw [if_neg hc, hget]
        by_cases hi : n = i
        · subst hi
          have : ¬ slots[n]? = some CCID := by
            intro h
            rw [h] at hc
            exact hc rfl
          simp [this]
        · have e : (i < n + 1) ↔ (i < n) := by omega
          simp [e]

/-! ## `XDfeMix_GetNotUsedCCID` -/

theorem inner_bounds (slots : List Int) (v : Int) (fuel Index : Nat) :
    Index ≤ XDfeMix_GetNotUsedCCID_inner slots v fuel Index ∧
      XDfeMix_GetNotUsedCCID_inner slots v fuel Index ≤ Index + fuel := by
  induction fuel generalizing Index with
  | zero => simp [XDfeMix_GetNotUsedCCID_inner]
  | succ fuel ih =>
    unfold XDfeMix_GetNotUsedCCID_inner
    split
    · omega
    · have := ih (Index + 1)
      omega

theorem inner_eq_iff (slots : List Int) (v : Int) (fuel Index : Nat) :
    XDfeMix_GetNotUsedCCID_inner slots v fuel Index = Index + fuel ↔
      ∀ i, Index ≤ i → i < Index + fuel → slots.getD i 0 ≠ v := by
  induction fuel generalizing Index with
  | zero =>
    simp only [XDfeMix_GetNotUsedCCID_inner, Nat.add_zero, true_iff]
    intro i h1 h2
    omega
  | succ fuel ih =>
    unfold XDfeMix_GetNotUsedCCID_inner
    by_cases hc : slots.getD Index 0 = v
    · rw [if_pos hc]
      constructor
      · intro h
        omega
      · intro h
        exact absurd hc (h Index (Nat.le_refl _) (by omega))
    · rw [if_neg hc]
      have e : Index + (fuel + 1) = Index + 1 + fuel := by omega
      rw [e, ih]
      constructor
      · intro h i h1 h2
        by_cases hi : i = Index
        · subst hi; exact hc
        · exact h i (by omega) h2
      · intro h i h1 h2
        exact h i (by omega) h2

theorem outer_spec (slots : List Int) (fuel : Nat) (v0 : Int) :
    v0 ≤ XDfeMix_GetNotUsedCCID_outer slots fuel v0 ∧
    XDfeMix_GetNotUsedCCID_outer slots fuel v0 ≤ v0 + fuel ∧
    (∀ v, v0 ≤ v → v < XDfeMix_GetNotUsedCCID_outer slots fuel v0 →
      ∃ i, i < XDFEMIX_CC_NUM ∧ slots.getD i 0 = v) ∧
    (XDfeMix_GetNotUsedCCID_outer slots fuel v0 < v0 + fuel →
      ∀ i, i < XDFEMIX_CC_NUM →
        slots.getD i 0 ≠ XDfeMix_GetNotUsedCCID_outer slots fuel v0) := by
  induction fuel generalizing v0 with
  | zero =>
    simp only [XDfeMix_GetNotUsedCCID_outer]
    refine ⟨Int.le_refl _, by omega, ?_, ?_⟩
    · intro v h1 h2; omega
    · intro h; omega
  | succ fuel ih =>
    unfold XDfeMix_GetNotUsedCCID_outer
    have hin := inner_eq_iff slots v0 XDFEMIX_CC_NUM 0
    simp only [Nat.zero_add, Nat.zero_le, true_implies] at hin
    by_cases hc : XDfeMix_GetNotUsedCCID_inner slots v0 XDFEMIX_CC_NUM 0 = XDFEMIX_CC_NUM
    · rw [if_pos hc]
      refine ⟨Int.le_refl _, by omega, ?_, ?_⟩
      · intro v h1 h2; omega
      · intro _ i hi
        exact hin.1 hc i hi
    · rw [if_neg hc]
      obtain ⟨h1, h2, h3, h4⟩ := ih (v0 + 1)
      refine ⟨by omega, by push_cast; omega, ?_, ?_⟩
      · intro v hv1 hv2
        by_cases hv : v = v0
        · subst hv
          by_contra hne
          apply hc
          rw [hin]
          intro i hi heq
          exact hne ⟨i, hi, heq⟩
        · exact h3 v (by omega) hv2
      · intro hlt
        exact h4 (by push_cast at hlt; omega)

/-- What `XDfeMix_GetNotUsedCCID` returns: a value `r` in 0..16 such that every ID
below `r` is the value of one of the 16 entries and, when `r` is below 16, `r` is the
value of none of them. -/
theorem GetNotUsedCCID_spec (Sequence : XDfeMix_CCSequence) :
    0 ≤ XDfeMix_GetNotUsedCCID Sequence ∧
    XDfeMix_GetNotUsedCCID Sequence ≤ 16 ∧
    (∀ v, 0 ≤ v → v < XDfeMix_GetNotUsedCCID Sequence →
      ∃ i, i < XDFEMIX_CC_NUM ∧ Sequence.CCID.getD i 0 = v) ∧
    (XDfeMix_GetNotUsedCCID Sequence < 16 →
      ∀ i, i < XDFEMIX_CC_NUM → Sequence.CCID.getD i 0 ≠ XDfeMix_GetNotUsedCCID Sequence) := by
  have h := outer_spec Sequence.CCID XDFEMIX_CC_NUM 0
  unfold XDfeMix_GetNotUsedCCID
  simpa [XDFEMIX_CC_NUM] using h

/-- `XDfeMix_GetNotUsedCCID` reads the slot array only. -/
theorem GetNotUsedCCID_congr (s1 s2 : XDfeMix_CCSequence) (h : s1.CCID = s2.CCID) :
    XDfeMix_GetNotUsedCCID s1 = XDfeMix_GetNotUsedCCID s2 := by
  unfold XDfeMix_GetNotUsedCCID
  rw [h]

/-! ### Status and final state of `XDfeMix_AddCCIDAndTranslateSeq` -/

theorem countP_range_extend (p : Nat → Bool) (L n : Nat) (h : L ≤ n)
    (hz : ∀ i, L ≤ i → p i = false) :
    (List.range n).countP p = (List.range L).countP p := by
  induction n, h using Nat.le_induction with
  | base => rfl
  | succ n hn ih =>
    rw [List.range_succ, List.countP_append, ih]
    simp [List.countP_cons, hz n hn]

/-- For a 32-bit bitmap without bits at or above the sequence length, the driver's
count of ones is the number of set bits of the bitmap. -/
theorem countOnes_eq_popcount (InstancePtr : XDfeMix) (B : Nat)
    (h32 : InstancePtr.SequenceLength ≤ 32)
    (hz : ∀ i, InstancePtr.SequenceLength ≤ i → B.testBit i = false) :
    XDfeMix_CountOnesInBitmap InstancePtr B = popcount32 B := by
  rw [countOnes_eq, popcount32]
  have h1 : (List.range 32).countP (fun i => B.testBit i)
      = (List.range 32).countP (maskBit B) := by
    apply List.countP_congr
    intro i hi
    have : i < 32 := List.mem_range.1 hi
    simp [maskBit, this]
  rw [h1, countP_range_extend (maskBit B) InstancePtr.SequenceLength 32 h32]
  intro i hi
  simp [maskBit, hz i hi]

/-- The occupancy values `XDfeMix_AddCCIDAndTranslateSeq` accepts. -/
theorem okCount_iff (k : Nat) :
    ¬ (k ≠ 0 ∧ k ≠ 1 ∧ k ≠ 2 ∧ k ≠ 4 ∧ k ≠ 8 ∧ k ≠ 16) ↔
      (k = 0 ∨ k = 1 ∨ k = 2 ∨ k = 4 ∨ k = 8 ∨ k = 16) := by
  omega

theorem status_ne (s : XStatus) : s = XST_FAILURE ↔ ¬ s = XST_SUCCESS := by
  cases s <;> simp

/-- When `XDfeMix_AddCCIDAndTranslateSeq` succeeds. -/
theorem add_status_iff (InstancePtr : XDfeMix) (CCID : Int) (B : Nat)
    (seq : XDfeMix_CCSequence) (hL : seq.Length < 32) (hB : B < 2 ^ 32) :
    (XDfeMix_AddCCIDAndTranslateSeq InstancePtr CCID B seq).1 = XST_SUCCESS ↔
      (∀ i, seq.Length ≤ i → B.testBit i = false) ∧
      (XDfeMix_CountOnesInBitmap InstancePtr B = 0 ∨ XDfeMix_CountOnesInBitmap InstancePtr B = 1 ∨
        XDfeMix_CountOnesInBitmap InstancePtr B = 2 ∨ XDfeMix_CountOnesInBitmap InstancePtr B = 4 ∨
        XDfeMix_CountOnesInBitmap InstancePtr B = 8 ∨
        XDfeMix_CountOnesInBitmap InstancePtr B = 16) ∧
      (∀ i, i < seq.Length → B.testBit i = true →
        seq.CCID.getD i 0 = XDFEMIX_SEQUENCE_ENTRY_NULL) := by
  have hov := overflow_check_iff B seq.Length hL hB
  have hfit := fits_iff B seq.CCID seq.Length 0
  simp only [Nat.pow_zero, Nat.zero_add, Nat.zero_le, true_implies] at hfit
  have hu1 : u32 1 = 1 := by decide
  rw [hu1] at hfit
  have hfit2 : (∀ i, i < seq.Length → maskBit B i = true →
        seq.CCID.getD i 0 = XDFEMIX_SEQUENCE_ENTRY_NULL) ↔
      (∀ i, i < seq.Length → B.testBit i = true →
        seq.CCID.getD i 0 = XDFEMIX_SEQUENCE_ENTRY_NULL) := by
    constructor
    · intro h i hi hb
      exact h i hi (by simp [maskBit, hb]; omega)
    · intro h i hi hb
      exact h i hi (by simp [maskBit] at hb; exact hb.2)
  rw [hfit2] at hfit
  have hov2 : (¬ ∃ i, seq.Length ≤ i ∧ B.testBit i = true) ↔
      (∀ i, seq.Length ≤ i → B.testBit i = false) := by
    constructor
    · intro h i hi
      by_contra hb
      exact h ⟨i, hi, by simpa using hb⟩
    · rintro h ⟨i, hi, hb⟩
      rw [h i hi] at hb
      exact Bool.false_ne_true hb
  unfold XDfeMix_AddCCIDAndTranslateSeq
  simp only []
  by_cases h1 : 0 ≠ B &&& u32_not (u32_sub (u32 (1 <<< seq.Length)) 1)
  · rw [if_pos h1]
    have := hov.1 h1
    constructor
    · intro h; exact absurd h (by simp)
    · intro h; exact absurd this (hov2.2 h.1)
  · rw [if_neg h1]
    have ha := hov2.1 (fun h => h1 (hov.2 h))
    by_cases h2 : XDfeMix_CountOnesInBitmap InstancePtr B ≠ 0 ∧
        XDfeMix_CountOnesInBitmap InstancePtr B ≠ 1 ∧
        XDfeMix_CountOnesInBitmap InstancePtr B ≠ 2 ∧
        XDfeMix_CountOnesInBitmap InstancePtr B ≠ 4 ∧
        XDfeMix_CountOnesInBitmap InstancePtr B ≠ 8 ∧
        XDfeMix_CountOnesInBitmap InstancePtr B ≠ 16
    · rw [if_pos h2]
      constructor
      · intro h; exact absurd h (by simp)
      · intro h; exact absurd h2 ((okCount_iff _).2 h.2.1)
    · rw [if_neg h2]
      have hb := (okCount_iff _).1 h2
      by_cases h3 : XDfeMix_AddCCIDAndTranslateSeq_fits B seq.CCID seq.Length 0 1 = false
      · rw [if_pos h3]
        constructor
        · intro h; exact absurd h (by simp)
        · intro h
          rw [hfit.2 h.2.2] at h3
          exact absurd h3 (by decide)
      · rw [if_neg h3]
        have h4 : XDfeMix_AddCCIDAndTranslateSeq_fits B seq.CCID seq.Length 0 1 = true := by
          simpa using h3
        exact ⟨fun _ => ⟨ha, hb, hfit.1 h4⟩, fun _ => rfl⟩

/-- A failing `XDfeMix_AddCCIDAndTranslateSeq` leaves the sequence as it was. -/
theorem add_failure_state (InstancePtr : XDfeMix) (CCID : Int) (B : Nat)
    (seq : XDfeMix_CCSequence)
    (h : (XDfeMix_AddCCIDAndTranslateSeq InstancePtr CCID B seq).1 = XST_FAILURE) :
    (XDfeMix_AddCCIDAndTranslateSeq InstancePtr CCID B seq).2 = seq := by
  unfold XDfeMix_AddCCIDAndTranslateSeq at h ⊢
  simp only [] at h ⊢
  split
  · rfl
  · split
    · rfl
    · split
      · rfl
      · next h1 h2 h3 =>
        rw [if_neg h1, if_neg h2, if_neg h3] at h
        exact absurd h (by simp)

/-- The sequence a successful `XDfeMix_AddCCIDAndTranslateSeq` produces. -/
theorem add_success_state (InstancePtr : XDfeMix) (CCID : Int) (B : Nat)
    (seq : XDfeMix_CCSequence)
    (h : (XDfeMix_AddCCIDAndTranslateSeq InstancePtr CCID B seq).1 = XST_SUCCESS) :
    ∃ s, (XDfeMix_AddCCIDAndTranslateSeq InstancePtr CCID B seq).2
        = { Length := seq.Length, CCID := s,
            NotUsedCCID := XDfeMix_GetNotUsedCCID
              { Length := seq.Length, CCID := s, NotUsedCCID := seq.NotUsedCCID } } ∧
      s.length = seq.CCID.length ∧
      ∀ i, s[i]? = if i < seq.Length ∧ maskBit B i = true ∧ i < seq.CCID.length then some CCID
        else seq.CCID[i]? := by
  obtain ⟨s, hfold, hlen, hget⟩ := write_fold CCID B seq.CCID seq.Length
  refine ⟨s, ?_, hlen, hget⟩
  unfold XDfeMix_AddCCIDAndTranslateSeq at h ⊢
  simp only [] at h ⊢
  split
  · next h1 => rw [if_pos h1] at h; exact absurd h (by simp)
  · split
    · next h1 h2 => rw [if_neg h1, if_pos h2] at h; exact absurd h (by simp)
    · split
      · next h1 h2 h3 => rw [if_neg h1, if_neg h2, if_pos h3] at h; exact absurd h (by simp)
      · rw [hfold]

/-! ## Sequence assignment: the claims -/

/-- C7: with the sequence length equal to the instance's (at most 16) and a 32-bit
bitmap, assignSlots succeeds exactly when (a) the bitmap has no bit at a position at
or above the length, (b) its number of set bits is one of 0, 1, 2, 4, 8, 16 and
(c) every slot selected by the bitmap holds `-1`; in particular it fails for every
bitmap with a bit at or above the length. -/
theorem C7_assign_success_iff (InstancePtr : XDfeMix) (CCID : Int) (B : Nat)
    (seq : XDfeMix_CCSequence)
    (hLen : seq.Length = InstancePtr.SequenceLength) (h16 : seq.Length ≤ 16)
    (hB : B < 2 ^ 32) :
    ((XDfeMix_AddCCIDAndTranslateSeq InstancePtr CCID B seq).1 = XST_SUCCESS ↔
      (∀ i, seq.Length ≤ i → B.testBit i = false) ∧
      (popcount32 B = 0 ∨ popcount32 B = 1 ∨ popcount32 B = 2 ∨ popcount32 B = 4 ∨
        popcount32 B = 8 ∨ popcount32 B = 16) ∧
      (∀ i, i < XDFEMIX_CC_NUM → B.testBit i = true →
        seq.CCID.getD i 0 = XDFEMIX_SEQUENCE_ENTRY_NULL)) ∧
    ((∃ i, seq.Length ≤ i ∧ B.testBit i = true) →
      (XDfeMix_AddCCIDAndTranslateSeq InstancePtr CCID B seq).1 = XST_FAILURE) := by
  have hiff := add_status_iff InstancePtr CCID B seq (by omega) hB
  constructor
  · rw [hiff]
    constructor
    · rintro ⟨ha, hb, hc⟩
      rw [countOnes_eq_popcount InstancePtr B (by omega) (by rw [← hLen]; exact ha)] at hb
      refine ⟨ha, hb, ?_⟩
      intro i _ hbit
      by_cases hi : i < seq.Length
      · exact hc i hi hbit
      · rw [ha i (by omega)] at hbit
        exact absurd hbit Bool.false_ne_true
    · rintro ⟨ha, hb, hc⟩
      rw [countOnes_eq_popcount InstancePtr B (by omega) (by rw [← hLen]; exact ha)]
      refine ⟨ha, hb, ?_⟩
      intro i hi hbit
      exact hc i (by unfold XDFEMIX_CC_NUM; omega) hbit
  · rintro ⟨i, hi, hbit⟩
    rw [status_ne, hiff]
    rintro ⟨ha, _, _⟩
    rw [ha i hi] at hbit
    exact absurd hbit Bool.false_ne_true

/-- Witness for C7 on the ARCH4 example instance (length 16): the bitmap `0xF0` is
accepted on the empty sequence and the bitmap `0x10000`, whose only bit is at
position 16, is rejected. -/
theorem C7_assign_success_iff_witness :
    (XDfeMix_GetEmptyCCCfg arch4Instance).Sequence.Length = arch4Instance.SequenceLength ∧
    (XDfeMix_AddCCIDAndTranslateSeq arch4Instance 3 0xF0
      (XDfeMix_GetEmptyCCCfg arch4Instance).Sequence).1 = XST_SUCCESS ∧
    (XDfeMix_AddCCIDAndTranslateSeq arch4Instance 3 0x10000
      (XDfeMix_GetEmptyCCCfg arch4Instance).Sequence).1 = XST_FAILURE :=
  ⟨by decide,
   (C7_assign_success_iff arch4Instance 3 0xF0 (XDfeMix_GetEmptyCCCfg arch4Instance).Sequence
      (by decide) (by decide) (by decide)).1.2
      ⟨fun i hi => Nat.testBit_lt_two_pow
          (Nat.lt_of_lt_of_le (show 0xF0 < 2 ^ 16 by decide)
            (Nat.pow_le_pow_right (by decide) hi)),
        by decide, by decide⟩,
   (C7_assign_success_iff arch4Instance 3 0x10000 (XDfeMix_GetEmptyCCCfg arch4Instance).Sequence
      (by decide) (by decide) (by decide)).2 ⟨16, by decide, by decide⟩⟩

theorem getD_of_getElem? {l : List Int} {i : Nat} {o : Option Int} (h : l[i]? = o) :
    l.getD i 0 = o.getD 0 := by
  rw [List.getD_eq_getElem?_getD, h]

/-- Slot values after a successful `XDfeMix_AddCCIDAndTranslateSeq`, for an array
that holds at least `Length` entries. -/
theorem add_success_slots (InstancePtr : XDfeMix) (CCID : Int) (B : Nat)
    (seq : XDfeMix_CCSequence) (hL : seq.Length < 32) (hlen : seq.Length ≤ seq.CCID.length)
    (hB : B < 2 ^ 32)
    (h : (XDfeMix_AddCCIDAndTranslateSeq InstancePtr CCID B seq).1 = XST_SUCCESS) :
    (XDfeMix_AddCCIDAndTranslateSeq InstancePtr CCID B seq).2.Length = seq.Length ∧
    (XDfeMix_AddCCIDAndTranslateSeq InstancePtr CCID B seq).2.CCID.length = seq.CCID.length ∧
    (XDfeMix_AddCCIDAndTranslateSeq InstancePtr CCID B seq).2.NotUsedCCID
      = XDfeMix_GetNotUsedCCID (XDfeMix_AddCCIDAndTranslateSeq InstancePtr CCID B seq).2 ∧
    ∀ i, (XDfeMix_AddCCIDAndTranslateSeq InstancePtr CCID B seq).2.CCID.getD i 0
      = if B.testBit i = true then CCID else seq.CCID.getD i 0 := by
  obtain ⟨s, hs, hslen, hget⟩ := add_success_state InstancePtr CCID B seq h
  obtain ⟨ha, _, _⟩ := (add_status_iff InstancePtr CCID B seq hL hB).1 h
  rw [hs]
  refine ⟨rfl, hslen, GetNotUsedCCID_congr _ _ rfl, ?_⟩
  intro i
  simp only []
  rw [getD_of_getElem? (hget i)]
  by_cases hb : B.testBit i = true
  · have hi : i < seq.Length := by
      by_contra hc
      rw [ha i (by omega)] at hb
      exact Bool.false_ne_true hb
    have hm : maskBit B i = true := by simp [maskBit, hb]; omega
    rw [if_pos ⟨hi, hm, by omega⟩, if_pos hb]
    rfl
  · have hm : ¬ maskBit B i = true := by simp [maskBit]; intro _; simpa using hb
    rw [if_neg (fun hc => hm hc.2.1), if_neg hb, List.getD_eq_getElem?_getD]

/-- C8 (counterexample): on a sequence in which carrier 5 already holds slot 0,
assigning the bitmap `0x2` to carrier 5 succeeds and the occupancy bitmap of carrier 5
is then `0x3`, not `0x2`. -/
theorem C8_assign_occupancy_counterexample :
    (XDfeMix_AddCCIDAndTranslateSeq arch4Instance 5 0x2 sequenceCarrier5).1 = XST_SUCCESS ∧
    (XDfeMix_GetCarrierCfgAndNCO arch4Instance
      { XDfeMix_GetEmptyCCCfg arch4Instance with
        Sequence := (XDfeMix_AddCCIDAndTranslateSeq arch4Instance 5 0x2 sequenceCarrier5).2 }
      5 default).1 = 0x3 := by
  decide

/-- C8 (amended): after a successful assignSlots the occupancy bitmap of the carrier,
as `XDfeMix_GetCarrierCfgAndNCO` computes it, is the bitmap `B` OR-ed with the
occupancy bitmap the carrier had before the call; it is exactly `B` when no slot below
the sequence length held the carrier ID before. -/
theorem C8_assign_occupancy (InstancePtr : XDfeMix) (CCCfg : XDfeMix_CCCfg) (CCID : Int)
    (B : Nat) (CarrierCfg : XDfeMix_CarrierCfg)
    (h16 : CCCfg.Sequence.Length ≤ 16) (hlen : CCCfg.Sequence.CCID.length = 16)
    (hB : B < 2 ^ 32)
    (hs : (XDfeMix_AddCCIDAndTranslateSeq InstancePtr CCID B CCCfg.Sequence).1 = XST_SUCCESS) :
    (XDfeMix_GetCarrierCfgAndNCO InstancePtr
        { CCCfg with
          Sequence := (XDfeMix_AddCCIDAndTranslateSeq InstancePtr CCID B CCCfg.Sequence).2 }
        CCID CarrierCfg).1
      = B ||| (XDfeMix_GetCarrierCfgAndNCO InstancePtr CCCfg CCID CarrierCfg).1 ∧
    ((∀ i, i < CCCfg.Sequence.Length → CCCfg.Sequence.CCID.getD i 0 ≠ CCID) →
      (XDfeMix_GetCarrierCfgAndNCO InstancePtr
        { CCCfg with
          Sequence := (XDfeMix_AddCCIDAndTranslateSeq InstancePtr CCID B CCCfg.Sequence).2 }
        CCID CarrierCfg).1 = B) := by
  obtain ⟨hL2, _, _, hget⟩ := add_success_slots InstancePtr CCID B CCCfg.Sequence (by omega)
    (by omega) hB hs
  obtain ⟨ha, _, _⟩ := (add_status_iff InstancePtr CCID B CCCfg.Sequence (by omega) hB).1 hs
  have hbit : ∀ i, (XDfeMix_GetCarrierCfgAndNCO InstancePtr
        { CCCfg with
          Sequence := (XDfeMix_AddCCIDAndTranslateSeq InstancePtr CCID B CCCfg.Sequence).2 }
        CCID CarrierCfg).1.testBit i
      = (B.testBit i || (decide (i < CCCfg.Sequence.Length) && decide (i < 32)
          && decide (CCCfg.Sequence.CCID.getD i 0 = CCID))) := by
    intro i
    rw [testBit_GetCarrierCfgAndNCO]
    simp only []
    rw [hL2, hget i]
    by_cases hb : B.testBit i = true
    · have hi : i < CCCfg.Sequence.Length := by
        by_contra hc
        rw [ha i (by omega)] at hb
        exact Bool.false_ne_true hb
      have hi2 : i < 32 := by omega
      simp [hb, hi, hi2]
    · simp [hb]
  constructor
  · apply Nat.eq_of_testBit_eq
    intro i
    rw [hbit i, Nat.testBit_or, testBit_GetCarrierCfgAndNCO]
  · intro hfree
    apply Nat.eq_of_testBit_eq
    intro i
    rw [hbit i]
    by_cases hi : i < CCCfg.Sequence.Length
    · have hne : decide (CCCfg.Sequence.CCID.getD i 0 = CCID) = false :=
        decide_eq_false (hfree i hi)
      rw [hne]
      simp
    · simp [hi]

/-- Witness for C8 (amended): assigning `0xF0` to carrier 3 on the empty sequence of
the ARCH4 example instance gives carrier 3 the occupancy bitmap `0xF0`. -/
theorem C8_assign_occupancy_witness :
    (XDfeMix_AddCCIDAndTranslateSeq arch4Instance 3 0xF0
      (XDfeMix_GetEmptyCCCfg arch4Instance).Sequence).1 = XST_SUCCESS ∧
    (XDfeMix_GetCarrierCfgAndNCO arch4Instance
      { XDfeMix_GetEmptyCCCfg arch4Instance with
        Sequence := (XDfeMix_AddCCIDAndTranslateSeq arch4Instance 3 0xF0
          (XDfeMix_GetEmptyCCCfg arch4Instance).Sequence).2 }
      3 default).1 = 0xF0 :=
  ⟨by decide,
   (C8_assign_occupancy arch4Instance (XDfeMix_GetEmptyCCCfg arch4Instance) 3 0xF0 default
      (by decide) (by decide) (by decide) (by decide)).2 (by decide)⟩

/-- C9: when assignSlots succeeds, every slot whose bit is set in the bitmap holds
the carrier ID afterwards and every other slot holds the value it held before (the
array keeps its 16 entries and the sequence its length); when assignSlots fails, the
sequence is returned as it was: no slot and not the NotUsedCCID field has changed. -/
theorem C9_assign_frame (InstancePtr : XDfeMix) (CCID : Int) (B : Nat)
    (seq : XDfeMix_CCSequence)
    (h16 : seq.Length ≤ 16) (hlen : seq.CCID.length = 16) (hB : B < 2 ^ 32) :
    ((XDfeMix_AddCCIDAndTranslateSeq InstancePtr CCID B seq).1 = XST_SUCCESS →
      (∀ i, i < XDFEMIX_CC_NUM → B.testBit i = true →
        (XDfeMix_AddCCIDAndTranslateSeq InstancePtr CCID B seq).2.CCID.getD i 0 = CCID) ∧
      (∀ i, i < XDFEMIX_CC_NUM → B.testBit i = false →
        (XDfeMix_AddCCIDAndTranslateSeq InstancePtr CCID B seq).2.CCID.getD i 0
          = seq.CCID.getD i 0) ∧
      (XDfeMix_AddCCIDAndTranslateSeq InstancePtr CCID B seq).2.CCID.length = 16 ∧
      (XDfeMix_AddCCIDAndTranslateSeq InstancePtr CCID B seq).2.Length = seq.Length) ∧
    ((XDfeMix_AddCCIDAndTranslateSeq InstancePtr CCID B seq).1 = XST_FAILURE →
      (XDfeMix_AddCCIDAndTranslateSeq InstancePtr CCID B seq).2 = seq ∧
      (XDfeMix_AddCCIDAndTranslateSeq InstancePtr CCID B seq).2.CCID = seq.CCID ∧
      (XDfeMix_AddCCIDAndTranslateSeq InstancePtr CCID B seq).2.NotUsedCCID
        = seq.NotUsedCCID) := by
  constructor
  · intro hs
    obtain ⟨hL2, hlen2, _, hget⟩ := add_success_slots InstancePtr CCID B seq (by omega)
      (by omega) hB hs
    refine ⟨?_, ?_, by rw [hlen2, hlen], hL2⟩
    · intro i _ hb
      rw [hget i, if_pos hb]
    · intro i _ hb
      rw [hget i, if_neg (by rw [hb]; exact Bool.false_ne_true)]
  · intro hf
    have h := add_failure_state InstancePtr CCID B seq hf
    exact ⟨h, by rw [h], by rw [h]⟩

/-- Witness for C9 on the ARCH4 example instance: assigning `0x6` to carrier 2 on the
sequence in which carrier 5 holds slot 0 succeeds, sets the slots 1 and 2 and keeps
slot 0; assigning `0x1` fails and returns the sequence unchanged. -/
theorem C9_assign_frame_witness :
    (XDfeMix_AddCCIDAndTranslateSeq arch4Instance 2 0x6 sequenceCarrier5).1 = XST_SUCCESS ∧
    (XDfeMix_AddCCIDAndTranslateSeq arch4Instance 2 0x6 sequenceCarrier5).2.CCID.getD 1 0 = 2 ∧
    (XDfeMix_AddCCIDAndTranslateSeq arch4Instance 2 0x6 sequenceCarrier5).2.CCID.getD 0 0 = 5 ∧
    (XDfeMix_AddCCIDAndTranslateSeq arch4Instance 2 0x1 sequenceCarrier5).1 = XST_FAILURE ∧
    (XDfeMix_AddCCIDAndTranslateSeq arch4Instance 2 0x1 sequenceCarrier5).2 = sequenceCarrier5 :=
  ⟨by decide,
   ((C9_assign_frame arch4Instance 2 0x6 sequenceCarrier5 (by decide) (by decide)
      (by decide)).1 (by decide)).1 1 (by decide) (by decide),
   by decide,
   by decide,
   ((C9_assign_frame arch4Instance 2 0x1 sequenceCarrier5 (by decide) (by decide)
      (by decide)).2 (by decide)).1⟩

/-- The sequence `XDfeMix_RemoveCCID` produces. -/
theorem remove_state (CCID : Int) (seq : XDfeMix_CCSequence) :
    ∃ s, XDfeMix_RemoveCCID CCID seq
        = { Length := seq.Length, CCID := s,
            NotUsedCCID := XDfeMix_GetNotUsedCCID
              { Length := seq.Length, CCID := s, NotUsedCCID := seq.NotUsedCCID } } ∧
      s.length = seq.CCID.length ∧
      ∀ i, s[i]? = if i < seq.Length ∧ seq.CCID[i]? = some CCID then
          some XDFEMIX_SEQUENCE_ENTRY_NULL
        else seq.CCID[i]? := by
  obtain ⟨s, hfold, hlen, hget⟩ := remove_fold CCID seq.CCID seq.Length
  refine ⟨s, ?_, hlen, hget⟩
  unfold XDfeMix_RemoveCCID
  simp only []
  rw [hfold]

/-- C10: after a successful assignSlots, and after every releaseSlots, the
NotUsedCCID field of the sequence is `XDfeMix_GetNotUsedCCID` of the resulting slot
array, and therefore, when it is below 16, it is not the value of any of the 16
slots. -/
theorem C10_not_used_ccid (InstancePtr : XDfeMix) (CCID : Int) (B : Nat)
    (seq : XDfeMix_CCSequence) :
    ((XDfeMix_AddCCIDAndTranslateSeq InstancePtr CCID B seq).1 = XST_SUCCESS →
      (XDfeMix_AddCCIDAndTranslateSeq InstancePtr CCID B seq).2.NotUsedCCID
        = XDfeMix_GetNotUsedCCID (XDfeMix_AddCCIDAndTranslateSeq InstancePtr CCID B seq).2 ∧
      ((XDfeMix_AddCCIDAndTranslateSeq InstancePtr CCID B seq).2.NotUsedCCID < 16 →
        ∀ i, i < XDFEMIX_CC_NUM →
          (XDfeMix_AddCCIDAndTranslateSeq InstancePtr CCID B seq).2.CCID.getD i 0
            ≠ (XDfeMix_AddCCIDAndTranslateSeq InstancePtr CCID B seq).2.NotUsedCCID)) ∧
    ((XDfeMix_RemoveCCID CCID seq).NotUsedCCID
        = XDfeMix_GetNotUsedCCID (XDfeMix_RemoveCCID CCID seq) ∧
      ((XDfeMix_RemoveCCID CCID seq).NotUsedCCID < 16 →
        ∀ i, i < XDFEMIX_CC_NUM →
          (XDfeMix_RemoveCCID CCID seq).CCID.getD i 0
            ≠ (XDfeMix_RemoveCCID CCID seq).NotUsedCCID)) := by
  have key : ∀ s : XDfeMix_CCSequence, s.NotUsedCCID = XDfeMix_GetNotUsedCCID s →
      (s.NotUsedCCID = XDfeMix_GetNotUsedCCID s ∧
        (s.NotUsedCCID < 16 → ∀ i, i < XDFEMIX_CC_NUM → s.CCID.getD i 0 ≠ s.NotUsedCCID)) := by
    intro s hs
    refine ⟨hs, ?_⟩
    rw [hs]
    exact (GetNotUsedCCID_spec s).2.2.2
  constructor
  · intro hsucc
    apply key
    obtain ⟨s, hs, _, _⟩ := add_success_state InstancePtr CCID B seq hsucc
    rw [hs]
    exact GetNotUsedCCID_congr _ _ rfl
  · apply key
    obtain ⟨s, hs, _, _⟩ := remove_state CCID seq
    rw [hs]
    exact GetNotUsedCCID_congr _ _ rfl

/-- Witness for C10 on the ARCH4 example instance: after carrier 0 is assigned slot 1
of the sequence in which carrier 5 holds slot 0, the NotUsedCCID field is 1 and no
slot holds 1. -/
theorem C10_not_used_ccid_witness :
    (XDfeMix_AddCCIDAndTranslateSeq arch4Instance 0 0x2 sequenceCarrier5).1 = XST_SUCCESS ∧
    (XDfeMix_AddCCIDAndTranslateSeq arch4Instance 0 0x2 sequenceCarrier5).2.NotUsedCCID = 1 ∧
    (∀ i, i < XDFEMIX_CC_NUM →
      (XDfeMix_AddCCIDAndTranslateSeq arch4Instance 0 0x2 sequenceCarrier5).2.CCID.getD i 0
        ≠ (XDfeMix_AddCCIDAndTranslateSeq arch4Instance 0 0x2 sequenceCarrier5).2.NotUsedCCID) :=
  ⟨by decide, by decide,
   ((C10_not_used_ccid arch4Instance 0 0x2 sequenceCarrier5).1 (by decide)).2 (by decide)⟩

/-! ## Rate detector: the claims -/

theorem lt_two_pow_iff_testBit (B L : Nat) :
    B < 2 ^ L ↔ ∀ i, L ≤ i → B.testBit i = false := by
  constructor
  · intro h i hi
    exact Nat.testBit_lt_two_pow (Nat.lt_of_lt_of_le h (Nat.pow_le_pow_right (by omega) hi))
  · intro h
    exact Nat.lt_pow_two_of_testBit B h

/-- The range test of `XDfeMix_FindRate` fires exactly for a bitmap that is not
below `2 ^ SequenceLength`. -/
theorem findRate_mask_check (B L : Nat) (hL : L < 32) :
    (B &&& u32_sub (u32 (1 <<< L)) 1 ≠ B) ↔ ¬ B < 2 ^ L := by
  rw [seqMask_eq L hL, Nat.and_pow_two_sub_one_eq_mod]
  constructor
  · intro h hlt
    exact h (Nat.mod_eq_of_lt hlt)
  · intro h heq
    apply h
    rw [← heq]
    exact Nat.mod_lt _ (Nat.pow_pos (by omega))

theorem countOnes_eq_popcountLow (InstancePtr : XDfeMix) (B : Nat)
    (h32 : InstancePtr.SequenceLength ≤ 32) :
    XDfeMix_CountOnesInBitmap InstancePtr B = popcountLow B InstancePtr.SequenceLength := by
  rw [countOnes_eq, popcountLow]
  apply List.countP_congr
  intro i hi
  have : i < 32 := by have := List.mem_range.1 hi; omega
  simp [maskBit, this]

theorem popcountLow_eq_popcount32 (B L : Nat) (h32 : L ≤ 32) (hin : B < 2 ^ L) :
    popcountLow B L = popcount32 B := by
  unfold popcountLow popcount32
  rw [countP_range_extend (fun i => B.testBit i) L 32 h32]
  exact (lt_two_pow_iff_testBit B L).1 hin

/-- The value of `XDfeMix_FindRate`, case by case. -/
theorem findRate_eq (InstancePtr : XDfeMix) (B Rate : Nat)
    (hL : InstancePtr.SequenceLength < 32) :
    XDfeMix_FindRate InstancePtr B Rate =
      if ¬ B < 2 ^ InstancePtr.SequenceLength then (XST_FAILURE, Rate)
      else if ¬ occupancyOk (popcountLow B InstancePtr.SequenceLength) then (XST_FAILURE, Rate)
      else if popcountLow B InstancePtr.SequenceLength = 0 then (XST_SUCCESS, 0)
      else if conversionRatio InstancePtr (popcountLow B InstancePtr.SequenceLength) = 1 then
        (XST_SUCCESS, XDFEMIX_CC_CONFIG_RATE_1X)
      else if conversionRatio InstancePtr (popcountLow B InstancePtr.SequenceLength) = 2 then
        (XST_SUCCESS, XDFEMIX_CC_CONFIG_RATE_2X)
      else if conversionRatio InstancePtr (popcountLow B InstancePtr.SequenceLength) = 4 then
        (XST_SUCCESS, XDFEMIX_CC_CONFIG_RATE_4X)
      else if conversionRatio InstancePtr (popcountLow B InstancePtr.SequenceLength) = 8 then
        (XST_SUCCESS, XDFEMIX_CC_CONFIG_RATE_8X)
      else if conversionRatio InstancePtr (popcountLow B InstancePtr.SequenceLength) = 16 then
        (XST_SUCCESS, XDFEMIX_CC_CONFIG_RATE_16X)
      else (XST_FAILURE, Rate) := by
  have hcount : ((List.range InstancePtr.SequenceLength).foldl
      (XDfeMix_CountOnesInBitmap_step B) (1, 0)).2
      = popcountLow B InstancePtr.SequenceLength :=
    countOnes_eq_popcountLow InstancePtr B (by omega)
  unfold XDfeMix_FindRate
  simp only []
  rw [hcount]
  by_cases h1 : B < 2 ^ InstancePtr.SequenceLength
  · rw [if_neg (fun h => (findRate_mask_check B _ hL).1 h h1), if_neg (not_not.2 h1)]
    by_cases h2 : occupancyOk (popcountLow B InstancePtr.SequenceLength)
    · rw [if_neg ((okCount_iff _).2 h2), if_neg (not_not.2 h2)]
      rfl
    · rw [if_pos (by_contra (fun h => h2 ((okCount_iff _).1 h))), if_pos h2]
  · rw [if_pos ((findRate_mask_check B _ hL).2 h1), if_pos h1]

theorem popcountLow_zero (L : Nat) : popcountLow 0 L = 0 := by
  unfold popcountLow
  rw [List.countP_eq_zero]
  intro i _
  simp

/-- C18: for a bitmap within the sequence length (at most 16), the rate detector
returns success with rate code 0 for the zero bitmap, whatever `MixerCps` is (the
zero-occupancy path does not use the quotient); for a bitmap with `n > 0` set bits and
`MixerCps ≥ 1`, a successful detection returns a code `c` in 1..5 with
`2 ^ (c - 1) = AntennaInterleave * (L / n) / MixerCps` (the product taken in `u32`
arithmetic, which is the plain product when `AntennaInterleave * L < 2 ^ 32`); for
`L = 16`, `n = 4`, `AntennaInterleave = 1`, `MixerCps = 1` the result is the 4X
code. -/
theorem C18_find_rate_code (InstancePtr : XDfeMix) (B Rate : Nat)
    (hL : InstancePtr.SequenceLength ≤ 16)
    (hin : B < 2 ^ InstancePtr.SequenceLength) :
    (B = 0 → XDfeMix_FindRate InstancePtr B Rate = (XST_SUCCESS, XDFEMIX_CC_CONFIG_DISABLED)) ∧
    (0 < popcount32 B → 1 ≤ InstancePtr.Config.MixerCps →
      (XDfeMix_FindRate InstancePtr B Rate).1 = XST_SUCCESS →
      1 ≤ (XDfeMix_FindRate InstancePtr B Rate).2 ∧
      (XDfeMix_FindRate InstancePtr B Rate).2 ≤ 5 ∧
      2 ^ ((XDfeMix_FindRate InstancePtr B Rate).2 - 1)
        = u32 (InstancePtr.Config.AntennaInterleave
            * (InstancePtr.SequenceLength / popcount32 B)) / InstancePtr.Config.MixerCps ∧
      (InstancePtr.Config.AntennaInterleave * InstancePtr.SequenceLength < 2 ^ 32 →
        2 ^ ((XDfeMix_FindRate InstancePtr B Rate).2 - 1)
          = InstancePtr.Config.AntennaInterleave
              * (InstancePtr.SequenceLength / popcount32 B) / InstancePtr.Config.MixerCps)) ∧
    (InstancePtr.SequenceLength = 16 → InstancePtr.Config.AntennaInterleave = 1 →
      InstancePtr.Config.MixerCps = 1 → popcount32 B = 4 →
      XDfeMix_FindRate InstancePtr B Rate = (XST_SUCCESS, XDFEMIX_CC_CONFIG_RATE_4X)) := by
  have heq := findRate_eq InstancePtr B Rate (by omega)
  have hpop := popcountLow_eq_popcount32 B InstancePtr.SequenceLength (by omega) hin
  rw [hpop, if_neg (not_not.2 hin)] at heq
  refine ⟨?_, ?_, ?_⟩
  · intro h0
    subst h0
    rw [findRate_eq InstancePtr 0 Rate (by omega), popcountLow_zero,
      if_neg (not_not.2 hin),
      if_neg (not_not.2 (show occupancyOk 0 from Or.inl rfl)), if_pos rfl]
    rfl
  · intro hn _ hs
    have hmain : 1 ≤ (XDfeMix_FindRate InstancePtr B Rate).2 ∧
        (XDfeMix_FindRate InstancePtr B Rate).2 ≤ 5 ∧
        2 ^ ((XDfeMix_FindRate InstancePtr B Rate).2 - 1)
          = conversionRatio InstancePtr (popcount32 B) := by
      rw [heq] at hs ⊢
      by_cases h2 : occupancyOk (popcount32 B)
      · rw [if_neg (not_not.2 h2), if_neg (by omega)] at hs ⊢
        by_cases r1 : conversionRatio InstancePtr (popcount32 B) = 1
        · rw [if_pos r1, r1]; decide
        · rw [if_neg r1] at hs ⊢
          by_cases r2 : conversionRatio InstancePtr (popcount32 B) = 2
          · rw [if_pos r2, r2]; decide
          · rw [if_neg r2] at hs ⊢
            by_cases r4 : conversionRatio InstancePtr (popcount32 B) = 4
            · rw [if_pos r4, r4]; decide
            · rw [if_neg r4] at hs ⊢
              by_cases r8 : conversionRatio InstancePtr (popcount32 B) = 8
              · rw [if_pos r8, r8]; decide
              · rw [if_neg r8] at hs ⊢
                by_cases r16 : conversionRatio InstancePtr (popcount32 B) = 16
                · rw [if_pos r16, r16]; decide
                · rw [if_neg r16] at hs
                  exact absurd hs (by simp)
      · rw [if_pos h2] at hs
        exact absurd hs (by simp)
    refine ⟨hmain.1, hmain.2.1, hmain.2.2, ?_⟩
    intro hprod
    rw [hmain.2.2, conversionRatio]
    have hle : InstancePtr.Config.AntennaInterleave
        * (InstancePtr.SequenceLength / popcount32 B)
        ≤ InstancePtr.Config.AntennaInterleave * InstancePtr.SequenceLength :=
      Nat.mul_le_mul_left _ (Nat.div_le_self _ _)
    rw [u32_eq_self (by omega)]
  · intro h16 hai hcps h4
    rw [heq, h4, if_neg (by decide), if_neg (by decide)]
    have hr : conversionRatio InstancePtr 4 = 4 := by
      rw [conversionRatio, h16, hai, hcps]
      decide
    rw [hr, if_neg (by decide), if_neg (by decide), if_pos rfl]

/-- Witness for C18 on the ARCH4 example instance (length 16, interleave 1, one
clock per sample): the bitmap `0xF` gets the 4X code and the zero bitmap the code
0. -/
theorem C18_find_rate_code_witness :
    0xF < 2 ^ arch4Instance.SequenceLength ∧
    XDfeMix_FindRate arch4Instance 0xF 0 = (XST_SUCCESS, XDFEMIX_CC_CONFIG_RATE_4X) ∧
    XDfeMix_FindRate arch4Instance 0 7 = (XST_SUCCESS, XDFEMIX_CC_CONFIG_DISABLED) :=
  ⟨by decide,
   (C18_find_rate_code arch4Instance 0xF 0 (by decide) (by decide)).2.2
      (by decide) (by decide) (by decide) (by decide),
   (C18_find_rate_code arch4Instance 0 7 (by decide) (by decide)).1 rfl⟩

/-- C19 (counterexample): with sequence length 12 the bitmap `0xFF` has 8 set bits,
8 does not divide 12, and the detector succeeds with the 1X code; with sequence
length 16, interleave 1 and 3 clocks per sample the bitmap `0xF` gives 4 / 3, 3 does
not divide 4, and the detector succeeds with the 1X code. -/
theorem C19_find_rate_uneven_counterexample :
    (0xFF < 2 ^ rateInstance12.SequenceLength ∧ popcount32 0xFF = 8 ∧
      ¬ (8 ∣ rateInstance12.SequenceLength) ∧
      XDfeMix_FindRate rateInstance12 0xFF 0 = (XST_SUCCESS, XDFEMIX_CC_CONFIG_RATE_1X)) ∧
    (0xF < 2 ^ rateInstanceCps3.SequenceLength ∧ popcount32 0xF = 4 ∧
      4 ∣ rateInstanceCps3.SequenceLength ∧
      ¬ (rateInstanceCps3.Config.MixerCps ∣
          rateInstanceCps3.Config.AntennaInterleave * (rateInstanceCps3.SequenceLength / 4)) ∧
      XDfeMix_FindRate rateInstanceCps3 0xF 0 = (XST_SUCCESS, XDFEMIX_CC_CONFIG_RATE_1X)) := by
  decide

/-- C19 (amended): for a bitmap within the sequence length (at most 16) whose number
`n` of set bits is 1, 2, 4, 8 or 16, the rate detector succeeds exactly when the
quotient `AntennaInterleave * (SequenceLength / n) / MixerCps`, computed in `u32`
arithmetic with both divisions discarding the remainder, is one of 1, 2, 4, 8, 16;
for every other value of that quotient it returns failure and writes no rate. -/
theorem C19_find_rate_ratio (InstancePtr : XDfeMix) (B Rate : Nat)
    (hL : InstancePtr.SequenceLength ≤ 16)
    (hin : B < 2 ^ InstancePtr.SequenceLength)
    (hn : popcount32 B = 1 ∨ popcount32 B = 2 ∨ popcount32 B = 4 ∨ popcount32 B = 8 ∨
      popcount32 B = 16) :
    ((XDfeMix_FindRate InstancePtr B Rate).1 = XST_SUCCESS ↔
      ratioHasCode (conversionRatio InstancePtr (popcount32 B))) ∧
    (¬ ratioHasCode (conversionRatio InstancePtr (popcount32 B)) →
      XDfeMix_FindRate InstancePtr B Rate = (XST_FAILURE, Rate)) := by
  have heq := findRate_eq InstancePtr B Rate (by omega)
  have hpop := popcountLow_eq_popcount32 B InstancePtr.SequenceLength (by omega) hin
  have hok : occupancyOk (popcount32 B) := Or.inr hn
  rw [hpop, if_neg (not_not.2 hin), if_neg (not_not.2 hok), if_neg (by omega)] at heq
  rw [heq]
  unfold ratioHasCode
  generalize conversionRatio InstancePtr (popcount32 B) = q
  by_cases r1 : q = 1
  · simp [r1]
  · by_cases r2 : q = 2
    · simp [r2]
    · by_cases r4 : q = 4
      · simp [r4]
      · by_cases r8 : q = 8
        · simp [r8]
        · by_cases r16 : q = 16
          · simp [r16]
          · simp [r1, r2, r4, r8, r16]

/-- Witness for C19 (amended) on the ARCH4 example instance: the bitmap `0xF` has 4
set bits, the quotient is 4 and the detector succeeds. -/
theorem C19_find_rate_ratio_witness :
    0xF < 2 ^ arch4Instance.SequenceLength ∧ popcount32 0xF = 4 ∧
    (XDfeMix_FindRate arch4Instance 0xF 0).1 = XST_SUCCESS :=
  ⟨by decide, by decide,
   (C19_find_rate_ratio arch4Instance 0xF 0 (by decide) (by decide)
      (Or.inr (Or.inr (Or.inl (by decide))))).1.2 (by decide)⟩

/-- C20: for a sequence length of at most 16, the rate detector returns failure and
leaves the rate as it was for every bitmap with a bit set at a position at or above
the sequence length, and for every bitmap whose number of set bits within the low
`SequenceLength` bits is not one of 0, 1, 2, 4, 8, 16. -/
theorem C20_find_rate_failure (InstancePtr : XDfeMix) (B Rate : Nat)
    (hL : InstancePtr.SequenceLength ≤ 16) :
    ((∃ i, InstancePtr.SequenceLength ≤ i ∧ B.testBit i = true) →
      XDfeMix_FindRate InstancePtr B Rate = (XST_FAILURE, Rate)) ∧
    (¬ occupancyOk (popcountLow B InstancePtr.SequenceLength) →
      XDfeMix_FindRate InstancePtr B Rate = (XST_FAILURE, Rate)) := by
  have heq := findRate_eq InstancePtr B Rate (by omega)
  constructor
  · rintro ⟨i, hi, hb⟩
    have hnot : ¬ B < 2 ^ InstancePtr.SequenceLength := by
      intro hlt
      rw [(lt_two_pow_iff_testBit B _).1 hlt i hi] at hb
      exact Bool.false_ne_true hb
    rw [heq, if_pos hnot]
  · intro hk
    rw [heq]
    by_cases hin : B < 2 ^ InstancePtr.SequenceLength
    · rw [if_neg (not_not.2 hin), if_pos hk]
    · rw [if_pos hin]

/-- Witness for C20 on the ARCH4 example instance (length 16): the bitmap `0x7`, with
3 set bits, and the bitmap `0x10000`, with bit 16 set, are rejected and the rate
passed in is returned. -/
theorem C20_find_rate_failure_witness :
    XDfeMix_FindRate arch4Instance 0x7 9 = (XST_FAILURE, 9) ∧
    XDfeMix_FindRate arch4Instance 0x10000 9 = (XST_FAILURE, 9) :=
  ⟨(C20_find_rate_failure arch4Instance 0x7 9 (by decide)).2 (by decide),
   (C20_find_rate_failure arch4Instance 0x10000 9 (by decide)).1 ⟨16, by decide, by decide⟩⟩

/-! ## Carrier configuration builders: the claims -/

/-- What a successful `XDfeMix_AddCCtoCCCfg` has checked and the snapshot it
produces. -/
theorem AddCCtoCCCfg_success (InstancePtr : XDfeMix) (CCCfg : XDfeMix_CCCfg) (CCID : Int)
    (B : Nat) (CarrierCfg : XDfeMix_CarrierCfg) (NCO : XDfeMix_NCO)
    (hs : (XDfeMix_AddCCtoCCCfg InstancePtr CCCfg CCID B CarrierCfg NCO).1 = XST_SUCCESS) :
    XDfeMix_CheckCarrierCfginAddCC InstancePtr CCCfg CCID B CarrierCfg.DUCDDCCfg.NCOIdx
      = XST_SUCCESS ∧
    (XDfeMix_AddCCIDAndTranslateSeq InstancePtr CCID B CCCfg.Sequence).1 = XST_SUCCESS ∧
    CarrierCfg.DUCDDCCfg.NCOIdx < InstancePtr.Config.MaxUseableCcids ∧
    (XDfeMix_FindRate InstancePtr B 0).1 = XST_SUCCESS ∧
    (XDfeMix_AddCCtoCCCfg InstancePtr CCCfg CCID B CarrierCfg NCO).2
      = { Sequence := (XDfeMix_AddCCIDAndTranslateSeq InstancePtr CCID B CCCfg.Sequence).2
          DUCDDCCfg := CCCfg.DUCDDCCfg.set CCID.toNat
            { NCOIdx := CarrierCfg.DUCDDCCfg.NCOIdx
              Rate := (XDfeMix_FindRate InstancePtr B 0).2
              CCGain := CarrierCfg.DUCDDCCfg.CCGain }
          NCO := CCCfg.NCO.set
            ((CCCfg.DUCDDCCfg.set CCID.toNat
              { NCOIdx := CarrierCfg.DUCDDCCfg.NCOIdx
                Rate := (XDfeMix_FindRate InstancePtr B 0).2
                CCGain := CarrierCfg.DUCDDCCfg.CCGain }).getD CCID.toNat default).NCOIdx NCO
          AntennaCfg := CCCfg.AntennaCfg
          AuxiliaryCfg := CCCfg.AuxiliaryCfg } := by
  unfold XDfeMix_AddCCtoCCCfg XDfeMix_SetCCDDC at hs ⊢
  simp only [] at hs ⊢
  by_cases h1 : XDfeMix_CheckCarrierCfginAddCC InstancePtr CCCfg CCID B
      CarrierCfg.DUCDDCCfg.NCOIdx = XST_FAILURE
  · rw [if_pos h1] at hs
    exact absurd hs (by simp)
  · rw [if_neg h1] at hs ⊢
    by_cases h2 : (XDfeMix_AddCCIDAndTranslateSeq InstancePtr CCID B CCCfg.Sequence).1
        = XST_FAILURE
    · rw [if_pos h2] at hs
      exact absurd hs (by simp)
    · rw [if_neg h2] at hs ⊢
      by_cases h3 : CarrierCfg.DUCDDCCfg.NCOIdx ≥ InstancePtr.Config.MaxUseableCcids
      · rw [if_pos h3] at hs
        simp at hs
      · rw [if_neg h3] at hs ⊢
        by_cases h4 : (XDfeMix_FindRate InstancePtr B 0).1 = XST_FAILURE
        · rw [if_pos h4] at hs
          simp at hs
        · rw [if_neg h4] at hs ⊢
          refine ⟨?_, ?_, by omega, ?_, ?_⟩
          · exact by_contra (fun h => h1 ((status_ne _).2 h))
          · exact by_contra (fun h => h2 ((status_ne _).2 h))
          · exact by_contra (fun h => h4 ((status_ne _).2 h))
          · simp

theorem getD_set_self {α : Type} (l : List α) (i : Nat) (a d : α) (h : i < l.length) :
    (l.set i a).getD i d = a := by
  rw [List.getD_eq_getElem?_getD, List.getElem?_set, if_pos rfl, if_pos h]
  rfl

theorem getD_set_ne {α : Type} (l : List α) (i j : Nat) (a d : α) (h : i ≠ j) :
    (l.set i a).getD j d = l.getD j d := by
  rw [List.getD_eq_getElem?_getD, List.getElem?_set, if_neg h, List.getD_eq_getElem?_getD]

theorem getElem?_of_getD_ne {l : List Int} {i : Nat} {v : Int} (h : l.getD i 0 ≠ v) :
    l[i]? ≠ some v := by
  intro hc
  apply h
  rw [List.getD_eq_getElem?_getD, hc]
  rfl

/-- Slot values after `XDfeMix_RemoveCCID`. -/
theorem remove_slots (CCID : Int) (seq : XDfeMix_CCSequence) :
    (XDfeMix_RemoveCCID CCID seq).Length = seq.Length ∧
    (XDfeMix_RemoveCCID CCID seq).CCID.length = seq.CCID.length ∧
    ∀ i, (XDfeMix_RemoveCCID CCID seq).CCID[i]?
      = if i < seq.Length ∧ seq.CCID[i]? = some CCID then some XDFEMIX_SEQUENCE_ENTRY_NULL
        else seq.CCID[i]? := by
  obtain ⟨s, hs, hlen, hget⟩ := remove_state CCID seq
  rw [hs]
  exact ⟨rfl, hlen, hget⟩

/-- C11 (counterexample): in a sequence of length 4 whose slots 0 and 10 hold
carrier 5, releasing carrier 5 clears slot 0 and leaves slot 10 holding 5. -/
theorem C11_release_slots_counterexample :
    sequenceBeyondLength.Length ≤ 16 ∧ sequenceBeyondLength.CCID.length = 16 ∧
    (XDfeMix_RemoveCCID 5 sequenceBeyondLength).CCID.getD 0 0 = -1 ∧
    (XDfeMix_RemoveCCID 5 sequenceBeyondLength).CCID.getD 10 0 = 5 := by
  decide

/-- C11 (amended): for a 16-entry slot array with a length of at most 16 and a
carrier ID other than `-1`, after releaseSlots no slot below the sequence length
holds the ID, every slot that did not hold the ID keeps its value and so does every
slot at or above the sequence length; hence, when no slot at or above the length
held the ID, no slot at all holds it afterwards. -/
theorem C11_release_slots (CCID : Int) (seq : XDfeMix_CCSequence)
    (h16 : seq.Length ≤ 16) (hlen : seq.CCID.length = 16)
    (hid : CCID ≠ XDFEMIX_SEQUENCE_ENTRY_NULL) :
    (∀ i, i < seq.Length → (XDfeMix_RemoveCCID CCID seq).CCID.getD i 0 ≠ CCID) ∧
    (∀ i, i < XDFEMIX_CC_NUM → seq.CCID.getD i 0 ≠ CCID →
      (XDfeMix_RemoveCCID CCID seq).CCID.getD i 0 = seq.CCID.getD i 0) ∧
    (∀ i, seq.Length ≤ i →
      (XDfeMix_RemoveCCID CCID seq).CCID.getD i 0 = seq.CCID.getD i 0) ∧
    ((∀ i, seq.Length ≤ i → i < XDFEMIX_CC_NUM → seq.CCID.getD i 0 ≠ CCID) →
      ∀ i, i < XDFEMIX_CC_NUM → (XDfeMix_RemoveCCID CCID seq).CCID.getD i 0 ≠ CCID) ∧
    (XDfeMix_RemoveCCID CCID seq).CCID.length = 16 ∧
    (XDfeMix_RemoveCCID CCID seq).Length = seq.Length := by
  obtain ⟨hL, hlen2, hget⟩ := remove_slots CCID seq
  have hbelow : ∀ i, i < seq.Length →
      (XDfeMix_RemoveCCID CCID seq).CCID.getD i 0 ≠ CCID := by
    intro i hi
    rw [getD_of_getElem? (hget i)]
    by_cases hc : seq.CCID[i]? = some CCID
    · rw [if_pos ⟨hi, hc⟩]
      exact fun h => hid h.symm
    · rw [if_neg (fun h => hc h.2)]
      have hi2 : i < seq.CCID.length := by omega
      have hs : seq.CCID[i]? = some seq.CCID[i] := List.getElem?_eq_getElem hi2
      rw [hs] at hc ⊢
      intro h
      exact hc (congrArg some h)
  have hkeep : ∀ i, seq.CCID.getD i 0 ≠ CCID →
      (XDfeMix_RemoveCCID CCID seq).CCID.getD i 0 = seq.CCID.getD i 0 := by
    intro i hne
    rw [getD_of_getElem? (hget i), if_neg (fun h => getElem?_of_getD_ne hne h.2),
      List.getD_eq_getElem?_getD]
  have habove : ∀ i, seq.Length ≤ i →
      (XDfeMix_RemoveCCID CCID seq).CCID.getD i 0 = seq.CCID.getD i 0 := by
    intro i hi
    rw [getD_of_getElem? (hget i), if_neg (fun h => by omega), List.getD_eq_getElem?_getD]
  refine ⟨hbelow, fun i _ hne => hkeep i hne, habove, ?_, by rw [hlen2, hlen], hL⟩
  intro hfree i hi
  by_cases hlt : i < seq.Length
  · exact hbelow i hlt
  · rw [habove i (by omega)]
    exact hfree i (by omega) hi

/-- Witness for C11 (amended): releasing carrier 5 from the sequence in which it
holds slot 0 leaves no slot holding 5. -/
theorem C11_release_slots_witness :
    sequenceCarrier5.CCID.getD 0 0 = 5 ∧
    (∀ i, i < XDFEMIX_CC_NUM → (XDfeMix_RemoveCCID 5 sequenceCarrier5).CCID.getD i 0 ≠ 5) :=
  ⟨by decide,
   (C11_release_slots 5 sequenceCarrier5 (by decide) (by decide) (by decide)).2.2.2.1
      (by decide)⟩


/-- C12: whenever the carrier is already active (its rate code is not zero),
AddCarrier returns failure and the snapshot it leaves is the one it was given. -/
theorem C12_add_active_carrier_fails (InstancePtr : XDfeMix) (CCCfg : XDfeMix_CCCfg)
    (c : Nat) (B : Nat) (CarrierCfg : XDfeMix_CarrierCfg) (NCO : XDfeMix_NCO)
    (hr : (CCCfg.DUCDDCCfg.getD c default).Rate ≠ 0) :
    XDfeMix_AddCCtoCCCfg InstancePtr CCCfg (c : Int) B CarrierCfg NCO = (XST_FAILURE, CCCfg) := by
  have h1 : XDfeMix_CheckCarrierCfginAddCC InstancePtr CCCfg (c : Int) B
      CarrierCfg.DUCDDCCfg.NCOIdx = XST_FAILURE := by
    unfold XDfeMix_CheckCarrierCfginAddCC
    rw [Int.toNat_ofNat,
      if_pos (show (CCCfg.DUCDDCCfg.getD c default).Rate ≠ XDFEMIX_CC_CONFIG_DISABLED from hr)]
  unfold XDfeMix_AddCCtoCCCfg
  rw [if_pos h1]

/-- Witness for C12: in the ARCH4 example snapshot carrier 0 is active; adding it
again, on free slots and a free NCO, fails and leaves the snapshot unchanged. -/
theorem C12_add_active_carrier_fails_witness :
    (arch4Snapshot8.DUCDDCCfg.getD 0 default).Rate ≠ 0 ∧
    XDfeMix_AddCCtoCCCfg arch4Instance arch4Snapshot8 0 0x100 ⟨⟨4, 0, 0⟩⟩ default
      = (XST_FAILURE, arch4Snapshot8) :=
  ⟨by decide,
   C12_add_active_carrier_fails arch4Instance arch4Snapshot8 0 0x100 ⟨⟨4, 0, 0⟩⟩ default
      (by decide)⟩

/-- C13: whenever the candidate NCO index is not below `MaxUseableCcids`, both
AddCarrier and UpdateCarrier return failure and leave the snapshot as it was. -/
theorem C13_nco_index_out_of_range (InstancePtr : XDfeMix) (CCCfg : XDfeMix_CCCfg)
    (CCID : Int) (B : Nat) (CarrierCfg : XDfeMix_CarrierCfg) (NCO : XDfeMix_NCO)
    (h : CarrierCfg.DUCDDCCfg.NCOIdx ≥ InstancePtr.Config.MaxUseableCcids) :
    XDfeMix_AddCCtoCCCfg InstancePtr CCCfg CCID B CarrierCfg NCO = (XST_FAILURE, CCCfg) ∧
    XDfeMix_UpdateCCinCCCfg InstancePtr CCCfg CCID CarrierCfg = (XST_FAILURE, CCCfg) := by
  have h0 : XDfeMix_CheckCarrierCfg InstancePtr CCCfg CarrierCfg.DUCDDCCfg.NCOIdx
      = XST_FAILURE := (CheckCarrierCfg_failure _ _ _).2 (Or.inl h)
  have h1 : XDfeMix_CheckCarrierCfginAddCC InstancePtr CCCfg CCID B
      CarrierCfg.DUCDDCCfg.NCOIdx = XST_FAILURE := by
    unfold XDfeMix_CheckCarrierCfginAddCC
    by_cases hr : (CCCfg.DUCDDCCfg.getD CCID.toNat default).Rate ≠ XDFEMIX_CC_CONFIG_DISABLED
    · rw [if_pos hr]
    · rw [if_neg hr, if_pos h0]
  have h2 : XDfeMix_CheckCarrierCfgInUpdateCC InstancePtr CCCfg CCID
      CarrierCfg.DUCDDCCfg.NCOIdx = XST_FAILURE := by
    unfold XDfeMix_CheckCarrierCfgInUpdateCC
    rw [if_pos h0]
  constructor
  · unfold XDfeMix_AddCCtoCCCfg
    rw [if_pos h1]
  · unfold XDfeMix_UpdateCCinCCCfg
    rw [if_pos h2]

/-- Witness for C13 on the ARCH4 example instance (8 usable CCIDs): NCO index 8 is
refused by AddCarrier and by UpdateCarrier. -/
theorem C13_nco_index_out_of_range_witness :
    XDfeMix_AddCCtoCCCfg arch4Instance arch4Snapshot8 1 0x100 ⟨⟨8, 0, 0⟩⟩ default
      = (XST_FAILURE, arch4Snapshot8) ∧
    XDfeMix_UpdateCCinCCCfg arch4Instance arch4Snapshot8 0 ⟨⟨8, 0, 0⟩⟩
      = (XST_FAILURE, arch4Snapshot8) :=
  ⟨(C13_nco_index_out_of_range arch4Instance arch4Snapshot8 1 0x100 ⟨⟨8, 0, 0⟩⟩ default
      (by decide)).1,
   (C13_nco_index_out_of_range arch4Instance arch4Snapshot8 0 0 ⟨⟨8, 0, 0⟩⟩ default
      (by decide)).2⟩

/-- C14: when AddCarrier succeeds on a snapshot with 16 carrier descriptors and
`XDFEMIX_NCO_MAX` NCO entries (and `MaxUseableCcids` does not exceed the NCO array),
the rate detector has succeeded for the bitmap, the carrier's descriptor holds the
supplied NCO index and gain and the detected rate code, the NCO entry at the supplied
index holds the supplied NCO parameters, and the descriptor of every other carrier and
every other NCO entry is as before. -/
theorem C14_add_success_state (InstancePtr : XDfeMix) (CCCfg : XDfeMix_CCCfg) (c : Nat)
    (B : Nat) (CarrierCfg : XDfeMix_CarrierCfg) (NCO : XDfeMix_NCO)
    (hc : c < XDFEMIX_CC_NUM) (hd : CCCfg.DUCDDCCfg.length = XDFEMIX_CC_NUM)
    (hN : CCCfg.NCO.length = XDFEMIX_NCO_MAX)
    (hM : InstancePtr.Config.MaxUseableCcids ≤ XDFEMIX_NCO_MAX)
    (hs : (XDfeMix_AddCCtoCCCfg InstancePtr CCCfg (c : Int) B CarrierCfg NCO).1 = XST_SUCCESS) :
    (XDfeMix_FindRate InstancePtr B 0).1 = XST_SUCCESS ∧
    (XDfeMix_AddCCtoCCCfg InstancePtr CCCfg (c : Int) B CarrierCfg NCO).2.DUCDDCCfg.getD c default
      = { NCOIdx := CarrierCfg.DUCDDCCfg.NCOIdx
          Rate := (XDfeMix_FindRate InstancePtr B 0).2
          CCGain := CarrierCfg.DUCDDCCfg.CCGain } ∧
    (XDfeMix_AddCCtoCCCfg InstancePtr CCCfg (c : Int) B CarrierCfg NCO).2.NCO.getD
        CarrierCfg.DUCDDCCfg.NCOIdx default = NCO ∧
    (∀ i, i ≠ c →
      (XDfeMix_AddCCtoCCCfg InstancePtr CCCfg (c : Int) B CarrierCfg NCO).2.DUCDDCCfg.getD i
          default = CCCfg.DUCDDCCfg.getD i default) ∧
    (∀ j, j ≠ CarrierCfg.DUCDDCCfg.NCOIdx →
      (XDfeMix_AddCCtoCCCfg InstancePtr CCCfg (c : Int) B CarrierCfg NCO).2.NCO.getD j default
        = CCCfg.NCO.getD j default) ∧
    (XDfeMix_AddCCtoCCCfg InstancePtr CCCfg (c : Int) B CarrierCfg NCO).2.DUCDDCCfg.length
      = XDFEMIX_CC_NUM ∧
    (XDfeMix_AddCCtoCCCfg InstancePtr CCCfg (c : Int) B CarrierCfg NCO).2.NCO.length
      = XDFEMIX_NCO_MAX := by
  obtain ⟨_, _, hidx, hrate, hstate⟩ :=
    AddCCtoCCCfg_success InstancePtr CCCfg (c : Int) B CarrierCfg NCO hs
  rw [hstate]
  simp only [Int.toNat_ofNat]
  have hcl : c < CCCfg.DUCDDCCfg.length := by rw [hd]; exact hc
  have hnl : CarrierCfg.DUCDDCCfg.NCOIdx < CCCfg.NCO.length := by rw [hN]; omega
  rw [getD_set_self _ _ _ _ hcl]
  refine ⟨hrate, rfl, getD_set_self _ _ _ _ hnl, ?_, ?_, ?_, ?_⟩
  · intro i hi
    exact getD_set_ne _ _ _ _ _ (Ne.symm hi)
  · intro j hj
    exact getD_set_ne _ _ _ _ _ (Ne.symm hj)
  · rw [List.length_set, hd]
  · rw [List.length_set, hN]

/-- Witness for C14 on the ARCH4 example instance: adding carrier 1 with the bitmap
`0x100` on NCO 4 succeeds and stores the descriptor (NCO 4, code 16X, gain 3). -/
theorem C14_add_success_state_witness :
    (XDfeMix_AddCCtoCCCfg arch4Instance arch4Snapshot8 1 0x100 ⟨⟨4, 0, 3⟩⟩ default).1
      = XST_SUCCESS ∧
    (XDfeMix_AddCCtoCCCfg arch4Instance arch4Snapshot8 1 0x100 ⟨⟨4, 0, 3⟩⟩
        default).2.DUCDDCCfg.getD 1 default
      = { NCOIdx := 4, Rate := XDFEMIX_CC_CONFIG_RATE_16X, CCGain := 3 } :=
  ⟨by decide,
   (C14_add_success_state arch4Instance arch4Snapshot8 1 0x100 ⟨⟨4, 0, 3⟩⟩ default
      (by decide) (by decide) (by decide) (by decide) (by decide)).2.1⟩

theorem addCheck_active (InstancePtr : XDfeMix) (CCCfg : XDfeMix_CCCfg) (c : Nat)
    (B NCOIdx : Nat) (hr : (CCCfg.DUCDDCCfg.getD c default).Rate ≠ 0) :
    XDfeMix_CheckCarrierCfginAddCC InstancePtr CCCfg (c : Int) B NCOIdx = XST_FAILURE := by
  unfold XDfeMix_CheckCarrierCfginAddCC
  rw [Int.toNat_ofNat,
    if_pos (show (CCCfg.DUCDDCCfg.getD c default).Rate ≠ XDFEMIX_CC_CONFIG_DISABLED from hr)]

/-- C15: round trip. On a snapshot (sequence length at most 16) in which no slot
below the sequence length holds the carrier ID, if AddCarrier succeeds for a 32-bit
bitmap, then RemoveCarrier of the same carrier yields a snapshot whose slot array is
the one before the add and whose rate codes are, carrier by carrier, those before the
add. -/
theorem C15_add_remove_round_trip (InstancePtr : XDfeMix) (CCCfg : XDfeMix_CCCfg) (c : Nat)
    (B : Nat) (CarrierCfg : XDfeMix_CarrierCfg) (NCO : XDfeMix_NCO)
    (h16 : CCCfg.Sequence.Length ≤ 16) (hB : B < 2 ^ 32)
    (hfree : ∀ i, i < CCCfg.Sequence.Length → CCCfg.Sequence.CCID.getD i 0 ≠ (c : Int))
    (hs : (XDfeMix_AddCCtoCCCfg InstancePtr CCCfg (c : Int) B CarrierCfg NCO).1 = XST_SUCCESS) :
    (XDfeMix_RemoveCCfromCCCfg InstancePtr
        (XDfeMix_AddCCtoCCCfg InstancePtr CCCfg (c : Int) B CarrierCfg NCO).2
        (c : Int)).Sequence.CCID = CCCfg.Sequence.CCID ∧
    (∀ i, ((XDfeMix_RemoveCCfromCCCfg InstancePtr
        (XDfeMix_AddCCtoCCCfg InstancePtr CCCfg (c : Int) B CarrierCfg NCO).2
        (c : Int)).DUCDDCCfg.getD i default).Rate = (CCCfg.DUCDDCCfg.getD i default).Rate) := by
  obtain ⟨hchk, hseq, _, _, hstate⟩ :=
    AddCCtoCCCfg_success InstancePtr CCCfg (c : Int) B CarrierCfg NCO hs
  have hrate0 : (CCCfg.DUCDDCCfg.getD c default).Rate = 0 := by
    by_contra hne
    have := addCheck_active InstancePtr CCCfg c B CarrierCfg.DUCDDCCfg.NCOIdx hne
    rw [this] at hchk
    exact absurd hchk (by simp)
  obtain ⟨s, hs1, _, hget1⟩ :=
    add_success_state InstancePtr (c : Int) B CCCfg.Sequence hseq
  obtain ⟨_, _, hfit⟩ :=
    (add_status_iff InstancePtr (c : Int) B CCCfg.Sequence (by omega) hB).1 hseq
  obtain ⟨_, _, hget2⟩ := remove_slots (c : Int)
    (XDfeMix_AddCCIDAndTranslateSeq InstancePtr (c : Int) B CCCfg.Sequence).2
  rw [hstate]
  unfold XDfeMix_RemoveCCfromCCCfg
  simp only [Int.toNat_ofNat]
  constructor
  · apply List.ext_getElem?
    intro i
    rw [hget2 i, hs1]
    simp only []
    rw [hget1 i]
    by_cases hcond : i < CCCfg.Sequence.Length ∧ maskBit B i = true ∧
        i < CCCfg.Sequence.CCID.length
    · rw [if_pos hcond, if_pos ⟨hcond.1, rfl⟩]
      have hb : B.testBit i = true := by
        have := hcond.2.1
        simp only [maskBit, Bool.and_eq_true, decide_eq_true_eq] at this
        exact this.2
      have hnull := hfit i hcond.1 hb
      rw [List.getD_eq_getElem?_getD, List.getElem?_eq_getElem hcond.2.2] at hnull
      rw [List.getElem?_eq_getElem hcond.2.2]
      exact congrArg some (Eq.symm hnull)
    · rw [if_neg hcond]
      by_cases hi : i < CCCfg.Sequence.Length
      · rw [if_neg (fun h => getElem?_of_getD_ne (hfree i hi) h.2)]
      · rw [if_neg (fun h => hi h.1)]
  · intro i
    by_cases hi : c = i
    · subst hi
      by_cases hl : c < CCCfg.DUCDDCCfg.length
      · rw [getD_set_self _ _ _ _ (by rw [List.length_set]; exact hl), hrate0]
      · rw [List.set_eq_of_length_le (by rw [List.length_set]; omega),
          List.set_eq_of_length_le (by omega)]
    · rw [getD_set_ne _ _ _ _ _ hi, getD_set_ne _ _ _ _ _ hi]


/-- Witness for C15 on the ARCH4 example snapshot: adding carrier 1 on slot 8 and
NCO 4 and removing it again gives back the slot array. -/
theorem C15_add_remove_round_trip_witness :
    (XDfeMix_AddCCtoCCCfg arch4Instance arch4Snapshot8 1 0x100 ⟨⟨4, 0, 0⟩⟩ default).1
      = XST_SUCCESS ∧
    (XDfeMix_RemoveCCfromCCCfg arch4Instance
        (XDfeMix_AddCCtoCCCfg arch4Instance arch4Snapshot8 1 0x100 ⟨⟨4, 0, 0⟩⟩ default).2
        1).Sequence.CCID = arch4Snapshot8.Sequence.CCID :=
  ⟨by decide,
   (C15_add_remove_round_trip arch4Instance arch4Snapshot8 1 0x100 ⟨⟨4, 0, 0⟩⟩ default
      (by decide) (by decide) (by decide) (by decide)).1⟩

/-- C16: RemoveCarrier is a total function of the snapshot (it returns no status);
it sets the rate code of the carrier to 0 and leaves that carrier's NCO index and
gain, every other carrier's descriptor, the NCO array, the auxiliary configuration
and the antenna configuration as they were. -/
theorem C16_remove_frame (InstancePtr : XDfeMix) (CCCfg : XDfeMix_CCCfg) (c : Nat) :
    ((XDfeMix_RemoveCCfromCCCfg InstancePtr CCCfg (c : Int)).DUCDDCCfg.getD c default).Rate
      = XDFEMIX_CC_CONFIG_DISABLED ∧
    ((XDfeMix_RemoveCCfromCCCfg InstancePtr CCCfg (c : Int)).DUCDDCCfg.getD c default).NCOIdx
      = (CCCfg.DUCDDCCfg.getD c default).NCOIdx ∧
    ((XDfeMix_RemoveCCfromCCCfg InstancePtr CCCfg (c : Int)).DUCDDCCfg.getD c default).CCGain
      = (CCCfg.DUCDDCCfg.getD c default).CCGain ∧
    (∀ i, i ≠ c →
      (XDfeMix_RemoveCCfromCCCfg InstancePtr CCCfg (c : Int)).DUCDDCCfg.getD i default
        = CCCfg.DUCDDCCfg.getD i default) ∧
    (XDfeMix_RemoveCCfromCCCfg InstancePtr CCCfg (c : Int)).DUCDDCCfg.length
      = CCCfg.DUCDDCCfg.length ∧
    (XDfeMix_RemoveCCfromCCCfg InstancePtr CCCfg (c : Int)).NCO = CCCfg.NCO ∧
    (XDfeMix_RemoveCCfromCCCfg InstancePtr CCCfg (c : Int)).AuxiliaryCfg = CCCfg.AuxiliaryCfg ∧
    (XDfeMix_RemoveCCfromCCCfg InstancePtr CCCfg (c : Int)).AntennaCfg = CCCfg.AntennaCfg ∧
    (XDfeMix_RemoveCCfromCCCfg InstancePtr CCCfg (c : Int)).Sequence
      = XDfeMix_RemoveCCID (c : Int) CCCfg.Sequence := by
  unfold XDfeMix_RemoveCCfromCCCfg
  simp only [Int.toNat_ofNat]
  have hself : (CCCfg.DUCDDCCfg.set c
      { CCCfg.DUCDDCCfg.getD c default with Rate := 0 }).getD c default
      = { CCCfg.DUCDDCCfg.getD c default with Rate := 0 } ∨
      ((CCCfg.DUCDDCCfg.set c
        { CCCfg.DUCDDCCfg.getD c default with Rate := 0 }).getD c default
        = CCCfg.DUCDDCCfg.getD c default ∧ CCCfg.DUCDDCCfg.getD c default = default) := by
    by_cases hl : c < CCCfg.DUCDDCCfg.length
    · exact Or.inl (getD_set_self _ _ _ _ hl)
    · right
      rw [List.set_eq_of_length_le (by omega)]
      refine ⟨rfl, ?_⟩
      rw [List.getD_eq_getElem?_getD, List.getElem?_eq_none (by omega)]
      rfl
  refine ⟨?_, ?_, ?_, ?_, List.length_set _ _ _, trivial, trivial, trivial, trivial⟩
  · rcases hself with h | ⟨h1, h2⟩
    · rw [h]; rfl
    · rw [h1, h2]; rfl
  · rcases hself with h | ⟨h1, _⟩
    · rw [h]
    · rw [h1]
  · rcases hself with h | ⟨h1, _⟩
    · rw [h]
    · rw [h1]
  · intro i hi
    exact getD_set_ne _ _ _ _ _ (Ne.symm hi)

/-- Witness for C16 on the ARCH4 example snapshot: removing carrier 0 disables it,
keeps its NCO index and leaves carrier 1's descriptor as it was. -/
theorem C16_remove_frame_witness :
    ((XDfeMix_RemoveCCfromCCCfg arch4Instance arch4Snapshot81 0).DUCDDCCfg.getD 0 default).Rate
      = XDFEMIX_CC_CONFIG_DISABLED ∧
    (XDfeMix_RemoveCCfromCCCfg arch4Instance arch4Snapshot81 0).DUCDDCCfg.getD 1 default
      = arch4Snapshot81.DUCDDCCfg.getD 1 default :=
  ⟨(C16_remove_frame arch4Instance arch4Snapshot81 0).1,
   (C16_remove_frame arch4Instance arch4Snapshot81 0).2.2.2.1 1 (by decide)⟩

/-- The snapshot a successful `XDfeMix_UpdateCCinCCCfg` produces, and the one a
failing call leaves. -/
theorem UpdateCCinCCCfg_state (InstancePtr : XDfeMix) (CCCfg : XDfeMix_CCCfg) (CCID : Int)
    (CarrierCfg : XDfeMix_CarrierCfg) :
    ((XDfeMix_UpdateCCinCCCfg InstancePtr CCCfg CCID CarrierCfg).1 = XST_SUCCESS →
      (XDfeMix_UpdateCCinCCCfg InstancePtr CCCfg CCID CarrierCfg).2
        = { CCCfg with
            DUCDDCCfg := CCCfg.DUCDDCCfg.set CCID.toNat
              { CCCfg.DUCDDCCfg.getD CCID.toNat default with
                NCOIdx := CarrierCfg.DUCDDCCfg.NCOIdx
                CCGain := CarrierCfg.DUCDDCCfg.CCGain } }) ∧
    ((XDfeMix_UpdateCCinCCCfg InstancePtr CCCfg CCID CarrierCfg).1 = XST_FAILURE →
      (XDfeMix_UpdateCCinCCCfg InstancePtr CCCfg CCID CarrierCfg).2 = CCCfg) := by
  unfold XDfeMix_UpdateCCinCCCfg XDfeMix_UpdateCCDDC
  simp only []
  by_cases h1 : XDfeMix_CheckCarrierCfgInUpdateCC InstancePtr CCCfg CCID
      CarrierCfg.DUCDDCCfg.NCOIdx = XST_FAILURE
  · rw [if_pos h1]
    exact ⟨fun h => absurd h (by simp), fun _ => rfl⟩
  · rw [if_neg h1]
    by_cases h2 : CarrierCfg.DUCDDCCfg.NCOIdx ≥ InstancePtr.Config.MaxUseableCcids
    · rw [if_pos h2]
      exact ⟨fun h => absurd h (by simp), fun _ => rfl⟩
    · rw [if_neg h2]
      exact ⟨fun _ => rfl, fun h => absurd h (by simp)⟩

/-- C17: UpdateCarrier does not change occupancy. For a carrier ID below 16 on a
snapshot with 16 carrier descriptors: on success the sequence, the NCO array, the
auxiliary and the antenna configuration, the carrier's rate code and every other
carrier's descriptor are as before, and the carrier's NCO index and gain are the
supplied ones; on failure the snapshot is as before. -/
theorem C17_update_frame (InstancePtr : XDfeMix) (CCCfg : XDfeMix_CCCfg) (c : Nat)
    (CarrierCfg : XDfeMix_CarrierCfg)
    (hc : c < XDFEMIX_CC_NUM) (hd : CCCfg.DUCDDCCfg.length = XDFEMIX_CC_NUM) :
    ((XDfeMix_UpdateCCinCCCfg InstancePtr CCCfg (c : Int) CarrierCfg).1 = XST_SUCCESS →
      (XDfeMix_UpdateCCinCCCfg InstancePtr CCCfg (c : Int) CarrierCfg).2.Sequence
        = CCCfg.Sequence ∧
      (XDfeMix_UpdateCCinCCCfg InstancePtr CCCfg (c : Int) CarrierCfg).2.NCO = CCCfg.NCO ∧
      (XDfeMix_UpdateCCinCCCfg InstancePtr CCCfg (c : Int) CarrierCfg).2.AuxiliaryCfg
        = CCCfg.AuxiliaryCfg ∧
      (XDfeMix_UpdateCCinCCCfg InstancePtr CCCfg (c : Int) CarrierCfg).2.AntennaCfg
        = CCCfg.AntennaCfg ∧
      (XDfeMix_UpdateCCinCCCfg InstancePtr CCCfg (c : Int) CarrierCfg).2.DUCDDCCfg.getD c
          default
        = { NCOIdx := CarrierCfg.DUCDDCCfg.NCOIdx
            Rate := (CCCfg.DUCDDCCfg.getD c default).Rate
            CCGain := CarrierCfg.DUCDDCCfg.CCGain } ∧
      (∀ i, i ≠ c →
        (XDfeMix_UpdateCCinCCCfg InstancePtr CCCfg (c : Int) CarrierCfg).2.DUCDDCCfg.getD i
            default = CCCfg.DUCDDCCfg.getD i default) ∧
      (XDfeMix_UpdateCCinCCCfg InstancePtr CCCfg (c : Int) CarrierCfg).2.DUCDDCCfg.length
        = XDFEMIX_CC_NUM) ∧
    ((XDfeMix_UpdateCCinCCCfg InstancePtr CCCfg (c : Int) CarrierCfg).1 = XST_FAILURE →
      (XDfeMix_UpdateCCinCCCfg InstancePtr CCCfg (c : Int) CarrierCfg).2 = CCCfg) := by
  obtain ⟨hsucc, hfail⟩ := UpdateCCinCCCfg_state InstancePtr CCCfg (c : Int) CarrierCfg
  refine ⟨?_, hfail⟩
  intro hs
  rw [hsucc hs]
  simp only [Int.toNat_ofNat]
  have hcl : c < CCCfg.DUCDDCCfg.length := by rw [hd]; exact hc
  refine ⟨trivial, trivial, trivial, trivial, getD_set_self _ _ _ _ hcl, ?_, ?_⟩
  · intro i hi
    exact getD_set_ne _ _ _ _ _ (Ne.symm hi)
  · rw [List.length_set, hd]

/-- Witness for C17 on the ARCH4 example snapshot (carrier 0 on NCO 0): moving
carrier 0 to NCO 1 with gain 5 succeeds, stores NCO 1 and gain 5 and keeps the rate
code and the sequence; an update that keeps NCO 0 fails and changes nothing. -/
theorem C17_update_frame_witness :
    (XDfeMix_UpdateCCinCCCfg arch4Instance arch4Snapshot8 0 ⟨⟨1, 0, 5⟩⟩).1 = XST_SUCCESS ∧
    (XDfeMix_UpdateCCinCCCfg arch4Instance arch4Snapshot8 0 ⟨⟨1, 0, 5⟩⟩).2.DUCDDCCfg.getD 0
        default
      = { NCOIdx := 1, Rate := (arch4Snapshot8.DUCDDCCfg.getD 0 default).Rate, CCGain := 5 } ∧
    (XDfeMix_UpdateCCinCCCfg arch4Instance arch4Snapshot8 0 ⟨⟨1, 0, 5⟩⟩).2.Sequence
      = arch4Snapshot8.Sequence ∧
    (XDfeMix_UpdateCCinCCCfg arch4Instance arch4Snapshot8 0 ⟨⟨0, 0, 5⟩⟩).2 = arch4Snapshot8 :=
  ⟨by decide,
   ((C17_update_frame arch4Instance arch4Snapshot8 0 ⟨⟨1, 0, 5⟩⟩ (by decide) (by decide)).1
      (by decide)).2.2.2.2.1,
   ((C17_update_frame arch4Instance arch4Snapshot8 0 ⟨⟨1, 0, 5⟩⟩ (by decide) (by decide)).1
      (by decide)).1,
   (C17_update_frame arch4Instance arch4Snapshot8 0 ⟨⟨0, 0, 5⟩⟩ (by decide) (by decide)).2
      (by decide)⟩

/-! ## Bitmap count, unused ID, variant selection and phase offset: the claims -/

theorem popcount32_mod (B L : Nat) (h32 : L ≤ 32) :
    popcount32 (B % 2 ^ L) = popcountLow B L := by
  unfold popcount32 popcountLow
  have h1 : (List.range 32).countP (fun i => (B % 2 ^ L).testBit i) =
      (List.range 32).countP (fun i => B.testBit i && decide (i < L)) := by
    apply List.countP_congr
    intro i _
    simp [Nat.testBit_mod_two_pow, Bool.and_comm]
  rw [h1, countP_range_extend (fun i => B.testBit i && decide (i < L)) L 32 h32]
  · apply List.countP_congr
    intro i hi
    simp [List.mem_range.1 hi]
  · intro i hi
    simp [Nat.not_lt.2 hi]

/-- C21: for every bitmap `B` and every sequence length `L` with `L ≤ 32`,
`XDfeMix_CountOnesInBitmap` returns the number of set bits of `B mod 2 ^ L`, which is
the number of set bits of `B` among its low `L` bits. -/
theorem C21_count_ones_low_bits (InstancePtr : XDfeMix) (B : Nat)
    (hL : InstancePtr.SequenceLength ≤ 32) :
    XDfeMix_CountOnesInBitmap InstancePtr B =
      popcount32 (B % 2 ^ InstancePtr.SequenceLength) ∧
    XDfeMix_CountOnesInBitmap InstancePtr B = popcountLow B InstancePtr.SequenceLength := by
  rw [popcount32_mod B _ hL]
  exact ⟨countOnes_eq_popcountLow InstancePtr B hL, countOnes_eq_popcountLow InstancePtr B hL⟩

/-- Witness for C21: sequence length 16 and the bitmap `0x30003`, whose low 16 bits
hold two ones. -/
theorem C21_count_ones_low_bits_witness :
    arch4Instance.SequenceLength ≤ 32 ∧
    XDfeMix_CountOnesInBitmap arch4Instance 0x30003 = 2 ∧
    popcount32 (0x30003 % 2 ^ arch4Instance.SequenceLength) = 2 :=
  ⟨by decide, by decide,
    (C21_count_ones_low_bits arch4Instance 0x30003 (by decide)).1.symm.trans (by decide)⟩

/-- C22: `XDfeMix_GetNotUsedCCID` returns a value between 0 and 16; when it is below
16 it is the smallest carrier ID that is the value of none of the 16 entries, and it is
16 exactly when every ID 0..15 is the value of some entry. -/
theorem C22_smallest_unused_id (Sequence : XDfeMix_CCSequence) :
    0 ≤ XDfeMix_GetNotUsedCCID Sequence ∧ XDfeMix_GetNotUsedCCID Sequence ≤ 16 ∧
    (XDfeMix_GetNotUsedCCID Sequence < 16 →
      (∀ i, i < 16 → Sequence.CCID.getD i 0 ≠ XDfeMix_GetNotUsedCCID Sequence) ∧
      ∀ v : Int, 0 ≤ v → v < XDfeMix_GetNotUsedCCID Sequence →
        ∃ i, i < 16 ∧ Sequence.CCID.getD i 0 = v) ∧
    (XDfeMix_GetNotUsedCCID Sequence = 16 ↔
      ∀ v : Int, 0 ≤ v → v < 16 → ∃ i, i < 16 ∧ Sequence.CCID.getD i 0 = v) := by
  obtain ⟨h0, h16, hbelow, hnot⟩ := GetNotUsedCCID_spec Sequence
  simp only [XDFEMIX_CC_NUM] at hbelow hnot
  refine ⟨h0, h16, fun hlt => ⟨hnot hlt, hbelow⟩, ?_, ?_⟩
  · intro h v hv0 hv
    exact hbelow v hv0 (by omega)
  · intro hall
    by_contra hne
    have hlt : XDfeMix_GetNotUsedCCID Sequence < 16 := by omega
    obtain ⟨i, hi, heq⟩ := hall _ h0 hlt
    exact hnot hlt i hi heq

/-- Witness for C22: with carrier 5 in slot 0 and every other slot unassigned the
smallest ID held by no entry is 0; a slot array holding 0..15 yields 16. -/
theorem C22_smallest_unused_id_witness :
    XDfeMix_GetNotUsedCCID sequenceCarrier5 = 0 ∧
    XDfeMix_GetNotUsedCCID ⟨16, [0, 1, 2, 3, 4, 5, 6, 7, 8, 9, 10, 11, 12, 13, 14, 15], 0⟩ = 16 ∧
    ∀ i, i < 16 → sequenceCarrier5.CCID.getD i 0 ≠ XDfeMix_GetNotUsedCCID sequenceCarrier5 :=
  ⟨by decide, by decide, ((C22_smallest_unused_id sequenceCarrier5).2.2.1 (by decide)).1⟩

/-- C23: the ARCH4 check is selected exactly when `MaxUseableCcids = 8` and
`Lanes > 1`, the ARCH5 check exactly when `MaxUseableCcids = 16`, never both; the add
check fails exactly when the carrier is active, the NCO index is in use, or the
selected variant's sub-block check fails, the update check exactly when the NCO index
is in use or the selected variant's sub-block check fails; and for an instance that
selects neither variant the add check fails only for an active carrier or an NCO index
in use and the update check is the NCO index check alone. -/
theorem C23_variant_selection (InstancePtr : XDfeMix) (CCCfg : XDfeMix_CCCfg) (CCID : Int)
    (CCSeqBitmap NCOIdx : Nat) :
    (XDFEMIX_IS_ARCH4_MODE InstancePtr = true ↔
      InstancePtr.Config.MaxUseableCcids = 8 ∧ 1 < InstancePtr.Config.Lanes) ∧
    (XDFEMIX_IS_ARCH5_MODE InstancePtr = true ↔ InstancePtr.Config.MaxUseableCcids = 16) ∧
    ¬ (XDFEMIX_IS_ARCH4_MODE InstancePtr = true ∧ XDFEMIX_IS_ARCH5_MODE InstancePtr = true) ∧
    (XDfeMix_CheckCarrierCfginAddCC InstancePtr CCCfg CCID CCSeqBitmap NCOIdx = XST_FAILURE ↔
      (CCCfg.DUCDDCCfg.getD CCID.toNat default).Rate ≠ XDFEMIX_CC_CONFIG_DISABLED ∨
      XDfeMix_CheckCarrierCfg InstancePtr CCCfg NCOIdx = XST_FAILURE ∨
      (XDFEMIX_IS_ARCH4_MODE InstancePtr = true ∧
        XDfeMix_NCOArch4ModeInAddCC InstancePtr CCCfg CCID CCSeqBitmap NCOIdx = XST_FAILURE) ∨
      (XDFEMIX_IS_ARCH5_MODE InstancePtr = true ∧
        XDfeMix_NCOArch5ModeInAddCC InstancePtr CCCfg CCID CCSeqBitmap NCOIdx = XST_FAILURE)) ∧
    (XDfeMix_CheckCarrierCfgInUpdateCC InstancePtr CCCfg CCID NCOIdx = XST_FAILURE ↔
      XDfeMix_CheckCarrierCfg InstancePtr CCCfg NCOIdx = XST_FAILURE ∨
      (XDFEMIX_IS_ARCH4_MODE InstancePtr = true ∧
        XDfeMix_NCOArch4ModeInMoveOrUpdateCC InstancePtr CCCfg CCID NCOIdx = XST_FAILURE) ∨
      (XDFEMIX_IS_ARCH5_MODE InstancePtr = true ∧
        XDfeMix_NCOArch5ModeInMoveOrUpdateCC InstancePtr CCCfg CCID NCOIdx = XST_FAILURE)) ∧
    (¬ (InstancePtr.Config.MaxUseableCcids = 8 ∧ 1 < InstancePtr.Config.Lanes) →
      InstancePtr.Config.MaxUseableCcids ≠ 16 →
      (XDfeMix_CheckCarrierCfginAddCC InstancePtr CCCfg CCID CCSeqBitmap NCOIdx = XST_FAILURE ↔
        (CCCfg.DUCDDCCfg.getD CCID.toNat default).Rate ≠ XDFEMIX_CC_CONFIG_DISABLED ∨
        XDfeMix_CheckCarrierCfg InstancePtr CCCfg NCOIdx = XST_FAILURE) ∧
      XDfeMix_CheckCarrierCfgInUpdateCC InstancePtr CCCfg CCID NCOIdx =
        XDfeMix_CheckCarrierCfg InstancePtr CCCfg NCOIdx) := by
  have h4 : XDFEMIX_IS_ARCH4_MODE InstancePtr = true ↔
      InstancePtr.Config.MaxUseableCcids = 8 ∧ 1 < InstancePtr.Config.Lanes := by
    simp [XDFEMIX_IS_ARCH4_MODE]
  have h5 : XDFEMIX_IS_ARCH5_MODE InstancePtr = true ↔
      InstancePtr.Config.MaxUseableCcids = 16 := by
    simp [XDFEMIX_IS_ARCH5_MODE]
  have hex : ¬ (XDFEMIX_IS_ARCH4_MODE InstancePtr = true ∧
      XDFEMIX_IS_ARCH5_MODE InstancePtr = true) := by
    rw [h4, h5]; omega
  have hadd : XDfeMix_CheckCarrierCfginAddCC InstancePtr CCCfg CCID CCSeqBitmap NCOIdx =
        XST_FAILURE ↔
      (CCCfg.DUCDDCCfg.getD CCID.toNat default).Rate ≠ XDFEMIX_CC_CONFIG_DISABLED ∨
      XDfeMix_CheckCarrierCfg InstancePtr CCCfg NCOIdx = XST_FAILURE ∨
      (XDFEMIX_IS_ARCH4_MODE InstancePtr = true ∧
        XDfeMix_NCOArch4ModeInAddCC InstancePtr CCCfg CCID CCSeqBitmap NCOIdx = XST_FAILURE) ∨
      (XDFEMIX_IS_ARCH5_MODE InstancePtr = true ∧
        XDfeMix_NCOArch5ModeInAddCC InstancePtr CCCfg CCID CCSeqBitmap NCOIdx =
          XST_FAILURE) := by
    unfold XDfeMix_CheckCarrierCfginAddCC
    generalize (CCCfg.DUCDDCCfg.getD CCID.toNat default).Rate = r
    generalize XDfeMix_CheckCarrierCfg InstancePtr CCCfg NCOIdx = s
    generalize XDfeMix_NCOArch4ModeInAddCC InstancePtr CCCfg CCID CCSeqBitmap NCOIdx = s4
    generalize XDfeMix_NCOArch5ModeInAddCC InstancePtr CCCfg CCID CCSeqBitmap NCOIdx = s5
    revert hex
    generalize XDFEMIX_IS_ARCH4_MODE InstancePtr = a4
    generalize XDFEMIX_IS_ARCH5_MODE InstancePtr = a5
    intro hex
    by_cases hr : r ≠ XDFEMIX_CC_CONFIG_DISABLED <;>
      cases s <;> cases s4 <;> cases s5 <;> cases a4 <;> cases a5 <;> simp_all
  have hupd : XDfeMix_CheckCarrierCfgInUpdateCC InstancePtr CCCfg CCID NCOIdx = XST_FAILURE ↔
      XDfeMix_CheckCarrierCfg InstancePtr CCCfg NCOIdx = XST_FAILURE ∨
      (XDFEMIX_IS_ARCH4_MODE InstancePtr = true ∧
        XDfeMix_NCOArch4ModeInMoveOrUpdateCC InstancePtr CCCfg CCID NCOIdx = XST_FAILURE) ∨
      (XDFEMIX_IS_ARCH5_MODE InstancePtr = true ∧
        XDfeMix_NCOArch5ModeInMoveOrUpdateCC InstancePtr CCCfg CCID NCOIdx =
          XST_FAILURE) := by
    unfold XDfeMix_CheckCarrierCfgInUpdateCC
    generalize XDfeMix_CheckCarrierCfg InstancePtr CCCfg NCOIdx = s
    generalize XDfeMix_NCOArch4ModeInMoveOrUpdateCC InstancePtr CCCfg CCID NCOIdx = s4
    generalize XDfeMix_NCOArch5ModeInMoveOrUpdateCC InstancePtr CCCfg CCID NCOIdx = s5
    revert hex
    generalize XDFEMIX_IS_ARCH4_MODE InstancePtr = a4
    generalize XDFEMIX_IS_ARCH5_MODE InstancePtr = a5
    intro hex
    cases s <;> cases s4 <;> cases s5 <;> cases a4 <;> cases a5 <;> simp_all
  refine ⟨h4, h5, hex, hadd, hupd, ?_⟩
  intro hn4 hn5
  have e4 : XDFEMIX_IS_ARCH4_MODE InstancePtr = false := by
    rw [← Bool.not_eq_true, h4]; exact hn4
  have e5 : XDFEMIX_IS_ARCH5_MODE InstancePtr = false := by
    rw [← Bool.not_eq_true, h5]; exact hn5
  constructor
  · rw [hadd, e4, e5]; simp
  · unfold XDfeMix_CheckCarrierCfgInUpdateCC
    rw [e4, e5]
    cases XDfeMix_CheckCarrierCfg InstancePtr CCCfg NCOIdx <;> simp

/-- Witness for C23: an instance with 4 usable carrier IDs and one lane selects
neither variant, so its update check is the NCO index check. -/
theorem C23_variant_selection_witness :
    ¬ (plainInstance.Config.MaxUseableCcids = 8 ∧ 1 < plainInstance.Config.Lanes) ∧
    plainInstance.Config.MaxUseableCcids ≠ 16 ∧
    XDfeMix_CheckCarrierCfgInUpdateCC plainInstance arch4Snapshot8 0 7 =
      XDfeMix_CheckCarrierCfg plainInstance arch4Snapshot8 7 :=
  ⟨by decide, by decide,
    ((C23_variant_selection plainInstance arch4Snapshot8 0 0 7).2.2.2.2.2
      (by decide) (by decide)).2⟩

/-- C24: for 32-bit accumulators `a` of phase A and `b` of phase B, with
`d = (b - a) mod 2 ^ 32`, `XDfeMix_DerivePhaseOffset` returns `⌊(d + 2 ^ 13) / 2 ^ 14⌋`,
which is `d >> 14` plus 1 when bit 13 of `d` is set. -/
theorem C24_derive_phase_offset (PhaseA PhaseB : XDfeMix_Phase) (P0 : XDfeMix_PhaseOffset)
    (d : Nat) (ha : PhaseA.PhaseAcc < 2 ^ 32) (hb : PhaseB.PhaseAcc < 2 ^ 32)
    (hd : (d : Int) = ((PhaseB.PhaseAcc : Int) - (PhaseA.PhaseAcc : Int)) % 2 ^ 32) :
    (XDfeMix_DerivePhaseOffset PhaseA PhaseB P0).PhaseOffset = (d + 2 ^ 13) / 2 ^ 14 ∧
    (XDfeMix_DerivePhaseOffset PhaseA PhaseB P0).PhaseOffset =
      d >>> 14 + (if d.testBit 13 then 1 else 0) := by
  have hsub : u32_sub PhaseB.PhaseAcc PhaseA.PhaseAcc = d := by
    unfold u32_sub u32
    rw [Nat.mod_eq_of_lt ha, Nat.mod_eq_of_lt hb]
    omega
  have hd32 : d < 2 ^ 32 := by omega
  have hmask : u32 (1 <<< (14 - 1)) = 2 ^ 13 := by decide
  have hbit : d.testBit 13 = decide (d / 2 ^ 13 % 2 = 1) := Nat.testBit_to_div_mod
  unfold XDfeMix_DerivePhaseOffset
  simp only [hsub, XDFEMIX_PHASE_OFFSET_ROUNDING_BITS, hmask, Nat.shiftRight_eq_div_pow]
  by_cases h13 : d.testBit 13 = true
  · have hne : 0 ≠ d &&& 2 ^ 13 := fun h => (and_two_pow_ne_zero d 13).2 h13 h.symm
    rw [if_pos hne, if_pos h13]
    rw [h13] at hbit
    have hbit2 : d / 2 ^ 13 % 2 = 1 := of_decide_eq_true hbit.symm
    simp only [u32]
    norm_num at hbit2 hd32 ⊢
    omega
  · have hne : ¬ (0 ≠ d &&& 2 ^ 13) := fun h =>
      h13 ((and_two_pow_ne_zero d 13).1 (fun h0 => h h0.symm))
    rw [if_neg hne, if_neg h13]
    have hbit2 : ¬ (d / 2 ^ 13 % 2 = 1) := by
      intro h; apply h13; rw [hbit]; exact decide_eq_true h
    norm_num at hbit2 hd32 ⊢
    omega

/-- Witness for C24: with `a = 0`, `b = 1 << 14` gives 1 and `b = (1 << 14) + (1 << 13)`
gives 2. -/
theorem C24_derive_phase_offset_witness :
    (XDfeMix_DerivePhaseOffset ⟨0, 0, 0, 0⟩ ⟨1 <<< 14, 0, 0, 0⟩ ⟨0⟩).PhaseOffset = 1 ∧
    (XDfeMix_DerivePhaseOffset ⟨0, 0, 0, 0⟩ ⟨1 <<< 14 + 1 <<< 13, 0, 0, 0⟩ ⟨0⟩).PhaseOffset = 2 ∧
    (XDfeMix_DerivePhaseOffset ⟨0, 0, 0, 0⟩ ⟨1 <<< 14, 0, 0, 0⟩ ⟨0⟩).PhaseOffset =
      (2 ^ 14 + 2 ^ 13) / 2 ^ 14 :=
  ⟨by decide, by decide,
    (C24_derive_phase_offset ⟨0, 0, 0, 0⟩ ⟨1 <<< 14, 0, 0, 0⟩ ⟨0⟩ (2 ^ 14)
      (by decide) (by decide) (by decide)).1⟩

/-! ## Registers and bit fields: auxiliary lemmas -/

theorem fieldMask_eq (w : Nat) (hw : w ≤ 32) : u32_sub (u32 (1 <<< w)) 1 = 2 ^ w - 1 := by
  rcases Nat.lt_or_ge w 32 with h | h
  · exact seqMask_eq w h
  · have : w = 32 := by omega
    subst this
    decide

theorem u32_lt (n : Nat) : u32 n < 2 ^ 32 := Nat.mod_lt _ (by decide)

theorem u32_u32 (n : Nat) : u32 (u32 n) = u32 n := Nat.mod_eq_of_lt (u32_lt n)

theorem testBit_u32 (n i : Nat) : (u32 n).testBit i = (decide (i < 32) && n.testBit i) := by
  unfold u32
  rw [Nat.testBit_mod_two_pow]

theorem testBit_u32_not (n i : Nat) :
    (u32_not n).testBit i = (decide (i < 32) && !(u32 n).testBit i) := by
  have e : u32_not n = 2 ^ 32 - (u32 n + 1) := by
    unfold u32_not
    have := u32_lt n
    omega
  rw [e, Nat.testBit_two_pow_sub_succ (u32_lt n)]

/-- Bit `i` of the result of `XDfeMix_WrBitField`: inside the field it is the bit of
the value, outside it is the bit of the data. -/
theorem testBit_WrBitField (w o D V i : Nat) (hw : w ≤ 32) :
    (XDfeMix_WrBitField w o D V).testBit i =
      (decide (i < 32) &&
        (if o ≤ i ∧ i < o + w then V.testBit (i - o) else D.testBit i)) := by
  unfold XDfeMix_WrBitField
  simp only [fieldMask_eq w hw, Nat.testBit_or, Nat.testBit_and, testBit_u32, testBit_u32_not,
    Nat.testBit_shiftLeft, Nat.testBit_two_pow_sub_one]
  by_cases h32 : i < 32 <;> by_cases ho : o ≤ i <;> by_cases hw2 : i < o + w
  · have h : i - o < w := by omega
    simp [h32, ho, hw2, h]
  · have h : ¬ (i - o < w) := by omega
    simp [h32, ho, hw2, h]
  all_goals simp [h32, ho, hw2]

theorem testBit_RdBitField (w o D j : Nat) (hw : w ≤ 32) :
    (XDfeMix_RdBitField w o D).testBit j = (decide (j < w) && D.testBit (o + j)) := by
  unfold XDfeMix_RdBitField
  simp only [fieldMask_eq w hw, Nat.testBit_and, Nat.testBit_shiftRight,
    Nat.testBit_two_pow_sub_one, Bool.and_comm]

/-- Reading a field back after writing it gives the value written, reduced to the
width of the field. -/
theorem RdBitField_WrBitField (w o D V : Nat) (hw : o + w ≤ 32) :
    XDfeMix_RdBitField w o (XDfeMix_WrBitField w o D V) = V % 2 ^ w := by
  apply Nat.eq_of_testBit_eq
  intro j
  rw [testBit_RdBitField w o _ j (by omega), testBit_WrBitField w o D V _ (by omega),
    Nat.testBit_mod_two_pow]
  by_cases hj : j < w
  · have h1 : o + j < 32 := by omega
    have h2 : o ≤ o + j ∧ o + j < o + w := by omega
    simp [hj, h1, h2]
  · simp [hj]

/-- Writing a field leaves every field that does not overlap it as it was. -/
theorem RdBitField_WrBitField_other (w o w2 o2 D V : Nat) (hw : w ≤ 32) (hw2 : o2 + w2 ≤ 32)
    (hdis : o + w ≤ o2 ∨ o2 + w2 ≤ o) :
    XDfeMix_RdBitField w2 o2 (XDfeMix_WrBitField w o D V) = XDfeMix_RdBitField w2 o2 D := by
  apply Nat.eq_of_testBit_eq
  intro j
  rw [testBit_RdBitField w2 o2 _ j (by omega), testBit_RdBitField w2 o2 _ j (by omega),
    testBit_WrBitField w o D V _ hw]
  by_cases hj : j < w2
  · have h1 : o2 + j < 32 := by omega
    have h2 : ¬ (o ≤ o2 + j ∧ o2 + j < o + w) := by omega
    simp [hj, h1, h2]
  · simp [hj]

theorem RdBitField_lt (w o D : Nat) (hw : w ≤ 32) : XDfeMix_RdBitField w o D < 2 ^ w := by
  apply Nat.lt_pow_two_of_testBit
  intro j hj
  rw [testBit_RdBitField w o D j hw]
  simp [Nat.not_lt.2 hj]

theorem ReadReg_WriteReg_same (Regs : XDfeMix_Regs) (a : XDfeMix_Addr) (d : Nat) :
    XDfeMix_ReadReg (XDfeMix_WriteReg Regs a d) a = u32 d := by
  simp [XDfeMix_ReadReg, XDfeMix_WriteReg, u32_u32]

theorem WriteReg_other (Regs : XDfeMix_Regs) (a b : XDfeMix_Addr) (d : Nat) (h : b ≠ a) :
    XDfeMix_WriteReg Regs a d b = Regs b := by
  simp [XDfeMix_WriteReg, h]

theorem WrRegBitField_eq (Regs : XDfeMix_Regs) (a : XDfeMix_Addr) (w o v : Nat) :
    XDfeMix_WrRegBitField Regs a w o v =
      XDfeMix_WriteReg Regs a (XDfeMix_WrBitField w o (XDfeMix_ReadReg Regs a) v) := by
  unfold XDfeMix_WrRegBitField XDfeMix_WrBitField
  simp only [Nat.or_comm]

theorem RdRegBitField_eq (Regs : XDfeMix_Regs) (a : XDfeMix_Addr) (w o : Nat) :
    XDfeMix_RdRegBitField Regs a w o = XDfeMix_RdBitField w o (XDfeMix_ReadReg Regs a) := rfl

theorem WrBitField_lt (w o D V : Nat) (hw : w ≤ 32) : XDfeMix_WrBitField w o D V < 2 ^ 32 := by
  apply Nat.lt_pow_two_of_testBit
  intro j hj
  rw [testBit_WrBitField w o D V j hw]
  simp [Nat.not_lt.2 hj]

/-- Reading a register field back after `XDfeMix_WrRegBitField` gives the value
written, reduced to the width of the field. -/
theorem RdRegBitField_WrRegBitField (Regs : XDfeMix_Regs) (a : XDfeMix_Addr) (w o v : Nat)
    (hw : o + w ≤ 32) :
    XDfeMix_RdRegBitField (XDfeMix_WrRegBitField Regs a w o v) a w o = v % 2 ^ w := by
  rw [WrRegBitField_eq, RdRegBitField_eq, ReadReg_WriteReg_same,
    u32_eq_self (WrBitField_lt w o _ v (by omega)), RdBitField_WrBitField w o _ v hw]

/-! ## Commit of a configuration: the claims -/

theorem trigger_failure_iff (Hw : XDfeMix_Hw) (W : XDfeMix_Regs) :
    (XDfeMix_EnableCCUpdateTrigger Hw W).1 = XST_FAILURE ↔
      XDfeMix_RdRegBitField W ⟨.XDFEMIX_ISR, 0⟩ Hw.XDFEMIX_CC_UPDATE_TRIGGERED_WIDTH
        Hw.XDFEMIX_CC_UPDATE_TRIGGERED_OFFSET = Hw.XDFEMIX_CC_UPDATE_TRIGGERED_HIGH := by
  unfold XDfeMix_EnableCCUpdateTrigger
  split
  · next h => simp [h.symm]
  · next h => simp only [reduceCtorEq, false_iff]; exact fun h2 => h h2.symm

theorem trigger_failure_regs (Hw : XDfeMix_Hw) (W : XDfeMix_Regs)
    (h : (XDfeMix_EnableCCUpdateTrigger Hw W).1 = XST_FAILURE) :
    (XDfeMix_EnableCCUpdateTrigger Hw W).2 = W := by
  unfold XDfeMix_EnableCCUpdateTrigger at h ⊢
  split
  · rfl
  · next hn => rw [if_neg hn] at h; cases h

theorem trigger_success_regs (Hw : XDfeMix_Hw) (W : XDfeMix_Regs)
    (h : (XDfeMix_EnableCCUpdateTrigger Hw W).1 = XST_SUCCESS) :
    (XDfeMix_EnableCCUpdateTrigger Hw W).2 =
      XDfeMix_WriteReg W ⟨.XDFEMIX_TRIGGERS_CC_UPDATE_OFFSET, 0⟩
        (XDfeMix_WrBitField Hw.XDFEMIX_TRIGGERS_TRIGGER_ENABLE_WIDTH
          Hw.XDFEMIX_TRIGGERS_TRIGGER_ENABLE_OFFSET
          (XDfeMix_ReadReg W ⟨.XDFEMIX_TRIGGERS_CC_UPDATE_OFFSET, 0⟩)
          Hw.XDFEMIX_TRIGGERS_TRIGGER_ENABLE_ENABLED) := by
  unfold XDfeMix_EnableCCUpdateTrigger at h ⊢
  split
  · next hp => rw [if_pos hp] at h; cases h
  · rfl

/-- After a successful arming the enable field of the CC update trigger register reads
enabled. -/
theorem trigger_success_enabled (Hw : XDfeMix_Hw) (W : XDfeMix_Regs)
    (hfield : Hw.XDFEMIX_TRIGGERS_TRIGGER_ENABLE_OFFSET +
      Hw.XDFEMIX_TRIGGERS_TRIGGER_ENABLE_WIDTH ≤ 32)
    (hval : Hw.XDFEMIX_TRIGGERS_TRIGGER_ENABLE_ENABLED <
      2 ^ Hw.XDFEMIX_TRIGGERS_TRIGGER_ENABLE_WIDTH)
    (h : (XDfeMix_EnableCCUpdateTrigger Hw W).1 = XST_SUCCESS) :
    XDfeMix_RdRegBitField (XDfeMix_EnableCCUpdateTrigger Hw W).2
      ⟨.XDFEMIX_TRIGGERS_CC_UPDATE_OFFSET, 0⟩ Hw.XDFEMIX_TRIGGERS_TRIGGER_ENABLE_WIDTH
      Hw.XDFEMIX_TRIGGERS_TRIGGER_ENABLE_OFFSET = Hw.XDFEMIX_TRIGGERS_TRIGGER_ENABLE_ENABLED := by
  rw [trigger_success_regs Hw W h, RdRegBitField_eq, ReadReg_WriteReg_same,
    u32_eq_self (WrBitField_lt _ _ _ _ (by omega)), RdBitField_WrBitField _ _ _ _ hfield]
  exact Nat.mod_eq_of_lt hval

theorem status_cases (s : XStatus) : s = XST_SUCCESS ∨ s = XST_FAILURE := by
  cases s <;> simp

theorem commit_eq (Hw : XDfeMix_Hw) (InstancePtr : XDfeMix) (Regs : XDfeMix_Regs)
    (CCCfg : XDfeMix_CCCfg) (Data : Nat) :
    XDfeMix_SetNextCCCfgAndTrigger Hw InstancePtr Regs CCCfg Data =
      if XST_SUCCESS =
          (XDfeMix_EnableCCUpdateTrigger Hw (commitWritten Hw InstancePtr Regs CCCfg Data)).1 then
        (XST_SUCCESS, { InstancePtr with NotUsedCCID := CCCfg.Sequence.NotUsedCCID },
          (XDfeMix_EnableCCUpdateTrigger Hw (commitWritten Hw InstancePtr Regs CCCfg Data)).2)
      else
        (XST_FAILURE, InstancePtr,
          (XDfeMix_EnableCCUpdateTrigger Hw (commitWritten Hw InstancePtr Regs CCCfg Data)).2) :=
  rfl

/-- C27: `XDfeMix_SetNextCCCfgAndTrigger` returns failure exactly when the CC update
triggered flag reads high in the registers as they are when the trigger is armed. On
success the enable field of the CC update trigger register reads enabled, no other
register is changed by the arming, and the instance's cached not used CCID becomes the
snapshot's. On failure the arming writes nothing and the instance is unchanged. -/
theorem C27_commit_status (Hw : XDfeMix_Hw) (InstancePtr : XDfeMix) (Regs : XDfeMix_Regs)
    (CCCfg : XDfeMix_CCCfg) (Data : Nat)
    (hfield : Hw.XDFEMIX_TRIGGERS_TRIGGER_ENABLE_OFFSET +
      Hw.XDFEMIX_TRIGGERS_TRIGGER_ENABLE_WIDTH ≤ 32)
    (hval : Hw.XDFEMIX_TRIGGERS_TRIGGER_ENABLE_ENABLED <
      2 ^ Hw.XDFEMIX_TRIGGERS_TRIGGER_ENABLE_WIDTH) :
    ((XDfeMix_SetNextCCCfgAndTrigger Hw InstancePtr Regs CCCfg Data).1 = XST_FAILURE ↔
      XDfeMix_RdRegBitField (commitWritten Hw InstancePtr Regs CCCfg Data) ⟨.XDFEMIX_ISR, 0⟩
        Hw.XDFEMIX_CC_UPDATE_TRIGGERED_WIDTH Hw.XDFEMIX_CC_UPDATE_TRIGGERED_OFFSET =
        Hw.XDFEMIX_CC_UPDATE_TRIGGERED_HIGH) ∧
    ((XDfeMix_SetNextCCCfgAndTrigger Hw InstancePtr Regs CCCfg Data).1 = XST_SUCCESS →
      XDfeMix_RdRegBitField (XDfeMix_SetNextCCCfgAndTrigger Hw InstancePtr Regs CCCfg Data).2.2
        ⟨.XDFEMIX_TRIGGERS_CC_UPDATE_OFFSET, 0⟩ Hw.XDFEMIX_TRIGGERS_TRIGGER_ENABLE_WIDTH
        Hw.XDFEMIX_TRIGGERS_TRIGGER_ENABLE_OFFSET = Hw.XDFEMIX_TRIGGERS_TRIGGER_ENABLE_ENABLED ∧
      (∀ a, a ≠ ⟨.XDFEMIX_TRIGGERS_CC_UPDATE_OFFSET, 0⟩ →
        (XDfeMix_SetNextCCCfgAndTrigger Hw InstancePtr Regs CCCfg Data).2.2 a =
          commitWritten Hw InstancePtr Regs CCCfg Data a) ∧
      (XDfeMix_SetNextCCCfgAndTrigger Hw InstancePtr Regs CCCfg Data).2.1 =
        { InstancePtr with NotUsedCCID := CCCfg.Sequence.NotUsedCCID }) ∧
    ((XDfeMix_SetNextCCCfgAndTrigger Hw InstancePtr Regs CCCfg Data).1 = XST_FAILURE →
      (XDfeMix_SetNextCCCfgAndTrigger Hw InstancePtr Regs CCCfg Data).2.2 =
        commitWritten Hw InstancePtr Regs CCCfg Data ∧
      (XDfeMix_SetNextCCCfgAndTrigger Hw InstancePtr Regs CCCfg Data).2.1 = InstancePtr) := by
  rw [commit_eq]
  generalize commitWritten Hw InstancePtr Regs CCCfg Data = W
  rcases status_cases (XDfeMix_EnableCCUpdateTrigger Hw W).1 with hs | hs
  · have hflag := (trigger_failure_iff Hw W).not.1 (by rw [hs]; simp)
    have hen := trigger_success_enabled Hw W hfield hval hs
    have hregs := trigger_success_regs Hw W hs
    rw [if_pos hs.symm]
    refine ⟨by simpa using hflag, fun _ => ⟨hen, ?_, rfl⟩, fun h => by simp at h⟩
    intro a ha
    show (XDfeMix_EnableCCUpdateTrigger Hw W).2 a = W a
    rw [hregs]
    exact WriteReg_other _ _ _ _ ha
  · have hflag := (trigger_failure_iff Hw W).1 hs
    have hregs := trigger_failure_regs Hw W hs
    rw [if_neg (by rw [hs]; simp)]
    exact ⟨by simpa using hflag, fun h => by simp at h, fun _ => ⟨hregs, rfl⟩⟩

/-- Witness for C27: with every register at 0 the commit of the empty configuration
succeeds and the enable field reads 1; with the triggered flag high it fails. -/
theorem C27_commit_status_witness :
    exampleHw.XDFEMIX_TRIGGERS_TRIGGER_ENABLE_OFFSET +
      exampleHw.XDFEMIX_TRIGGERS_TRIGGER_ENABLE_WIDTH ≤ 32 ∧
    (XDfeMix_SetNextCCCfgAndTrigger exampleHw moveInstance zeroRegs
      (XDfeMix_GetEmptyCCCfg moveInstance) 0).1 = XST_SUCCESS ∧
    (XDfeMix_SetNextCCCfgAndTrigger exampleHw moveInstance triggeredRegs
      (XDfeMix_GetEmptyCCCfg moveInstance) 0).1 = XST_FAILURE ∧
    XDfeMix_RdRegBitField (XDfeMix_SetNextCCCfgAndTrigger exampleHw moveInstance zeroRegs
        (XDfeMix_GetEmptyCCCfg moveInstance) 0).2.2
      ⟨.XDFEMIX_TRIGGERS_CC_UPDATE_OFFSET, 0⟩ exampleHw.XDFEMIX_TRIGGERS_TRIGGER_ENABLE_WIDTH
      exampleHw.XDFEMIX_TRIGGERS_TRIGGER_ENABLE_OFFSET =
      exampleHw.XDFEMIX_TRIGGERS_TRIGGER_ENABLE_ENABLED :=
  ⟨by decide, by decide, by decide,
    ((C27_commit_status exampleHw moveInstance zeroRegs (XDfeMix_GetEmptyCCCfg moveInstance) 0
      (by decide) (by decide)).2.1 (by decide)).1⟩

/-! ## Sentinel translation: the claim -/

theorem s32_round_trip (v : Int) (h0 : 0 ≤ v) (h1 : v < 2 ^ 31) :
    u32_to_s32 (s32_to_u32 v) = v := by
  unfold u32_to_s32 s32_to_u32 u32
  have e : (v % 2 ^ 32).toNat = v.toNat := by
    rw [Int.emod_eq_of_lt h0 (by omega)]
  rw [e]
  have h2 : v.toNat < 2 ^ 31 := by omega
  have h3 : v.toNat % 2 ^ 32 = v.toNat := Nat.mod_eq_of_lt (by omega)
  rw [h3, if_pos h2]
  omega

theorem convert_fold (InstancePtr : XDfeMix) (n : Int) (CCID : List Int) (k : Nat) :
    ∀ i, ((List.range k).foldl
      (fun CCID Index =>
        if CCID.getD Index 0 = n ∨ Index ≥ InstancePtr.SequenceLength then
          CCID.set Index XDFEMIX_SEQUENCE_ENTRY_NULL
        else CCID) CCID).getD i 0 =
      if i < k ∧ i < CCID.length ∧ (CCID.getD i 0 = n ∨ i ≥ InstancePtr.SequenceLength) then
        XDFEMIX_SEQUENCE_ENTRY_NULL
      else CCID.getD i 0 := by
  induction k with
  | zero => intro i; simp
  | succ k ih =>
    intro i
    rw [List.range_succ, List.foldl_append]
    simp only [List.foldl_cons, List.foldl_nil]
    generalize hF : (List.range k).foldl _ CCID = F at ih ⊢
    have hlen : F.length = CCID.length := by
      rw [← hF]
      clear ih hF
      induction k with
      | zero => rfl
      | succ k ihk =>
        rw [List.range_succ, List.foldl_append]
        simp only [List.foldl_cons, List.foldl_nil]
        split
        · rw [List.length_set, ihk]
        · exact ihk
    have hk := ih k
    rw [if_neg (by omega)] at hk
    by_cases hc : F.getD k 0 = n ∨ k ≥ InstancePtr.SequenceLength
    · rw [if_pos hc]
      by_cases hik : i = k
      · subst hik
        rw [hk] at hc
        by_cases hl : i < CCID.length
        · rw [getD_set_self _ _ _ _ (by omega), if_pos ⟨by omega, hl, hc⟩]
        · rw [if_neg (by omega)]
          simp [List.getD_eq_getElem?_getD, List.getElem?_set, hlen, hl,
            List.getElem?_eq_none (Nat.not_lt.1 hl)]
      · rw [getD_set_ne _ _ _ _ _ (fun h => hik h.symm), ih i]
        have : (i < k + 1) ↔ (i < k) := by omega
        simp only [this]
    · rw [if_neg hc, ih i]
      by_cases hik : i = k
      · subst hik
        rw [hk] at hc
        rw [if_neg (by omega), if_neg (fun h => hc h.2.2)]
      · have : (i < k + 1) ↔ (i < k) := by omega
        simp only [this]

theorem nextCCID_getD (InstancePtr : XDfeMix) (CCCfg : XDfeMix_CCCfg) (i : Nat) (hi : i < 16) :
    (XDfeMix_SetNextCCCfg_NextCCID InstancePtr CCCfg).getD i 0 =
      if CCCfg.Sequence.CCID.getD i 0 = XDFEMIX_SEQUENCE_ENTRY_NULL ∨
          i ≥ InstancePtr.SequenceLength then
        CCCfg.Sequence.NotUsedCCID
      else CCCfg.Sequence.CCID.getD i 0 := by
  unfold XDfeMix_SetNextCCCfg_NextCCID
  rw [List.getD_eq_getElem?_getD, List.getElem?_map, List.getElem?_range (by simpa [XDFEMIX_CC_NUM])]
  rfl

theorem getD_map_of_lt (l : List Int) (f : Int → Int) (i : Nat) (h : i < l.length) :
    (l.map f).getD i 0 = f (l.getD i 0) := by
  simp [List.getD_eq_getElem?_getD, List.getElem?_eq_getElem h]

/-- The round trip of the slot values: what `XDfeMix_SetNextCCCfg` prepares for the
registers, passed through a 32-bit register and translated back by the conversion loop
of `XDfeMix_GetCurrentCCCfgLocal` under the same not used CCID. -/
theorem sentinel_round_trip_list (InstancePtr : XDfeMix) (CCCfg : XDfeMix_CCCfg)
    (hslots : ∀ i, i < InstancePtr.SequenceLength →
      CCCfg.Sequence.CCID.getD i 0 = -1 ∨
      (0 ≤ CCCfg.Sequence.CCID.getD i 0 ∧ CCCfg.Sequence.CCID.getD i 0 ≤ 15))
    (hn : 0 ≤ CCCfg.Sequence.NotUsedCCID ∧ CCCfg.Sequence.NotUsedCCID ≤ 15)
    (hfree : ∀ i, i < InstancePtr.SequenceLength →
      CCCfg.Sequence.CCID.getD i 0 ≠ CCCfg.Sequence.NotUsedCCID) :
    ∀ i, i < 16 →
      (XDfeMix_GetCurrentCCCfgLocal_convert InstancePtr CCCfg.Sequence.NotUsedCCID
        ((XDfeMix_SetNextCCCfg_NextCCID InstancePtr CCCfg).map
          (fun v => u32_to_s32 (s32_to_u32 v)))).getD i 0 =
      if i < InstancePtr.SequenceLength ∧ CCCfg.Sequence.CCID.getD i 0 ≠ -1 then
        CCCfg.Sequence.CCID.getD i 0
      else -1 := by
  intro i hi
  have hlen : ((XDfeMix_SetNextCCCfg_NextCCID InstancePtr CCCfg).map
      (fun v => u32_to_s32 (s32_to_u32 v))).length = 16 := by
    simp [XDfeMix_SetNextCCCfg_NextCCID, XDFEMIX_CC_NUM]
  have hM : ((XDfeMix_SetNextCCCfg_NextCCID InstancePtr CCCfg).map
      (fun v => u32_to_s32 (s32_to_u32 v))).getD i 0 =
      (XDfeMix_SetNextCCCfg_NextCCID InstancePtr CCCfg).getD i 0 := by
    have hlen2 : i < (XDfeMix_SetNextCCCfg_NextCCID InstancePtr CCCfg).length := by
      simp [XDfeMix_SetNextCCCfg_NextCCID, XDFEMIX_CC_NUM, hi]
    rw [getD_map_of_lt _ _ _ hlen2]
    apply s32_round_trip
    · rw [nextCCID_getD InstancePtr CCCfg i hi]
      split
      · exact hn.1
      · next hc =>
        have hiL : i < InstancePtr.SequenceLength := by omega
        rcases hslots i hiL with h | h
        · exact absurd (Or.inl h) hc
        · exact h.1
    · rw [nextCCID_getD InstancePtr CCCfg i hi]
      split
      · omega
      · next hc =>
        have hiL : i < InstancePtr.SequenceLength := by omega
        rcases hslots i hiL with h | h
        · exact absurd (Or.inl h) hc
        · omega
  unfold XDfeMix_GetCurrentCCCfgLocal_convert
  rw [convert_fold InstancePtr _ _ XDFEMIX_CC_NUM i, hlen, hM, nextCCID_getD InstancePtr CCCfg i hi]
  simp only [XDFEMIX_CC_NUM, XDFEMIX_SEQUENCE_ENTRY_NULL, hi, true_and]
  have hf := hfree i
  generalize CCCfg.Sequence.CCID.getD i 0 = x at hf ⊢
  by_cases hiL : i < InstancePtr.SequenceLength
  · have hge : ¬ (i ≥ InstancePtr.SequenceLength) := by omega
    by_cases hnull : x = -1
    · simp [hnull, hiL]
    · have := hf hiL
      simp [hnull, hiL, hge, this]
  · have hge : i ≥ InstancePtr.SequenceLength := by omega
    simp [hiL, hge]

/-! ## Registers left alone by the register writers -/

theorem WriteReg_name_ne (Regs : XDfeMix_Regs) (n : XDfeMix_RegName) (off d : Nat)
    (b : XDfeMix_Addr) (h : b.Name ≠ n) : XDfeMix_WriteReg Regs ⟨n, off⟩ d b = Regs b := by
  apply WriteReg_other
  intro hb
  apply h
  rw [hb]

theorem foldl_regs_frame (f : XDfeMix_Regs → Nat → XDfeMix_Regs) (a : XDfeMix_Addr)
    (h : ∀ R i, f R i a = R a) (l : List Nat) (R : XDfeMix_Regs) : l.foldl f R a = R a := by
  induction l generalizing R with
  | nil => rfl
  | cons x xs ih => rw [List.foldl_cons, ih, h]

/-- `XDfeMix_SetNextCCCfg` writes to the sequence length, sequence, carrier
configuration, auxiliary and antenna NEXT registers only. -/
theorem SetNextCCCfg_frame (Hw : XDfeMix_Hw) (InstancePtr : XDfeMix) (Regs : XDfeMix_Regs)
    (NextCCCfg : XDfeMix_CCCfg) (a : XDfeMix_Addr)
    (h1 : a.Name ≠ .XDFEMIX_SEQUENCE_LENGTH_NEXT) (h2 : a.Name ≠ .XDFEMIX_SEQUENCE_NEXT)
    (h3 : a.Name ≠ .XDFEMIX_CC_CONFIG_NEXT) (h4 : a.Name ≠ .XDFEMIX_AUXILIARY_ENABLE_NEXT)
    (h5 : a.Name ≠ .XDFEMIX_ANTENNA_GAIN_NEXT) :
    XDfeMix_SetNextCCCfg Hw InstancePtr Regs NextCCCfg a = Regs a := by
  have hseq : ∀ R, (List.range XDFEMIX_CC_NUM).foldl
      (XDfeMix_SetNextCCCfg_step Hw NextCCCfg
        (XDfeMix_SetNextCCCfg_NextCCID InstancePtr NextCCCfg)) R a = R a := by
    intro R
    apply foldl_regs_frame
    intro R i
    unfold XDfeMix_SetNextCCCfg_step
    rw [WriteReg_name_ne _ _ _ _ _ h3, WriteReg_name_ne _ _ _ _ _ h2]
  have haux : ∀ R, (List.range XDFEMIX_AUX_NCO_MAX).foldl
      (fun Regs Index =>
        XDfeMix_SetAuxiliaryCfg Hw Regs Index (NextCCCfg.AuxiliaryCfg.getD Index default))
      R a = R a := by
    intro R
    apply foldl_regs_frame
    intro R i
    unfold XDfeMix_SetAuxiliaryCfg
    rw [WriteReg_name_ne _ _ _ _ _ h4]
  unfold XDfeMix_SetNextCCCfg
  generalize (if InstancePtr.SequenceLength = 0 then 0
    else u32_sub InstancePtr.SequenceLength 1) = SeqLength
  split
  · rw [haux, hseq, WriteReg_name_ne _ _ _ _ _ h1]
  · rw [WriteReg_name_ne _ _ _ _ _ h5, haux, hseq, WriteReg_name_ne _ _ _ _ _ h1]

theorem SetNCOFrequency_frame (Hw : XDfeMix_Hw) (Regs : XDfeMix_Regs) (Next : Bool)
    (NCOId : Int) (Freq : XDfeMix_Frequency) (a : XDfeMix_Addr)
    (h1 : a.Name ≠ .XDFEMIX_FREQ_CONTROL_WORD) (h2 : a.Name ≠ .XDFEMIX_FREQ_SINGLE_MOD_COUNT)
    (h3 : a.Name ≠ .XDFEMIX_FREQ_DUAL_MOD_COUNT) (h4 : a.Name ≠ .XDFEMIX_FREQ_PHASE_OFFSET)
    (h5 : a.Name ≠ .XDFEMIX_FREQ_UPDATE) :
    XDfeMix_SetNCOFrequency Hw Regs Next NCOId Freq a = Regs a := by
  unfold XDfeMix_SetNCOFrequency
  rw [WriteReg_name_ne _ _ _ _ _ h5, WriteReg_name_ne _ _ _ _ _ h4,
    WriteReg_name_ne _ _ _ _ _ h3, WriteReg_name_ne _ _ _ _ _ h2, WriteReg_name_ne _ _ _ _ _ h1]

theorem SetNCOPhase_frame (Hw : XDfeMix_Hw) (Regs : XDfeMix_Regs) (Next : Bool)
    (NCOId : Int) (Phase : XDfeMix_Phase) (a : XDfeMix_Addr)
    (h1 : a.Name ≠ .XDFEMIX_PHASE_UPDATE_ACC)
    (h2 : a.Name ≠ .XDFEMIX_PHASE_UPDATE_DUAL_MOD_COUNT)
    (h3 : a.Name ≠ .XDFEMIX_PHASE_UPDATE_DUAL_MOD_SEL) (h4 : a.Name ≠ .XDFEMIX_PHASE_UPDATE) :
    XDfeMix_SetNCOPhase Hw Regs Next NCOId Phase a = Regs a := by
  unfold XDfeMix_SetNCOPhase
  rw [WriteReg_name_ne _ _ _ _ _ h4, WriteReg_name_ne _ _ _ _ _ h3,
    WriteReg_name_ne _ _ _ _ _ h2, WriteReg_name_ne _ _ _ _ _ h1]

theorem SetNCOGain_frame (Hw : XDfeMix_Hw) (Regs : XDfeMix_Regs) (Next : Bool)
    (NCOId : Int) (NCOGain : Nat) (a : XDfeMix_Addr) (h1 : a.Name ≠ .XDFEMIX_NCO_GAIN) :
    XDfeMix_SetNCOGain Hw Regs Next NCOId NCOGain a = Regs a := by
  unfold XDfeMix_SetNCOGain
  rw [WriteReg_name_ne _ _ _ _ _ h1]

theorem foldl_pair_frame (f : XDfeMix_Regs × Nat → Nat → XDfeMix_Regs × Nat) (a : XDfeMix_Addr)
    (h : ∀ st i, (f st i).1 a = st.1 a) (l : List Nat) (st : XDfeMix_Regs × Nat) :
    (l.foldl f st).1 a = st.1 a := by
  induction l generalizing st with
  | nil => rfl
  | cons x xs ih => rw [List.foldl_cons, ih, h]

theorem SetNCORegisters_write_frame (Hw : XDfeMix_Hw) (CCCfg : XDfeMix_CCCfg)
    (Regs : XDfeMix_Regs) (Index NCOIdx : Nat) (a : XDfeMix_Addr)
    (h : notConfigRegister a.Name) :
    XDfeMix_SetNCORegisters_write Hw CCCfg Regs Index NCOIdx a = Regs a := by
  obtain ⟨_, _, _, _, _, f1, f2, f3, f4, f5, p1, p2, p3, p4, g⟩ := h
  unfold XDfeMix_SetNCORegisters_write
  rw [SetNCOGain_frame _ _ _ _ _ _ g, SetNCOPhase_frame _ _ _ _ _ _ p1 p2 p3 p4,
    SetNCOFrequency_frame _ _ _ _ _ _ f1 f2 f3 f4 f5]

/-- `XDfeMix_SetNCORegisters` writes to frequency, phase update and gain registers and
to the auxiliary NEXT register only. -/
theorem SetNCORegisters_frame (Hw : XDfeMix_Hw) (InstancePtr : XDfeMix) (Regs : XDfeMix_Regs)
    (CCCfg : XDfeMix_CCCfg) (Data : Nat) (a : XDfeMix_Addr) (h : notConfigRegister a.Name) :
    XDfeMix_SetNCORegisters Hw InstancePtr Regs CCCfg Data a = Regs a := by
  unfold XDfeMix_SetNCORegisters
  apply foldl_pair_frame
  intro st i
  unfold XDfeMix_SetNCORegisters_step
  have haux : a.Name ≠ .XDFEMIX_AUXILIARY_ENABLE_NEXT := h.2.2.2.1
  simp only []
  split_ifs
  · rfl
  · rfl
  · exact SetNCORegisters_write_frame Hw CCCfg _ _ _ a h
  · exact WriteReg_name_ne _ _ _ _ _ haux
  · show XDfeMix_SetNCORegisters_write Hw CCCfg _ i i a = st.1 a
    rw [SetNCORegisters_write_frame Hw CCCfg _ _ _ a h]
    exact WriteReg_name_ne _ _ _ _ _ haux

theorem SetNextCCCfg_frame_of (Hw : XDfeMix_Hw) (InstancePtr : XDfeMix) (Regs : XDfeMix_Regs)
    (NextCCCfg : XDfeMix_CCCfg) (a : XDfeMix_Addr) (h : notConfigRegister a.Name) :
    XDfeMix_SetNextCCCfg Hw InstancePtr Regs NextCCCfg a = Regs a :=
  SetNextCCCfg_frame Hw InstancePtr Regs NextCCCfg a h.1 h.2.1 h.2.2.1 h.2.2.2.1 h.2.2.2.2.1

theorem trigger_frame (Hw : XDfeMix_Hw) (W : XDfeMix_Regs) (a : XDfeMix_Addr)
    (h : a.Name ≠ .XDFEMIX_TRIGGERS_CC_UPDATE_OFFSET) :
    (XDfeMix_EnableCCUpdateTrigger Hw W).2 a = W a := by
  rcases status_cases (XDfeMix_EnableCCUpdateTrigger Hw W).1 with hs | hs
  · rw [trigger_success_regs Hw W hs]
    exact WriteReg_name_ne _ _ _ _ _ h
  · rw [trigger_failure_regs Hw W hs]

/-! ## Switchable commit: the claim -/

theorem regBank_congr (Hw : XDfeMix_Hw) (R1 R2 : XDfeMix_Regs)
    (h : R1 ⟨.XDFEMIX_SWITCHABLE_CONTROL, 0⟩ = R2 ⟨.XDFEMIX_SWITCHABLE_CONTROL, 0⟩) :
    regBank Hw R1 = regBank Hw R2 := by
  unfold regBank XDfeMix_RdRegBitField XDfeMix_ReadReg
  rw [h]

theorem SetRegBank_getD (Hw : XDfeMix_Hw) (Regs : XDfeMix_Regs) (v : Nat)
    (hv : v ≤ Hw.XDFEMIX_SWITCHABLE_UPLINK) :
    (XDfeMix_SetRegBank Hw Regs v).getD Regs =
      XDfeMix_WrRegBitField Regs ⟨.XDFEMIX_SWITCHABLE_CONTROL, 0⟩
        Hw.XDFEMIX_SWITCHABLE_CONTROL_REG_BANK_WIDTH
        Hw.XDFEMIX_SWITCHABLE_CONTROL_REG_BANK_OFFSET v := by
  unfold XDfeMix_SetRegBank
  rw [if_pos hv]
  rfl

/-- After `XDfeMix_SetRegBank` with a value that passes its assertion and fits the
field, the register bank select field reads that value. -/
theorem regBank_SetRegBank (Hw : XDfeMix_Hw) (Regs : XDfeMix_Regs) (v : Nat)
    (hfield : Hw.XDFEMIX_SWITCHABLE_CONTROL_REG_BANK_OFFSET +
      Hw.XDFEMIX_SWITCHABLE_CONTROL_REG_BANK_WIDTH ≤ 32)
    (hv : v ≤ Hw.XDFEMIX_SWITCHABLE_UPLINK)
    (hw : v < 2 ^ Hw.XDFEMIX_SWITCHABLE_CONTROL_REG_BANK_WIDTH) :
    regBank Hw ((XDfeMix_SetRegBank Hw Regs v).getD Regs) = v := by
  rw [SetRegBank_getD Hw Regs v hv]
  unfold regBank
  rw [RdRegBitField_WrRegBitField _ _ _ _ _ hfield]
  exact Nat.mod_eq_of_lt hw

theorem SetRegBank_frame (Hw : XDfeMix_Hw) (Regs : XDfeMix_Regs) (v : Nat) (a : XDfeMix_Addr)
    (h : a.Name ≠ .XDFEMIX_SWITCHABLE_CONTROL) :
    (XDfeMix_SetRegBank Hw Regs v).getD Regs a = Regs a := by
  unfold XDfeMix_SetRegBank
  split
  · show XDfeMix_WrRegBitField Regs _ _ _ v a = Regs a
    rw [WrRegBitField_eq]
    exact WriteReg_name_ne _ _ _ _ _ h
  · rfl

theorem switchable_eq (Hw : XDfeMix_Hw) (InstancePtr : XDfeMix) (Regs : XDfeMix_Regs)
    (CCCfgDownlink CCCfgUplink : XDfeMix_CCCfg) (DataDownlink DataUplink : Nat)
    (hmode : InstancePtr.Config.Mode = Hw.XDFEMIX_MODEL_PARAM_1_SWITCHABLE) :
    XDfeMix_SetNextCCCfgAndTriggerSwitchable Hw InstancePtr Regs CCCfgDownlink CCCfgUplink
        DataDownlink DataUplink =
      some
        (if XST_SUCCESS = (XDfeMix_EnableCCUpdateTrigger Hw (switchableUplinkEnd Hw InstancePtr
            Regs CCCfgDownlink CCCfgUplink DataDownlink DataUplink)).1 then
          (XST_SUCCESS,
            { InstancePtr with
              NotUsedCCID := CCCfgDownlink.Sequence.NotUsedCCID
              NotUsedCCID_UL := CCCfgUplink.Sequence.NotUsedCCID },
            (XDfeMix_SetRegBank Hw (XDfeMix_EnableCCUpdateTrigger Hw (switchableUplinkEnd Hw
              InstancePtr Regs CCCfgDownlink CCCfgUplink DataDownlink DataUplink)).2
              (regBank Hw Regs)).getD (XDfeMix_EnableCCUpdateTrigger Hw (switchableUplinkEnd Hw
              InstancePtr Regs CCCfgDownlink CCCfgUplink DataDownlink DataUplink)).2)
        else
          (XST_FAILURE, InstancePtr,
            (XDfeMix_SetRegBank Hw (XDfeMix_EnableCCUpdateTrigger Hw (switchableUplinkEnd Hw
              InstancePtr Regs CCCfgDownlink CCCfgUplink DataDownlink DataUplink)).2
              (regBank Hw Regs)).getD (XDfeMix_EnableCCUpdateTrigger Hw (switchableUplinkEnd Hw
              InstancePtr Regs CCCfgDownlink CCCfgUplink DataDownlink DataUplink)).2)) := by
  unfold XDfeMix_SetNextCCCfgAndTriggerSwitchable
  rw [if_neg (not_not.2 hmode)]
  simp only [switchableUplinkEnd, switchableUplinkStart, switchableDownlinkEnd,
    switchableDownlinkStart, regBank]
  split <;> rfl

/-- C29: for a switchable instance, `XDfeMix_SetNextCCCfgAndTriggerSwitchable` returns a
result; the register bank select field reads downlink from the start to the end of the
writing of the downlink configuration and uplink from the start to the end of the
writing of the uplink configuration; the trigger is armed once, on the registers as the
uplink writing leaves them, and its status is the status returned; on return, success
or failure, the register bank select field reads what it read before the call and no
other register differs from the armed ones; on success the cached `NotUsedCCID` and
`NotUsedCCID_UL` are the downlink and the uplink snapshot's, on failure the instance is
unchanged. The register bank select value found at the start is assumed to pass the
assertion of `XDfeMix_SetRegBank`, as every value of a one-bit field does. -/
theorem C29_switchable_commit (Hw : XDfeMix_Hw) (InstancePtr : XDfeMix) (Regs : XDfeMix_Regs)
    (CCCfgDownlink CCCfgUplink : XDfeMix_CCCfg) (DataDownlink DataUplink : Nat)
    (hmode : InstancePtr.Config.Mode = Hw.XDFEMIX_MODEL_PARAM_1_SWITCHABLE)
    (hfield : Hw.XDFEMIX_SWITCHABLE_CONTROL_REG_BANK_OFFSET +
      Hw.XDFEMIX_SWITCHABLE_CONTROL_REG_BANK_WIDTH ≤ 32)
    (hDL : Hw.XDFEMIX_SWITCHABLE_DOWNLINK ≤ Hw.XDFEMIX_SWITCHABLE_UPLINK)
    (hUL : Hw.XDFEMIX_SWITCHABLE_UPLINK < 2 ^ Hw.XDFEMIX_SWITCHABLE_CONTROL_REG_BANK_WIDTH)
    (hbank : regBank Hw Regs ≤ Hw.XDFEMIX_SWITCHABLE_UPLINK) :
    ∃ Status Instance Final,
      XDfeMix_SetNextCCCfgAndTriggerSwitchable Hw InstancePtr Regs CCCfgDownlink CCCfgUplink
        DataDownlink DataUplink = some (Status, Instance, Final) ∧
      regBank Hw (switchableDownlinkStart Hw Regs) = Hw.XDFEMIX_SWITCHABLE_DOWNLINK ∧
      regBank Hw (XDfeMix_SetNextCCCfg Hw InstancePtr (switchableDownlinkStart Hw Regs)
        CCCfgDownlink) = Hw.XDFEMIX_SWITCHABLE_DOWNLINK ∧
      regBank Hw (switchableDownlinkEnd Hw InstancePtr Regs CCCfgDownlink DataDownlink) =
        Hw.XDFEMIX_SWITCHABLE_DOWNLINK ∧
      regBank Hw (switchableUplinkStart Hw InstancePtr Regs CCCfgDownlink DataDownlink) =
        Hw.XDFEMIX_SWITCHABLE_UPLINK ∧
      regBank Hw (XDfeMix_SetNextCCCfg Hw InstancePtr
        (switchableUplinkStart Hw InstancePtr Regs CCCfgDownlink DataDownlink) CCCfgUplink) =
        Hw.XDFEMIX_SWITCHABLE_UPLINK ∧
      regBank Hw (switchableUplinkEnd Hw InstancePtr Regs CCCfgDownlink CCCfgUplink
        DataDownlink DataUplink) = Hw.XDFEMIX_SWITCHABLE_UPLINK ∧
      Status = (XDfeMix_EnableCCUpdateTrigger Hw (switchableUplinkEnd Hw InstancePtr Regs
        CCCfgDownlink CCCfgUplink DataDownlink DataUplink)).1 ∧
      (∀ a : XDfeMix_Addr, a.Name ≠ .XDFEMIX_SWITCHABLE_CONTROL →
        Final a = (XDfeMix_EnableCCUpdateTrigger Hw (switchableUplinkEnd Hw InstancePtr Regs
          CCCfgDownlink CCCfgUplink DataDownlink DataUplink)).2 a) ∧
      regBank Hw Final = regBank Hw Regs ∧
      (Status = XST_SUCCESS →
        Instance = { InstancePtr with
          NotUsedCCID := CCCfgDownlink.Sequence.NotUsedCCID
          NotUsedCCID_UL := CCCfgUplink.Sequence.NotUsedCCID }) ∧
      (Status = XST_FAILURE → Instance = InstancePtr) := by
  have hsc : notConfigRegister (XDfeMix_Addr.mk .XDFEMIX_SWITCHABLE_CONTROL 0).Name := by
    unfold notConfigRegister; decide
  have hDLw : Hw.XDFEMIX_SWITCHABLE_DOWNLINK <
      2 ^ Hw.XDFEMIX_SWITCHABLE_CONTROL_REG_BANK_WIDTH := by omega
  have hb0 : regBank Hw Regs < 2 ^ Hw.XDFEMIX_SWITCHABLE_CONTROL_REG_BANK_WIDTH :=
    RdBitField_lt _ _ _ (by omega)
  have h1 : regBank Hw (switchableDownlinkStart Hw Regs) = Hw.XDFEMIX_SWITCHABLE_DOWNLINK :=
    regBank_SetRegBank Hw Regs _ hfield hDL hDLw
  have h2 : regBank Hw (XDfeMix_SetNextCCCfg Hw InstancePtr (switchableDownlinkStart Hw Regs)
      CCCfgDownlink) = Hw.XDFEMIX_SWITCHABLE_DOWNLINK := by
    rw [← h1]
    exact regBank_congr Hw _ _ (SetNextCCCfg_frame_of Hw InstancePtr _ _ _ hsc)
  have h3 : regBank Hw (switchableDownlinkEnd Hw InstancePtr Regs CCCfgDownlink DataDownlink) =
      Hw.XDFEMIX_SWITCHABLE_DOWNLINK := by
    rw [← h2]
    exact regBank_congr Hw _ _ (SetNCORegisters_frame Hw InstancePtr _ _ _ _ hsc)
  have h4 : regBank Hw (switchableUplinkStart Hw InstancePtr Regs CCCfgDownlink DataDownlink) =
      Hw.XDFEMIX_SWITCHABLE_UPLINK :=
    regBank_SetRegBank Hw _ _ hfield (Nat.le_refl _) hUL
  have h5 : regBank Hw (XDfeMix_SetNextCCCfg Hw InstancePtr
      (switchableUplinkStart Hw InstancePtr Regs CCCfgDownlink DataDownlink) CCCfgUplink) =
      Hw.XDFEMIX_SWITCHABLE_UPLINK := by
    rw [← h4]
    exact regBank_congr Hw _ _ (SetNextCCCfg_frame_of Hw InstancePtr _ _ _ hsc)
  have h6 : regBank Hw (switchableUplinkEnd Hw InstancePtr Regs CCCfgDownlink CCCfgUplink
      DataDownlink DataUplink) = Hw.XDFEMIX_SWITCHABLE_UPLINK := by
    rw [← h5]
    exact regBank_congr Hw _ _ (SetNCORegisters_frame Hw InstancePtr _ _ _ _ hsc)
  rw [switchable_eq Hw InstancePtr Regs CCCfgDownlink CCCfgUplink DataDownlink DataUplink hmode]
  generalize switchableUplinkEnd Hw InstancePtr Regs CCCfgDownlink CCCfgUplink DataDownlink
    DataUplink = W at h6 ⊢
  have hfin : regBank Hw ((XDfeMix_SetRegBank Hw (XDfeMix_EnableCCUpdateTrigger Hw W).2
      (regBank Hw Regs)).getD (XDfeMix_EnableCCUpdateTrigger Hw W).2) = regBank Hw Regs :=
    regBank_SetRegBank Hw _ _ hfield hbank hb0
  have hframe : ∀ a : XDfeMix_Addr, a.Name ≠ .XDFEMIX_SWITCHABLE_CONTROL →
      (XDfeMix_SetRegBank Hw (XDfeMix_EnableCCUpdateTrigger Hw W).2 (regBank Hw Regs)).getD
        (XDfeMix_EnableCCUpdateTrigger Hw W).2 a = (XDfeMix_EnableCCUpdateTrigger Hw W).2 a :=
    fun a ha => SetRegBank_frame Hw _ _ a ha
  rcases status_cases (XDfeMix_EnableCCUpdateTrigger Hw W).1 with hs | hs
  · rw [if_pos hs.symm]
    exact ⟨_, _, _, rfl, h1, h2, h3, h4, h5, h6, hs.symm, hframe, hfin, fun _ => rfl,
      fun h => by simp at h⟩
  · rw [if_neg (by rw [hs]; simp)]
    exact ⟨_, _, _, rfl, h1, h2, h3, h4, h5, h6, hs.symm, hframe, hfin, fun h => by simp at h,
      fun _ => rfl⟩

/-- Witness for C29: a switchable instance with the uplink bank selected and every other
register at 0, committing the empty configuration for both directions; the bank select
field reads 1 before and after. -/
theorem C29_switchable_commit_witness :
    switchableInstance.Config.Mode = exampleHw.XDFEMIX_MODEL_PARAM_1_SWITCHABLE ∧
    regBank exampleHw uplinkRegs = 1 ∧
    ∃ r, XDfeMix_SetNextCCCfgAndTriggerSwitchable exampleHw switchableInstance uplinkRegs
        (XDfeMix_GetEmptyCCCfg switchableInstance) (XDfeMix_GetEmptyCCCfg switchableInstance)
        0 0 = some r ∧ regBank exampleHw r.2.2 = 1 := by
  obtain ⟨s, i, f, h, _, _, _, _, _, _, _, _, hb, _⟩ :=
    C29_switchable_commit exampleHw switchableInstance uplinkRegs
      (XDfeMix_GetEmptyCCCfg switchableInstance) (XDfeMix_GetEmptyCCCfg switchableInstance) 0 0
      (by decide) (by decide) (by decide) (by decide) (by decide)
  exact ⟨by decide, by decide, (s, i, f), h, hb.trans (by decide)⟩

/-! ## Carrier move: the claims -/

theorem WriteReg_same (Regs : XDfeMix_Regs) (a : XDfeMix_Addr) (d : Nat) :
    XDfeMix_WriteReg Regs a d a = u32 d := by
  simp [XDfeMix_WriteReg]

theorem TriggerAndStore_regs (Hw : XDfeMix_Hw) (InstancePtr : XDfeMix) (Regs : XDfeMix_Regs)
    (CCCfg : XDfeMix_CCCfg) :
    (XDfeMix_TriggerAndStore Hw InstancePtr Regs CCCfg).2.2 =
      (XDfeMix_EnableCCUpdateTrigger Hw Regs).2 := by
  unfold XDfeMix_TriggerAndStore
  simp only []
  split <;> rfl

/-- The registers that a successful `XDfeMix_MoveCC` returns: the registers at the
capture, then the frequency read from CURRENT with phase offset 0 written to NEXT, then
the arming of the trigger. -/
theorem MoveCC_success_final (Hw : XDfeMix_Hw) (InstancePtr : XDfeMix)
    (Regs : XDfeMix_Regs) (CCID : Int) (Rate FromNCO ToNCO : Nat) (Instance : XDfeMix)
    (Final : XDfeMix_Regs)
    (h : XDfeMix_MoveCC Hw InstancePtr Regs CCID Rate FromNCO ToNCO =
      some (XST_SUCCESS, Instance, Final)) :
    Final = (XDfeMix_EnableCCUpdateTrigger Hw
      (XDfeMix_SetNCOFrequency Hw (XDfeMix_MoveCC_captured Hw InstancePtr Regs CCID).1 true CCID
        (XDfeMix_SetPhaseOffset
          (XDfeMix_GetNCOFrequency Hw
            (XDfeMix_SetNCOGain Hw
              (XDfeMix_SetNextCCCfg Hw InstancePtr Regs
                (XDfeMix_GetCurrentCCCfg Hw InstancePtr Regs default)) true CCID
              (XDfeMix_GetNCOGain Hw
                (XDfeMix_SetNextCCCfg Hw InstancePtr Regs
                  (XDfeMix_GetCurrentCCCfg Hw InstancePtr Regs default)) false CCID))
            false CCID default) ⟨0⟩))).2 := by
  unfold XDfeMix_MoveCC at h
  simp only [] at h
  split_ifs at h
  all_goals first | (exfalso; simp at h; done) | skip
  rw [← TriggerAndStore_regs Hw InstancePtr _ (XDfeMix_GetCurrentCCCfg Hw InstancePtr Regs default)]
  have := congrArg (fun o => o.map (fun r => r.2.2)) h
  simp only [Option.map_some'] at this
  exact (Option.some.inj this).symm

/-- The carrier configuration word that `XDfeMix_SetNextCCCfg` writes for carrier
`Index`: the NCO index, rate and gain of the configuration put into the word read from
the NEXT register. -/
theorem SetNextCCCfg_step_fold (Hw : XDfeMix_Hw) (NextCCCfg : XDfeMix_CCCfg)
    (NextCCID : List Int) (R : XDfeMix_Regs) (k : Nat) :
    ∀ c, (List.range k).foldl (XDfeMix_SetNextCCCfg_step Hw NextCCCfg NextCCID) R
        ⟨.XDFEMIX_CC_CONFIG_NEXT, c * 4⟩ =
      if c < k then
        u32 (XDfeMix_WrBitField Hw.XDFEMIX_CC_CONFIG_CC_GAIN_WIDTH
          Hw.XDFEMIX_CC_CONFIG_CC_GAIN_OFFSET
          (XDfeMix_WrBitField Hw.XDFEMIX_CC_CONFIG_RATE_WIDTH Hw.XDFEMIX_CC_CONFIG_RATE_OFFSET
            (XDfeMix_WrBitField Hw.XDFEMIX_CC_CONFIG_NCO_WIDTH Hw.XDFEMIX_CC_CONFIG_NCO_OFFSET
              (XDfeMix_ReadReg R ⟨.XDFEMIX_CC_CONFIG_NEXT, c * 4⟩)
              (NextCCCfg.DUCDDCCfg.getD c default).NCOIdx)
            (NextCCCfg.DUCDDCCfg.getD c default).Rate)
          (NextCCCfg.DUCDDCCfg.getD c default).CCGain)
      else R ⟨.XDFEMIX_CC_CONFIG_NEXT, c * 4⟩ := by
  induction k with
  | zero => intro c; simp
  | succ k ih =>
    intro c
    rw [List.range_succ, List.foldl_append]
    simp only [List.foldl_cons, List.foldl_nil]
    generalize (List.range k).foldl (XDfeMix_SetNextCCCfg_step Hw NextCCCfg NextCCID) R = S
      at ih ⊢
    unfold XDfeMix_SetNextCCCfg_step
    by_cases hck : c = k
    · subst hck
      rw [WriteReg_same, if_pos (by omega)]
      have hS := ih c
      rw [if_neg (by omega)] at hS
      have hread : XDfeMix_ReadReg
          (XDfeMix_WriteReg S ⟨.XDFEMIX_SEQUENCE_NEXT, 4 * c⟩ (s32_to_u32 (NextCCID.getD c 0)))
          ⟨.XDFEMIX_CC_CONFIG_NEXT, c * 4⟩ = XDfeMix_ReadReg R ⟨.XDFEMIX_CC_CONFIG_NEXT, c * 4⟩ := by
        unfold XDfeMix_ReadReg
        rw [WriteReg_name_ne _ _ _ _ _ (by simp), hS]
      rw [hread]
    · have hne : (⟨.XDFEMIX_CC_CONFIG_NEXT, c * 4⟩ : XDfeMix_Addr) ≠
          ⟨.XDFEMIX_CC_CONFIG_NEXT, k * 4⟩ := by
        intro h
        have := congrArg XDfeMix_Addr.Offset h
        simp only at this
        omega
      rw [WriteReg_other _ _ _ _ hne, WriteReg_name_ne _ _ _ _ _ (by simp), ih c]
      have : (c < k + 1) ↔ (c < k) := by omega
      simp only [this]

theorem SetNextCCCfg_cc_config (Hw : XDfeMix_Hw) (InstancePtr : XDfeMix) (Regs : XDfeMix_Regs)
    (NextCCCfg : XDfeMix_CCCfg) (c : Nat) (hc : c < 16) :
    XDfeMix_SetNextCCCfg Hw InstancePtr Regs NextCCCfg ⟨.XDFEMIX_CC_CONFIG_NEXT, c * 4⟩ =
      u32 (XDfeMix_WrBitField Hw.XDFEMIX_CC_CONFIG_CC_GAIN_WIDTH
        Hw.XDFEMIX_CC_CONFIG_CC_GAIN_OFFSET
        (XDfeMix_WrBitField Hw.XDFEMIX_CC_CONFIG_RATE_WIDTH Hw.XDFEMIX_CC_CONFIG_RATE_OFFSET
          (XDfeMix_WrBitField Hw.XDFEMIX_CC_CONFIG_NCO_WIDTH Hw.XDFEMIX_CC_CONFIG_NCO_OFFSET
            (XDfeMix_ReadReg Regs ⟨.XDFEMIX_CC_CONFIG_NEXT, c * 4⟩)
            (NextCCCfg.DUCDDCCfg.getD c default).NCOIdx)
          (NextCCCfg.DUCDDCCfg.getD c default).Rate)
        (NextCCCfg.DUCDDCCfg.getD c default).CCGain) := by
  have haux : ∀ R, (List.range XDFEMIX_AUX_NCO_MAX).foldl
      (fun Regs Index =>
        XDfeMix_SetAuxiliaryCfg Hw Regs Index (NextCCCfg.AuxiliaryCfg.getD Index default))
      R ⟨.XDFEMIX_CC_CONFIG_NEXT, c * 4⟩ = R ⟨.XDFEMIX_CC_CONFIG_NEXT, c * 4⟩ := by
    intro R
    apply foldl_regs_frame
    intro R i
    unfold XDfeMix_SetAuxiliaryCfg
    rw [WriteReg_name_ne _ _ _ _ _ (by simp)]
  unfold XDfeMix_SetNextCCCfg
  generalize (if InstancePtr.SequenceLength = 0 then 0
    else u32_sub InstancePtr.SequenceLength 1) = SeqLength
  have hfold := SetNextCCCfg_step_fold Hw NextCCCfg
    (XDfeMix_SetNextCCCfg_NextCCID InstancePtr NextCCCfg)
    (XDfeMix_WriteReg Regs ⟨.XDFEMIX_SEQUENCE_LENGTH_NEXT, 0⟩ SeqLength) XDFEMIX_CC_NUM c
  rw [if_pos (by simpa [XDFEMIX_CC_NUM] using hc)] at hfold
  have hread : XDfeMix_ReadReg (XDfeMix_WriteReg Regs ⟨.XDFEMIX_SEQUENCE_LENGTH_NEXT, 0⟩ SeqLength)
      ⟨.XDFEMIX_CC_CONFIG_NEXT, c * 4⟩ = XDfeMix_ReadReg Regs ⟨.XDFEMIX_CC_CONFIG_NEXT, c * 4⟩ := by
    unfold XDfeMix_ReadReg
    rw [WriteReg_name_ne _ _ _ _ _ (by simp)]
  rw [hread] at hfold
  split
  · rw [haux, hfold]
  · rw [WriteReg_name_ne _ _ _ _ _ (by simp), haux, hfold]

theorem GetCurrentCCCfg_NCOIdx (Hw : XDfeMix_Hw) (InstancePtr : XDfeMix) (Regs : XDfeMix_Regs)
    (C0 : XDfeMix_CCCfg) (c : Nat) (hc : c < 16) :
    ((XDfeMix_GetCurrentCCCfg Hw InstancePtr Regs C0).DUCDDCCfg.getD c default).NCOIdx =
      XDfeMix_RdRegBitField Regs ⟨.XDFEMIX_CC_CONFIG_CURRENT, c * 4⟩
        Hw.XDFEMIX_CC_CONFIG_NCO_WIDTH Hw.XDFEMIX_CC_CONFIG_NCO_OFFSET := by
  unfold XDfeMix_GetCurrentCCCfg XDfeMix_GetCurrentCCCfgLocal
  simp only []
  rw [List.getD_eq_getElem?_getD, List.getElem?_map,
    List.getElem?_range (by simpa [XDFEMIX_CC_NUM] using hc)]
  rfl

/-- After a successful `XDfeMix_MoveCC` the NEXT carrier configuration register of
every carrier names the NCO that its CURRENT register named before the call: `ToNCO`
is not written anywhere. The NCO field is assumed to lie within the 32 bits and not to
overlap the rate and gain fields. -/
theorem MoveCC_next_nco (Hw : XDfeMix_Hw) (InstancePtr : XDfeMix) (Regs : XDfeMix_Regs)
    (CCID : Int) (Rate FromNCO ToNCO : Nat) (Instance : XDfeMix) (Final : XDfeMix_Regs)
    (c : Nat) (hc : c < 16)
    (hnco : Hw.XDFEMIX_CC_CONFIG_NCO_OFFSET + Hw.XDFEMIX_CC_CONFIG_NCO_WIDTH ≤ 32)
    (hrate : Hw.XDFEMIX_CC_CONFIG_RATE_WIDTH ≤ 32)
    (hgain : Hw.XDFEMIX_CC_CONFIG_CC_GAIN_WIDTH ≤ 32)
    (hdr : Hw.XDFEMIX_CC_CONFIG_RATE_OFFSET + Hw.XDFEMIX_CC_CONFIG_RATE_WIDTH ≤
        Hw.XDFEMIX_CC_CONFIG_NCO_OFFSET ∨
      Hw.XDFEMIX_CC_CONFIG_NCO_OFFSET + Hw.XDFEMIX_CC_CONFIG_NCO_WIDTH ≤
        Hw.XDFEMIX_CC_CONFIG_RATE_OFFSET)
    (hdg : Hw.XDFEMIX_CC_CONFIG_CC_GAIN_OFFSET + Hw.XDFEMIX_CC_CONFIG_CC_GAIN_WIDTH ≤
        Hw.XDFEMIX_CC_CONFIG_NCO_OFFSET ∨
      Hw.XDFEMIX_CC_CONFIG_NCO_OFFSET + Hw.XDFEMIX_CC_CONFIG_NCO_WIDTH ≤
        Hw.XDFEMIX_CC_CONFIG_CC_GAIN_OFFSET)
    (h : XDfeMix_MoveCC Hw InstancePtr Regs CCID Rate FromNCO ToNCO =
      some (XST_SUCCESS, Instance, Final)) :
    XDfeMix_RdRegBitField Final ⟨.XDFEMIX_CC_CONFIG_NEXT, c * 4⟩
        Hw.XDFEMIX_CC_CONFIG_NCO_WIDTH Hw.XDFEMIX_CC_CONFIG_NCO_OFFSET =
      XDfeMix_RdRegBitField Regs ⟨.XDFEMIX_CC_CONFIG_CURRENT, c * 4⟩
        Hw.XDFEMIX_CC_CONFIG_NCO_WIDTH Hw.XDFEMIX_CC_CONFIG_NCO_OFFSET := by
  have hval : Final ⟨.XDFEMIX_CC_CONFIG_NEXT, c * 4⟩ =
      XDfeMix_SetNextCCCfg Hw InstancePtr Regs
        (XDfeMix_GetCurrentCCCfg Hw InstancePtr Regs default) ⟨.XDFEMIX_CC_CONFIG_NEXT, c * 4⟩ := by
    rw [MoveCC_success_final Hw InstancePtr Regs CCID Rate FromNCO ToNCO Instance Final h,
      trigger_frame _ _ _ (by simp),
      SetNCOFrequency_frame _ _ _ _ _ _ (by simp) (by simp) (by simp) (by simp) (by simp)]
    unfold XDfeMix_MoveCC_captured XDfeMix_CapturePhase XDfeMix_SetNCOPhaseAccumEnable
    simp only []
    rw [WriteReg_name_ne _ _ _ _ _ (by simp), WriteReg_name_ne _ _ _ _ _ (by simp),
      SetNCOFrequency_frame _ _ _ _ _ _ (by simp) (by simp) (by simp) (by simp) (by simp),
      SetNCOGain_frame _ _ _ _ _ _ (by simp)]
  rw [RdRegBitField_eq, XDfeMix_ReadReg, hval, SetNextCCCfg_cc_config _ _ _ _ c hc, u32_u32,
    u32_eq_self (WrBitField_lt _ _ _ _ hgain),
    RdBitField_WrBitField_other _ _ _ _ _ _ hgain hnco hdg,
    RdBitField_WrBitField_other _ _ _ _ _ _ hrate hnco hdr,
    RdBitField_WrBitField _ _ _ _ hnco, GetCurrentCCCfg_NCOIdx _ _ _ _ c hc]
  exact Nat.mod_eq_of_lt (RdBitField_lt _ _ _ (by omega))

/-- C26: moving carrier 0 from NCO 2 to NCO 1 succeeds, and the NCO field of the NEXT
carrier configuration register of carrier 0, which read 0, then reads 2, the NCO that
its CURRENT register names, not 1. -/
theorem C26_move_keeps_old_nco :
    (XDfeMix_MoveCC exampleHw moveInstance moveRegs 0 1 2 1).map
      (fun r => (r.1, XDfeMix_RdRegBitField r.2.2 ⟨.XDFEMIX_CC_CONFIG_NEXT, 0⟩
        exampleHw.XDFEMIX_CC_CONFIG_NCO_WIDTH exampleHw.XDFEMIX_CC_CONFIG_NCO_OFFSET)) =
      some (XST_SUCCESS, 2) ∧
    XDfeMix_RdRegBitField moveRegs ⟨.XDFEMIX_CC_CONFIG_CURRENT, 0⟩
      exampleHw.XDFEMIX_CC_CONFIG_NCO_WIDTH exampleHw.XDFEMIX_CC_CONFIG_NCO_OFFSET = 2 ∧
    XDfeMix_RdRegBitField moveRegs ⟨.XDFEMIX_CC_CONFIG_NEXT, 0⟩
      exampleHw.XDFEMIX_CC_CONFIG_NCO_WIDTH exampleHw.XDFEMIX_CC_CONFIG_NCO_OFFSET = 0 := by
  refine ⟨by decide, by decide, by decide⟩

/-! ## Asserted instance state: the claim -/

/-- C30, counterexample: for an instance in state Initialised the assertions of the
three snapshot builders hold, `XDfeMix_AddCCtoCCCfg` and `XDfeMix_UpdateCCinCCCfg` return
success and `XDfeMix_RemoveCCfromCCCfg` removes the carrier. -/
theorem C30_builders_run_when_initialised :
    initialisedInstance.StateId = .XDFEMIX_STATE_INITIALISED ∧
    XDfeMix_AddCCtoCCCfg_Assert initialisedInstance 0 ∧
    XDfeMix_UpdateCCinCCCfg_Assert initialisedInstance 0 ∧
    XDfeMix_RemoveCCfromCCCfg_Assert initialisedInstance 0 ∧
    (XDfeMix_AddCCtoCCCfg initialisedInstance (XDfeMix_GetEmptyCCCfg initialisedInstance) 0 0x1
      ⟨⟨0, 0, 0⟩⟩ default).1 = XST_SUCCESS ∧
    (XDfeMix_UpdateCCinCCCfg initialisedInstance
      (XDfeMix_AddCCtoCCCfg initialisedInstance (XDfeMix_GetEmptyCCCfg initialisedInstance) 0 0x1
        ⟨⟨0, 0, 0⟩⟩ default).2 0 ⟨⟨1, 0, 1⟩⟩).1 = XST_SUCCESS ∧
    (XDfeMix_RemoveCCfromCCCfg initialisedInstance
      (XDfeMix_AddCCtoCCCfg initialisedInstance (XDfeMix_GetEmptyCCCfg initialisedInstance) 0 0x1
        ⟨⟨0, 0, 0⟩⟩ default).2 0).Sequence.CCID.getD 0 7 = -1 := by
  refine ⟨rfl, ?_, ?_, ?_, by decide, by decide, by decide⟩ <;>
    simp [XDfeMix_AddCCtoCCCfg_Assert, XDfeMix_UpdateCCinCCCfg_Assert,
      XDfeMix_RemoveCCfromCCCfg_Assert, XDFEMIX_CC_NUM]

/-- C30, amended: `XDfeMix_AddCC`, `XDfeMix_UpdateCC`, `XDfeMix_RemoveCC` and
`XDfeMix_MoveCC` assert that the instance state is Operational, so each fails its
assertions for an instance in any other state, state Initialised included; the
assertions of the snapshot builders `XDfeMix_AddCCtoCCCfg`, `XDfeMix_UpdateCCinCCCfg` and
`XDfeMix_RemoveCCfromCCCfg` are the same in every state. -/
theorem C30_register_operations_assert_operational (Hw : XDfeMix_Hw) (InstancePtr : XDfeMix)
    (Regs : XDfeMix_Regs) (CCID : Int) (CCSeqBitmap Rate FromNCO ToNCO : Nat)
    (CarrierCfg : XDfeMix_CarrierCfg) (NCO : XDfeMix_NCO)
    (hstate : InstancePtr.StateId ≠ .XDFEMIX_STATE_OPERATIONAL) :
    ¬ XDfeMix_AddCC_Assert Hw InstancePtr CCID CarrierCfg ∧
    ¬ XDfeMix_UpdateCC_Assert InstancePtr CCID ∧
    ¬ XDfeMix_RemoveCC_Assert InstancePtr CCID ∧
    ¬ XDfeMix_MoveCC_Assert Hw InstancePtr CCID Rate FromNCO ToNCO ∧
    XDfeMix_AddCC Hw InstancePtr Regs CCID CCSeqBitmap CarrierCfg NCO = none ∧
    XDfeMix_UpdateCC Hw InstancePtr Regs CCID CarrierCfg = none ∧
    XDfeMix_RemoveCC Hw InstancePtr Regs CCID = none ∧
    XDfeMix_MoveCC Hw InstancePtr Regs CCID Rate FromNCO ToNCO = none ∧
    (XDfeMix_AddCCtoCCCfg_Assert InstancePtr CCID ↔
      XDfeMix_AddCCtoCCCfg_Assert { InstancePtr with StateId := .XDFEMIX_STATE_OPERATIONAL }
        CCID) ∧
    (XDfeMix_UpdateCCinCCCfg_Assert InstancePtr CCID ↔
      XDfeMix_UpdateCCinCCCfg_Assert { InstancePtr with StateId := .XDFEMIX_STATE_OPERATIONAL }
        CCID) ∧
    (XDfeMix_RemoveCCfromCCCfg_Assert InstancePtr CCID ↔
      XDfeMix_RemoveCCfromCCCfg_Assert { InstancePtr with StateId := .XDFEMIX_STATE_OPERATIONAL }
        CCID) := by
  have h1 : ¬ XDfeMix_AddCC_Assert Hw InstancePtr CCID CarrierCfg := fun h => hstate h.1
  have h2 : ¬ XDfeMix_UpdateCC_Assert InstancePtr CCID := fun h => hstate h.1
  have h3 : ¬ XDfeMix_RemoveCC_Assert InstancePtr CCID := fun h => hstate h.1
  have h4 : ¬ XDfeMix_MoveCC_Assert Hw InstancePtr CCID Rate FromNCO ToNCO := fun h => hstate h.1
  refine ⟨h1, h2, h3, h4, ?_, ?_, ?_, ?_, Iff.rfl, Iff.rfl, Iff.rfl⟩
  · unfold XDfeMix_AddCC; rw [if_pos h1]
  · unfold XDfeMix_UpdateCC; rw [if_pos h2]
  · unfold XDfeMix_RemoveCC; rw [if_pos h3]
  · unfold XDfeMix_MoveCC; simp only []; rw [if_pos h4]

/-- Witness for C30: the Initialised instance is not Operational, and `XDfeMix_AddCC`
fails its assertions for it. -/
theorem C30_register_operations_assert_operational_witness :
    initialisedInstance.StateId ≠ .XDFEMIX_STATE_OPERATIONAL ∧
    XDfeMix_AddCC exampleHw initialisedInstance zeroRegs 0 0x1 ⟨⟨0, 0, 0⟩⟩ default = none :=
  ⟨by decide,
    (C30_register_operations_assert_operational exampleHw initialisedInstance zeroRegs 0 0x1 1 0 1
      ⟨⟨0, 0, 0⟩⟩ default (by decide)).2.2.2.2.1⟩

/-! ## Sentinel translation through the registers -/

theorem SetNextCCCfg_step_fold_sequence (Hw : XDfeMix_Hw) (NextCCCfg : XDfeMix_CCCfg)
    (NextCCID : List Int) (R : XDfeMix_Regs) (k : Nat) :
    ∀ i, (List.range k).foldl (XDfeMix_SetNextCCCfg_step Hw NextCCCfg NextCCID) R
        ⟨.XDFEMIX_SEQUENCE_NEXT, 4 * i⟩ =
      if i < k then u32 (s32_to_u32 (NextCCID.getD i 0)) else R ⟨.XDFEMIX_SEQUENCE_NEXT, 4 * i⟩ := by
  induction k with
  | zero => intro i; simp
  | succ k ih =>
    intro i
    rw [List.range_succ, List.foldl_append]
    simp only [List.foldl_cons, List.foldl_nil]
    generalize (List.range k).foldl (XDfeMix_SetNextCCCfg_step Hw NextCCCfg NextCCID) R = S
      at ih ⊢
    unfold XDfeMix_SetNextCCCfg_step
    rw [WriteReg_name_ne _ _ _ _ _ (by simp)]
    by_cases hik : i = k
    · subst hik
      rw [WriteReg_same, if_pos (by omega)]
    · have hne : (⟨.XDFEMIX_SEQUENCE_NEXT, 4 * i⟩ : XDfeMix_Addr) ≠
          ⟨.XDFEMIX_SEQUENCE_NEXT, 4 * k⟩ := by
        intro h
        have := congrArg XDfeMix_Addr.Offset h
        simp only at this
        omega
      rw [WriteReg_other _ _ _ _ hne, ih i]
      have : (i < k + 1) ↔ (i < k) := by omega
      simp only [this]

/-- The sequence registers after `XDfeMix_SetNextCCCfg`: slot `i` of the NEXT sequence
holds the translated slot value. -/
theorem SetNextCCCfg_sequence (Hw : XDfeMix_Hw) (InstancePtr : XDfeMix) (Regs : XDfeMix_Regs)
    (NextCCCfg : XDfeMix_CCCfg) (i : Nat) (hi : i < 16) :
    XDfeMix_SetNextCCCfg Hw InstancePtr Regs NextCCCfg ⟨.XDFEMIX_SEQUENCE_NEXT, 4 * i⟩ =
      u32 (s32_to_u32 ((XDfeMix_SetNextCCCfg_NextCCID InstancePtr NextCCCfg).getD i 0)) := by
  have haux : ∀ R, (List.range XDFEMIX_AUX_NCO_MAX).foldl
      (fun Regs Index =>
        XDfeMix_SetAuxiliaryCfg Hw Regs Index (NextCCCfg.AuxiliaryCfg.getD Index default))
      R ⟨.XDFEMIX_SEQUENCE_NEXT, 4 * i⟩ = R ⟨.XDFEMIX_SEQUENCE_NEXT, 4 * i⟩ := by
    intro R
    apply foldl_regs_frame
    intro R j
    unfold XDfeMix_SetAuxiliaryCfg
    rw [WriteReg_name_ne _ _ _ _ _ (by simp)]
  unfold XDfeMix_SetNextCCCfg
  generalize (if InstancePtr.SequenceLength = 0 then 0
    else u32_sub InstancePtr.SequenceLength 1) = SeqLength
  have hfold := SetNextCCCfg_step_fold_sequence Hw NextCCCfg
    (XDfeMix_SetNextCCCfg_NextCCID InstancePtr NextCCCfg)
    (XDfeMix_WriteReg Regs ⟨.XDFEMIX_SEQUENCE_LENGTH_NEXT, 0⟩ SeqLength) XDFEMIX_CC_NUM i
  rw [if_pos (by simpa [XDFEMIX_CC_NUM] using hi)] at hfold
  split
  · rw [haux, hfold]
  · rw [WriteReg_name_ne _ _ _ _ _ (by simp), haux, hfold]

theorem u32_to_s32_u32 (n : Nat) : u32_to_s32 (u32 n) = u32_to_s32 n := by
  unfold u32_to_s32
  rw [u32_u32]

/-- The round trip of the slot values through the registers: when the CURRENT sequence
registers hold what `XDfeMix_SetNextCCCfg` wrote to the NEXT sequence registers and the
instance caches the snapshot's not used CCID, as after a successful commit and update,
`XDfeMix_GetCurrentCCCfg` reads back `-1` at the unassigned slots and at the slots at or
beyond the sequence length, and the original carrier ID at every other slot. -/
theorem commit_read_back_sequence (Hw : XDfeMix_Hw) (InstancePtr : XDfeMix)
    (Regs Updated : XDfeMix_Regs) (CCCfg Container : XDfeMix_CCCfg)
    (hslots : ∀ i, i < InstancePtr.SequenceLength →
      CCCfg.Sequence.CCID.getD i 0 = -1 ∨
      (0 ≤ CCCfg.Sequence.CCID.getD i 0 ∧ CCCfg.Sequence.CCID.getD i 0 ≤ 15))
    (hn : 0 ≤ CCCfg.Sequence.NotUsedCCID ∧ CCCfg.Sequence.NotUsedCCID ≤ 15)
    (hfree : ∀ i, i < InstancePtr.SequenceLength →
      CCCfg.Sequence.CCID.getD i 0 ≠ CCCfg.Sequence.NotUsedCCID)
    (hcache : InstancePtr.NotUsedCCID = CCCfg.Sequence.NotUsedCCID)
    (hupdate : ∀ i, i < 16 → Updated ⟨.XDFEMIX_SEQUENCE_CURRENT, 4 * i⟩ =
      XDfeMix_SetNextCCCfg Hw InstancePtr Regs CCCfg ⟨.XDFEMIX_SEQUENCE_NEXT, 4 * i⟩) :
    ∀ i, i < 16 →
      (XDfeMix_GetCurrentCCCfg Hw InstancePtr Updated Container).Sequence.CCID.getD i 0 =
      if i < InstancePtr.SequenceLength ∧ CCCfg.Sequence.CCID.getD i 0 ≠ -1 then
        CCCfg.Sequence.CCID.getD i 0
      else -1 := by
  have hlist : (List.range XDFEMIX_CC_NUM).map (fun Index =>
      u32_to_s32 (XDfeMix_ReadReg Updated ⟨.XDFEMIX_SEQUENCE_CURRENT, 4 * Index⟩)) =
      (XDfeMix_SetNextCCCfg_NextCCID InstancePtr CCCfg).map
        (fun v => u32_to_s32 (s32_to_u32 v)) := by
    unfold XDfeMix_SetNextCCCfg_NextCCID
    rw [List.map_map]
    apply List.map_congr_left
    intro j hj
    have hj16 : j < 16 := by simpa [XDFEMIX_CC_NUM] using List.mem_range.1 hj
    have hv := nextCCID_getD InstancePtr CCCfg j hj16
    simp only [Function.comp]
    rw [XDfeMix_ReadReg, hupdate j hj16, SetNextCCCfg_sequence Hw InstancePtr Regs CCCfg j hj16,
      u32_to_s32_u32, u32_to_s32_u32, hv]
  intro i hi
  have h := sentinel_round_trip_list InstancePtr CCCfg hslots hn hfree i hi
  unfold XDfeMix_GetCurrentCCCfg XDfeMix_GetCurrentCCCfgLocal
  simp only [hcache, hlist]
  exact h

/-- C28: for every sequence length `L`, 1..16 included, and every snapshot whose slots
below `L` hold `-1` or a carrier ID in 0..15 and whose not used CCID `n` in 0..15 is the
value of no slot below `L`: the slot values that `XDfeMix_SetNextCCCfg` prepares for the
registers, passed through a 32-bit register and translated back by the conversion loop
of `XDfeMix_GetCurrentCCCfgLocal` under the same `n`, are `-1` at the unassigned slots
and at the slots at or beyond `L`, and the original carrier ID at every other slot. The
same holds through the registers: when the CURRENT sequence registers hold what
`XDfeMix_SetNextCCCfg` wrote to the NEXT ones and the instance caches `n`,
`XDfeMix_GetCurrentCCCfg` reads back these values. -/
theorem C28_sentinel_round_trip (InstancePtr : XDfeMix) (CCCfg : XDfeMix_CCCfg)
    (hslots : ∀ i, i < InstancePtr.SequenceLength →
      CCCfg.Sequence.CCID.getD i 0 = -1 ∨
      (0 ≤ CCCfg.Sequence.CCID.getD i 0 ∧ CCCfg.Sequence.CCID.getD i 0 ≤ 15))
    (hn : 0 ≤ CCCfg.Sequence.NotUsedCCID ∧ CCCfg.Sequence.NotUsedCCID ≤ 15)
    (hfree : ∀ i, i < InstancePtr.SequenceLength →
      CCCfg.Sequence.CCID.getD i 0 ≠ CCCfg.Sequence.NotUsedCCID) :
    (∀ i, i < 16 →
      (XDfeMix_GetCurrentCCCfgLocal_convert InstancePtr CCCfg.Sequence.NotUsedCCID
        ((XDfeMix_SetNextCCCfg_NextCCID InstancePtr CCCfg).map
          (fun v => u32_to_s32 (s32_to_u32 v)))).getD i 0 =
      if i < InstancePtr.SequenceLength ∧ CCCfg.Sequence.CCID.getD i 0 ≠ -1 then
        CCCfg.Sequence.CCID.getD i 0
      else -1) ∧
    (∀ (Hw : XDfeMix_Hw) (Regs Updated : XDfeMix_Regs) (Container : XDfeMix_CCCfg),
      InstancePtr.NotUsedCCID = CCCfg.Sequence.NotUsedCCID →
      (∀ i, i < 16 → Updated ⟨.XDFEMIX_SEQUENCE_CURRENT, 4 * i⟩ =
        XDfeMix_SetNextCCCfg Hw InstancePtr Regs CCCfg ⟨.XDFEMIX_SEQUENCE_NEXT, 4 * i⟩) →
      ∀ i, i < 16 →
        (XDfeMix_GetCurrentCCCfg Hw InstancePtr Updated Container).Sequence.CCID.getD i 0 =
        if i < InstancePtr.SequenceLength ∧ CCCfg.Sequence.CCID.getD i 0 ≠ -1 then
          CCCfg.Sequence.CCID.getD i 0
        else -1) := by
  constructor
  · exact sentinel_round_trip_list InstancePtr CCCfg hslots hn hfree
  · intro Hw Regs Updated Container hcache hupdate
    exact commit_read_back_sequence Hw InstancePtr Regs Updated CCCfg Container hslots hn hfree
      hcache hupdate

/-- Witness for C28: sequence length 16, carrier 5 in slot 0, every other slot
unassigned and not used CCID 0. -/
theorem C28_sentinel_round_trip_witness :
    (XDfeMix_GetCurrentCCCfgLocal_convert arch4Instance 0
      ((XDfeMix_SetNextCCCfg_NextCCID arch4Instance
        { XDfeMix_GetEmptyCCCfg arch4Instance with Sequence := sequenceCarrier5 }).map
        (fun v => u32_to_s32 (s32_to_u32 v)))).getD 0 0 = 5 ∧
    (XDfeMix_SetNextCCCfg_NextCCID arch4Instance
      { XDfeMix_GetEmptyCCCfg arch4Instance with Sequence := sequenceCarrier5 }).getD 1 7 = 0 :=
  ⟨((C28_sentinel_round_trip arch4Instance
      { XDfeMix_GetEmptyCCCfg arch4Instance with Sequence := sequenceCarrier5 }
      (by decide) (by decide) (by decide)).1 0 (by decide)).trans
      (by decide), by decide⟩

/-! ## Width of the derived phase offset -/

/-- The derived phase offset never exceeds `2 ^ 18`, and it is `2 ^ 18` exactly when
the accumulator difference is at least `2 ^ 32 - 2 ^ 13`. -/
theorem derivePhaseOffset_le (PhaseA PhaseB : XDfeMix_Phase) (P0 : XDfeMix_PhaseOffset) :
    (XDfeMix_DerivePhaseOffset PhaseA PhaseB P0).PhaseOffset ≤ 2 ^ 18 ∧
    ((XDfeMix_DerivePhaseOffset PhaseA PhaseB P0).PhaseOffset = 2 ^ 18 ↔
      2 ^ 32 - 2 ^ 13 ≤ u32_sub PhaseB.PhaseAcc PhaseA.PhaseAcc) := by
  have hd32 : u32_sub PhaseB.PhaseAcc PhaseA.PhaseAcc < 2 ^ 32 := by
    unfold u32_sub
    exact Nat.mod_lt _ (by decide)
  generalize hd : u32_sub PhaseB.PhaseAcc PhaseA.PhaseAcc = d at hd32
  have hmask : u32 (1 <<< (14 - 1)) = 2 ^ 13 := by decide
  have hbit : d.testBit 13 = decide (d / 2 ^ 13 % 2 = 1) := Nat.testBit_to_div_mod
  unfold XDfeMix_DerivePhaseOffset
  simp only [hd, XDFEMIX_PHASE_OFFSET_ROUNDING_BITS, hmask, Nat.shiftRight_eq_div_pow]
  by_cases h13 : d.testBit 13 = true
  · have hne : 0 ≠ d &&& 2 ^ 13 := fun h => (and_two_pow_ne_zero d 13).2 h13 h.symm
    rw [if_pos hne]
    rw [h13] at hbit
    have hbit2 : d / 2 ^ 13 % 2 = 1 := of_decide_eq_true hbit.symm
    simp only [u32]
    norm_num at hbit2 hd32 ⊢
    omega
  · have hne : ¬ (0 ≠ d &&& 2 ^ 13) := fun h =>
      h13 ((and_two_pow_ne_zero d 13).1 (fun h0 => h h0.symm))
    rw [if_neg hne]
    have hbit2 : ¬ (d / 2 ^ 13 % 2 = 1) := by
      intro h; apply h13; rw [hbit]; exact decide_eq_true h
    norm_num at hbit2 hd32 ⊢
    omega

/-- C37 (failing input): with accumulator 1 for phase A and 0 for phase B the
difference is `2 ^ 32 - 1`; its 18 top bits are all ones and bit 13 is set, so
`XDfeMix_DerivePhaseOffset` rounds up and returns `2 ^ 18`, which is not below
`2 ^ 18`. The same happens with accumulators 0 and `0xFFFFE000`. -/
theorem C37_phase_offset_reaches_two_pow_18 :
    (XDfeMix_DerivePhaseOffset ⟨1, 0, 0, 0⟩ ⟨0, 0, 0, 0⟩ ⟨0⟩).PhaseOffset = 2 ^ 18 ∧
    ¬ (XDfeMix_DerivePhaseOffset ⟨1, 0, 0, 0⟩ ⟨0, 0, 0, 0⟩ ⟨0⟩).PhaseOffset < 2 ^ 18 ∧
    (XDfeMix_DerivePhaseOffset ⟨0, 0, 0, 0⟩ ⟨0xFFFFE000, 0, 0, 0⟩ ⟨0⟩).PhaseOffset = 2 ^ 18 := by
  decide

/-! ## A failing AddCarrier that has changed the sequence -/

/-- C40: AddCarrier is not failure-atomic. On the instance with sequence length 12
(antenna interleave 1, one mixer clock per sample) and the empty snapshot,
`XDfeMix_AddCCtoCCCfg` for carrier 0 with bitmap `0x1` passes the checks and the slot
assignment, then the rate detector rejects the ratio 12 and the call returns failure:
slot 0 of the returned sequence holds carrier 0 instead of `-1`, and the carrier's
rate code is still 0. -/
theorem C40_add_not_failure_atomic :
    ∃ (InstancePtr : XDfeMix) (CCCfg : XDfeMix_CCCfg) (CCID : Int) (CCSeqBitmap : Nat)
      (CarrierCfg : XDfeMix_CarrierCfg) (NCO : XDfeMix_NCO),
      (XDfeMix_AddCCtoCCCfg InstancePtr CCCfg CCID CCSeqBitmap CarrierCfg NCO).1 = XST_FAILURE ∧
      (XDfeMix_AddCCIDAndTranslateSeq InstancePtr CCID CCSeqBitmap CCCfg.Sequence).1
        = XST_SUCCESS ∧
      (XDfeMix_FindRate InstancePtr CCSeqBitmap 0).1 = XST_FAILURE ∧
      (XDfeMix_AddCCtoCCCfg InstancePtr CCCfg CCID CCSeqBitmap CarrierCfg NCO).2.Sequence.CCID
        ≠ CCCfg.Sequence.CCID ∧
      CCCfg.Sequence.CCID.getD 0 0 = XDFEMIX_SEQUENCE_ENTRY_NULL ∧
      (XDfeMix_AddCCtoCCCfg InstancePtr CCCfg CCID CCSeqBitmap CarrierCfg
        NCO).2.Sequence.CCID.getD 0 0 = CCID ∧
      ((XDfeMix_AddCCtoCCCfg InstancePtr CCCfg CCID CCSeqBitmap CarrierCfg
        NCO).2.DUCDDCCfg.getD CCID.toNat default).Rate = 0 :=
  ⟨rateInstance12, XDfeMix_GetEmptyCCCfg rateInstance12, 0, 0x1, ⟨⟨0, 0, 0⟩⟩,
    ⟨⟨0, 0, 0, ⟨0⟩, 0⟩, ⟨0, 0, 0, 0⟩, 0⟩,
    by decide, by decide, by decide, by decide, by decide, by decide, by decide⟩

/-! ## Auxiliary NCOs in a configuration container: the claims -/

/-- C35: for an auxiliary NCO ID `a` in 0..3 (which passes the assertion) and a
snapshot with 20 NCO entries and 4 auxiliary entries, `XDfeMix_AddAuxNCOtoCCCfg`
returns the snapshot with NCO entry `16 + a` and auxiliary entry `a` set to the
supplied values, and `XDfeMix_RemoveAuxNCOfromCCCfg` returns it with the enable member
of auxiliary entry `a` set to disabled and its gain, and the whole NCO array, as they
were. Both leave the sequence, the carrier descriptors, the antenna configuration,
every other NCO entry and every other auxiliary entry as they were. Both are total
functions of the snapshot: they return no status and compare nothing against a
capacity. -/
theorem C35_aux_nco_builders (Hw : XDfeMix_Hw) (InstancePtr : XDfeMix) (CCCfg : XDfeMix_CCCfg)
    (a : Nat) (NCO : XDfeMix_NCO) (AuxCfg : XDfeMix_AuxiliaryCfg)
    (ha : a < XDFEMIX_AUX_NCO_MAX) (hN : CCCfg.NCO.length = XDFEMIX_NCO_MAX)
    (hA : CCCfg.AuxiliaryCfg.length = XDFEMIX_AUX_NCO_MAX) :
    XDfeMix_AuxNCO_Assert (a : Int) ∧
    (XDfeMix_AddAuxNCOtoCCCfg InstancePtr CCCfg (a : Int) NCO AuxCfg).NCO.getD
        (XDFEMIX_CC_NUM + a) default = NCO ∧
    (XDfeMix_AddAuxNCOtoCCCfg InstancePtr CCCfg (a : Int) NCO AuxCfg).AuxiliaryCfg.getD a default
      = AuxCfg ∧
    (XDfeMix_AddAuxNCOtoCCCfg InstancePtr CCCfg (a : Int) NCO AuxCfg).Sequence
      = CCCfg.Sequence ∧
    (XDfeMix_AddAuxNCOtoCCCfg InstancePtr CCCfg (a : Int) NCO AuxCfg).DUCDDCCfg
      = CCCfg.DUCDDCCfg ∧
    (XDfeMix_AddAuxNCOtoCCCfg InstancePtr CCCfg (a : Int) NCO AuxCfg).AntennaCfg
      = CCCfg.AntennaCfg ∧
    (∀ j, j ≠ XDFEMIX_CC_NUM + a →
      (XDfeMix_AddAuxNCOtoCCCfg InstancePtr CCCfg (a : Int) NCO AuxCfg).NCO.getD j default
        = CCCfg.NCO.getD j default) ∧
    (∀ b, b ≠ a →
      (XDfeMix_AddAuxNCOtoCCCfg InstancePtr CCCfg (a : Int) NCO AuxCfg).AuxiliaryCfg.getD b
          default = CCCfg.AuxiliaryCfg.getD b default) ∧
    ((XDfeMix_RemoveAuxNCOfromCCCfg Hw InstancePtr CCCfg (a : Int)).AuxiliaryCfg.getD a
        default).Enable = Hw.XDFEMIX_AUXILIARY_ENABLE_DISABLED ∧
    ((XDfeMix_RemoveAuxNCOfromCCCfg Hw InstancePtr CCCfg (a : Int)).AuxiliaryCfg.getD a
        default).AuxGain = (CCCfg.AuxiliaryCfg.getD a default).AuxGain ∧
    (XDfeMix_RemoveAuxNCOfromCCCfg Hw InstancePtr CCCfg (a : Int)).NCO = CCCfg.NCO ∧
    (XDfeMix_RemoveAuxNCOfromCCCfg Hw InstancePtr CCCfg (a : Int)).Sequence = CCCfg.Sequence ∧
    (XDfeMix_RemoveAuxNCOfromCCCfg Hw InstancePtr CCCfg (a : Int)).DUCDDCCfg
      = CCCfg.DUCDDCCfg ∧
    (XDfeMix_RemoveAuxNCOfromCCCfg Hw InstancePtr CCCfg (a : Int)).AntennaCfg
      = CCCfg.AntennaCfg ∧
    (∀ b, b ≠ a →
      (XDfeMix_RemoveAuxNCOfromCCCfg Hw InstancePtr CCCfg (a : Int)).AuxiliaryCfg.getD b default
        = CCCfg.AuxiliaryCfg.getD b default) := by
  have ha4 : a < 4 := ha
  have hN20 : CCCfg.NCO.length = 20 := hN
  have hA4 : CCCfg.AuxiliaryCfg.length = 4 := hA
  unfold XDfeMix_AddAuxNCOtoCCCfg XDfeMix_RemoveAuxNCOfromCCCfg
  simp only [Int.toNat_ofNat, XDFEMIX_CC_NUM]
  refine ⟨?_, ?_, ?_, trivial, trivial, trivial, ?_, ?_, ?_, ?_, trivial, trivial, trivial,
    trivial, ?_⟩
  · unfold XDfeMix_AuxNCO_Assert XDFEMIX_AUX_NCO_MAX
    omega
  · exact getD_set_self _ _ _ _ (by omega)
  · exact getD_set_self _ _ _ _ (by omega)
  · intro j hj
    exact getD_set_ne _ _ _ _ _ (Ne.symm hj)
  · intro b hb
    exact getD_set_ne _ _ _ _ _ (Ne.symm hb)
  · rw [getD_set_self _ _ _ _ (by omega)]
  · rw [getD_set_self _ _ _ _ (by omega)]
  · intro b hb
    exact getD_set_ne _ _ _ _ _ (Ne.symm hb)

/-- Witness for C35 on the empty snapshot of the ARCH4 example instance and
auxiliary NCO 2. -/
theorem C35_aux_nco_builders_witness :
    (XDfeMix_AddAuxNCOtoCCCfg arch4Instance (XDfeMix_GetEmptyCCCfg arch4Instance) 2
        ⟨⟨7, 0, 0, ⟨0⟩, 0⟩, ⟨0, 0, 0, 0⟩, 3⟩ ⟨1, 2⟩).NCO.getD 18 default
      = ⟨⟨7, 0, 0, ⟨0⟩, 0⟩, ⟨0, 0, 0, 0⟩, 3⟩ ∧
    (XDfeMix_AddAuxNCOtoCCCfg arch4Instance (XDfeMix_GetEmptyCCCfg arch4Instance) 2
        ⟨⟨7, 0, 0, ⟨0⟩, 0⟩, ⟨0, 0, 0, 0⟩, 3⟩ ⟨1, 2⟩).AuxiliaryCfg.getD 2 default = ⟨1, 2⟩ :=
  ⟨(C35_aux_nco_builders exampleHw arch4Instance (XDfeMix_GetEmptyCCCfg arch4Instance) 2
      ⟨⟨7, 0, 0, ⟨0⟩, 0⟩, ⟨0, 0, 0, 0⟩, 3⟩ ⟨1, 2⟩ (by decide) (by decide) (by decide)).2.1,
   (C35_aux_nco_builders exampleHw arch4Instance (XDfeMix_GetEmptyCCCfg arch4Instance) 2
      ⟨⟨7, 0, 0, ⟨0⟩, 0⟩, ⟨0, 0, 0, 0⟩, 3⟩ ⟨1, 2⟩ (by decide) (by decide) (by decide)).2.2.1⟩

/-! ## Antenna gains: the claims -/

/-- C38 (failing input): the assertions of `XDfeMix_SetAntennaGain` hold exactly when
the gain is at most 1 and the antenna ID is at most `XDFEMIX_ANT_NUM_MAX`; the antenna
ID 8, which is not below `XDFEMIX_ANT_NUM_MAX`, passes them and the call runs to its
end. -/
theorem C38_antenna_id_8_admitted :
    (∀ AntennaId AntennaGain : Nat,
      XDfeMix_SetAntennaGain_Assert AntennaId AntennaGain ↔ (AntennaGain ≤ 1 ∧ AntennaId ≤ 8)) ∧
    XDfeMix_SetAntennaGain_Assert 8 1 ∧ ¬ (8 < XDFEMIX_ANT_NUM_MAX) ∧
    (XDfeMix_SetAntennaGain exampleHw moveInstance zeroRegs 8 1 0 0).isSome = true ∧
    ((XDfeMix_SetAntennaGain exampleHw moveInstance zeroRegs 8 1 0 0).map (fun r => r.1))
      = some XST_SUCCESS :=
  ⟨fun _ _ => Iff.rfl, by decide, by decide, by decide, by decide⟩

/-- C34 (counterexample): on the switchable example instance, with every register 0,
`XDfeMix_SetAntennaGain` for antenna 0 and gain 1 passes to the commit a downlink
configuration whose gain of antenna 0 is 1 and an uplink configuration whose gain of
antenna 0 is still 0. -/
theorem C34_set_antenna_gain_downlink_only :
    (XDfeMix_SetAntennaGain_switchable exampleHw switchableInstance zeroRegs 0 1).map
      (fun r => (r.1.AntennaCfg.Gain.getD 0 0, r.2.1.AntennaCfg.Gain.getD 0 0)) = some (1, 0) := by
  decide

/-- C34 (amended): on a switchable instance both functions read the two current
configurations with `XDfeMix_GetCurrentCCCfgSwitchable` and commit two configurations
with `XDfeMix_SetNextCCCfgAndTriggerSwitchable`. `XDfeMix_UpdateAntennaCfg` commits
the two configurations read, each with its antenna configuration replaced by the
supplied one. `XDfeMix_SetAntennaGain` commits the downlink configuration read with
the gain of the one antenna replaced, and the uplink configuration as it was read. -/
theorem C34_antenna_gain_switchable (Hw : XDfeMix_Hw) (InstancePtr : XDfeMix)
    (Regs : XDfeMix_Regs) (AntennaId AntennaGain : Nat) (AntennaCfg : XDfeMix_AntennaCfg)
    (DataDownlink DataUplink : Nat)
    (hmode : InstancePtr.Config.Mode = Hw.XDFEMIX_MODEL_PARAM_1_SWITCHABLE)
    (hassert : XDfeMix_SetAntennaGain_Assert AntennaId AntennaGain) :
    ∃ CCCfg CCCfgUL Regs1,
      XDfeMix_GetCurrentCCCfgSwitchable Hw InstancePtr Regs default default
        = some (CCCfg, CCCfgUL, Regs1) ∧
      XDfeMix_UpdateAntennaCfg_switchable Hw InstancePtr Regs AntennaCfg
        = some ({ CCCfg with AntennaCfg := AntennaCfg },
            { CCCfgUL with AntennaCfg := AntennaCfg }, Regs1) ∧
      XDfeMix_UpdateAntennaCfg Hw InstancePtr Regs AntennaCfg DataDownlink DataUplink
        = XDfeMix_SetNextCCCfgAndTriggerSwitchable Hw InstancePtr Regs1
            { CCCfg with AntennaCfg := AntennaCfg } { CCCfgUL with AntennaCfg := AntennaCfg }
            DataDownlink DataUplink ∧
      XDfeMix_SetAntennaGain_switchable Hw InstancePtr Regs AntennaId AntennaGain
        = some ({ CCCfg with AntennaCfg := ⟨CCCfg.AntennaCfg.Gain.set AntennaId AntennaGain⟩ },
            CCCfgUL, Regs1) ∧
      XDfeMix_SetAntennaGain Hw InstancePtr Regs AntennaId AntennaGain DataDownlink DataUplink
        = XDfeMix_SetNextCCCfgAndTriggerSwitchable Hw InstancePtr Regs1
            { CCCfg with AntennaCfg := ⟨CCCfg.AntennaCfg.Gain.set AntennaId AntennaGain⟩ }
            CCCfgUL DataDownlink DataUplink := by
  have hget : ∃ r, XDfeMix_GetCurrentCCCfgSwitchable Hw InstancePtr Regs default default
      = some r := by
    unfold XDfeMix_GetCurrentCCCfgSwitchable
    rw [if_neg (not_not.2 hmode)]
    exact ⟨_, rfl⟩
  obtain ⟨⟨CCCfg, CCCfgUL, Regs1⟩, hr⟩ := hget
  refine ⟨CCCfg, CCCfgUL, Regs1, hr, ?_, ?_, ?_, ?_⟩
  · unfold XDfeMix_UpdateAntennaCfg_switchable
    rw [hr]
  · unfold XDfeMix_UpdateAntennaCfg XDfeMix_UpdateAntennaCfg_switchable
    rw [if_neg (not_not.2 hmode), hr]
  · unfold XDfeMix_SetAntennaGain_switchable
    rw [hr]
  · unfold XDfeMix_SetAntennaGain XDfeMix_SetAntennaGain_switchable
    rw [if_neg (not_not.2 hassert), if_neg (not_not.2 hmode), hr]

/-- Witness for C34 (amended) on the switchable example instance with every register
0, antenna 0 and gain 1. -/
theorem C34_antenna_gain_switchable_witness :
    switchableInstance.Config.Mode = exampleHw.XDFEMIX_MODEL_PARAM_1_SWITCHABLE ∧
    XDfeMix_SetAntennaGain_Assert 0 1 ∧
    ∃ CCCfg CCCfgUL Regs1,
      XDfeMix_GetCurrentCCCfgSwitchable exampleHw switchableInstance zeroRegs default default
        = some (CCCfg, CCCfgUL, Regs1) ∧
      XDfeMix_SetAntennaGain_switchable exampleHw switchableInstance zeroRegs 0 1
        = some ({ CCCfg with AntennaCfg := ⟨CCCfg.AntennaCfg.Gain.set 0 1⟩ }, CCCfgUL, Regs1) :=
  ⟨by decide, by decide,
    let ⟨c, u, r, h1, _, _, h4, _⟩ := C34_antenna_gain_switchable exampleHw switchableInstance
      zeroRegs 0 1 ⟨[1, 1, 1, 1, 1, 1, 1, 1]⟩ 0 0 (by decide) (by decide)
    ⟨c, u, r, h1, h4⟩⟩

/-! ## Auxiliary registers after a commit -/

theorem SetNCORegisters_write_aux (Hw : XDfeMix_Hw) (CCCfg : XDfeMix_CCCfg)
    (Regs : XDfeMix_Regs) (Index NCOIdx off : Nat) :
    XDfeMix_SetNCORegisters_write Hw CCCfg Regs Index NCOIdx ⟨.XDFEMIX_AUXILIARY_ENABLE_NEXT, off⟩
      = Regs ⟨.XDFEMIX_AUXILIARY_ENABLE_NEXT, off⟩ := by
  unfold XDfeMix_SetNCORegisters_write
  rw [SetNCOGain_frame _ _ _ _ _ _ (by simp),
    SetNCOPhase_frame _ _ _ _ _ _ (by simp) (by simp) (by simp) (by simp),
    SetNCOFrequency_frame _ _ _ _ _ _ (by simp) (by simp) (by simp) (by simp) (by simp)]

/-- After `XDfeMix_SetNCORegisters` the auxiliary NEXT register at offset 0 holds the
enable and gain of auxiliary NCO 3 written over some value of `Data`. -/
theorem SetNCORegisters_aux_slot0 (Hw : XDfeMix_Hw) (InstancePtr : XDfeMix)
    (Regs : XDfeMix_Regs) (CCCfg : XDfeMix_CCCfg) (Data : Nat) :
    ∃ D, XDfeMix_SetNCORegisters Hw InstancePtr Regs CCCfg Data
        ⟨.XDFEMIX_AUXILIARY_ENABLE_NEXT, 0⟩
      = u32 (XDfeMix_WrBitField Hw.XDFEMIX_AUXILIARY_ENABLE_GAIN_WIDTH
          Hw.XDFEMIX_AUXILIARY_ENABLE_GAIN_OFFSET
          (XDfeMix_WrBitField Hw.XDFEMIX_AUXILIARY_ENABLE_ENABLE_WIDTH
            Hw.XDFEMIX_AUXILIARY_ENABLE_ENABLE_OFFSET D
            (CCCfg.AuxiliaryCfg.getD 3 default).Enable)
          (CCCfg.AuxiliaryCfg.getD 3 default).AuxGain) := by
  unfold XDfeMix_SetNCORegisters
  have h20 : XDFEMIX_NCO_MAX = 19 + 1 := rfl
  rw [h20, List.range_succ, List.foldl_append, List.foldl_cons, List.foldl_nil]
  generalize (List.range 19).foldl (XDfeMix_SetNCORegisters_step Hw InstancePtr CCCfg)
    (Regs, Data) = st
  refine ⟨st.2, ?_⟩
  unfold XDfeMix_SetNCORegisters_step
  rw [if_neg (by decide)]
  simp only [show 19 - XDFEMIX_CC_NUM = 3 from rfl]
  split
  · simp only []
    exact WriteReg_same _ _ _
  · simp only []
    rw [SetNCORegisters_write_aux]
    exact WriteReg_same _ _ _

/-- After `XDfeMix_SetNextCCCfgAndTrigger`, whatever its status, the enable and gain
fields of the auxiliary NEXT register at offset 0, the register of auxiliary NCO 0,
hold the enable and gain of auxiliary NCO 3 of the configuration (truncated to the
field widths), for every layout with two disjoint fields inside the 32 bits. -/
theorem commit_aux_slot0 (Hw : XDfeMix_Hw) (InstancePtr : XDfeMix) (Regs : XDfeMix_Regs)
    (CCCfg : XDfeMix_CCCfg) (Data : Nat)
    (he : Hw.XDFEMIX_AUXILIARY_ENABLE_ENABLE_OFFSET + Hw.XDFEMIX_AUXILIARY_ENABLE_ENABLE_WIDTH
      ≤ 32)
    (hg : Hw.XDFEMIX_AUXILIARY_ENABLE_GAIN_OFFSET + Hw.XDFEMIX_AUXILIARY_ENABLE_GAIN_WIDTH ≤ 32)
    (hdis : Hw.XDFEMIX_AUXILIARY_ENABLE_ENABLE_OFFSET + Hw.XDFEMIX_AUXILIARY_ENABLE_ENABLE_WIDTH
        ≤ Hw.XDFEMIX_AUXILIARY_ENABLE_GAIN_OFFSET ∨
      Hw.XDFEMIX_AUXILIARY_ENABLE_GAIN_OFFSET + Hw.XDFEMIX_AUXILIARY_ENABLE_GAIN_WIDTH
        ≤ Hw.XDFEMIX_AUXILIARY_ENABLE_ENABLE_OFFSET) :
    XDfeMix_RdBitField Hw.XDFEMIX_AUXILIARY_ENABLE_ENABLE_WIDTH
        Hw.XDFEMIX_AUXILIARY_ENABLE_ENABLE_OFFSET
        (XDfeMix_ReadReg (XDfeMix_SetNextCCCfgAndTrigger Hw InstancePtr Regs CCCfg Data).2.2
          ⟨.XDFEMIX_AUXILIARY_ENABLE_NEXT, 0⟩)
      = (CCCfg.AuxiliaryCfg.getD 3 default).Enable
          % 2 ^ Hw.XDFEMIX_AUXILIARY_ENABLE_ENABLE_WIDTH ∧
    XDfeMix_RdBitField Hw.XDFEMIX_AUXILIARY_ENABLE_GAIN_WIDTH
        Hw.XDFEMIX_AUXILIARY_ENABLE_GAIN_OFFSET
        (XDfeMix_ReadReg (XDfeMix_SetNextCCCfgAndTrigger Hw InstancePtr Regs CCCfg Data).2.2
          ⟨.XDFEMIX_AUXILIARY_ENABLE_NEXT, 0⟩)
      = (CCCfg.AuxiliaryCfg.getD 3 default).AuxGain
          % 2 ^ Hw.XDFEMIX_AUXILIARY_ENABLE_GAIN_WIDTH := by
  obtain ⟨D, hD⟩ := SetNCORegisters_aux_slot0 Hw InstancePtr
    (XDfeMix_SetNextCCCfg Hw InstancePtr Regs CCCfg) CCCfg Data
  have hreg : (XDfeMix_SetNextCCCfgAndTrigger Hw InstancePtr Regs CCCfg Data).2.2
      ⟨.XDFEMIX_AUXILIARY_ENABLE_NEXT, 0⟩
      = XDfeMix_SetNCORegisters Hw InstancePtr (XDfeMix_SetNextCCCfg Hw InstancePtr Regs CCCfg)
          CCCfg Data ⟨.XDFEMIX_AUXILIARY_ENABLE_NEXT, 0⟩ := by
    unfold XDfeMix_SetNextCCCfgAndTrigger
    simp only []
    split
    · exact trigger_frame _ _ _ (by simp)
    · exact trigger_frame _ _ _ (by simp)
  unfold XDfeMix_ReadReg
  rw [hreg, hD, u32_u32, u32_eq_self (WrBitField_lt _ _ _ _ (by omega))]
  constructor
  · rw [RdBitField_WrBitField_other _ _ _ _ _ _ (by omega) he
      (by rcases hdis with h | h
          · exact Or.inr h
          · exact Or.inl h)]
    exact RdBitField_WrBitField _ _ _ _ he
  · exact RdBitField_WrBitField _ _ _ _ hg

/-- C36 (failing input): the configuration has auxiliary NCO 0 enabled (enable 1) at
gain 2, auxiliary NCO 1 enabled at gain 1 and auxiliary NCO 3 disabled at gain 0.
After `XDfeMix_SetNextCCCfg` the enable and gain fields of the NEXT register of
auxiliary NCO 0 hold 1 and 2; after the whole commit, which returns success, both
fields hold 0, the values of auxiliary NCO 3, while the fields of the NEXT register
of auxiliary NCO 1, at offset 4, hold 1 and 1. -/
theorem C36_aux_register_0_overwritten :
    auxSnapshot.AuxiliaryCfg.getD 0 default = ⟨1, 2⟩ ∧
    auxSnapshot.AuxiliaryCfg.getD 3 default = ⟨0, 0⟩ ∧
    XDfeMix_RdBitField exampleHw.XDFEMIX_AUXILIARY_ENABLE_ENABLE_WIDTH
        exampleHw.XDFEMIX_AUXILIARY_ENABLE_ENABLE_OFFSET
        (XDfeMix_ReadReg (XDfeMix_SetNextCCCfg exampleHw plainInstance zeroRegs auxSnapshot)
          ⟨.XDFEMIX_AUXILIARY_ENABLE_NEXT, 0⟩) = 1 ∧
    XDfeMix_RdBitField exampleHw.XDFEMIX_AUXILIARY_ENABLE_GAIN_WIDTH
        exampleHw.XDFEMIX_AUXILIARY_ENABLE_GAIN_OFFSET
        (XDfeMix_ReadReg (XDfeMix_SetNextCCCfg exampleHw plainInstance zeroRegs auxSnapshot)
          ⟨.XDFEMIX_AUXILIARY_ENABLE_NEXT, 0⟩) = 2 ∧
    (XDfeMix_SetNextCCCfgAndTrigger exampleHw plainInstance zeroRegs auxSnapshot 0).1
      = XST_SUCCESS ∧
    XDfeMix_RdBitField exampleHw.XDFEMIX_AUXILIARY_ENABLE_ENABLE_WIDTH
        exampleHw.XDFEMIX_AUXILIARY_ENABLE_ENABLE_OFFSET
        (XDfeMix_ReadReg
          (XDfeMix_SetNextCCCfgAndTrigger exampleHw plainInstance zeroRegs auxSnapshot 0).2.2
          ⟨.XDFEMIX_AUXILIARY_ENABLE_NEXT, 0⟩) = 0 ∧
    XDfeMix_RdBitField exampleHw.XDFEMIX_AUXILIARY_ENABLE_GAIN_WIDTH
        exampleHw.XDFEMIX_AUXILIARY_ENABLE_GAIN_OFFSET
        (XDfeMix_ReadReg
          (XDfeMix_SetNextCCCfgAndTrigger exampleHw plainInstance zeroRegs auxSnapshot 0).2.2
          ⟨.XDFEMIX_AUXILIARY_ENABLE_NEXT, 0⟩) = 0 ∧
    XDfeMix_RdBitField exampleHw.XDFEMIX_AUXILIARY_ENABLE_ENABLE_WIDTH
        exampleHw.XDFEMIX_AUXILIARY_ENABLE_ENABLE_OFFSET
        (XDfeMix_ReadReg
          (XDfeMix_SetNextCCCfgAndTrigger exampleHw plainInstance zeroRegs auxSnapshot 0).2.2
          ⟨.XDFEMIX_AUXILIARY_ENABLE_NEXT, 4⟩) = 1 ∧
    XDfeMix_RdBitField exampleHw.XDFEMIX_AUXILIARY_ENABLE_GAIN_WIDTH
        exampleHw.XDFEMIX_AUXILIARY_ENABLE_GAIN_OFFSET
        (XDfeMix_ReadReg
          (XDfeMix_SetNextCCCfgAndTrigger exampleHw plainInstance zeroRegs auxSnapshot 0).2.2
          ⟨.XDFEMIX_AUXILIARY_ENABLE_NEXT, 4⟩) = 1 := by
  refine ⟨by decide, by decide, by decide, by decide, by decide, by decide, by decide,
    by decide, by decide⟩

/-! ## Activation -/

/-- Writing two fields again, with the same values, into a word that already holds
them gives the same word. -/
theorem WrBitField_twice (w1 o1 V1 w2 o2 V2 x : Nat) (h1 : w1 ≤ 32) (h2 : w2 ≤ 32) :
    XDfeMix_WrBitField w2 o2 (XDfeMix_WrBitField w1 o1
        (u32 (XDfeMix_WrBitField w2 o2 (XDfeMix_WrBitField w1 o1 x V1) V2)) V1) V2
      = XDfeMix_WrBitField w2 o2 (XDfeMix_WrBitField w1 o1 x V1) V2 := by
  apply Nat.eq_of_testBit_eq
  intro i
  simp only [testBit_WrBitField _ _ _ _ _ h1, testBit_WrBitField _ _ _ _ _ h2, testBit_u32]
  by_cases h32 : i < 32 <;> by_cases ha : (o2 ≤ i ∧ i < o2 + w2) <;>
    by_cases hb : (o1 ≤ i ∧ i < o1 + w1) <;> simp [h32, ha, hb]

/-- Writing a field again, with the same value, into a word that already holds it
gives the same word. -/
theorem WrBitField_again (w o V x : Nat) (h : w ≤ 32) :
    XDfeMix_WrBitField w o (u32 (XDfeMix_WrBitField w o x V)) V = XDfeMix_WrBitField w o x V := by
  apply Nat.eq_of_testBit_eq
  intro i
  simp only [testBit_WrBitField _ _ _ _ _ h, testBit_u32]
  by_cases h32 : i < 32 <;> by_cases ha : (o ≤ i ∧ i < o + w) <;> simp [h32, ha]

/-- A read-modify-write of one register, done twice, is the same as done once when
the modification reproduces its own results. -/
theorem rmw_idem (a : XDfeMix_Addr) (g : Nat → Nat) (hg : ∀ x, g (u32 (g x)) = g x)
    (R : XDfeMix_Regs) :
    XDfeMix_WriteReg (XDfeMix_WriteReg R a (g (XDfeMix_ReadReg R a))) a
        (g (XDfeMix_ReadReg (XDfeMix_WriteReg R a (g (XDfeMix_ReadReg R a))) a))
      = XDfeMix_WriteReg R a (g (XDfeMix_ReadReg R a)) := by
  funext b
  by_cases hb : b = a
  · subst hb
    rw [WriteReg_same, WriteReg_same, ReadReg_WriteReg_same, hg]
  · rw [WriteReg_other _ _ _ _ hb, WriteReg_other _ _ _ _ hb]

/-- Read-modify-writes of two different registers can be done in either order. -/
theorem rmw_comm (a b : XDfeMix_Addr) (hab : a ≠ b) (g h : Nat → Nat) (R : XDfeMix_Regs) :
    XDfeMix_WriteReg (XDfeMix_WriteReg R a (g (XDfeMix_ReadReg R a))) b
        (h (XDfeMix_ReadReg (XDfeMix_WriteReg R a (g (XDfeMix_ReadReg R a))) b))
      = XDfeMix_WriteReg (XDfeMix_WriteReg R b (h (XDfeMix_ReadReg R b))) a
        (g (XDfeMix_ReadReg (XDfeMix_WriteReg R b (h (XDfeMix_ReadReg R b))) a)) := by
  have hba : b ≠ a := fun e => hab e.symm
  have r1 : XDfeMix_ReadReg (XDfeMix_WriteReg R a (g (XDfeMix_ReadReg R a))) b
      = XDfeMix_ReadReg R b := by
    unfold XDfeMix_ReadReg
    rw [WriteReg_other _ _ _ _ hba]
  have r2 : XDfeMix_ReadReg (XDfeMix_WriteReg R b (h (XDfeMix_ReadReg R b))) a
      = XDfeMix_ReadReg R a := by
    unfold XDfeMix_ReadReg
    rw [WriteReg_other _ _ _ _ hab]
  rw [r1, r2]
  funext c
  by_cases hca : c = a
  · subst hca
    rw [WriteReg_other _ _ _ _ hab, WriteReg_same, WriteReg_same]
  · by_cases hcb : c = b
    · subst hcb
      rw [WriteReg_same, WriteReg_other _ _ _ _ hca, WriteReg_same]
    · rw [WriteReg_other _ _ _ _ hcb, WriteReg_other _ _ _ _ hca, WriteReg_other _ _ _ _ hca,
        WriteReg_other _ _ _ _ hcb]

theorem EnableActivateTrigger_idem (Hw : XDfeMix_Hw) (R : XDfeMix_Regs)
    (h1 : Hw.XDFEMIX_TRIGGERS_TRIGGER_ENABLE_WIDTH ≤ 32)
    (h2 : Hw.XDFEMIX_TRIGGERS_STATE_OUTPUT_WIDTH ≤ 32) :
    XDfeMix_EnableActivateTrigger Hw (XDfeMix_EnableActivateTrigger Hw R)
      = XDfeMix_EnableActivateTrigger Hw R :=
  rmw_idem ⟨.XDFEMIX_TRIGGERS_ACTIVATE_OFFSET, 0⟩
    (fun x => XDfeMix_WrBitField Hw.XDFEMIX_TRIGGERS_STATE_OUTPUT_WIDTH
      Hw.XDFEMIX_TRIGGERS_STATE_OUTPUT_OFFSET
      (XDfeMix_WrBitField Hw.XDFEMIX_TRIGGERS_TRIGGER_ENABLE_WIDTH
        Hw.XDFEMIX_TRIGGERS_TRIGGER_ENABLE_OFFSET x Hw.XDFEMIX_TRIGGERS_TRIGGER_ENABLE_ENABLED)
      Hw.XDFEMIX_TRIGGERS_STATE_OUTPUT_ENABLED)
    (fun x => WrBitField_twice _ _ _ _ _ _ x h1 h2) R

theorem EnableLowPowerTrigger_idem (Hw : XDfeMix_Hw) (R : XDfeMix_Regs)
    (h1 : Hw.XDFEMIX_TRIGGERS_TRIGGER_ENABLE_WIDTH ≤ 32) :
    XDfeMix_EnableLowPowerTrigger Hw (XDfeMix_EnableLowPowerTrigger Hw R)
      = XDfeMix_EnableLowPowerTrigger Hw R :=
  rmw_idem ⟨.XDFEMIX_TRIGGERS_LOW_POWER_OFFSET, 0⟩
    (fun x => XDfeMix_WrBitField Hw.XDFEMIX_TRIGGERS_TRIGGER_ENABLE_WIDTH
      Hw.XDFEMIX_TRIGGERS_TRIGGER_ENABLE_OFFSET x Hw.XDFEMIX_TRIGGERS_TRIGGER_ENABLE_ENABLED)
    (fun x => WrBitField_again _ _ _ x h1) R

theorem EnableSwitchTrigger_idem (Hw : XDfeMix_Hw) (R : XDfeMix_Regs)
    (h1 : Hw.XDFEMIX_TRIGGERS_TRIGGER_ENABLE_WIDTH ≤ 32) :
    XDfeMix_EnableSwitchTrigger Hw (XDfeMix_EnableSwitchTrigger Hw R)
      = XDfeMix_EnableSwitchTrigger Hw R :=
  rmw_idem ⟨.XDFEMIX_TRIGGERS_SWITCH_OFFSET, 0⟩
    (fun x => XDfeMix_WrBitField Hw.XDFEMIX_TRIGGERS_TRIGGER_ENABLE_WIDTH
      Hw.XDFEMIX_TRIGGERS_TRIGGER_ENABLE_OFFSET x Hw.XDFEMIX_TRIGGERS_TRIGGER_ENABLE_ENABLED)
    (fun x => WrBitField_again _ _ _ x h1) R

theorem EnableActivate_LowPower_comm (Hw : XDfeMix_Hw) (R : XDfeMix_Regs) :
    XDfeMix_EnableActivateTrigger Hw (XDfeMix_EnableLowPowerTrigger Hw R)
      = XDfeMix_EnableLowPowerTrigger Hw (XDfeMix_EnableActivateTrigger Hw R) :=
  rmw_comm ⟨.XDFEMIX_TRIGGERS_LOW_POWER_OFFSET, 0⟩ ⟨.XDFEMIX_TRIGGERS_ACTIVATE_OFFSET, 0⟩
    (by simp)
    (fun x => XDfeMix_WrBitField Hw.XDFEMIX_TRIGGERS_TRIGGER_ENABLE_WIDTH
      Hw.XDFEMIX_TRIGGERS_TRIGGER_ENABLE_OFFSET x Hw.XDFEMIX_TRIGGERS_TRIGGER_ENABLE_ENABLED)
    (fun x => XDfeMix_WrBitField Hw.XDFEMIX_TRIGGERS_STATE_OUTPUT_WIDTH
      Hw.XDFEMIX_TRIGGERS_STATE_OUTPUT_OFFSET
      (XDfeMix_WrBitField Hw.XDFEMIX_TRIGGERS_TRIGGER_ENABLE_WIDTH
        Hw.XDFEMIX_TRIGGERS_TRIGGER_ENABLE_OFFSET x Hw.XDFEMIX_TRIGGERS_TRIGGER_ENABLE_ENABLED)
      Hw.XDFEMIX_TRIGGERS_STATE_OUTPUT_ENABLED) R

theorem EnableActivate_Switch_comm (Hw : XDfeMix_Hw) (R : XDfeMix_Regs) :
    XDfeMix_EnableActivateTrigger Hw (XDfeMix_EnableSwitchTrigger Hw R)
      = XDfeMix_EnableSwitchTrigger Hw (XDfeMix_EnableActivateTrigger Hw R) :=
  rmw_comm ⟨.XDFEMIX_TRIGGERS_SWITCH_OFFSET, 0⟩ ⟨.XDFEMIX_TRIGGERS_ACTIVATE_OFFSET, 0⟩
    (by simp)
    (fun x => XDfeMix_WrBitField Hw.XDFEMIX_TRIGGERS_TRIGGER_ENABLE_WIDTH
      Hw.XDFEMIX_TRIGGERS_TRIGGER_ENABLE_OFFSET x Hw.XDFEMIX_TRIGGERS_TRIGGER_ENABLE_ENABLED)
    (fun x => XDfeMix_WrBitField Hw.XDFEMIX_TRIGGERS_STATE_OUTPUT_WIDTH
      Hw.XDFEMIX_TRIGGERS_STATE_OUTPUT_OFFSET
      (XDfeMix_WrBitField Hw.XDFEMIX_TRIGGERS_TRIGGER_ENABLE_WIDTH
        Hw.XDFEMIX_TRIGGERS_TRIGGER_ENABLE_OFFSET x Hw.XDFEMIX_TRIGGERS_TRIGGER_ENABLE_ENABLED)
      Hw.XDFEMIX_TRIGGERS_STATE_OUTPUT_ENABLED) R

theorem EnableLowPower_Switch_comm (Hw : XDfeMix_Hw) (R : XDfeMix_Regs) :
    XDfeMix_EnableLowPowerTrigger Hw (XDfeMix_EnableSwitchTrigger Hw R)
      = XDfeMix_EnableSwitchTrigger Hw (XDfeMix_EnableLowPowerTrigger Hw R) :=
  rmw_comm ⟨.XDFEMIX_TRIGGERS_SWITCH_OFFSET, 0⟩ ⟨.XDFEMIX_TRIGGERS_LOW_POWER_OFFSET, 0⟩
    (by simp)
    (fun x => XDfeMix_WrBitField Hw.XDFEMIX_TRIGGERS_TRIGGER_ENABLE_WIDTH
      Hw.XDFEMIX_TRIGGERS_TRIGGER_ENABLE_OFFSET x Hw.XDFEMIX_TRIGGERS_TRIGGER_ENABLE_ENABLED)
    (fun x => XDfeMix_WrBitField Hw.XDFEMIX_TRIGGERS_TRIGGER_ENABLE_WIDTH
      Hw.XDFEMIX_TRIGGERS_TRIGGER_ENABLE_OFFSET x Hw.XDFEMIX_TRIGGERS_TRIGGER_ENABLE_ENABLED) R

theorem EnableActivateTrigger_frame (Hw : XDfeMix_Hw) (R : XDfeMix_Regs) (a : XDfeMix_Addr)
    (h : a.Name ≠ .XDFEMIX_TRIGGERS_ACTIVATE_OFFSET) :
    XDfeMix_EnableActivateTrigger Hw R a = R a :=
  WriteReg_name_ne _ _ _ _ _ h

theorem EnableLowPowerTrigger_frame (Hw : XDfeMix_Hw) (R : XDfeMix_Regs) (a : XDfeMix_Addr)
    (h : a.Name ≠ .XDFEMIX_TRIGGERS_LOW_POWER_OFFSET) :
    XDfeMix_EnableLowPowerTrigger Hw R a = R a :=
  WriteReg_name_ne _ _ _ _ _ h

theorem EnableSwitchTrigger_frame (Hw : XDfeMix_Hw) (R : XDfeMix_Regs) (a : XDfeMix_Addr)
    (h : a.Name ≠ .XDFEMIX_TRIGGERS_SWITCH_OFFSET) :
    XDfeMix_EnableSwitchTrigger Hw R a = R a :=
  WriteReg_name_ne _ _ _ _ _ h

/-- `XDfeMix_Activate` returns at its operational check, with the instance and every
register as they are, when the operational field reads yes. -/
theorem Activate_operational (Hw : XDfeMix_Hw) (InstancePtr : XDfeMix) (Regs : XDfeMix_Regs)
    (EnableLowPower : Bool) (hstate : XDfeMix_Activate_Assert InstancePtr)
    (hop : XDfeMix_RdRegBitField Regs ⟨.XDFEMIX_STATE_OPERATIONAL_OFFSET, 0⟩
      Hw.XDFEMIX_STATE_OPERATIONAL_FIELD_WIDTH Hw.XDFEMIX_STATE_OPERATIONAL_FIELD_OFFSET
      = Hw.XDFEMIX_STATE_OPERATIONAL_YES) :
    XDfeMix_Activate Hw InstancePtr Regs EnableLowPower = some (InstancePtr, Regs) := by
  unfold XDfeMix_Activate
  rw [if_neg (not_not.2 hstate)]
  simp only []
  rw [if_pos hop]

/-- The registers `XDfeMix_Activate` leaves when the operational field does not read
yes. -/
theorem Activate_arms (Hw : XDfeMix_Hw) (InstancePtr : XDfeMix) (Regs : XDfeMix_Regs)
    (EnableLowPower : Bool) (hstate : XDfeMix_Activate_Assert InstancePtr)
    (hop : XDfeMix_RdRegBitField Regs ⟨.XDFEMIX_STATE_OPERATIONAL_OFFSET, 0⟩
      Hw.XDFEMIX_STATE_OPERATIONAL_FIELD_WIDTH Hw.XDFEMIX_STATE_OPERATIONAL_FIELD_OFFSET
      ≠ Hw.XDFEMIX_STATE_OPERATIONAL_YES) :
    XDfeMix_Activate Hw InstancePtr Regs EnableLowPower
      = some ({ InstancePtr with StateId := .XDFEMIX_STATE_OPERATIONAL },
          if InstancePtr.Config.Mode = Hw.XDFEMIX_MODEL_PARAM_1_SWITCHABLE then
            XDfeMix_EnableSwitchTrigger Hw
              (if EnableLowPower = true then
                XDfeMix_EnableLowPowerTrigger Hw (XDfeMix_EnableActivateTrigger Hw Regs)
              else XDfeMix_EnableActivateTrigger Hw Regs)
          else
            (if EnableLowPower = true then
              XDfeMix_EnableLowPowerTrigger Hw (XDfeMix_EnableActivateTrigger Hw Regs)
            else XDfeMix_EnableActivateTrigger Hw Regs)) := by
  unfold XDfeMix_Activate
  rw [if_neg (not_not.2 hstate)]
  simp only []
  rw [if_neg hop]

/-- C31: for an instance in state Initialised or Operational and either value of
`EnableLowPower` (and trigger fields of at most 32 bits), `XDfeMix_Activate` returns,
and a second call with the same flag on the instance and the registers the first call
left returns that same instance and those same registers: the instance state and
every register, the trigger registers among them, are as the first call left them.
The second call also changes nothing when the hardware has meanwhile raised the
operational field of the state register: on any registers in which that field reads
yes it returns at its first check, before any write. -/
theorem C31_activate_idempotent (Hw : XDfeMix_Hw) (InstancePtr : XDfeMix) (Regs : XDfeMix_Regs)
    (EnableLowPower : Bool)
    (h1 : Hw.XDFEMIX_TRIGGERS_TRIGGER_ENABLE_WIDTH ≤ 32)
    (h2 : Hw.XDFEMIX_TRIGGERS_STATE_OUTPUT_WIDTH ≤ 32)
    (hstate : InstancePtr.StateId = .XDFEMIX_STATE_INITIALISED ∨
      InstancePtr.StateId = .XDFEMIX_STATE_OPERATIONAL) :
    ∃ (Instance1 : XDfeMix) (Regs1 : XDfeMix_Regs),
      XDfeMix_Activate Hw InstancePtr Regs EnableLowPower = some (Instance1, Regs1) ∧
      XDfeMix_Activate Hw Instance1 Regs1 EnableLowPower = some (Instance1, Regs1) ∧
      ∀ Regs2 : XDfeMix_Regs,
        XDfeMix_RdRegBitField Regs2 ⟨.XDFEMIX_STATE_OPERATIONAL_OFFSET, 0⟩
            Hw.XDFEMIX_STATE_OPERATIONAL_FIELD_WIDTH Hw.XDFEMIX_STATE_OPERATIONAL_FIELD_OFFSET
          = Hw.XDFEMIX_STATE_OPERATIONAL_YES →
        XDfeMix_Activate Hw Instance1 Regs2 EnableLowPower = some (Instance1, Regs2) := by
  by_cases hop : XDfeMix_RdRegBitField Regs ⟨.XDFEMIX_STATE_OPERATIONAL_OFFSET, 0⟩
      Hw.XDFEMIX_STATE_OPERATIONAL_FIELD_WIDTH Hw.XDFEMIX_STATE_OPERATIONAL_FIELD_OFFSET
      = Hw.XDFEMIX_STATE_OPERATIONAL_YES
  · exact ⟨InstancePtr, Regs, Activate_operational Hw _ _ _ hstate hop,
      Activate_operational Hw _ _ _ hstate hop,
      fun R2 h => Activate_operational Hw _ _ _ hstate h⟩
  · have hstate1 : XDfeMix_Activate_Assert
        { InstancePtr with StateId := .XDFEMIX_STATE_OPERATIONAL } := Or.inr rfl
    refine ⟨_, _, Activate_arms Hw _ _ _ hstate hop, ?_,
      fun R2 h => Activate_operational Hw _ _ _ hstate1 h⟩
    have hflag : ∀ R : XDfeMix_Regs,
        (R ⟨.XDFEMIX_STATE_OPERATIONAL_OFFSET, 0⟩ = Regs ⟨.XDFEMIX_STATE_OPERATIONAL_OFFSET, 0⟩) →
        XDfeMix_RdRegBitField R ⟨.XDFEMIX_STATE_OPERATIONAL_OFFSET, 0⟩
          Hw.XDFEMIX_STATE_OPERATIONAL_FIELD_WIDTH Hw.XDFEMIX_STATE_OPERATIONAL_FIELD_OFFSET
          ≠ Hw.XDFEMIX_STATE_OPERATIONAL_YES := by
      intro R hR
      unfold XDfeMix_RdRegBitField XDfeMix_ReadReg at hop ⊢
      rw [hR]
      exact hop
    rw [Activate_arms Hw _ _ _ hstate1 (hflag _ ?_)]
    · by_cases hs : InstancePtr.Config.Mode = Hw.XDFEMIX_MODEL_PARAM_1_SWITCHABLE <;>
        cases EnableLowPower <;>
        simp [hs, EnableActivateTrigger_idem Hw _ h1 h2, EnableLowPowerTrigger_idem Hw _ h1,
          EnableSwitchTrigger_idem Hw _ h1, EnableActivate_LowPower_comm,
          EnableActivate_Switch_comm, EnableLowPower_Switch_comm]
    · by_cases hs : InstancePtr.Config.Mode = Hw.XDFEMIX_MODEL_PARAM_1_SWITCHABLE <;>
        cases EnableLowPower <;>
        simp [hs, EnableSwitchTrigger_frame, EnableLowPowerTrigger_frame,
          EnableActivateTrigger_frame]

/-- Witness for C31 on the initialised example instance with every register 0 and the
LowPower trigger requested: the first call leaves the state Operational, the Activate
trigger register 33 (enable and state output set) and the LowPower trigger register
1, and the second call returns the same. -/
theorem C31_activate_idempotent_witness :
    (initialisedInstance.StateId = .XDFEMIX_STATE_INITIALISED ∨
      initialisedInstance.StateId = .XDFEMIX_STATE_OPERATIONAL) ∧
    (XDfeMix_Activate exampleHw initialisedInstance zeroRegs true).map
        (fun r => (r.1.StateId, r.2 ⟨.XDFEMIX_TRIGGERS_ACTIVATE_OFFSET, 0⟩,
          r.2 ⟨.XDFEMIX_TRIGGERS_LOW_POWER_OFFSET, 0⟩))
      = some (.XDFEMIX_STATE_OPERATIONAL, 33, 1) ∧
    ∃ (Instance1 : XDfeMix) (Regs1 : XDfeMix_Regs),
      XDfeMix_Activate exampleHw initialisedInstance zeroRegs true = some (Instance1, Regs1) ∧
      XDfeMix_Activate exampleHw Instance1 Regs1 true = some (Instance1, Regs1) :=
  ⟨by decide, by decide,
    let ⟨i, r, h, h', _⟩ := C31_activate_idempotent exampleHw initialisedInstance zeroRegs true
      (by decide) (by decide) (by decide)
    ⟨i, r, h, h'⟩⟩

/-! ## Life cycle of an instance: the claims -/

theorem Reset_state (Hw : XDfeMix_Hw) (InstancePtr : XDfeMix) (Regs : XDfeMix_Regs) :
    ((XDfeMix_Reset Hw InstancePtr Regs).isSome = true ↔
      InstancePtr.StateId ≠ .XDFEMIX_STATE_NOT_READY) ∧
    ∀ r, XDfeMix_Reset Hw InstancePtr Regs = some r → r.1.StateId = .XDFEMIX_STATE_RESET := by
  unfold XDfeMix_Reset
  by_cases h : InstancePtr.StateId = .XDFEMIX_STATE_NOT_READY
  · simp [h]
  · simp only [if_neg h]
    refine ⟨by simp [h], ?_⟩
    intro r hr
    cases hr
    rfl

theorem Configure_state (Hw : XDfeMix_Hw) (InstancePtr : XDfeMix) (Regs : XDfeMix_Regs)
    (Cfg : XDfeMix_Cfg) :
    ((XDfeMix_Configure Hw InstancePtr Regs Cfg).isSome = true ↔
      InstancePtr.StateId = .XDFEMIX_STATE_RESET) ∧
    ∀ r, XDfeMix_Configure Hw InstancePtr Regs Cfg = some r →
      r.1.StateId = .XDFEMIX_STATE_CONFIGURED := by
  unfold XDfeMix_Configure
  by_cases h : InstancePtr.StateId = .XDFEMIX_STATE_RESET
  · simp only [if_neg (not_not.2 h)]
    refine ⟨by simp [h], ?_⟩
    intro r hr
    cases hr
    rfl
  · simp [h]

theorem Initialize_state (Hw : XDfeMix_Hw) (InstancePtr : XDfeMix) (Regs : XDfeMix_Regs)
    (Init : XDfeMix_Init) :
    ((XDfeMix_Initialize Hw InstancePtr Regs Init).isSome = true ↔
      InstancePtr.StateId = .XDFEMIX_STATE_CONFIGURED ∧
      (InstancePtr.Config.Mode = Hw.XDFEMIX_MODEL_PARAM_1_SWITCHABLE →
        Init.TuserSelect ≤ Hw.XDFEMIX_SWITCHABLE_CONTROL_TUSER_SEL_UPLINK)) ∧
    ∀ r, XDfeMix_Initialize Hw InstancePtr Regs Init = some r →
      r.1.StateId = .XDFEMIX_STATE_INITIALISED ∧
      r.1.SequenceLength = Init.Sequence.Length ∧
      r.1.NotUsedCCID = 0 ∧ r.1.NotUsedCCID_UL = 0 ∧ r.1.Config = InstancePtr.Config := by
  unfold XDfeMix_Initialize
  by_cases h : InstancePtr.StateId = .XDFEMIX_STATE_CONFIGURED
  · simp only [if_neg (not_not.2 h)]
    by_cases hm : InstancePtr.Config.Mode = Hw.XDFEMIX_MODEL_PARAM_1_SWITCHABLE
    · simp only [if_pos hm]
      by_cases ht : Init.TuserSelect ≤ Hw.XDFEMIX_SWITCHABLE_CONTROL_TUSER_SEL_UPLINK
      · simp only [if_neg (not_not.2 ht)]
        refine ⟨by simp [h, ht], ?_⟩
        intro r hr
        cases hr
        exact ⟨rfl, rfl, rfl, rfl, rfl⟩
      · simp only [if_pos ht]
        refine ⟨by simp [h, hm, ht], ?_⟩
        intro r hr
        cases hr
    · simp only [if_neg hm]
      refine ⟨by simp [h, hm], ?_⟩
      intro r hr
      cases hr
      exact ⟨rfl, rfl, rfl, rfl, rfl⟩
  · simp [h]

theorem Activate_state (Hw : XDfeMix_Hw) (InstancePtr : XDfeMix) (Regs : XDfeMix_Regs)
    (EnableLowPower : Bool) :
    ((XDfeMix_Activate Hw InstancePtr Regs EnableLowPower).isSome = true ↔
      (InstancePtr.StateId = .XDFEMIX_STATE_INITIALISED ∨
        InstancePtr.StateId = .XDFEMIX_STATE_OPERATIONAL)) ∧
    ∀ r, XDfeMix_Activate Hw InstancePtr Regs EnableLowPower = some r →
      (r.1.StateId = .XDFEMIX_STATE_INITIALISED ∨ r.1.StateId = .XDFEMIX_STATE_OPERATIONAL) := by
  by_cases h : XDfeMix_Activate_Assert InstancePtr
  · by_cases hop : XDfeMix_RdRegBitField Regs ⟨.XDFEMIX_STATE_OPERATIONAL_OFFSET, 0⟩
        Hw.XDFEMIX_STATE_OPERATIONAL_FIELD_WIDTH Hw.XDFEMIX_STATE_OPERATIONAL_FIELD_OFFSET
        = Hw.XDFEMIX_STATE_OPERATIONAL_YES
    · rw [Activate_operational Hw _ _ _ h hop]
      refine ⟨⟨fun _ => h, fun _ => rfl⟩, ?_⟩
      intro r hr
      cases hr
      exact h
    · rw [Activate_arms Hw _ _ _ h hop]
      refine ⟨⟨fun _ => h, fun _ => rfl⟩, ?_⟩
      intro r hr
      cases hr
      exact Or.inr rfl
  · unfold XDfeMix_Activate
    rw [if_pos h]
    exact ⟨⟨fun hc => by simp at hc, fun hc => absurd hc h⟩, fun r hr => by simp at hr⟩

theorem Deactivate_state (Hw : XDfeMix_Hw) (InstancePtr : XDfeMix) (Regs : XDfeMix_Regs) :
    ((XDfeMix_Deactivate Hw InstancePtr Regs).isSome = true ↔
      (InstancePtr.StateId = .XDFEMIX_STATE_INITIALISED ∨
        InstancePtr.StateId = .XDFEMIX_STATE_OPERATIONAL)) ∧
    ∀ r, XDfeMix_Deactivate Hw InstancePtr Regs = some r →
      (r.1.StateId = .XDFEMIX_STATE_INITIALISED ∨ r.1.StateId = .XDFEMIX_STATE_OPERATIONAL) := by
  unfold XDfeMix_Deactivate
  by_cases h : XDfeMix_Activate_Assert InstancePtr
  · rw [if_neg (not_not.2 h)]
    simp only []
    split
    · refine ⟨⟨fun _ => h, fun _ => rfl⟩, ?_⟩
      intro r hr
      cases hr
      exact h
    · refine ⟨⟨fun _ => h, fun _ => rfl⟩, ?_⟩
      intro r hr
      cases hr
      exact Or.inl rfl
  · rw [if_pos h]
    exact ⟨⟨fun hc => by simp at hc, fun hc => absurd hc h⟩, fun r hr => by simp at hr⟩

/-- The state before and after one step of the life cycle. -/
theorem lifeCycleStep_cases (Hw : XDfeMix_Hw) (a b : XDfeMix) (h : lifeCycleStep Hw a b) :
    (a.StateId ≠ .XDFEMIX_STATE_NOT_READY ∧ b.StateId = .XDFEMIX_STATE_RESET) ∨
    (a.StateId = .XDFEMIX_STATE_RESET ∧ b.StateId = .XDFEMIX_STATE_CONFIGURED) ∨
    (a.StateId = .XDFEMIX_STATE_CONFIGURED ∧ b.StateId = .XDFEMIX_STATE_INITIALISED) ∨
    ((a.StateId = .XDFEMIX_STATE_INITIALISED ∨ a.StateId = .XDFEMIX_STATE_OPERATIONAL) ∧
      (b.StateId = .XDFEMIX_STATE_INITIALISED ∨ b.StateId = .XDFEMIX_STATE_OPERATIONAL)) := by
  obtain ⟨Regs, Call, h⟩ := h
  rw [Option.map_eq_some'] at h
  obtain ⟨r, hr, hb⟩ := h
  subst hb
  cases Call with
  | Reset =>
    have hs := Reset_state Hw a Regs
    have hr' : XDfeMix_Reset Hw a Regs = some r := hr
    exact Or.inl ⟨hs.1.1 (by rw [hr']; rfl), hs.2 r hr'⟩
  | Configure Cfg =>
    have hs := Configure_state Hw a Regs Cfg
    rw [show runCall Hw a Regs (.Configure Cfg)
      = (XDfeMix_Configure Hw a Regs Cfg).map (fun r => (r.1, r.2.2)) from rfl,
      Option.map_eq_some'] at hr
    obtain ⟨q, hq, hqr⟩ := hr
    subst hqr
    exact Or.inr (Or.inl ⟨hs.1.1 (by rw [hq]; rfl), hs.2 q hq⟩)
  | Initialize Init =>
    have hs := Initialize_state Hw a Regs Init
    rw [show runCall Hw a Regs (.Initialize Init)
      = (XDfeMix_Initialize Hw a Regs Init).map (fun r => (r.1, r.2.2)) from rfl,
      Option.map_eq_some'] at hr
    obtain ⟨q, hq, hqr⟩ := hr
    subst hqr
    exact Or.inr (Or.inr (Or.inl ⟨(hs.1.1 (by rw [hq]; rfl)).1, (hs.2 q hq).1⟩))
  | Activate e =>
    have hs := Activate_state Hw a Regs e
    have hr' : XDfeMix_Activate Hw a Regs e = some r := hr
    exact Or.inr (Or.inr (Or.inr ⟨hs.1.1 (by rw [hr']; rfl), hs.2 r hr'⟩))
  | Deactivate =>
    have hs := Deactivate_state Hw a Regs
    have hr' : XDfeMix_Deactivate Hw a Regs = some r := hr
    exact Or.inr (Or.inr (Or.inr ⟨hs.1.1 (by rw [hr']; rfl), hs.2 r hr'⟩))

theorem statesAhead_sublist (s : XDfeMix_StateId) :
    (statesAhead s).Sublist
      [.XDFEMIX_STATE_RESET, .XDFEMIX_STATE_CONFIGURED, .XDFEMIX_STATE_INITIALISED] := by
  cases s <;> simp [statesAhead]

/-- Along a chain of life cycle steps that ends Operational, the states still ahead of
the first instance are passed in their order. -/
theorem lifeCycle_passes (Hw : XDfeMix_Hw) (l : List XDfeMix) (a : XDfeMix)
    (hc : List.Chain (lifeCycleStep Hw) a l)
    (hend : ((a :: l).getLast (List.cons_ne_nil a l)).StateId = .XDFEMIX_STATE_OPERATIONAL) :
    (statesAhead a.StateId).Sublist (l.map (fun i => i.StateId)) := by
  induction l generalizing a with
  | nil =>
    simp only [List.getLast_singleton] at hend
    rw [hend]
    simp [statesAhead]
  | cons b l ih =>
    rw [List.chain_cons] at hc
    have hend' : ((b :: l).getLast (List.cons_ne_nil b l)).StateId
        = .XDFEMIX_STATE_OPERATIONAL := by
      rw [List.getLast_cons (List.cons_ne_nil b l)] at hend
      exact hend
    have hih := ih b hc.2 hend'
    rw [List.map_cons]
    rcases lifeCycleStep_cases Hw a b hc.1 with ⟨_, hb⟩ | ⟨ha, hb⟩ | ⟨ha, hb⟩ | ⟨ha, _⟩
    · rw [hb] at hih ⊢
      exact (statesAhead_sublist a.StateId).trans (List.Sublist.cons₂ _ hih)
    · rw [hb] at hih ⊢
      rw [ha]
      exact List.Sublist.cons₂ _ hih
    · rw [hb] at hih ⊢
      rw [ha]
      exact List.Sublist.cons₂ _ hih
    · rcases ha with ha | ha <;> rw [ha] <;> simp [statesAhead]

/-- C32: the life cycle calls and the instance state. `XDfeMix_Configure` passes its
assertions exactly in state Reset and leaves state Configured. `XDfeMix_Initialize`
passes its assertions only in state Configured (in switchable mode it also asserts
`TuserSelect`) and leaves state Initialised, the cached sequence length equal to
`Init.Sequence.Length` and both not used CCIDs zero. `XDfeMix_Activate` and
`XDfeMix_Deactivate` pass their assertion exactly in the states Initialised and
Operational and leave one of these two states. `XDfeMix_Reset` passes its assertion
exactly in the states other than NotReady and leaves state Reset. Hence, along every
chain of such calls that starts in state NotReady or Ready and ends in state
Operational, whatever the registers hold at each call, the states Reset, Configured
and Initialised occur in this order among the states passed. -/
theorem C32_life_cycle (Hw : XDfeMix_Hw) (InstancePtr : XDfeMix) (Regs : XDfeMix_Regs)
    (Cfg : XDfeMix_Cfg) (Init : XDfeMix_Init) (EnableLowPower : Bool) :
    (((XDfeMix_Configure Hw InstancePtr Regs Cfg).isSome = true ↔
        InstancePtr.StateId = .XDFEMIX_STATE_RESET) ∧
      ∀ r, XDfeMix_Configure Hw InstancePtr Regs Cfg = some r →
        r.1.StateId = .XDFEMIX_STATE_CONFIGURED) ∧
    (((XDfeMix_Initialize Hw InstancePtr Regs Init).isSome = true ↔
        InstancePtr.StateId = .XDFEMIX_STATE_CONFIGURED ∧
        (InstancePtr.Config.Mode = Hw.XDFEMIX_MODEL_PARAM_1_SWITCHABLE →
          Init.TuserSelect ≤ Hw.XDFEMIX_SWITCHABLE_CONTROL_TUSER_SEL_UPLINK)) ∧
      ∀ r, XDfeMix_Initialize Hw InstancePtr Regs Init = some r →
        r.1.StateId = .XDFEMIX_STATE_INITIALISED ∧
        r.1.SequenceLength = Init.Sequence.Length ∧
        r.1.NotUsedCCID = 0 ∧ r.1.NotUsedCCID_UL = 0) ∧
    (((XDfeMix_Activate Hw InstancePtr Regs EnableLowPower).isSome = true ↔
        (InstancePtr.StateId = .XDFEMIX_STATE_INITIALISED ∨
          InstancePtr.StateId = .XDFEMIX_STATE_OPERATIONAL)) ∧
      ∀ r, XDfeMix_Activate Hw InstancePtr Regs EnableLowPower = some r →
        (r.1.StateId = .XDFEMIX_STATE_INITIALISED ∨
          r.1.StateId = .XDFEMIX_STATE_OPERATIONAL)) ∧
    (((XDfeMix_Deactivate Hw InstancePtr Regs).isSome = true ↔
        (InstancePtr.StateId = .XDFEMIX_STATE_INITIALISED ∨
          InstancePtr.StateId = .XDFEMIX_STATE_OPERATIONAL)) ∧
      ∀ r, XDfeMix_Deactivate Hw InstancePtr Regs = some r →
        (r.1.StateId = .XDFEMIX_STATE_INITIALISED ∨
          r.1.StateId = .XDFEMIX_STATE_OPERATIONAL)) ∧
    (((XDfeMix_Reset Hw InstancePtr Regs).isSome = true ↔
        InstancePtr.StateId ≠ .XDFEMIX_STATE_NOT_READY) ∧
      ∀ r, XDfeMix_Reset Hw InstancePtr Regs = some r →
        r.1.StateId = .XDFEMIX_STATE_RESET) ∧
    (∀ (l : List XDfeMix) (a : XDfeMix),
      (a.StateId = .XDFEMIX_STATE_NOT_READY ∨ a.StateId = .XDFEMIX_STATE_READY) →
      List.Chain (lifeCycleStep Hw) a l →
      ((a :: l).getLast (List.cons_ne_nil a l)).StateId = .XDFEMIX_STATE_OPERATIONAL →
      List.Sublist
        [.XDFEMIX_STATE_RESET, .XDFEMIX_STATE_CONFIGURED, .XDFEMIX_STATE_INITIALISED]
        (l.map (fun i => i.StateId))) := by
  refine ⟨Configure_state Hw InstancePtr Regs Cfg, ⟨(Initialize_state Hw InstancePtr Regs Init).1,
    ?_⟩, Activate_state Hw InstancePtr Regs EnableLowPower, Deactivate_state Hw InstancePtr Regs,
    Reset_state Hw InstancePtr Regs, ?_⟩
  · intro r hr
    obtain ⟨h1, h2, h3, h4, _⟩ := (Initialize_state Hw InstancePtr Regs Init).2 r hr
    exact ⟨h1, h2, h3, h4⟩
  · intro l a ha hc hend
    have h := lifeCycle_passes Hw l a hc hend
    rcases ha with ha | ha <;> rw [ha] at h <;> exact h

/-- Witness for C32: the run Reset, Configure, Initialize, Activate from the Ready
example instance is a chain of life cycle steps that ends Operational, and it passes
Reset, Configured and Initialised in this order; `XDfeMix_Configure` fails its
assertion on the Ready instance and `XDfeMix_Activate` on the Configured one. -/
theorem C32_life_cycle_witness :
    (readyInstance.StateId = .XDFEMIX_STATE_NOT_READY ∨
      readyInstance.StateId = .XDFEMIX_STATE_READY) ∧
    List.Chain (lifeCycleStep exampleHw) readyInstance exampleRun ∧
    ((readyInstance :: exampleRun).getLast (List.cons_ne_nil readyInstance exampleRun)).StateId
      = .XDFEMIX_STATE_OPERATIONAL ∧
    List.Sublist
      [.XDFEMIX_STATE_RESET, .XDFEMIX_STATE_CONFIGURED, .XDFEMIX_STATE_INITIALISED]
      (exampleRun.map (fun i => i.StateId)) ∧
    (XDfeMix_Configure exampleHw readyInstance resetRegs default).isSome = false ∧
    (XDfeMix_Activate exampleHw (exampleRun.getD 1 default) resetRegs true).isSome = false :=
  have hchain : List.Chain (lifeCycleStep exampleHw) readyInstance exampleRun :=
    List.Chain.cons ⟨resetRegs, .Reset, by decide⟩
      (List.Chain.cons ⟨resetRegs, .Configure default, by decide⟩
        (List.Chain.cons ⟨resetRegs, .Initialize ⟨⟨16, [], 0⟩, 0⟩, by decide⟩
          (List.Chain.cons ⟨resetRegs, .Activate true, by decide⟩ List.Chain.nil)))
  ⟨by decide, hchain, by decide,
    (C32_life_cycle exampleHw readyInstance resetRegs default default true).2.2.2.2.2
      exampleRun readyInstance (by decide) hchain (by decide),
    by decide, by decide⟩

/-! ## Snapshots reached by successful builder calls -/

/-- The rate code of a successful rate detection is zero exactly for an empty
occupancy, and the occupancy is one of the accepted ones. -/
theorem findRate_success (InstancePtr : XDfeMix) (B : Nat)
    (hL : InstancePtr.SequenceLength < 32)
    (hs : (XDfeMix_FindRate InstancePtr B 0).1 = XST_SUCCESS) :
    occupancyOk (popcountLow B InstancePtr.SequenceLength) ∧
    ((XDfeMix_FindRate InstancePtr B 0).2 ≠ 0 ↔ 0 < popcountLow B InstancePtr.SequenceLength) := by
  rw [findRate_eq InstancePtr B 0 hL] at hs ⊢
  by_cases h1 : ¬ B < 2 ^ InstancePtr.SequenceLength
  · rw [if_pos h1] at hs
    exact absurd hs (by simp)
  · rw [if_neg h1] at hs ⊢
    by_cases h2 : ¬ occupancyOk (popcountLow B InstancePtr.SequenceLength)
    · rw [if_pos h2] at hs
      exact absurd hs (by simp)
    · rw [if_neg h2] at hs ⊢
      refine ⟨not_not.1 h2, ?_⟩
      by_cases h3 : popcountLow B InstancePtr.SequenceLength = 0
      · rw [if_pos h3, h3]
        simp
      · rw [if_neg h3] at hs ⊢
        have hpos : 0 < popcountLow B InstancePtr.SequenceLength := by omega
        simp only [hpos, iff_true]
        split_ifs at hs ⊢ <;>
          simp [XDFEMIX_CC_CONFIG_RATE_1X, XDFEMIX_CC_CONFIG_RATE_2X,
            XDFEMIX_CC_CONFIG_RATE_4X, XDFEMIX_CC_CONFIG_RATE_8X, XDFEMIX_CC_CONFIG_RATE_16X]

/-- What a successful `XDfeMix_AddCCtoCCCfg` for a carrier ID below 16 has checked
and what it leaves, slot by slot and carrier by carrier. -/
theorem add_effect (InstancePtr : XDfeMix) (CCCfg : XDfeMix_CCCfg) (c B : Nat)
    (CarrierCfg : XDfeMix_CarrierCfg) (NCO : XDfeMix_NCO)
    (hL : CCCfg.Sequence.Length = InstancePtr.SequenceLength)
    (h16 : InstancePtr.SequenceLength ≤ 16)
    (hlen : CCCfg.Sequence.CCID.length = XDFEMIX_CC_NUM)
    (hd : CCCfg.DUCDDCCfg.length = XDFEMIX_CC_NUM) (hc : c < XDFEMIX_CC_NUM) (hB : B < 2 ^ 32)
    (hs : (XDfeMix_AddCCtoCCCfg InstancePtr CCCfg (c : Int) B CarrierCfg NCO).1 = XST_SUCCESS) :
    (XDfeMix_AddCCtoCCCfg InstancePtr CCCfg (c : Int) B CarrierCfg NCO).2.Sequence.Length
      = CCCfg.Sequence.Length ∧
    (XDfeMix_AddCCtoCCCfg InstancePtr CCCfg (c : Int) B CarrierCfg NCO).2.Sequence.CCID.length
      = XDFEMIX_CC_NUM ∧
    (XDfeMix_AddCCtoCCCfg InstancePtr CCCfg (c : Int) B CarrierCfg NCO).2.DUCDDCCfg.length
      = XDFEMIX_CC_NUM ∧
    (∀ i, (XDfeMix_AddCCtoCCCfg InstancePtr CCCfg (c : Int) B CarrierCfg
        NCO).2.Sequence.CCID.getD i 0
      = if B.testBit i = true then (c : Int) else CCCfg.Sequence.CCID.getD i 0) ∧
    (∀ i, CCCfg.Sequence.Length ≤ i → B.testBit i = false) ∧
    (∀ i, i < CCCfg.Sequence.Length → B.testBit i = true →
      CCCfg.Sequence.CCID.getD i 0 = XDFEMIX_SEQUENCE_ENTRY_NULL) ∧
    (XDfeMix_AddCCtoCCCfg InstancePtr CCCfg (c : Int) B CarrierCfg NCO).2.DUCDDCCfg.getD c default
      = { NCOIdx := CarrierCfg.DUCDDCCfg.NCOIdx
          Rate := (XDfeMix_FindRate InstancePtr B 0).2
          CCGain := CarrierCfg.DUCDDCCfg.CCGain } ∧
    (∀ j, j ≠ c →
      (XDfeMix_AddCCtoCCCfg InstancePtr CCCfg (c : Int) B CarrierCfg NCO).2.DUCDDCCfg.getD j
        default = CCCfg.DUCDDCCfg.getD j default) ∧
    (CCCfg.DUCDDCCfg.getD c default).Rate = 0 ∧
    CarrierCfg.DUCDDCCfg.NCOIdx < InstancePtr.Config.MaxUseableCcids ∧
    occupancyOk (popcountLow B InstancePtr.SequenceLength) ∧
    ((XDfeMix_FindRate InstancePtr B 0).2 ≠ 0 ↔ 0 < popcountLow B InstancePtr.SequenceLength) ∧
    XDfeMix_CheckCarrierCfginAddCC InstancePtr CCCfg (c : Int) B CarrierCfg.DUCDDCCfg.NCOIdx
      = XST_SUCCESS := by
  have hc16 : c < 16 := hc
  have hd16 : CCCfg.DUCDDCCfg.length = 16 := hd
  have hlen16 : CCCfg.Sequence.CCID.length = 16 := hlen
  obtain ⟨hchk, hseq, hidx, hrate, hstate⟩ :=
    AddCCtoCCCfg_success InstancePtr CCCfg (c : Int) B CarrierCfg NCO hs
  have hrate0 : (CCCfg.DUCDDCCfg.getD c default).Rate = 0 := by
    by_contra hne
    have := addCheck_active InstancePtr CCCfg c B CarrierCfg.DUCDDCCfg.NCOIdx hne
    rw [this] at hchk
    exact absurd hchk (by simp)
  obtain ⟨hl2, hlen2, _, hget⟩ := add_success_slots InstancePtr (c : Int) B CCCfg.Sequence
    (by omega) (by omega) hB hseq
  obtain ⟨ha, _, hfit⟩ :=
    (add_status_iff InstancePtr (c : Int) B CCCfg.Sequence (by omega) hB).1 hseq
  obtain ⟨hocc, hnz⟩ := findRate_success InstancePtr B (by omega) hrate
  rw [hstate]
  simp only [Int.toNat_ofNat]
  refine ⟨hl2, by rw [hlen2]; exact hlen, by rw [List.length_set]; exact hd, hget, ha, hfit,
    getD_set_self _ _ _ _ (by omega), fun j hj => getD_set_ne _ _ _ _ _ (Ne.symm hj), hrate0,
    hidx, hocc, hnz, hchk⟩

/-- Slot values after `XDfeMix_RemoveCCID`, for an array that holds at least `Length`
entries. -/
theorem remove_getD (c : Int) (seq : XDfeMix_CCSequence) (hlen : seq.Length ≤ seq.CCID.length)
    (i : Nat) :
    (XDfeMix_RemoveCCID c seq).CCID.getD i 0
      = if i < seq.Length ∧ seq.CCID.getD i 0 = c then XDFEMIX_SEQUENCE_ENTRY_NULL
        else seq.CCID.getD i 0 := by
  obtain ⟨_, _, hget⟩ := remove_slots c seq
  rw [getD_of_getElem? (hget i)]
  by_cases hi : i < seq.Length
  · have hil : i < seq.CCID.length := by omega
    have hx : seq.CCID[i]? = some (seq.CCID.getD i 0) := by
      rw [List.getD_eq_getElem?_getD, List.getElem?_eq_getElem hil]
      rfl
    by_cases hv : seq.CCID.getD i 0 = c
    · rw [if_pos ⟨hi, by rw [hx, hv]⟩, if_pos ⟨hi, hv⟩]
      rfl
    · rw [if_neg (fun h => hv (by have := h.2; rw [hx] at this; exact Option.some.inj this)),
        if_neg (fun h => hv h.2), List.getD_eq_getElem?_getD]
  · rw [if_neg (fun h => hi h.1), if_neg (fun h => hi h.1), List.getD_eq_getElem?_getD]

theorem carrierSlots_congr (A B : XDfeMix_CCCfg) (c : Int)
    (hL : A.Sequence.Length = B.Sequence.Length)
    (h : ∀ i, i < B.Sequence.Length →
      (A.Sequence.CCID.getD i 0 = c ↔ B.Sequence.CCID.getD i 0 = c)) :
    carrierSlots A c = carrierSlots B c := by
  unfold carrierSlots
  rw [hL]
  apply List.countP_congr
  intro i hi
  have := h i (List.mem_range.1 hi)
  simp only [decide_eq_true_eq]
  exact this

theorem carrierSlots_eq_zero (A : XDfeMix_CCCfg) (c : Int) :
    carrierSlots A c = 0 ↔ ∀ i, i < A.Sequence.Length → A.Sequence.CCID.getD i 0 ≠ c := by
  unfold carrierSlots
  rw [List.countP_eq_zero]
  constructor
  · intro h i hi
    have := h i (List.mem_range.2 hi)
    simp only [decide_eq_true_eq] at this
    exact this
  · intro h i hi
    have := h i (List.mem_range.1 hi)
    simp only [decide_eq_true_eq]
    exact this

/-- The slots a carrier holds in the whole array are its slots below the sequence
length when every slot from there on is null. -/
theorem allocatedSlots_eq (A : XDfeMix_CCCfg) (c : Nat) (h16 : A.Sequence.Length ≤ 16)
    (hnull : ∀ i, A.Sequence.Length ≤ i → i < XDFEMIX_CC_NUM →
      A.Sequence.CCID.getD i 0 = XDFEMIX_SEQUENCE_ENTRY_NULL) :
    allocatedSlots A c = carrierSlots A (c : Int) := by
  unfold allocatedSlots carrierSlots
  have h : ∀ n, A.Sequence.Length ≤ n → n ≤ 16 →
      (List.range n).countP (fun i => decide (A.Sequence.CCID.getD i 0 = (c : Int)))
        = (List.range A.Sequence.Length).countP
            (fun i => decide (A.Sequence.CCID.getD i 0 = (c : Int))) := by
    intro n hn
    induction n, hn using Nat.le_induction with
    | base => intro _; rfl
    | succ n hn ih =>
      intro hn16
      rw [List.range_succ, List.countP_append, ih (by omega)]
      have hx := hnull n hn (by unfold XDFEMIX_CC_NUM; omega)
      have hne : ¬ (A.Sequence.CCID.getD n 0 = (c : Int)) := by
        rw [hx]
        unfold XDFEMIX_SEQUENCE_ENTRY_NULL
        omega
      simp only [List.countP_cons, List.countP_nil, decide_eq_false hne]
      rfl
  exact h 16 h16 (le_refl _)

/-- The empty snapshot of an instance with a sequence length of at most 16 has the
kept properties. -/
theorem empty_snapshotOk (InstancePtr : XDfeMix) (_h16 : InstancePtr.SequenceLength ≤ 16) :
    snapshotOk InstancePtr (XDfeMix_GetEmptyCCCfg InstancePtr) := by
  have hslot : ∀ i, (XDfeMix_GetEmptyCCCfg InstancePtr).Sequence.CCID.getD i 0
      = XDFEMIX_SEQUENCE_ENTRY_NULL ∨
      (XDfeMix_GetEmptyCCCfg InstancePtr).Sequence.CCID.getD i 0 = 0 := by
    intro i
    unfold XDfeMix_GetEmptyCCCfg
    simp only [List.getD_eq_getElem?_getD, List.getElem?_replicate]
    split
    · exact Or.inl rfl
    · exact Or.inr rfl
  have hslot16 : ∀ i, i < 16 → (XDfeMix_GetEmptyCCCfg InstancePtr).Sequence.CCID.getD i 0
      = XDFEMIX_SEQUENCE_ENTRY_NULL := by
    intro i hi
    unfold XDfeMix_GetEmptyCCCfg
    simp only [List.getD_eq_getElem?_getD, List.getElem?_replicate, XDFEMIX_CC_NUM]
    rw [if_pos hi]
    rfl
  have hzero : ∀ c : Nat, carrierSlots (XDfeMix_GetEmptyCCCfg InstancePtr) (c : Int) = 0 := by
    intro c
    rw [carrierSlots_eq_zero]
    intro i hi
    have hi16 : i < 16 := by
      have : (XDfeMix_GetEmptyCCCfg InstancePtr).Sequence.Length
          = InstancePtr.SequenceLength := rfl
      omega
    rw [hslot16 i hi16]
    unfold XDFEMIX_SEQUENCE_ENTRY_NULL
    omega
  refine ⟨rfl, by simp [XDfeMix_GetEmptyCCCfg], by simp [XDfeMix_GetEmptyCCCfg], ?_, ?_⟩
  · intro i _ hi
    exact hslot16 i hi
  · intro c hc
    rw [hzero c]
    refine ⟨Or.inl rfl, ?_⟩
    have : ((XDfeMix_GetEmptyCCCfg InstancePtr).DUCDDCCfg.getD c default).Rate = 0 := by
      unfold XDfeMix_GetEmptyCCCfg
      simp only [List.getD_eq_getElem?_getD, List.getElem?_replicate]
      split <;> rfl
    rw [this]
    simp

theorem natCast_ne_null (c : Nat) : (c : Int) ≠ XDFEMIX_SEQUENCE_ENTRY_NULL := by
  unfold XDFEMIX_SEQUENCE_ENTRY_NULL
  omega

/-- The slots a carrier holds after a successful `XDfeMix_AddCCtoCCCfg` of carrier
`c`, on a snapshot with the kept properties: carrier `c` holds the set bits of the
bitmap and every other carrier holds what it held. -/
theorem add_carrierSlots (InstancePtr : XDfeMix) (CCCfg : XDfeMix_CCCfg) (c B : Nat)
    (CarrierCfg : XDfeMix_CarrierCfg) (NCO : XDfeMix_NCO)
    (hok : snapshotOk InstancePtr CCCfg) (h16 : InstancePtr.SequenceLength ≤ 16)
    (hc : c < XDFEMIX_CC_NUM) (hB : B < 2 ^ 32)
    (hs : (XDfeMix_AddCCtoCCCfg InstancePtr CCCfg (c : Int) B CarrierCfg NCO).1 = XST_SUCCESS) :
    carrierSlots CCCfg (c : Int) = 0 ∧
    carrierSlots (XDfeMix_AddCCtoCCCfg InstancePtr CCCfg (c : Int) B CarrierCfg NCO).2 (c : Int)
      = popcountLow B InstancePtr.SequenceLength ∧
    ∀ c2 : Nat, c2 ≠ c →
      carrierSlots (XDfeMix_AddCCtoCCCfg InstancePtr CCCfg (c : Int) B CarrierCfg NCO).2
        (c2 : Int) = carrierSlots CCCfg (c2 : Int) := by
  obtain ⟨hL, hlen, hd, hnull, hocc⟩ := hok
  obtain ⟨e1, _, _, e4, _, e6, _, _, e9, _, _, _, _⟩ :=
    add_effect InstancePtr CCCfg c B CarrierCfg NCO hL h16 hlen hd hc hB hs
  have hzero : carrierSlots CCCfg (c : Int) = 0 := by
    have := (hocc c hc).2
    rw [e9] at this
    simp only [ne_eq, not_true_eq_false, false_iff, not_lt, Nat.le_zero] at this
    exact this
  have hfree := (carrierSlots_eq_zero CCCfg (c : Int)).1 hzero
  refine ⟨hzero, ?_, ?_⟩
  · unfold carrierSlots popcountLow
    rw [e1, hL]
    apply List.countP_congr
    intro i hi
    have hi' : i < CCCfg.Sequence.Length := by rw [hL]; exact List.mem_range.1 hi
    simp only [decide_eq_true_eq]
    rw [e4 i]
    by_cases hb : B.testBit i = true
    · rw [if_pos hb]
      exact ⟨fun _ => hb, fun _ => rfl⟩
    · rw [if_neg hb]
      exact ⟨fun h => absurd h (hfree i hi'), fun h => absurd h hb⟩
  · intro c2 hc2
    apply carrierSlots_congr _ _ _ e1
    intro i hi
    rw [e4 i]
    by_cases hb : B.testBit i = true
    · rw [if_pos hb, e6 i hi hb]
      constructor
      · intro h
        exact absurd (Int.ofNat_inj.1 h) (Ne.symm hc2)
      · intro h
        exact absurd h.symm (natCast_ne_null c2)
    · rw [if_neg hb]

/-- A successful `XDfeMix_AddCCtoCCCfg` keeps the kept properties of a snapshot. -/
theorem add_snapshotOk (InstancePtr : XDfeMix) (CCCfg : XDfeMix_CCCfg) (c B : Nat)
    (CarrierCfg : XDfeMix_CarrierCfg) (NCO : XDfeMix_NCO)
    (hok : snapshotOk InstancePtr CCCfg) (h16 : InstancePtr.SequenceLength ≤ 16)
    (hc : c < XDFEMIX_CC_NUM) (hB : B < 2 ^ 32)
    (hs : (XDfeMix_AddCCtoCCCfg InstancePtr CCCfg (c : Int) B CarrierCfg NCO).1 = XST_SUCCESS) :
    snapshotOk InstancePtr
      (XDfeMix_AddCCtoCCCfg InstancePtr CCCfg (c : Int) B CarrierCfg NCO).2 := by
  obtain ⟨_, hcs, hother⟩ :=
    add_carrierSlots InstancePtr CCCfg c B CarrierCfg NCO hok h16 hc hB hs
  obtain ⟨hL, hlen, hd, hnull, hocc⟩ := hok
  obtain ⟨e1, e2, e3, e4, e5, _, e7, e8, _, _, e11, e12, _⟩ :=
    add_effect InstancePtr CCCfg c B CarrierCfg NCO hL h16 hlen hd hc hB hs
  refine ⟨by rw [e1]; exact hL, e2, e3, ?_, ?_⟩
  · intro i hi hi16
    rw [e1] at hi
    rw [e4 i, if_neg (by rw [e5 i hi]; simp)]
    exact hnull i hi hi16
  · intro c2 hc2
    by_cases h : c2 = c
    · subst h
      rw [hcs, e7]
      exact ⟨e11, e12⟩
    · rw [hother c2 h, e8 c2 h]
      exact hocc c2 hc2

/-- A successful `XDfeMix_UpdateCCinCCCfg` keeps the kept properties of a snapshot. -/
theorem update_snapshotOk (InstancePtr : XDfeMix) (CCCfg : XDfeMix_CCCfg) (c : Nat)
    (CarrierCfg : XDfeMix_CarrierCfg)
    (hok : snapshotOk InstancePtr CCCfg) (hc : c < XDFEMIX_CC_NUM)
    (hs : (XDfeMix_UpdateCCinCCCfg InstancePtr CCCfg (c : Int) CarrierCfg).1 = XST_SUCCESS) :
    snapshotOk InstancePtr (XDfeMix_UpdateCCinCCCfg InstancePtr CCCfg (c : Int) CarrierCfg).2 := by
  obtain ⟨hL, hlen, hd, hnull, hocc⟩ := hok
  have hc16 : c < 16 := hc
  have hd16 : CCCfg.DUCDDCCfg.length = 16 := hd
  rw [(UpdateCCinCCCfg_state InstancePtr CCCfg (c : Int) CarrierCfg).1 hs]
  simp only [Int.toNat_ofNat]
  refine ⟨hL, hlen, by rw [List.length_set]; exact hd, hnull, ?_⟩
  intro c2 hc2
  have hslots : carrierSlots
      { CCCfg with
        DUCDDCCfg := CCCfg.DUCDDCCfg.set c
          { CCCfg.DUCDDCCfg.getD c default with
            NCOIdx := CarrierCfg.DUCDDCCfg.NCOIdx
            CCGain := CarrierCfg.DUCDDCCfg.CCGain } } (c2 : Int)
      = carrierSlots CCCfg (c2 : Int) := rfl
  rw [hslots]
  by_cases h : c2 = c
  · subst h
    rw [getD_set_self _ _ _ _ (by omega)]
    exact hocc c2 hc2
  · rw [getD_set_ne _ _ _ _ _ (Ne.symm h)]
    exact hocc c2 hc2

/-- The slots a carrier holds after `XDfeMix_RemoveCCfromCCCfg` of carrier `c`:
carrier `c` holds none and every other carrier holds what it held. -/
theorem remove_carrierSlots (InstancePtr : XDfeMix) (CCCfg : XDfeMix_CCCfg) (c : Nat)
    (hlen : CCCfg.Sequence.Length ≤ CCCfg.Sequence.CCID.length) :
    carrierSlots (XDfeMix_RemoveCCfromCCCfg InstancePtr CCCfg (c : Int)) (c : Int) = 0 ∧
    ∀ c2 : Nat, c2 ≠ c →
      carrierSlots (XDfeMix_RemoveCCfromCCCfg InstancePtr CCCfg (c : Int)) (c2 : Int)
        = carrierSlots CCCfg (c2 : Int) := by
  have hseq : (XDfeMix_RemoveCCfromCCCfg InstancePtr CCCfg (c : Int)).Sequence
      = XDfeMix_RemoveCCID (c : Int) CCCfg.Sequence := rfl
  have hl := (remove_slots (c : Int) CCCfg.Sequence).1
  constructor
  · rw [carrierSlots_eq_zero]
    intro i hi
    rw [hseq, remove_getD _ _ hlen i]
    rw [hseq, hl] at hi
    by_cases hv : CCCfg.Sequence.CCID.getD i 0 = (c : Int)
    · rw [if_pos ⟨hi, hv⟩]
      exact Ne.symm (natCast_ne_null c)
    · rw [if_neg (fun h => hv h.2)]
      exact hv
  · intro c2 hc2
    apply carrierSlots_congr _ _ _ (by rw [hseq, hl])
    intro i hi
    rw [hseq, remove_getD _ _ hlen i]
    by_cases hv : CCCfg.Sequence.CCID.getD i 0 = (c : Int)
    · rw [if_pos ⟨hi, hv⟩, hv]
      constructor
      · intro h
        exact absurd h.symm (natCast_ne_null c2)
      · intro h
        exact absurd (Int.ofNat_inj.1 h) (Ne.symm hc2)
    · rw [if_neg (fun h => hv h.2)]

/-- The carrier descriptors after `XDfeMix_RemoveCCfromCCCfg`. -/
theorem remove_descriptors (InstancePtr : XDfeMix) (CCCfg : XDfeMix_CCCfg) (c : Nat)
    (hd : c < CCCfg.DUCDDCCfg.length) :
    (XDfeMix_RemoveCCfromCCCfg InstancePtr CCCfg (c : Int)).DUCDDCCfg.getD c default
      = { CCCfg.DUCDDCCfg.getD c default with Rate := 0 } ∧
    (∀ j, j ≠ c →
      (XDfeMix_RemoveCCfromCCCfg InstancePtr CCCfg (c : Int)).DUCDDCCfg.getD j default
        = CCCfg.DUCDDCCfg.getD j default) ∧
    (XDfeMix_RemoveCCfromCCCfg InstancePtr CCCfg (c : Int)).DUCDDCCfg.length
      = CCCfg.DUCDDCCfg.length ∧
    (XDfeMix_RemoveCCfromCCCfg InstancePtr CCCfg (c : Int)).Sequence
      = XDfeMix_RemoveCCID (c : Int) CCCfg.Sequence := by
  unfold XDfeMix_RemoveCCfromCCCfg
  simp only [Int.toNat_ofNat]
  exact ⟨getD_set_self _ _ _ _ hd, fun j hj => getD_set_ne _ _ _ _ _ (Ne.symm hj),
    List.length_set _ _ _, trivial⟩

/-- `XDfeMix_RemoveCCfromCCCfg` keeps the kept properties of a snapshot. -/
theorem remove_snapshotOk (InstancePtr : XDfeMix) (CCCfg : XDfeMix_CCCfg) (c : Nat)
    (hok : snapshotOk InstancePtr CCCfg) (h16 : InstancePtr.SequenceLength ≤ 16)
    (hc : c < XDFEMIX_CC_NUM) :
    snapshotOk InstancePtr (XDfeMix_RemoveCCfromCCCfg InstancePtr CCCfg (c : Int)) := by
  obtain ⟨hL, hlen, hd, hnull, hocc⟩ := hok
  have hlen16 : CCCfg.Sequence.CCID.length = 16 := hlen
  have hle : CCCfg.Sequence.Length ≤ CCCfg.Sequence.CCID.length := by omega
  obtain ⟨hzero, hother⟩ := remove_carrierSlots InstancePtr CCCfg c hle
  have hd16 : CCCfg.DUCDDCCfg.length = 16 := hd
  have hc16 : c < 16 := hc
  obtain ⟨r1, r4, r5, r9⟩ := remove_descriptors InstancePtr CCCfg c (by omega)
  obtain ⟨hl, hl2, _⟩ := remove_slots (c : Int) CCCfg.Sequence
  refine ⟨by rw [r9, hl]; exact hL, by rw [r9, hl2]; exact hlen, by rw [r5]; exact hd, ?_, ?_⟩
  · intro i hi hi16
    rw [r9, hl] at hi
    rw [r9, remove_getD _ _ hle i, if_neg (fun h => absurd h.1 (by omega))]
    exact hnull i hi hi16
  · intro c2 hc2
    by_cases h : c2 = c
    · subst h
      rw [hzero, r1]
      exact ⟨Or.inl rfl, by simp⟩
    · rw [hother c2 h, r4 c2 h]
      exact hocc c2 hc2

/-- One successful builder call keeps the kept properties of a snapshot. -/
theorem runBuilder_snapshotOk (InstancePtr : XDfeMix) (CCCfg CCCfg1 : XDfeMix_CCCfg)
    (Call : XDfeMix_BuilderCall) (h16 : InstancePtr.SequenceLength ≤ 16)
    (hok : snapshotOk InstancePtr CCCfg)
    (hrun : runBuilder InstancePtr CCCfg Call = some CCCfg1) :
    snapshotOk InstancePtr CCCfg1 := by
  cases Call with
  | AddCC c B CarrierCfg NCO =>
    simp only [runBuilder] at hrun
    split_ifs at hrun with h
    cases hrun
    exact add_snapshotOk InstancePtr CCCfg c B CarrierCfg NCO hok h16 h.1 h.2.1 h.2.2
  | UpdateCC c CarrierCfg =>
    simp only [runBuilder] at hrun
    split_ifs at hrun with h
    cases hrun
    exact update_snapshotOk InstancePtr CCCfg c CarrierCfg hok h.1 h.2
  | RemoveCC c =>
    simp only [runBuilder] at hrun
    split_ifs at hrun with h
    cases hrun
    exact remove_snapshotOk InstancePtr CCCfg c hok h16 h

/-- A property of snapshots that every successful builder call keeps holds after a
sequence of successful builder calls. -/
theorem runBuilders_induction (InstancePtr : XDfeMix) (P : XDfeMix_CCCfg → Prop)
    (hstep : ∀ A A1 Call, P A → runBuilder InstancePtr A Call = some A1 → P A1)
    (Calls : List XDfeMix_BuilderCall) (CCCfg CCCfg1 : XDfeMix_CCCfg) (h0 : P CCCfg)
    (hrun : runBuilders InstancePtr CCCfg Calls = some CCCfg1) : P CCCfg1 := by
  induction Calls generalizing CCCfg with
  | nil =>
    simp only [runBuilders] at hrun
    cases hrun
    exact h0
  | cons Call Calls ih =>
    simp only [runBuilders] at hrun
    cases hb : runBuilder InstancePtr CCCfg Call with
    | none => rw [hb] at hrun; simp at hrun
    | some A1 =>
      rw [hb] at hrun
      exact ih A1 (hstep CCCfg A1 Call h0 hb) hrun

/-- C33: on an instance with a sequence length of at most 16, in every snapshot
reached from `XDfeMix_GetEmptyCCCfg` by a sequence of successful calls of
`XDfeMix_AddCCtoCCCfg`, `XDfeMix_UpdateCCinCCCfg` and `XDfeMix_RemoveCCfromCCCfg`
(carrier IDs below 16, 32-bit bitmaps), each carrier ID holds 0, 1, 2, 4, 8 or 16 of
the 16 slots of the sequence array, all of them below the sequence length, and its
rate code is non-zero exactly when it holds at least one slot. -/
theorem C33_occupancy_invariant (InstancePtr : XDfeMix) (Calls : List XDfeMix_BuilderCall)
    (CCCfg : XDfeMix_CCCfg) (c : Nat)
    (h16 : InstancePtr.SequenceLength ≤ 16)
    (hrun : runBuilders InstancePtr (XDfeMix_GetEmptyCCCfg InstancePtr) Calls = some CCCfg)
    (hc : c < XDFEMIX_CC_NUM) :
    (allocatedSlots CCCfg c = 0 ∨ allocatedSlots CCCfg c = 1 ∨ allocatedSlots CCCfg c = 2 ∨
      allocatedSlots CCCfg c = 4 ∨ allocatedSlots CCCfg c = 8 ∨ allocatedSlots CCCfg c = 16) ∧
    ((CCCfg.DUCDDCCfg.getD c default).Rate ≠ 0 ↔ 1 ≤ allocatedSlots CCCfg c) ∧
    allocatedSlots CCCfg c = carrierSlots CCCfg (c : Int) := by
  have hok : snapshotOk InstancePtr CCCfg :=
    runBuilders_induction InstancePtr (snapshotOk InstancePtr)
      (fun A A1 Call hA hr => runBuilder_snapshotOk InstancePtr A A1 Call h16 hA hr)
      Calls _ CCCfg (empty_snapshotOk InstancePtr h16) hrun
  obtain ⟨hL, _, _, hnull, hocc⟩ := hok
  have heq := allocatedSlots_eq CCCfg c (by rw [hL]; exact h16) hnull
  rw [heq]
  exact ⟨(hocc c hc).1, (hocc c hc).2, rfl⟩

/-- Witness for C33 on the ARCH4 example instance: after adding carrier 0 on 8 slots
and carrier 1 on one slot, moving carrier 1 to another NCO and removing carrier 0,
carrier 1 holds one slot at a non-zero rate code and carrier 0 holds none at rate
code 0. -/
theorem C33_occupancy_invariant_witness :
    ∃ CCCfg, runBuilders arch4Instance (XDfeMix_GetEmptyCCCfg arch4Instance) exampleCalls
        = some CCCfg ∧
      allocatedSlots CCCfg 1 = 1 ∧ (CCCfg.DUCDDCCfg.getD 1 default).Rate = 5 ∧
      allocatedSlots CCCfg 0 = 0 ∧ (CCCfg.DUCDDCCfg.getD 0 default).Rate = 0 ∧
      ((CCCfg.DUCDDCCfg.getD 1 default).Rate ≠ 0 ↔ 1 ≤ allocatedSlots CCCfg 1) :=
  ⟨(runBuilders arch4Instance (XDfeMix_GetEmptyCCCfg arch4Instance) exampleCalls).getD default,
    by decide, by decide, by decide, by decide, by decide,
    (C33_occupancy_invariant arch4Instance exampleCalls
      ((runBuilders arch4Instance (XDfeMix_GetEmptyCCCfg arch4Instance) exampleCalls).getD
        default) 1 (by decide) (by decide) (by decide)).2.1⟩

/-! ## The ARCH4 capacity bound along builder calls -/

/-- The value of the ARCH4 add check on a snapshot whose sequence length is the
instance's. -/
theorem arch4_add_eq (InstancePtr : XDfeMix) (CCCfg : XDfeMix_CCCfg) (CCID : Int)
    (CCSeqBitmap NCOIdx : Nat)
    (hL : CCCfg.Sequence.Length = InstancePtr.SequenceLength)
    (h16 : InstancePtr.SequenceLength ≤ 16) :
    XDfeMix_NCOArch4ModeInAddCC InstancePtr CCCfg CCID CCSeqBitmap NCOIdx
      = if 2 * (arch4Usage CCCfg NCOIdx + XDfeMix_CountOnesInBitmap InstancePtr CCSeqBitmap)
          > InstancePtr.SequenceLength then XST_FAILURE else XST_SUCCESS := by
  have hk := countOnes_le InstancePtr CCSeqBitmap
  have hlo := slotsHeldBy_le CCCfg arch4Low
  have hhi := slotsHeldBy_le CCCfg arch4High
  unfold XDfeMix_NCOArch4ModeInAddCC
  rw [NCOArch4Mode_eq InstancePtr CCCfg hL (by omega), arch4Usage_eq]
  simp only [XDFEMIX_NCO_LOW_SUB_BLOCK_SIZE, if_neg (show ¬ (XST_SUCCESS = XST_FAILURE) by decide)]
  by_cases hn : NCOIdx < 4
  · simp only [if_pos hn]
    rw [u32_usage_mul _ _ 2 (by omega) hk (by omega)]
  · simp only [if_neg hn]
    rw [u32_usage_mul _ _ 2 (by omega) hk (by omega)]

/-- The slots held by carriers with a property are the slots so held by the carriers
other than `c`, plus the slots of `c` when `c` has the property. -/
theorem slotsHeldBy_split (A : XDfeMix_CCCfg) (P : XDfeMix_DUCDDCCfg → Bool) (c : Nat)
    (hc : c < XDFEMIX_CC_NUM) :
    slotsHeldBy A P = slotsHeldByOthers A P c +
      (if P (A.DUCDDCCfg.getD c default) = true then carrierSlots A (c : Int) else 0) := by
  unfold slotsHeldBy slotsHeldByOthers carrierSlots
  rw [countP_split (List.range A.Sequence.Length) (heldBelow A P XDFEMIX_CC_NUM)
    (fun i => heldBelow A P XDFEMIX_CC_NUM i && !decide (A.Sequence.CCID.getD i 0 = (c : Int)))
    (fun i => decide (A.Sequence.CCID.getD i 0 = (c : Int)) && P (A.DUCDDCCfg.getD c default))]
  · congr 1
    by_cases hP : P (A.DUCDDCCfg.getD c default) = true
    · rw [if_pos hP]
      apply List.countP_congr
      intro i _
      simp only [hP, Bool.and_true]
    · rw [if_neg hP, List.countP_eq_zero]
      intro i _
      simp only [Bool.not_eq_true] at hP
      simp only [hP, Bool.and_false, Bool.false_eq_true, not_false_eq_true]
  · intro i _
    generalize hx : A.Sequence.CCID.getD i 0 = x
    by_cases hxc : x = (c : Int)
    · subst hxc
      unfold heldBelow
      rw [hx]
      simp only [Int.toNat_ofNat, decide_True, Bool.not_true, Bool.and_false, Bool.false_or,
        Bool.true_and, Bool.and_eq_true, decide_eq_true_eq, Bool.false_eq_true, false_and,
        not_false_eq_true, and_true]
      simp [hc]
    · simp only [hxc, decide_False, Bool.not_false, Bool.and_true, Bool.false_and, Bool.or_false,
        Bool.false_eq_true, and_false, not_false_eq_true, and_self]

/-- The slots held by the carriers other than `c` are the same in two snapshots that
differ only in the descriptor of `c` and in slots that are null or hold `c`. -/
theorem others_eq (A B : XDfeMix_CCCfg) (P : XDfeMix_DUCDDCCfg → Bool) (c : Nat)
    (hL : B.Sequence.Length = A.Sequence.Length)
    (hslot : ∀ i, i < A.Sequence.Length →
      B.Sequence.CCID.getD i 0 = A.Sequence.CCID.getD i 0 ∨
      ((A.Sequence.CCID.getD i 0 = (c : Int) ∨
          A.Sequence.CCID.getD i 0 = XDFEMIX_SEQUENCE_ENTRY_NULL) ∧
        (B.Sequence.CCID.getD i 0 = (c : Int) ∨
          B.Sequence.CCID.getD i 0 = XDFEMIX_SEQUENCE_ENTRY_NULL)))
    (hdesc : ∀ j, j ≠ c → B.DUCDDCCfg.getD j default = A.DUCDDCCfg.getD j default) :
    slotsHeldByOthers B P c = slotsHeldByOthers A P c := by
  have hside : ∀ (C : XDfeMix_CCCfg) (i : Nat),
      (C.Sequence.CCID.getD i 0 = (c : Int) ∨
        C.Sequence.CCID.getD i 0 = XDFEMIX_SEQUENCE_ENTRY_NULL) →
      (heldBelow C P XDFEMIX_CC_NUM i && !decide (C.Sequence.CCID.getD i 0 = (c : Int)))
        = false := by
    intro C i h
    rcases h with h | h
    · rw [h]
      simp
    · unfold heldBelow
      rw [h]
      simp [XDFEMIX_SEQUENCE_ENTRY_NULL]
  unfold slotsHeldByOthers
  rw [hL]
  apply List.countP_congr
  intro i hi
  have hi' := List.mem_range.1 hi
  rcases hslot i hi' with h | ⟨hA, hB⟩
  · have hb : (heldBelow B P XDFEMIX_CC_NUM i && !decide (B.Sequence.CCID.getD i 0 = (c : Int)))
        = (heldBelow A P XDFEMIX_CC_NUM i && !decide (A.Sequence.CCID.getD i 0 = (c : Int))) := by
      unfold heldBelow
      rw [h]
      generalize A.Sequence.CCID.getD i 0 = x
      by_cases hxc : x = (c : Int)
      · simp [hxc]
      · by_cases hx0 : 0 ≤ x
        · have hne : x.toNat ≠ c := by
            intro e
            apply hxc
            omega
          rw [hdesc _ hne]
        · simp [hx0]
    rw [hb]
  · rw [hside B i hB, hside A i hA]

/-- The slots held by carriers with a property before and after a change that
touches only the descriptor of `c` and slots that are null or hold `c`. -/
theorem usage_after (A B : XDfeMix_CCCfg) (P : XDfeMix_DUCDDCCfg → Bool) (c : Nat)
    (hc : c < XDFEMIX_CC_NUM)
    (hL : B.Sequence.Length = A.Sequence.Length)
    (hslot : ∀ i, i < A.Sequence.Length →
      B.Sequence.CCID.getD i 0 = A.Sequence.CCID.getD i 0 ∨
      ((A.Sequence.CCID.getD i 0 = (c : Int) ∨
          A.Sequence.CCID.getD i 0 = XDFEMIX_SEQUENCE_ENTRY_NULL) ∧
        (B.Sequence.CCID.getD i 0 = (c : Int) ∨
          B.Sequence.CCID.getD i 0 = XDFEMIX_SEQUENCE_ENTRY_NULL)))
    (hdesc : ∀ j, j ≠ c → B.DUCDDCCfg.getD j default = A.DUCDDCCfg.getD j default) :
    slotsHeldBy B P
        + (if P (A.DUCDDCCfg.getD c default) = true then carrierSlots A (c : Int) else 0)
      = slotsHeldBy A P
        + (if P (B.DUCDDCCfg.getD c default) = true then carrierSlots B (c : Int) else 0) := by
  rw [slotsHeldBy_split A P c hc, slotsHeldBy_split B P c hc,
    others_eq A B P c hL hslot hdesc]
  omega

theorem addCheck_arch4 (InstancePtr : XDfeMix) (CCCfg : XDfeMix_CCCfg) (CCID : Int)
    (B NCOIdx : Nat) (harch : XDFEMIX_IS_ARCH4_MODE InstancePtr = true)
    (h : XDfeMix_CheckCarrierCfginAddCC InstancePtr CCCfg CCID B NCOIdx = XST_SUCCESS) :
    XDfeMix_NCOArch4ModeInAddCC InstancePtr CCCfg CCID B NCOIdx = XST_SUCCESS := by
  by_contra hne
  have hf := (status_ne _).2 hne
  unfold XDfeMix_CheckCarrierCfginAddCC at h
  rw [if_pos harch, if_pos hf] at h
  split_ifs at h

theorem updateCheck_arch4 (InstancePtr : XDfeMix) (CCCfg : XDfeMix_CCCfg) (CCID : Int)
    (NCOIdx : Nat) (harch : XDFEMIX_IS_ARCH4_MODE InstancePtr = true)
    (h : XDfeMix_CheckCarrierCfgInUpdateCC InstancePtr CCCfg CCID NCOIdx = XST_SUCCESS) :
    XDfeMix_NCOArch4ModeInMoveOrUpdateCC InstancePtr CCCfg CCID NCOIdx = XST_SUCCESS := by
  by_contra hne
  have hf := (status_ne _).2 hne
  unfold XDfeMix_CheckCarrierCfgInUpdateCC at h
  rw [if_pos harch, if_pos hf] at h
  split_ifs at h

/-- What a successful `XDfeMix_UpdateCCinCCCfg` has checked. -/
theorem update_success_checks (InstancePtr : XDfeMix) (CCCfg : XDfeMix_CCCfg) (CCID : Int)
    (CarrierCfg : XDfeMix_CarrierCfg)
    (hs : (XDfeMix_UpdateCCinCCCfg InstancePtr CCCfg CCID CarrierCfg).1 = XST_SUCCESS) :
    XDfeMix_CheckCarrierCfgInUpdateCC InstancePtr CCCfg CCID CarrierCfg.DUCDDCCfg.NCOIdx
      = XST_SUCCESS ∧
    CarrierCfg.DUCDDCCfg.NCOIdx < InstancePtr.Config.MaxUseableCcids := by
  unfold XDfeMix_UpdateCCinCCCfg XDfeMix_UpdateCCDDC at hs
  simp only [] at hs
  by_cases h1 : XDfeMix_CheckCarrierCfgInUpdateCC InstancePtr CCCfg CCID
      CarrierCfg.DUCDDCCfg.NCOIdx = XST_FAILURE
  · rw [if_pos h1] at hs
    exact absurd hs (by simp)
  · rw [if_neg h1] at hs
    by_cases h2 : CarrierCfg.DUCDDCCfg.NCOIdx ≥ InstancePtr.Config.MaxUseableCcids
    · rw [if_pos h2] at hs
      simp at hs
    · exact ⟨by_contra (fun h => h1 ((status_ne _).2 h)), by omega⟩

theorem arch4_max (InstancePtr : XDfeMix) (harch : XDFEMIX_IS_ARCH4_MODE InstancePtr = true) :
    InstancePtr.Config.MaxUseableCcids = 8 := by
  unfold XDFEMIX_IS_ARCH4_MODE at harch
  simp only [Bool.and_eq_true, beq_iff_eq, decide_eq_true_eq] at harch
  exact harch.1

theorem arch4Low_eq (d : XDfeMix_DUCDDCCfg) :
    arch4Low d = true ↔ d.Rate ≠ 0 ∧ d.NCOIdx < 4 := by
  simp [arch4Low]

theorem arch4High_eq (d : XDfeMix_DUCDDCCfg) :
    arch4High d = true ↔ d.Rate ≠ 0 ∧ 4 ≤ d.NCOIdx := by
  simp [arch4High]

/-- A successful `XDfeMix_AddCCtoCCCfg` on an ARCH4 instance keeps the capacity
bound. -/
theorem add_arch4 (InstancePtr : XDfeMix) (CCCfg : XDfeMix_CCCfg) (c B : Nat)
    (CarrierCfg : XDfeMix_CarrierCfg) (NCO : XDfeMix_NCO)
    (harch : XDFEMIX_IS_ARCH4_MODE InstancePtr = true)
    (hok : snapshotOk InstancePtr CCCfg) (hcap : arch4CapacityOk InstancePtr CCCfg)
    (h16 : InstancePtr.SequenceLength ≤ 16) (hc : c < XDFEMIX_CC_NUM) (hB : B < 2 ^ 32)
    (hs : (XDfeMix_AddCCtoCCCfg InstancePtr CCCfg (c : Int) B CarrierCfg NCO).1 = XST_SUCCESS) :
    arch4CapacityOk InstancePtr
      (XDfeMix_AddCCtoCCCfg InstancePtr CCCfg (c : Int) B CarrierCfg NCO).2 := by
  obtain ⟨hz, hk, _⟩ := add_carrierSlots InstancePtr CCCfg c B CarrierCfg NCO hok h16 hc hB hs
  obtain ⟨hL, hlen, hd, _, _⟩ := hok
  obtain ⟨e1, _, _, e4, _, e6, e7, e8, e9, e10, _, _, e13⟩ :=
    add_effect InstancePtr CCCfg c B CarrierCfg NCO hL h16 hlen hd hc hB hs
  obtain ⟨hlow, hhigh, hnco⟩ := hcap
  have hchk := addCheck_arch4 InstancePtr CCCfg (c : Int) B CarrierCfg.DUCDDCCfg.NCOIdx harch e13
  rw [arch4_add_eq InstancePtr CCCfg (c : Int) B CarrierCfg.DUCDDCCfg.NCOIdx hL h16,
    countOnes_eq_popcountLow InstancePtr B (by omega), arch4Usage_eq] at hchk
  have hchk2 : ¬ (2 * ((if CarrierCfg.DUCDDCCfg.NCOIdx < 4 then slotsHeldBy CCCfg arch4Low
      else slotsHeldBy CCCfg arch4High) + popcountLow B InstancePtr.SequenceLength)
      > InstancePtr.SequenceLength) := by
    intro hgt
    rw [if_pos hgt] at hchk
    exact absurd hchk (by simp)
  have hslot : ∀ i, i < CCCfg.Sequence.Length →
      (XDfeMix_AddCCtoCCCfg InstancePtr CCCfg (c : Int) B CarrierCfg NCO).2.Sequence.CCID.getD i 0
        = CCCfg.Sequence.CCID.getD i 0 ∨
      ((CCCfg.Sequence.CCID.getD i 0 = (c : Int) ∨
          CCCfg.Sequence.CCID.getD i 0 = XDFEMIX_SEQUENCE_ENTRY_NULL) ∧
        ((XDfeMix_AddCCtoCCCfg InstancePtr CCCfg (c : Int) B CarrierCfg
            NCO).2.Sequence.CCID.getD i 0 = (c : Int) ∨
          (XDfeMix_AddCCtoCCCfg InstancePtr CCCfg (c : Int) B CarrierCfg
            NCO).2.Sequence.CCID.getD i 0 = XDFEMIX_SEQUENCE_ENTRY_NULL)) := by
    intro i hi
    rw [e4 i]
    by_cases hb : B.testBit i = true
    · rw [if_pos hb]
      exact Or.inr ⟨Or.inr (e6 i hi hb), Or.inl rfl⟩
    · rw [if_neg hb]
      exact Or.inl rfl
  have hu := fun P => usage_after CCCfg
    (XDfeMix_AddCCtoCCCfg InstancePtr CCCfg (c : Int) B CarrierCfg NCO).2 P c hc e1 hslot e8
  have hul := hu arch4Low
  have huh := hu arch4High
  rw [hz, hk, e7] at hul huh
  simp only [ite_self, Nat.add_zero] at hul huh
  rw [arch4Usage_eq] at hlow hhigh
  rw [if_pos (by decide)] at hlow
  rw [if_neg (by decide)] at hhigh
  refine ⟨?_, ?_, ?_⟩
  · rw [arch4Usage_eq, if_pos (by decide), hul]
    by_cases hp : arch4Low (⟨CarrierCfg.DUCDDCCfg.NCOIdx, (XDfeMix_FindRate InstancePtr B 0).2,
        CarrierCfg.DUCDDCCfg.CCGain⟩ : XDfeMix_DUCDDCCfg) = true
    · rw [if_pos hp]
      have hn := ((arch4Low_eq _).1 hp).2
      simp only [] at hn
      rw [if_pos hn] at hchk2
      omega
    · rw [if_neg hp]
      omega
  · rw [arch4Usage_eq, if_neg (by decide), huh]
    by_cases hp : arch4High (⟨CarrierCfg.DUCDDCCfg.NCOIdx, (XDfeMix_FindRate InstancePtr B 0).2,
        CarrierCfg.DUCDDCCfg.CCGain⟩ : XDfeMix_DUCDDCCfg) = true
    · rw [if_pos hp]
      have hn := ((arch4High_eq _).1 hp).2
      simp only [] at hn
      rw [if_neg (by omega)] at hchk2
      omega
    · rw [if_neg hp]
      omega
  · intro c2 hc2 hr
    by_cases h : c2 = c
    · subst h
      rw [e7]
      simp only []
      rw [arch4_max InstancePtr harch] at e10
      exact e10
    · rw [e8 c2 h] at hr ⊢
      exact hnco c2 hc2 hr

/-- A successful `XDfeMix_UpdateCCinCCCfg` on an ARCH4 instance keeps the capacity
bound. -/
theorem update_arch4 (InstancePtr : XDfeMix) (CCCfg : XDfeMix_CCCfg) (c : Nat)
    (CarrierCfg : XDfeMix_CarrierCfg)
    (harch : XDFEMIX_IS_ARCH4_MODE InstancePtr = true)
    (hok : snapshotOk InstancePtr CCCfg) (hcap : arch4CapacityOk InstancePtr CCCfg)
    (h16 : InstancePtr.SequenceLength ≤ 16) (hc : c < XDFEMIX_CC_NUM)
    (hs : (XDfeMix_UpdateCCinCCCfg InstancePtr CCCfg (c : Int) CarrierCfg).1 = XST_SUCCESS) :
    arch4CapacityOk InstancePtr
      (XDfeMix_UpdateCCinCCCfg InstancePtr CCCfg (c : Int) CarrierCfg).2 := by
  obtain ⟨hL, hlen, hd, _, _⟩ := hok
  obtain ⟨hlow, hhigh, hnco⟩ := hcap
  have hc16 : c < 16 := hc
  have hd16 : CCCfg.DUCDDCCfg.length = 16 := hd
  obtain ⟨hchk0, hmax⟩ := update_success_checks InstancePtr CCCfg (c : Int) CarrierCfg hs
  have hchk := updateCheck_arch4 InstancePtr CCCfg (c : Int) CarrierCfg.DUCDDCCfg.NCOIdx harch
    hchk0
  rw [arch4_move_eq InstancePtr CCCfg c CarrierCfg.DUCDDCCfg.NCOIdx hL h16, arch4Usage_eq] at hchk
  rw [arch4_max InstancePtr harch] at hmax
  rw [arch4Usage_eq] at hlow hhigh
  rw [if_pos (by decide)] at hlow
  rw [if_neg (by decide)] at hhigh
  rw [(UpdateCCinCCCfg_state InstancePtr CCCfg (c : Int) CarrierCfg).1 hs]
  simp only [Int.toNat_ofNat]
  generalize hB : ({ CCCfg with
      DUCDDCCfg := CCCfg.DUCDDCCfg.set c
        { CCCfg.DUCDDCCfg.getD c default with
          NCOIdx := CarrierCfg.DUCDDCCfg.NCOIdx
          CCGain := CarrierCfg.DUCDDCCfg.CCGain } } : XDfeMix_CCCfg) = Bc
  have hseq : Bc.Sequence = CCCfg.Sequence := by rw [← hB]
  have hdc : Bc.DUCDDCCfg.getD c default
      = (⟨CarrierCfg.DUCDDCCfg.NCOIdx, (CCCfg.DUCDDCCfg.getD c default).Rate,
          CarrierCfg.DUCDDCCfg.CCGain⟩ : XDfeMix_DUCDDCCfg) := by
    rw [← hB]
    exact getD_set_self _ _ _ _ (by omega)
  have hdo : ∀ j, j ≠ c → Bc.DUCDDCCfg.getD j default = CCCfg.DUCDDCCfg.getD j default := by
    intro j hj
    rw [← hB]
    exact getD_set_ne _ _ _ _ _ (Ne.symm hj)
  have hslots : carrierSlots Bc (c : Int) = carrierSlots CCCfg (c : Int) := by
    unfold carrierSlots
    rw [hseq]
  have hu := fun P => usage_after CCCfg Bc P c hc (by rw [hseq])
    (fun i _ => Or.inl (by rw [hseq])) hdo
  have hul := hu arch4Low
  have huh := hu arch4High
  rw [hslots, hdc] at hul huh
  generalize hdold : CCCfg.DUCDDCCfg.getD c default = d at hul huh hchk hdc
  have hkle := carrierSlots_le CCCfg (c : Int)
  generalize carrierSlots CCCfg (c : Int) = k at hul huh hchk hkle
  have eL : arch4Low d = true ↔ d.Rate ≠ 0 ∧ d.NCOIdx < 4 := arch4Low_eq d
  have eH : arch4High d = true ↔ d.Rate ≠ 0 ∧ 4 ≤ d.NCOIdx := arch4High_eq d
  have eL' : arch4Low (⟨CarrierCfg.DUCDDCCfg.NCOIdx, d.Rate,
      CarrierCfg.DUCDDCCfg.CCGain⟩ : XDfeMix_DUCDDCCfg) = true
      ↔ d.Rate ≠ 0 ∧ CarrierCfg.DUCDDCCfg.NCOIdx < 4 := arch4Low_eq _
  have eH' : arch4High (⟨CarrierCfg.DUCDDCCfg.NCOIdx, d.Rate,
      CarrierCfg.DUCDDCCfg.CCGain⟩ : XDfeMix_DUCDDCCfg) = true
      ↔ d.Rate ≠ 0 ∧ 4 ≤ CarrierCfg.DUCDDCCfg.NCOIdx := arch4High_eq _
  generalize arch4Low (⟨CarrierCfg.DUCDDCCfg.NCOIdx, d.Rate,
      CarrierCfg.DUCDDCCfg.CCGain⟩ : XDfeMix_DUCDDCCfg) = bL' at hul eL'
  generalize arch4High (⟨CarrierCfg.DUCDDCCfg.NCOIdx, d.Rate,
      CarrierCfg.DUCDDCCfg.CCGain⟩ : XDfeMix_DUCDDCCfg) = bH' at huh eH'
  generalize arch4Low d = bL at hul eL
  generalize arch4High d = bH at huh eH
  refine ⟨?_, ?_, ?_⟩
  · rw [arch4Usage_eq, if_pos (by decide)]
    by_cases hr : d.Rate = 0
    · have h1 : ¬ (bL = true) := fun h => (eL.1 h).1 hr
      have h2 : ¬ (bL' = true) := fun h => (eL'.1 h).1 hr
      rw [if_neg h1, if_neg h2] at hul
      omega
    · by_cases ho : d.NCOIdx < 4 <;> by_cases hn : CarrierCfg.DUCDDCCfg.NCOIdx < 4
      · rw [if_pos (eL.2 ⟨hr, ho⟩), if_pos (eL'.2 ⟨hr, hn⟩)] at hul
        omega
      · rw [if_pos (eL.2 ⟨hr, ho⟩), if_neg (fun h => hn (eL'.1 h).2)] at hul
        omega
      · rw [if_neg (fun h => ho (eL.1 h).2), if_pos (eL'.2 ⟨hr, hn⟩)] at hul
        rw [if_neg (by omega), if_pos hn] at hchk
        split_ifs at hchk
        omega
      · rw [if_neg (fun h => ho (eL.1 h).2), if_neg (fun h => hn (eL'.1 h).2)] at hul
        omega
  · rw [arch4Usage_eq, if_neg (by decide)]
    by_cases hr : d.Rate = 0
    · have h1 : ¬ (bH = true) := fun h => (eH.1 h).1 hr
      have h2 : ¬ (bH' = true) := fun h => (eH'.1 h).1 hr
      rw [if_neg h1, if_neg h2] at huh
      omega
    · by_cases ho : d.NCOIdx < 4 <;> by_cases hn : CarrierCfg.DUCDDCCfg.NCOIdx < 4
      · rw [if_neg (fun h => by have := (eH.1 h).2; omega),
          if_neg (fun h => by have := (eH'.1 h).2; omega)] at huh
        omega
      · rw [if_neg (fun h => by have := (eH.1 h).2; omega),
          if_pos (eH'.2 ⟨hr, by omega⟩)] at huh
        rw [if_neg (by omega), if_neg hn] at hchk
        split_ifs at hchk
        omega
      · rw [if_pos (eH.2 ⟨hr, by omega⟩),
          if_neg (fun h => by have := (eH'.1 h).2; omega)] at huh
        omega
      · rw [if_pos (eH.2 ⟨hr, by omega⟩), if_pos (eH'.2 ⟨hr, by omega⟩)] at huh
        omega
  · intro c2 hc2 hr
    by_cases h : c2 = c
    · subst h
      rw [hdc]
      simp only []
      exact hmax
    · rw [hdo c2 h] at hr ⊢
      exact hnco c2 hc2 hr

/-- `XDfeMix_RemoveCCfromCCCfg` keeps the ARCH4 capacity bound. -/
theorem remove_arch4 (InstancePtr : XDfeMix) (CCCfg : XDfeMix_CCCfg) (c : Nat)
    (hok : snapshotOk InstancePtr CCCfg) (hcap : arch4CapacityOk InstancePtr CCCfg)
    (h16 : InstancePtr.SequenceLength ≤ 16) (hc : c < XDFEMIX_CC_NUM) :
    arch4CapacityOk InstancePtr (XDfeMix_RemoveCCfromCCCfg InstancePtr CCCfg (c : Int)) := by
  obtain ⟨hL, hlen, hd, _, _⟩ := hok
  obtain ⟨hlow, hhigh, hnco⟩ := hcap
  have hc16 : c < 16 := hc
  have hd16 : CCCfg.DUCDDCCfg.length = 16 := hd
  have hlen16 : CCCfg.Sequence.CCID.length = 16 := hlen
  have hle : CCCfg.Sequence.Length ≤ CCCfg.Sequence.CCID.length := by omega
  obtain ⟨r1, r4, _, r9⟩ := remove_descriptors InstancePtr CCCfg c (by omega)
  obtain ⟨hzero, _⟩ := remove_carrierSlots InstancePtr CCCfg c hle
  have hl := (remove_slots (c : Int) CCCfg.Sequence).1
  have hslot : ∀ i, i < CCCfg.Sequence.Length →
      (XDfeMix_RemoveCCfromCCCfg InstancePtr CCCfg (c : Int)).Sequence.CCID.getD i 0
        = CCCfg.Sequence.CCID.getD i 0 ∨
      ((CCCfg.Sequence.CCID.getD i 0 = (c : Int) ∨
          CCCfg.Sequence.CCID.getD i 0 = XDFEMIX_SEQUENCE_ENTRY_NULL) ∧
        ((XDfeMix_RemoveCCfromCCCfg InstancePtr CCCfg (c : Int)).Sequence.CCID.getD i 0
            = (c : Int) ∨
          (XDfeMix_RemoveCCfromCCCfg InstancePtr CCCfg (c : Int)).Sequence.CCID.getD i 0
            = XDFEMIX_SEQUENCE_ENTRY_NULL)) := by
    intro i hi
    rw [r9, remove_getD _ _ hle i]
    by_cases hv : CCCfg.Sequence.CCID.getD i 0 = (c : Int)
    · rw [if_pos ⟨hi, hv⟩]
      exact Or.inr ⟨Or.inl hv, Or.inr rfl⟩
    · rw [if_neg (fun h => hv h.2)]
      exact Or.inl rfl
  have hu := fun P => usage_after CCCfg (XDfeMix_RemoveCCfromCCCfg InstancePtr CCCfg (c : Int))
    P c hc (by rw [r9, hl]) hslot r4
  have hul := hu arch4Low
  have huh := hu arch4High
  rw [hzero] at hul huh
  simp only [ite_self, Nat.add_zero] at hul huh
  rw [arch4Usage_eq] at hlow hhigh
  rw [if_pos (by decide)] at hlow
  rw [if_neg (by decide)] at hhigh
  refine ⟨?_, ?_, ?_⟩
  · rw [arch4Usage_eq, if_pos (by decide)]
    omega
  · rw [arch4Usage_eq, if_neg (by decide)]
    omega
  · intro c2 hc2 hr
    by_cases h : c2 = c
    · subst h
      rw [r1] at hr
      exact absurd rfl hr
    · rw [r4 c2 h] at hr ⊢
      exact hnco c2 hc2 hr

/-- The empty snapshot has the ARCH4 capacity bound. -/
theorem empty_arch4 (InstancePtr : XDfeMix) (h16 : InstancePtr.SequenceLength ≤ 16) :
    arch4CapacityOk InstancePtr (XDfeMix_GetEmptyCCCfg InstancePtr) := by
  have hzero : ∀ P, slotsHeldBy (XDfeMix_GetEmptyCCCfg InstancePtr) P = 0 := by
    intro P
    unfold slotsHeldBy
    rw [List.countP_eq_zero]
    intro i hi
    have hi16 : i < 16 := by
      have h1 := List.mem_range.1 hi
      have : (XDfeMix_GetEmptyCCCfg InstancePtr).Sequence.Length
          = InstancePtr.SequenceLength := rfl
      omega
    have hx : (XDfeMix_GetEmptyCCCfg InstancePtr).Sequence.CCID.getD i 0
        = XDFEMIX_SEQUENCE_ENTRY_NULL := by
      unfold XDfeMix_GetEmptyCCCfg
      simp only [List.getD_eq_getElem?_getD, List.getElem?_replicate, XDFEMIX_CC_NUM]
      rw [if_pos hi16]
      rfl
    unfold heldBelow
    rw [hx]
    simp [XDFEMIX_SEQUENCE_ENTRY_NULL]
  refine ⟨?_, ?_, ?_⟩
  · rw [arch4Usage, hzero]
    omega
  · rw [arch4Usage, hzero]
    omega
  · intro c _ hr
    exfalso
    apply hr
    unfold XDfeMix_GetEmptyCCCfg
    simp only [List.getD_eq_getElem?_getD, List.getElem?_replicate]
    split <;> rfl

/-- One successful builder call on an ARCH4 instance keeps the kept properties and
the capacity bound of a snapshot. -/
theorem runBuilder_arch4 (InstancePtr : XDfeMix) (CCCfg CCCfg1 : XDfeMix_CCCfg)
    (Call : XDfeMix_BuilderCall) (harch : XDFEMIX_IS_ARCH4_MODE InstancePtr = true)
    (h16 : InstancePtr.SequenceLength ≤ 16)
    (hok : snapshotOk InstancePtr CCCfg ∧ arch4CapacityOk InstancePtr CCCfg)
    (hrun : runBuilder InstancePtr CCCfg Call = some CCCfg1) :
    snapshotOk InstancePtr CCCfg1 ∧ arch4CapacityOk InstancePtr CCCfg1 := by
  refine ⟨runBuilder_snapshotOk InstancePtr CCCfg CCCfg1 Call h16 hok.1 hrun, ?_⟩
  cases Call with
  | AddCC c B CarrierCfg NCO =>
    simp only [runBuilder] at hrun
    split_ifs at hrun with h
    cases hrun
    exact add_arch4 InstancePtr CCCfg c B CarrierCfg NCO harch hok.1 hok.2 h16 h.1 h.2.1 h.2.2
  | UpdateCC c CarrierCfg =>
    simp only [runBuilder] at hrun
    split_ifs at hrun with h
    cases hrun
    exact update_arch4 InstancePtr CCCfg c CarrierCfg harch hok.1 hok.2 h16 h.1 h.2
  | RemoveCC c =>
    simp only [runBuilder] at hrun
    split_ifs at hrun with h
    cases hrun
    exact remove_arch4 InstancePtr CCCfg c hok.1 hok.2 h16 h

/-- Two properties of descriptors that agree on the descriptors of the carrier IDs
below 16 count the same slots. -/
theorem slotsHeldBy_congr (A : XDfeMix_CCCfg) (P Q : XDfeMix_DUCDDCCfg → Bool)
    (h : ∀ c, c < XDFEMIX_CC_NUM → P (A.DUCDDCCfg.getD c default) = Q (A.DUCDDCCfg.getD c default)) :
    slotsHeldBy A P = slotsHeldBy A Q := by
  unfold slotsHeldBy
  apply List.countP_congr
  intro i _
  unfold heldBelow
  generalize A.Sequence.CCID.getD i 0 = x
  by_cases hx : x.toNat < XDFEMIX_CC_NUM
  · rw [h _ hx]
  · simp [hx]

/-- C39: on an ARCH4 instance (8 usable carrier IDs, more than one lane) with a
sequence length of at most 16, in every snapshot reached from `XDfeMix_GetEmptyCCCfg`
by a sequence of successful calls of `XDfeMix_AddCCtoCCCfg`, `XDfeMix_UpdateCCinCCCfg`
and `XDfeMix_RemoveCCfromCCCfg` (carrier IDs below 16, 32-bit bitmaps), twice the
number of sequence slots held by active carriers on the NCOs 0-3 is at most the
sequence length, and so is twice the number of sequence slots held by active carriers
on the NCOs 4-7; every active carrier is on an NCO below 8, so these are all the slots
of active carriers. -/
theorem C39_arch4_capacity_invariant (InstancePtr : XDfeMix)
    (Calls : List XDfeMix_BuilderCall) (CCCfg : XDfeMix_CCCfg)
    (hmax : InstancePtr.Config.MaxUseableCcids = 8) (hlanes : 1 < InstancePtr.Config.Lanes)
    (h16 : InstancePtr.SequenceLength ≤ 16)
    (hrun : runBuilders InstancePtr (XDfeMix_GetEmptyCCCfg InstancePtr) Calls = some CCCfg) :
    2 * slotsHeldBy CCCfg (fun d => decide (d.Rate ≠ 0) && decide (d.NCOIdx < 4))
      ≤ InstancePtr.SequenceLength ∧
    2 * slotsHeldBy CCCfg
        (fun d => decide (d.Rate ≠ 0) && decide (4 ≤ d.NCOIdx ∧ d.NCOIdx < 8))
      ≤ InstancePtr.SequenceLength ∧
    (∀ c, c < XDFEMIX_CC_NUM → (CCCfg.DUCDDCCfg.getD c default).Rate ≠ 0 →
      (CCCfg.DUCDDCCfg.getD c default).NCOIdx < 8) ∧
    arch4Usage CCCfg 0
      = slotsHeldBy CCCfg (fun d => decide (d.Rate ≠ 0) && decide (d.NCOIdx < 4)) ∧
    arch4Usage CCCfg 4
      = slotsHeldBy CCCfg
          (fun d => decide (d.Rate ≠ 0) && decide (4 ≤ d.NCOIdx ∧ d.NCOIdx < 8)) := by
  have harch : XDFEMIX_IS_ARCH4_MODE InstancePtr = true := by
    unfold XDFEMIX_IS_ARCH4_MODE
    simp [hmax, hlanes]
  have hok : snapshotOk InstancePtr CCCfg ∧ arch4CapacityOk InstancePtr CCCfg :=
    runBuilders_induction InstancePtr
      (fun A => snapshotOk InstancePtr A ∧ arch4CapacityOk InstancePtr A)
      (fun A A1 Call hA hr => runBuilder_arch4 InstancePtr A A1 Call harch h16 hA hr)
      Calls _ CCCfg ⟨empty_snapshotOk InstancePtr h16, empty_arch4 InstancePtr h16⟩ hrun
  obtain ⟨_, hlow, hhigh, hnco⟩ := hok
  have e0 : arch4Usage CCCfg 0
      = slotsHeldBy CCCfg (fun d => decide (d.Rate ≠ 0) && decide (d.NCOIdx < 4)) := by
    unfold arch4Usage
    apply slotsHeldBy_congr
    intro c _
    simp
  have e4 : arch4Usage CCCfg 4
      = slotsHeldBy CCCfg
          (fun d => decide (d.Rate ≠ 0) && decide (4 ≤ d.NCOIdx ∧ d.NCOIdx < 8)) := by
    unfold arch4Usage
    apply slotsHeldBy_congr
    intro c hc
    have hn := hnco c hc
    generalize CCCfg.DUCDDCCfg.getD c default = d at hn
    by_cases hr : d.Rate = 0
    · simp [hr]
    · have := hn hr
      simp only [hr, ne_eq, not_false_eq_true, decide_True, Bool.true_and, decide_eq_decide]
      omega
  rw [← e0, ← e4]
  exact ⟨hlow, hhigh, hnco, rfl, rfl⟩

/-- Witness for C39 on the ARCH4 example instance (sequence length 16): after the
example calls carrier 1 holds one slot on NCO 5, so no slot is held on the NCOs 0-3
and one on the NCOs 4-7. -/
theorem C39_arch4_capacity_invariant_witness :
    arch4Instance.Config.MaxUseableCcids = 8 ∧ 1 < arch4Instance.Config.Lanes ∧
    arch4Instance.SequenceLength ≤ 16 ∧
    ∃ CCCfg, runBuilders arch4Instance (XDfeMix_GetEmptyCCCfg arch4Instance) exampleCalls
        = some CCCfg ∧
      slotsHeldBy CCCfg (fun d => decide (d.Rate ≠ 0) && decide (d.NCOIdx < 4)) = 0 ∧
      slotsHeldBy CCCfg
        (fun d => decide (d.Rate ≠ 0) && decide (4 ≤ d.NCOIdx ∧ d.NCOIdx < 8)) = 1 ∧
      2 * slotsHeldBy CCCfg
          (fun d => decide (d.Rate ≠ 0) && decide (4 ≤ d.NCOIdx ∧ d.NCOIdx < 8))
        ≤ arch4Instance.SequenceLength :=
  ⟨by decide, by decide, by decide,
    (runBuilders arch4Instance (XDfeMix_GetEmptyCCCfg arch4Instance) exampleCalls).getD default,
    by decide, by decide, by decide,
    (C39_arch4_capacity_invariant arch4Instance exampleCalls
      ((runBuilders arch4Instance (XDfeMix_GetEmptyCCCfg arch4Instance) exampleCalls).getD
        default) (by decide) (by decide) (by decide) (by decide)).2.1⟩

end DfeMix
